import Mathlib

/-!
Verification development for the ColdFront project import/export/merge
pipeline (`coldfront/core/project/views.py`).

The Django model instances are embedded shallowly: a `Record` is a model
instance (model label, primary key, scalar fields, many-to-many id lists);
the database is a list of records; model metadata (which fields carry a
unique constraint) is an environment parameter, since the model classes
live outside the translated module and the import code itself is generic
over models, reading `_meta.fields` at run time.
-/

namespace Coldfront

/-- A scalar field value of a Django model instance (integers cover
primary/foreign keys, strings cover text fields, `null` covers NULL). -/
inductive Val where
  | int : Int → Val
  | str : String → Val
  | null : Val
deriving DecidableEq, Repr

/-- Association-list lookup, first binding wins (Python `d[k]` /
`k in d`). -/
def alook {α β : Type} [DecidableEq α] : List (α × β) → α → Option β
  | [], _ => none
  | (k, v) :: rest, key => if k = key then some v else alook rest key

/-- Association-list update (Python `d[k] = v`): replaces the first
binding in place, otherwise appends, matching dict insertion order. -/
def aset {α β : Type} [DecidableEq α] : List (α × β) → α → β → List (α × β)
  | [], key, val => [(key, val)]
  | (k, v) :: rest, key, val =>
      if k = key then (key, val) :: rest else (k, v) :: aset rest key val

/-- A Django model instance: model label (e.g. `"project.project"`),
primary key, scalar fields, and many-to-many fields as id lists. -/
structure Record where
  model : String
  pk : Int
  fields : List (String × Val)
  m2ms : List (String × List Int)
deriving DecidableEq, Repr

/-- A `DeserializedObject` as yielded by `serializers.deserialize`: the
wrapped model instance plus its `m2m_data` dictionary.  It is a wrapper
object, not a model instance. -/
structure DesObj where
  object : Record
  m2m_data : List (String × List Int)
deriving DecidableEq, Repr

/-- Model metadata: for each model label, the `_meta.fields` list as
(field name, unique flag) pairs. -/
structure Env where
  metaFields : List (String × List (String × Bool))
deriving Repr

/-- `cur_obj._meta.fields` for a model label. -/
def metaOf (env : Env) (model : String) : List (String × Bool) :=
  (alook env.metaFields model).getD []

/-- The database: all saved rows of all models. -/
abbrev DB := List Record

/-- `type(obj).objects.all()` restricted to one model. -/
def modelFilter (db : DB) (m : String) : List Record :=
  db.filter (fun r => r.model = m)

/-- `getattr(obj, field_name)` on a scalar field. -/
def fieldOf (r : Record) (f : String) : Option Val :=
  alook r.fields f

/-- `setattr(obj, field_name, v)`. -/
def setField (r : Record) (f : String) (v : Val) : Record :=
  { r with fields := aset r.fields f v }

/-- The grouped document handed to the import steps: model label to
deserialized objects, as built by Step 1 of `ProjectImportView.post`. -/
abbrev DoDict := List (String × List DesObj)

/-- The pk translation table: model label to (imported pk, assigned pk). -/
abbrev TransTbl := List (String × List (Int × Int))

/-- `_same_obj_exists(cur_obj, new_obj)` from `ProjectImportView.post`:
collect names of unique fields other than `id` from the model metadata
and report whether the two instances agree on any of them. -/
def same_obj_exists (meta : List (String × Bool)) (cur new : Record) : Bool :=
  let unique_keys := ((meta.filter (fun p => p.2 && p.1 ≠ "id")).map (fun p => p.1))
  unique_keys.any (fun k => alook cur.fields k = alook new.fields k)

/-- `duplicate_model_keys`: models always imported, never deduplicated. -/
def duplicate_model_keys : List String :=
  ["project.projectuser", "allocation.allocationuser"]

/-- The inner Step 2 loop over `type(obj.object).objects.all()`, threading
(abort_import, per-model translation table, new_pk).  On a dedup match the
table maps the imported pk to the existing row's pk and the max-pk update
is skipped (`continue`); otherwise new_pk tracks the max pk seen. -/
def step2InnerGo (meta : List (String × Bool)) (dedupe : Bool) (obj : Record) :
    List Record → Bool → List (Int × Int) → Int → Bool × List (Int × Int) × Int
  | [], a, t, n => (a, t, n)
  | cur :: rest, a, t, n =>
      if dedupe && same_obj_exists meta cur obj then
        step2InnerGo meta dedupe obj rest true (aset t obj.pk cur.pk) n
      else if cur.pk > n then step2InnerGo meta dedupe obj rest a t cur.pk
      else step2InnerGo meta dedupe obj rest a t n

/-- The inner Step 2 loop with `abort_import` starting at `False`. -/
def step2Inner (meta : List (String × Bool)) (dedupe : Bool) (obj : Record)
    (curs : List Record) (tbl : List (Int × Int)) (npk : Int) :
    Bool × List (Int × Int) × Int :=
  step2InnerGo meta dedupe obj curs false tbl npk

/-- The Step 2 loop over the deserialized objects of one model: a
deduplicated object is kept unchanged (`continue`); otherwise new_pk is
bumped, recorded in the translation table, and assigned to the object. -/
def step2Objs (meta : List (String × Bool)) (dedupe : Bool)
    (curs : List Record) (npk : Int) (tbl : List (Int × Int)) :
    List DesObj → List DesObj × List (Int × Int)
  | [] => ([], tbl)
  | obj :: rest =>
      let s := step2Inner meta dedupe obj.object curs tbl npk
      if s.1 then
        let r := step2Objs meta dedupe curs s.2.2 s.2.1 rest
        (obj :: r.1, r.2)
      else
        let npk2 := s.2.2 + 1
        let tbl2 := aset s.2.1 obj.object.pk npk2
        let obj2 : DesObj :=
          { obj with object := { obj.object with pk := npk2 } }
        let r := step2Objs meta dedupe curs npk2 tbl2 rest
        (obj2 :: r.1, r.2)

/-- Step 2 for a single entry of `do_dict`: new_pk starts at 0 and the
per-model translation table starts empty. -/
def step2Key (env : Env) (db : DB) (kv : String × List DesObj) :
    (String × List DesObj) × (String × List (Int × Int)) :=
  let key := kv.1
  let curs := modelFilter db key
  let dedupe := !(duplicate_model_keys.contains key)
  let r := step2Objs (metaOf env key) dedupe curs 0 [] kv.2
  ((key, r.1), (key, r.2))

/-- Step 2 of `ProjectImportView.post`: assign unique pks and build the
pk translation table.  The loop body only reads the (unchanged) database
and its own key's state, so the keys are processed independently. -/
def step2 (env : Env) (db : DB) (dod : DoDict) : DoDict × TransTbl :=
  (dod.map (fun kv => (step2Key env db kv).1),
   dod.map (fun kv => (step2Key env db kv).2))

/-- The condition under which Step 2 marks a deserialized object as a
duplicate of an existing row: its model is not in
`duplicate_model_keys` and `_same_obj_exists` succeeds against some
existing row of the model. -/
def isDedupedB (env : Env) (db : DB) (key : String) (obj : DesObj) : Bool :=
  (!(duplicate_model_keys.contains key)) &&
    (modelFilter db key).any (fun cur => same_obj_exists (metaOf env key) cur obj.object)

section AssocLemmas

variable {α β : Type} [DecidableEq α]

theorem alook_aset_self (l : List (α × β)) (k : α) (v : β) :
    alook (aset l k v) k = some v := by
  induction l with
  | nil => simp [aset, alook]
  | cons p rest ih =>
      obtain ⟨a, b⟩ := p
      by_cases h : a = k
      · simp [aset, h, alook]
      · simp [aset, h, alook, ih]

theorem alook_aset_ne (l : List (α × β)) (k k' : α) (v : β) (h : k' ≠ k) :
    alook (aset l k v) k' = alook l k' := by
  induction l with
  | nil => simp [aset, alook, Ne.symm h]
  | cons p rest ih =>
      obtain ⟨a, b⟩ := p
      by_cases ha : a = k
      · subst ha
        simp [aset, alook, Ne.symm h]
      · by_cases ha' : a = k'
        · simp [aset, ha, alook, ha', h]
        · simp [aset, ha, alook, ha', ih]

theorem alook_aset_isSome (l : List (α × β)) (k k' : α) (v : β)
    (h : (alook l k').isSome) : (alook (aset l k v) k').isSome := by
  by_cases hk : k' = k
  · subst hk; simp [alook_aset_self]
  · rw [alook_aset_ne _ _ _ _ hk]; exact h

end AssocLemmas

section Step2InnerLemmas

variable (meta : List (String × Bool)) (dedupe : Bool) (obj : Record)

/-- The abort flag after the inner scan: set exactly when dedup is enabled
and some existing row matches on a unique field. -/
theorem step2InnerGo_fst (curs : List Record) :
    ∀ (a : Bool) (t : List (Int × Int)) (n : Int),
      (step2InnerGo meta dedupe obj curs a t n).1
        = (a || curs.any (fun c => dedupe && same_obj_exists meta c obj)) := by
  induction curs with
  | nil => intro a t n; simp [step2InnerGo]
  | cons cur rest ih =>
      intro a t n
      by_cases h : (dedupe && same_obj_exists meta cur obj) = true
      · simp [step2InnerGo, h, ih]
      · by_cases h2 : cur.pk > n
        · simp [step2InnerGo, h, h2, ih]
        · simp [step2InnerGo, h, h2, ih]

/-- new_pk never decreases during the inner scan. -/
theorem step2InnerGo_npk_mono (curs : List Record) :
    ∀ (a : Bool) (t : List (Int × Int)) (n : Int),
      n ≤ (step2InnerGo meta dedupe obj curs a t n).2.2 := by
  induction curs with
  | nil => intro a t n; simp [step2InnerGo]
  | cons cur rest ih =>
      intro a t n
      by_cases h : (dedupe && same_obj_exists meta cur obj) = true
      · simpa [step2InnerGo, h] using ih true (aset t obj.pk cur.pk) n
      · by_cases h2 : cur.pk > n
        · have := ih a t cur.pk
          simp only [step2InnerGo, h, if_neg, h2, if_true, if_pos]
          simp [h, h2]
          omega
        · simpa [step2InnerGo, h, h2] using ih a t n

/-- After the inner scan, new_pk dominates the pk of every existing row
that was not skipped by a dedup match. -/
theorem step2InnerGo_npk_ge (curs : List Record) :
    ∀ (a : Bool) (t : List (Int × Int)) (n : Int), ∀ c ∈ curs,
      (dedupe && same_obj_exists meta c obj) = false →
      c.pk ≤ (step2InnerGo meta dedupe obj curs a t n).2.2 := by
  induction curs with
  | nil => intro a t n c hc; simp at hc
  | cons cur rest ih =>
      intro a t n c hc hmatch
      rcases List.mem_cons.mp hc with hc | hc
      · subst hc
        by_cases h2 : c.pk > n
        · simp only [step2InnerGo, hmatch]
          simp only [Bool.false_eq_true, if_false, if_pos h2]
          exact step2InnerGo_npk_mono meta dedupe obj rest a t c.pk
        · have hle : c.pk ≤ n := by omega
          simp only [step2InnerGo, hmatch]
          simp only [Bool.false_eq_true, if_false, if_neg h2]
          exact le_trans hle (step2InnerGo_npk_mono meta dedupe obj rest a t n)
      · by_cases h : (dedupe && same_obj_exists meta cur obj) = true
        · simp only [step2InnerGo, h, if_pos]
          exact ih true (aset t obj.pk cur.pk) n c hc hmatch
        · by_cases h2 : cur.pk > n
          · simp only [step2InnerGo, h]
            simp only [Bool.false_eq_true, if_false, if_pos h2]
            exact ih a t cur.pk c hc hmatch
          · simp only [step2InnerGo, h]
            simp only [Bool.false_eq_true, if_false, if_neg h2]
            exact ih a t n c hc hmatch

/-- The inner scan touches the table only at the scanned object's own
imported pk. -/
theorem step2InnerGo_tbl_ne (curs : List Record) :
    ∀ (a : Bool) (t : List (Int × Int)) (n : Int), ∀ k : Int, k ≠ obj.pk →
      alook (step2InnerGo meta dedupe obj curs a t n).2.1 k = alook t k := by
  induction curs with
  | nil => intro a t n k hk; simp [step2InnerGo]
  | cons cur rest ih =>
      intro a t n k hk
      by_cases h : (dedupe && same_obj_exists meta cur obj) = true
      · simp only [step2InnerGo, h, if_pos]
        rw [ih true (aset t obj.pk cur.pk) n k hk, alook_aset_ne _ _ _ _ hk]
      · by_cases h2 : cur.pk > n
        · simp only [step2InnerGo, h]
          simp only [Bool.false_eq_true, if_false, if_pos h2]
          exact ih a t cur.pk k hk
        · simp only [step2InnerGo, h]
          simp only [Bool.false_eq_true, if_false, if_neg h2]
          exact ih a t n k hk

/-- If no existing row matches, the inner scan leaves the table alone. -/
theorem step2InnerGo_tbl_nomatch (curs : List Record) :
    ∀ (a : Bool) (t : List (Int × Int)) (n : Int),
      (∀ c ∈ curs, (dedupe && same_obj_exists meta c obj) = false) →
      (step2InnerGo meta dedupe obj curs a t n).2.1 = t := by
  induction curs with
  | nil => intro a t n _; simp [step2InnerGo]
  | cons cur rest ih =>
      intro a t n hall
      have hcur := hall cur (List.mem_cons_self _ _)
      by_cases h2 : cur.pk > n
      · simp only [step2InnerGo, hcur]
        simp only [Bool.false_eq_true, if_false, if_pos h2]
        exact ih a t cur.pk (fun c hc => hall c (List.mem_cons_of_mem _ hc))
      · simp only [step2InnerGo, hcur]
        simp only [Bool.false_eq_true, if_false, if_neg h2]
        exact ih a t n (fun c hc => hall c (List.mem_cons_of_mem _ hc))

/-- If some existing row matches, the final table maps the scanned
object's imported pk to a matching row's pk. -/
theorem step2InnerGo_tbl_match (curs : List Record) :
    ∀ (a : Bool) (t : List (Int × Int)) (n : Int),
      (curs.any (fun c => dedupe && same_obj_exists meta c obj)) = true →
      ∃ c ∈ curs, (dedupe && same_obj_exists meta c obj) = true ∧
        alook (step2InnerGo meta dedupe obj curs a t n).2.1 obj.pk = some c.pk := by
  induction curs with
  | nil => intro a t n h; simp at h
  | cons cur rest ih =>
      intro a t n hany
      by_cases h : (dedupe && same_obj_exists meta cur obj) = true
      · by_cases hrest : (rest.any (fun c => dedupe && same_obj_exists meta c obj)) = true
        · obtain ⟨c, hc, hcm, hl⟩ := ih true (aset t obj.pk cur.pk) n hrest
          exact ⟨c, List.mem_cons_of_mem _ hc, hcm, by simp only [step2InnerGo, h, if_pos]; exact hl⟩
        · refine ⟨cur, List.mem_cons_self _ _, h, ?_⟩
          simp only [step2InnerGo, h, if_pos]
          rw [step2InnerGo_tbl_nomatch meta dedupe obj rest true (aset t obj.pk cur.pk) n
            (by intro c hc; by_contra hcc; simp only [Bool.not_eq_false] at hcc
                exact hrest (List.any_eq_true.mpr ⟨c, hc, hcc⟩))]
          exact alook_aset_self _ _ _
      · have hrest : (rest.any (fun c => dedupe && same_obj_exists meta c obj)) = true := by
          simp only [List.any_cons] at hany
          rcases Bool.or_eq_true_iff.mp hany with hx | hx
          · exact absurd hx h
          · exact hx
        by_cases h2 : cur.pk > n
        · obtain ⟨c, hc, hcm, hl⟩ := ih a t cur.pk hrest
          refine ⟨c, List.mem_cons_of_mem _ hc, hcm, ?_⟩
          simp only [step2InnerGo, h]
          simp only [Bool.false_eq_true, if_false, if_pos h2]
          exact hl
        · obtain ⟨c, hc, hcm, hl⟩ := ih a t n hrest
          refine ⟨c, List.mem_cons_of_mem _ hc, hcm, ?_⟩
          simp only [step2InnerGo, h]
          simp only [Bool.false_eq_true, if_false, if_neg h2]
          exact hl

/-- The inner scan only ever adds table entries. -/
theorem step2InnerGo_tbl_isSome (curs : List Record) :
    ∀ (a : Bool) (t : List (Int × Int)) (n : Int) (k : Int),
      (alook t k).isSome →
      (alook (step2InnerGo meta dedupe obj curs a t n).2.1 k).isSome := by
  induction curs with
  | nil => intro a t n k h; simpa [step2InnerGo] using h
  | cons cur rest ih =>
      intro a t n k h
      by_cases hm : (dedupe && same_obj_exists meta cur obj) = true
      · simp only [step2InnerGo, hm, if_pos]
        exact ih true _ n k (alook_aset_isSome _ _ _ _ h)
      · by_cases h2 : cur.pk > n
        · simp only [step2InnerGo, hm]
          simp only [Bool.false_eq_true, if_false, if_pos h2]
          exact ih a t cur.pk k h
        · simp only [step2InnerGo, hm]
          simp only [Bool.false_eq_true, if_false, if_neg h2]
          exact ih a t n k h

end Step2InnerLemmas

/-- The dedup decision for one deserialized object, as the inner scan
computes it. -/
def dedB (meta : List (String × Bool)) (dedupe : Bool) (curs : List Record)
    (obj : DesObj) : Bool :=
  dedupe && curs.any (fun c => same_obj_exists meta c obj.object)

theorem step2Inner_fst (meta : List (String × Bool)) (dedupe : Bool)
    (curs : List Record) (tbl : List (Int × Int)) (npk : Int) (obj : DesObj) :
    (step2Inner meta dedupe obj.object curs tbl npk).1 = dedB meta dedupe curs obj := by
  unfold step2Inner
  rw [step2InnerGo_fst]
  cases dedupe <;> simp [dedB]

theorem isDedupedB_eq (env : Env) (db : DB) (key : String) (obj : DesObj) :
    isDedupedB env db key obj
      = dedB (metaOf env key) (!(duplicate_model_keys.contains key)) (modelFilter db key) obj := rfl

section Step2ObjsLemmas

variable (meta : List (String × Bool)) (dedupe : Bool) (curs : List Record)

theorem step2Objs_cons (npk : Int) (tbl : List (Int × Int)) (obj : DesObj)
    (rest : List DesObj) :
    step2Objs meta dedupe curs npk tbl (obj :: rest) =
      (if (step2Inner meta dedupe obj.object curs tbl npk).1 then
        (obj :: (step2Objs meta dedupe curs
            (step2Inner meta dedupe obj.object curs tbl npk).2.2
            (step2Inner meta dedupe obj.object curs tbl npk).2.1 rest).1,
          (step2Objs meta dedupe curs
            (step2Inner meta dedupe obj.object curs tbl npk).2.2
            (step2Inner meta dedupe obj.object curs tbl npk).2.1 rest).2)
      else
        ({ obj with object := { obj.object with
              pk := (step2Inner meta dedupe obj.object curs tbl npk).2.2 + 1 } }
            :: (step2Objs meta dedupe curs
                ((step2Inner meta dedupe obj.object curs tbl npk).2.2 + 1)
                (aset (step2Inner meta dedupe obj.object curs tbl npk).2.1 obj.object.pk
                  ((step2Inner meta dedupe obj.object curs tbl npk).2.2 + 1)) rest).1,
          (step2Objs meta dedupe curs
              ((step2Inner meta dedupe obj.object curs tbl npk).2.2 + 1)
              (aset (step2Inner meta dedupe obj.object curs tbl npk).2.1 obj.object.pk
                ((step2Inner meta dedupe obj.object curs tbl npk).2.2 + 1)) rest).2)) := rfl

theorem step2Objs_cons_ded (npk : Int) (tbl : List (Int × Int)) (obj : DesObj)
    (rest : List DesObj) (h : dedB meta dedupe curs obj = true) :
    step2Objs meta dedupe curs npk tbl (obj :: rest) =
      (obj :: (step2Objs meta dedupe curs
          (step2Inner meta dedupe obj.object curs tbl npk).2.2
          (step2Inner meta dedupe obj.object curs tbl npk).2.1 rest).1,
        (step2Objs meta dedupe curs
          (step2Inner meta dedupe obj.object curs tbl npk).2.2
          (step2Inner meta dedupe obj.object curs tbl npk).2.1 rest).2) := by
  rw [step2Objs_cons, if_pos (by rw [step2Inner_fst]; exact h)]

theorem step2Objs_cons_new (npk : Int) (tbl : List (Int × Int)) (obj : DesObj)
    (rest : List DesObj) (h : dedB meta dedupe curs obj = false) :
    step2Objs meta dedupe curs npk tbl (obj :: rest) =
      ({ obj with object := { obj.object with
            pk := (step2Inner meta dedupe obj.object curs tbl npk).2.2 + 1 } }
          :: (step2Objs meta dedupe curs
              ((step2Inner meta dedupe obj.object curs tbl npk).2.2 + 1)
              (aset (step2Inner meta dedupe obj.object curs tbl npk).2.1 obj.object.pk
                ((step2Inner meta dedupe obj.object curs tbl npk).2.2 + 1)) rest).1,
        (step2Objs meta dedupe curs
            ((step2Inner meta dedupe obj.object curs tbl npk).2.2 + 1)
            (aset (step2Inner meta dedupe obj.object curs tbl npk).2.1 obj.object.pk
              ((step2Inner meta dedupe obj.object curs tbl npk).2.2 + 1)) rest).2) := by
  rw [step2Objs_cons, if_neg (by rw [step2Inner_fst, h]; simp)]

theorem step2Objs_length : ∀ (objs : List DesObj) (npk : Int) (tbl : List (Int × Int)),
    (step2Objs meta dedupe curs npk tbl objs).1.length = objs.length := by
  intro objs
  induction objs with
  | nil => intro npk tbl; simp [step2Objs]
  | cons obj rest ih =>
      intro npk tbl
      by_cases h : dedB meta dedupe curs obj = true
      · rw [step2Objs_cons_ded meta dedupe curs npk tbl obj rest h]
        simp [ih]
      · rw [step2Objs_cons_new meta dedupe curs npk tbl obj rest (by simpa using h)]
        simp [ih]

/-- If an object is not deduplicated, no existing row matches it. -/
theorem dedB_false_no_match (obj : DesObj) (h : dedB meta dedupe curs obj = false) :
    ∀ c ∈ curs, (dedupe && same_obj_exists meta c obj.object) = false := by
  intro c hc
  by_contra hb
  simp only [Bool.not_eq_false] at hb
  have hb' : dedupe = true ∧ same_obj_exists meta c obj.object = true := by simpa using hb
  have : dedB meta dedupe curs obj = true := by
    simp only [dedB, hb'.1, Bool.true_and, List.any_eq_true]
    exact ⟨c, hc, hb'.2⟩
  rw [this] at h; cases h

/-- A deduplicated object passes Step 2 unchanged. -/
theorem step2Objs_get_ded :
    ∀ (objs : List DesObj) (npk : Int) (tbl : List (Int × Int)) (i : Nat) (o : DesObj),
      objs[i]? = some o → dedB meta dedupe curs o = true →
      (step2Objs meta dedupe curs npk tbl objs).1[i]? = some o := by
  intro objs
  induction objs with
  | nil => intro npk tbl i o ho; simp at ho
  | cons obj rest ih =>
      intro npk tbl i o ho hded
      by_cases h : dedB meta dedupe curs obj = true
      · rw [step2Objs_cons_ded meta dedupe curs npk tbl obj rest h]
        cases i with
        | zero => simpa using ho
        | succ i' =>
            simp only [List.getElem?_cons_succ] at ho ⊢
            exact ih _ _ i' o ho hded
      · have h' : dedB meta dedupe curs obj = false := by simpa using h
        rw [step2Objs_cons_new meta dedupe curs npk tbl obj rest h']
        cases i with
        | zero =>
            simp only [List.getElem?_cons_zero, Option.some_inj] at ho
            subst ho
            exact absurd hded (by simp [h'])
        | succ i' =>
            simp only [List.getElem?_cons_succ] at ho ⊢
            exact ih _ _ i' o ho hded

/-- A non-deduplicated object is assigned a fresh pk strictly above the
starting new_pk and above every existing row's pk; everything else about
the object is unchanged. -/
theorem step2Objs_get_new :
    ∀ (objs : List DesObj) (npk : Int) (tbl : List (Int × Int)) (i : Nat) (o : DesObj),
      objs[i]? = some o → dedB meta dedupe curs o = false →
      ∃ p : Int,
        (step2Objs meta dedupe curs npk tbl objs).1[i]?
          = some { o with object := { o.object with pk := p } } ∧
        npk < p ∧ (∀ c ∈ curs, c.pk < p) := by
  intro objs
  induction objs with
  | nil => intro npk tbl i o ho; simp at ho
  | cons obj rest ih =>
      intro npk tbl i o ho hded
      by_cases h : dedB meta dedupe curs obj = true
      · rw [step2Objs_cons_ded meta dedupe curs npk tbl obj rest h]
        cases i with
        | zero =>
            simp only [List.getElem?_cons_zero, Option.some_inj] at ho
            subst ho
            exact absurd h (by simp [hded])
        | succ i' =>
            simp only [List.getElem?_cons_succ] at ho ⊢
            obtain ⟨p, hp, hnpk, hcur⟩ := ih _ _ i' o ho hded
            refine ⟨p, hp, ?_, hcur⟩
            have := step2InnerGo_npk_mono meta dedupe obj.object curs false tbl npk
            unfold step2Inner at hnpk
            omega
      · have h' : dedB meta dedupe curs obj = false := by simpa using h
        rw [step2Objs_cons_new meta dedupe curs npk tbl obj rest h']
        cases i with
        | zero =>
            simp only [List.getElem?_cons_zero, Option.some_inj] at ho
            subst ho
            refine ⟨(step2Inner meta dedupe obj.object curs tbl npk).2.2 + 1, by simp, ?_, ?_⟩
            · have := step2InnerGo_npk_mono meta dedupe obj.object curs false tbl npk
              unfold step2Inner
              omega
            · intro c hc
              have hge := step2InnerGo_npk_ge meta dedupe obj.object curs false tbl npk c hc
                (dedB_false_no_match meta dedupe curs obj h' c hc)
              unfold step2Inner
              omega
        | succ i' =>
            simp only [List.getElem?_cons_succ] at ho ⊢
            obtain ⟨p, hp, hnpk, hcur⟩ := ih _ _ i' o ho hded
            refine ⟨p, hp, ?_, hcur⟩
            have := step2InnerGo_npk_mono meta dedupe obj.object curs false tbl npk
            unfold step2Inner at hnpk
            omega

/-- Assigned pks strictly increase along the non-deduplicated objects of
one model. -/
theorem step2Objs_pk_order :
    ∀ (objs : List DesObj) (npk : Int) (tbl : List (Int × Int)) (i j : Nat)
      (oi oj oi2 oj2 : DesObj), i < j →
      objs[i]? = some oi → objs[j]? = some oj →
      dedB meta dedupe curs oi = false → dedB meta dedupe curs oj = false →
      (step2Objs meta dedupe curs npk tbl objs).1[i]? = some oi2 →
      (step2Objs meta dedupe curs npk tbl objs).1[j]? = some oj2 →
      oi2.object.pk < oj2.object.pk := by
  intro objs
  induction objs with
  | nil => intro npk tbl i j oi oj oi2 oj2 _ hoi; simp at hoi
  | cons obj rest ih =>
      intro npk tbl i j oi oj oi2 oj2 hij hoi hoj hdi hdj hoi2 hoj2
      obtain ⟨j', rfl⟩ : ∃ j', j = j' + 1 := ⟨j - 1, by omega⟩
      cases i with
      | zero =>
          simp only [List.getElem?_cons_zero, Option.some_inj] at hoi
          subst hoi
          rw [step2Objs_cons_new meta dedupe curs npk tbl obj rest hdi] at hoi2 hoj2
          simp only [List.getElem?_cons_zero, Option.some_inj] at hoi2
          simp only [List.getElem?_cons_succ] at hoj hoj2
          obtain ⟨p, hp, hnpk, _⟩ := step2Objs_get_new meta dedupe curs rest
            ((step2Inner meta dedupe obj.object curs tbl npk).2.2 + 1)
            (aset (step2Inner meta dedupe obj.object curs tbl npk).2.1 obj.object.pk
              ((step2Inner meta dedupe obj.object curs tbl npk).2.2 + 1)) j' oj hoj hdj
          rw [hp, Option.some_inj] at hoj2
          subst hoi2; subst hoj2
          simpa using hnpk
      | succ i' =>
          simp only [List.getElem?_cons_succ] at hoi hoj
          by_cases h : dedB meta dedupe curs obj = true
          · rw [step2Objs_cons_ded meta dedupe curs npk tbl obj rest h] at hoi2 hoj2
            simp only [List.getElem?_cons_succ] at hoi2 hoj2
            exact ih _ _ i' j' oi oj oi2 oj2 (by omega) hoi hoj hdi hdj hoi2 hoj2
          · rw [step2Objs_cons_new meta dedupe curs npk tbl obj rest (by simpa using h)]
              at hoi2 hoj2
            simp only [List.getElem?_cons_succ] at hoi2 hoj2
            exact ih _ _ i' j' oi oj oi2 oj2 (by omega) hoi hoj hdi hdj hoi2 hoj2

/-- Step 2 only touches the translation table at the imported pks of the
processed objects. -/
theorem step2Objs_tbl_ne :
    ∀ (objs : List DesObj) (npk : Int) (tbl : List (Int × Int)) (k : Int),
      (∀ o ∈ objs, o.object.pk ≠ k) →
      alook (step2Objs meta dedupe curs npk tbl objs).2 k = alook tbl k := by
  intro objs
  induction objs with
  | nil => intro npk tbl k _; simp [step2Objs]
  | cons obj rest ih =>
      intro npk tbl k hk
      have hobj : obj.object.pk ≠ k := hk obj (List.mem_cons_self _ _)
      have hrest : ∀ o ∈ rest, o.object.pk ≠ k :=
        fun o ho => hk o (List.mem_cons_of_mem _ ho)
      have hinner : ∀ (a : Bool) (t : List (Int × Int)) (n : Int),
          alook (step2InnerGo meta dedupe obj.object curs a t n).2.1 k = alook t k :=
        fun a t n => step2InnerGo_tbl_ne meta dedupe obj.object curs a t n k (Ne.symm hobj)
      by_cases h : dedB meta dedupe curs obj = true
      · rw [step2Objs_cons_ded meta dedupe curs npk tbl obj rest h]
        simp only
        rw [ih _ _ k hrest]
        exact hinner false tbl npk
      · rw [step2Objs_cons_new meta dedupe curs npk tbl obj rest (by simpa using h)]
        simp only
        rw [ih _ _ k hrest, alook_aset_ne _ _ _ _ (Ne.symm hobj)]
        exact hinner false tbl npk

/-- Step 2 only ever adds translation-table entries. -/
theorem step2Objs_tbl_isSome :
    ∀ (objs : List DesObj) (npk : Int) (tbl : List (Int × Int)) (k : Int),
      (alook tbl k).isSome →
      (alook (step2Objs meta dedupe curs npk tbl objs).2 k).isSome := by
  intro objs
  induction objs with
  | nil => intro npk tbl k h; simpa [step2Objs] using h
  | cons obj rest ih =>
      intro npk tbl k h
      have hinner := step2InnerGo_tbl_isSome meta dedupe obj.object curs false tbl npk k h
      by_cases hd : dedB meta dedupe curs obj = true
      · rw [step2Objs_cons_ded meta dedupe curs npk tbl obj rest hd]
        exact ih _ _ k hinner
      · rw [step2Objs_cons_new meta dedupe curs npk tbl obj rest (by simpa using hd)]
        exact ih _ _ k (alook_aset_isSome _ _ _ _ hinner)

/-- Every processed object's imported pk ends up in the translation
table (whether deduplicated or freshly assigned). -/
theorem step2Objs_tbl_domain :
    ∀ (objs : List DesObj) (npk : Int) (tbl : List (Int × Int)) (o : DesObj),
      o ∈ objs →
      (alook (step2Objs meta dedupe curs npk tbl objs).2 o.object.pk).isSome := by
  intro objs
  induction objs with
  | nil => intro npk tbl o ho; simp at ho
  | cons obj rest ih =>
      intro npk tbl o ho
      rcases List.mem_cons.mp ho with rfl | ho
      · by_cases hd : dedB meta dedupe curs o = true
        · rw [step2Objs_cons_ded meta dedupe curs npk tbl o rest hd]
          have hdd : dedupe = true ∧
              (curs.any (fun c => same_obj_exists meta c o.object)) = true := by
            simpa [dedB] using hd
          have hany : (curs.any (fun c => dedupe && same_obj_exists meta c o.object)) = true := by
            obtain ⟨c, hc, hcs⟩ := List.any_eq_true.mp hdd.2
            exact List.any_eq_true.mpr ⟨c, hc, by simp [hdd.1, hcs]⟩
          obtain ⟨c, _, _, hl⟩ :=
            step2InnerGo_tbl_match meta dedupe o.object curs false tbl npk hany
          exact step2Objs_tbl_isSome meta dedupe curs rest _ _ _
            (by unfold step2Inner; rw [hl]; rfl)
        · rw [step2Objs_cons_new meta dedupe curs npk tbl o rest (by simpa using hd)]
          exact step2Objs_tbl_isSome meta dedupe curs rest _ _ _
            (by rw [alook_aset_self]; rfl)
      · by_cases hd : dedB meta dedupe curs obj = true
        · rw [step2Objs_cons_ded meta dedupe curs npk tbl obj rest hd]
          exact ih _ _ o ho
        · rw [step2Objs_cons_new meta dedupe curs npk tbl obj rest (by simpa using hd)]
          exact ih _ _ o ho

/-- With pairwise-distinct imported pks, a non-deduplicated object's
table entry is exactly its assigned pk. -/
theorem step2Objs_tbl_new :
    ∀ (objs : List DesObj) (npk : Int) (tbl : List (Int × Int)) (i : Nat) (o o2 : DesObj),
      (objs.map (fun x => x.object.pk)).Nodup →
      objs[i]? = some o → dedB meta dedupe curs o = false →
      (step2Objs meta dedupe curs npk tbl objs).1[i]? = some o2 →
      alook (step2Objs meta dedupe curs npk tbl objs).2 o.object.pk = some o2.object.pk := by
  intro objs
  induction objs with
  | nil => intro npk tbl i o o2 _ ho; simp at ho
  | cons obj rest ih =>
      intro npk tbl i o o2 hnd ho hded ho2
      cases i with
      | zero =>
          simp only [List.getElem?_cons_zero, Option.some_inj] at ho
          subst ho
          rw [step2Objs_cons_new meta dedupe curs npk tbl obj rest hded] at ho2 ⊢
          simp only [List.getElem?_cons_zero, Option.some_inj] at ho2
          have hrest : ∀ x ∈ rest, x.object.pk ≠ obj.object.pk := by
            intro x hx
            simp only [List.map_cons, List.nodup_cons, List.mem_map] at hnd
            exact fun he => hnd.1 ⟨x, hx, he⟩
          simp only
          rw [step2Objs_tbl_ne meta dedupe curs rest _ _ _ hrest, alook_aset_self, ← ho2]
      | succ i' =>
          simp only [List.getElem?_cons_succ] at ho
          have hnd' : (rest.map (fun x => x.object.pk)).Nodup := by
            simp only [List.map_cons, List.nodup_cons] at hnd
            exact hnd.2
          by_cases hd : dedB meta dedupe curs obj = true
          · rw [step2Objs_cons_ded meta dedupe curs npk tbl obj rest hd] at ho2 ⊢
            simp only [List.getElem?_cons_succ] at ho2
            exact ih _ _ i' o o2 hnd' ho hded ho2
          · rw [step2Objs_cons_new meta dedupe curs npk tbl obj rest (by simpa using hd)]
              at ho2 ⊢
            simp only [List.getElem?_cons_succ] at ho2
            exact ih _ _ i' o o2 hnd' ho hded ho2

/-- With pairwise-distinct imported pks, a deduplicated object's table
entry is the pk of an existing row matching it on a unique field. -/
theorem step2Objs_tbl_ded :
    ∀ (objs : List DesObj) (npk : Int) (tbl : List (Int × Int)) (i : Nat) (o : DesObj),
      (objs.map (fun x => x.object.pk)).Nodup →
      objs[i]? = some o → dedB meta dedupe curs o = true →
      ∃ c ∈ curs, same_obj_exists meta c o.object = true ∧
        alook (step2Objs meta dedupe curs npk tbl objs).2 o.object.pk = some c.pk := by
  intro objs
  induction objs with
  | nil => intro npk tbl i o _ ho; simp at ho
  | cons obj rest ih =>
      intro npk tbl i o hnd ho hded
      cases i with
      | zero =>
          simp only [List.getElem?_cons_zero, Option.some_inj] at ho
          subst ho
          rw [step2Objs_cons_ded meta dedupe curs npk tbl obj rest hded]
          have hdd : dedupe = true ∧
              (curs.any (fun c => same_obj_exists meta c obj.object)) = true := by
            simpa [dedB] using hded
          have hany : (curs.any (fun c => dedupe && same_obj_exists meta c obj.object)) = true := by
            obtain ⟨c, hc, hcs⟩ := List.any_eq_true.mp hdd.2
            exact List.any_eq_true.mpr ⟨c, hc, by simp [hdd.1, hcs]⟩
          obtain ⟨c, hc, hcm, hl⟩ :=
            step2InnerGo_tbl_match meta dedupe obj.object curs false tbl npk hany
          refine ⟨c, hc, by simpa [hdd.1] using hcm, ?_⟩
          have hrest : ∀ x ∈ rest, x.object.pk ≠ obj.object.pk := by
            intro x hx
            simp only [List.map_cons, List.nodup_cons, List.mem_map] at hnd
            exact fun he => hnd.1 ⟨x, hx, he⟩
          simp only
          rw [step2Objs_tbl_ne meta dedupe curs rest _ _ _ hrest]
          unfold step2Inner
          exact hl
      | succ i' =>
          simp only [List.getElem?_cons_succ] at ho
          have hnd' : (rest.map (fun x => x.object.pk)).Nodup := by
            simp only [List.map_cons, List.nodup_cons] at hnd
            exact hnd.2
          by_cases hd : dedB meta dedupe curs obj = true
          · rw [step2Objs_cons_ded meta dedupe curs npk tbl obj rest hd]
            exact ih _ _ i' o hnd' ho hded
          · rw [step2Objs_cons_new meta dedupe curs npk tbl obj rest (by simpa using hd)]
            exact ih _ _ i' o hnd' ho hded

end Step2ObjsLemmas

/-- Looking up a model in the Step 2 result finds the per-model run of
the loop on that model's objects. -/
theorem step2_alook (env : Env) (db : DB) (dod : DoDict) (key : String)
    (objs : List DesObj) (h : alook dod key = some objs) :
    alook (step2 env db dod).1 key
      = some (step2Objs (metaOf env key) (!(duplicate_model_keys.contains key))
          (modelFilter db key) 0 [] objs).1 ∧
    alook (step2 env db dod).2 key
      = some (step2Objs (metaOf env key) (!(duplicate_model_keys.contains key))
          (modelFilter db key) 0 [] objs).2 := by
  induction dod with
  | nil => simp [alook] at h
  | cons kv rest ih =>
      obtain ⟨k, vs⟩ := kv
      by_cases hk : k = key
      · subst hk
        have hv : vs = objs := by simpa [alook] using h
        subst hv
        constructor <;> simp [step2, alook, step2Key]
      · simp only [alook, if_neg hk] at h
        obtain ⟨h1, h2⟩ := ih h
        constructor
        · simpa [step2, alook, step2Key, hk] using h1
        · simpa [step2, alook, step2Key, hk] using h2

theorem mem_modelFilter (db : DB) (key : String) (r : Record) :
    r ∈ modelFilter db key ↔ r ∈ db ∧ r.model = key := by
  simp [modelFilter]

/-- `_same_obj_exists` succeeds exactly when the two instances agree on
some unique non-id field of the model metadata. -/
theorem same_obj_exists_iff (meta : List (String × Bool)) (cur new : Record) :
    same_obj_exists meta cur new = true ↔
      ∃ fb ∈ meta, fb.2 = true ∧ fb.1 ≠ "id" ∧
        alook cur.fields fb.1 = alook new.fields fb.1 := by
  unfold same_obj_exists
  simp only [List.any_eq_true, List.mem_map, List.mem_filter, Bool.and_eq_true,
    decide_eq_true_eq]
  constructor
  · rintro ⟨k, ⟨fb, ⟨hfb, hu, hid⟩, rfl⟩, heq⟩
    exact ⟨fb, hfb, hu, hid, heq⟩
  · rintro ⟨fb, hfb, hu, hid, heq⟩
    exact ⟨fb.1, ⟨fb, ⟨hfb, hu, hid⟩, rfl⟩, heq⟩

/-- C1: during the primary-key reassignment step of project import
(Step 2 of `ProjectImportView.post`), every deserialized object that is
not deduplicated is assigned a new primary key that is strictly greater
than every primary key of the existing database rows of its model and
distinct from the new primary keys assigned to the other imported
objects of the same model, and the translation table maps the object's
imported primary key to the assigned key.  (The imported pks of one
model are assumed pairwise distinct, as in any serialized database
dump.) -/
theorem C1_step2_pk_reassignment
    (env : Env) (db : DB) (dod : DoDict) (key : String) (objs : List DesObj)
    (hkey : alook dod key = some objs)
    (hnd : (objs.map (fun o => o.object.pk)).Nodup)
    (i : Nat) (o : DesObj) (hi : objs[i]? = some o)
    (hded : isDedupedB env db key o = false) :
    ∃ objs2 tbl2 o2,
      alook (step2 env db dod).1 key = some objs2 ∧
      alook (step2 env db dod).2 key = some tbl2 ∧
      objs2[i]? = some o2 ∧
      o2 = { o with object := { o.object with pk := o2.object.pk } } ∧
      alook tbl2 o.object.pk = some o2.object.pk ∧
      (∀ cur ∈ db, cur.model = key → cur.pk < o2.object.pk) ∧
      (∀ (j : Nat) (oj oj2 : DesObj), j ≠ i → objs[j]? = some oj →
        isDedupedB env db key oj = false → objs2[j]? = some oj2 →
        oj2.object.pk ≠ o2.object.pk) := by
  obtain ⟨h1, h2⟩ := step2_alook env db dod key objs hkey
  have hd : dedB (metaOf env key) (!(duplicate_model_keys.contains key))
      (modelFilter db key) o = false := by
    rw [← isDedupedB_eq]; exact hded
  obtain ⟨p, hp, _, hcurs⟩ := step2Objs_get_new (metaOf env key)
    (!(duplicate_model_keys.contains key)) (modelFilter db key) objs 0 [] i o hi hd
  refine ⟨_, _, _, h1, h2, hp, by simp, ?_, ?_, ?_⟩
  · have := step2Objs_tbl_new (metaOf env key) (!(duplicate_model_keys.contains key))
      (modelFilter db key) objs 0 [] i o _ hnd hi hd hp
    simpa using this
  · intro cur hcur hmodel
    have hmem : cur ∈ modelFilter db key := (mem_modelFilter db key cur).mpr ⟨hcur, hmodel⟩
    simpa using hcurs cur hmem
  · intro j oj oj2 hne hoj hdedj hoj2
    have hdj : dedB (metaOf env key) (!(duplicate_model_keys.contains key))
        (modelFilter db key) oj = false := by
      rw [← isDedupedB_eq]; exact hdedj
    rcases Nat.lt_or_ge j i with hlt | hge
    · have := step2Objs_pk_order (metaOf env key) (!(duplicate_model_keys.contains key))
        (modelFilter db key) objs 0 [] j i oj o oj2 _ hlt hoj hi hdj hd hoj2 hp
      omega
    · have hlt : i < j := by omega
      have := step2Objs_pk_order (metaOf env key) (!(duplicate_model_keys.contains key))
        (modelFilter db key) objs 0 [] i j o oj _ oj2 hlt hi hoj hd hdj hp hoj2
      omega

/-- Concrete inputs for the C1 witness: one existing project row with pk
5 and one imported project with imported pk 9 and a different title. -/
def c1env : Env := ⟨[("project.project", [("title", true)])]⟩

def c1db : DB := [⟨"project.project", 5, [("title", Val.str "A")], []⟩]

def c1obj : DesObj := ⟨⟨"project.project", 9, [("title", Val.str "B")], []⟩, []⟩

def c1dod : DoDict := [("project.project", [c1obj])]

/-- C2 (amended): during project import an imported record is marked as
a duplicate of an existing record — its primary key is left unchanged
rather than reassigned, and the translation table maps its imported
primary key to the primary key of an existing record of the same model —
if and only if its model is neither `project.projectuser` nor
`allocation.allocationuser` and some existing record of that model has a
value equal to the imported record's value on at least one unique field
other than `id`.  (The record is nevertheless still passed to the save
pass of Step 4; see the counterexample to the original claim.) -/
theorem C2_amended_dedup_condition
    (env : Env) (db : DB) (dod : DoDict) (key : String) (objs : List DesObj)
    (hkey : alook dod key = some objs)
    (hnd : (objs.map (fun o => o.object.pk)).Nodup)
    (i : Nat) (o : DesObj) (hi : objs[i]? = some o) :
    (isDedupedB env db key o = true ↔
      (key ∉ duplicate_model_keys ∧ ∃ cur ∈ db, cur.model = key ∧
        ∃ fb ∈ metaOf env key, fb.2 = true ∧ fb.1 ≠ "id" ∧
          alook cur.fields fb.1 = alook o.object.fields fb.1)) ∧
    (isDedupedB env db key o = true →
      ∃ objs2 tbl2,
        alook (step2 env db dod).1 key = some objs2 ∧
        alook (step2 env db dod).2 key = some tbl2 ∧
        objs2[i]? = some o ∧
        ∃ cur ∈ db, cur.model = key ∧ alook tbl2 o.object.pk = some cur.pk) := by
  constructor
  · rw [isDedupedB_eq]
    unfold dedB
    simp only [Bool.and_eq_true, Bool.not_eq_true', List.any_eq_true]
    constructor
    · rintro ⟨hc, cur, hcur, hsame⟩
      obtain ⟨hcdb, hcm⟩ := (mem_modelFilter db key cur).mp hcur
      refine ⟨?_, cur, hcdb, hcm, (same_obj_exists_iff _ _ _).mp hsame⟩
      intro hmem
      have hc' : List.elem key duplicate_model_keys = false := hc
      rw [List.elem_eq_true_of_mem hmem] at hc'
      cases hc'
    · rintro ⟨hc, cur, hcdb, hcm, hex⟩
      refine ⟨?_, cur, (mem_modelFilter db key cur).mpr ⟨hcdb, hcm⟩,
        (same_obj_exists_iff _ _ _).mpr hex⟩
      show List.elem key duplicate_model_keys = false
      exact Bool.eq_false_iff.mpr (fun hb => hc (List.mem_of_elem_eq_true hb))
  · intro hded
    obtain ⟨h1, h2⟩ := step2_alook env db dod key objs hkey
    have hd : dedB (metaOf env key) (!(duplicate_model_keys.contains key))
        (modelFilter db key) o = true := by
      rw [← isDedupedB_eq]; exact hded
    refine ⟨_, _, h1, h2, ?_, ?_⟩
    · exact step2Objs_get_ded (metaOf env key) (!(duplicate_model_keys.contains key))
        (modelFilter db key) objs 0 [] i o hi hd
    · obtain ⟨c, hc, _, hl⟩ := step2Objs_tbl_ded (metaOf env key)
        (!(duplicate_model_keys.contains key)) (modelFilter db key) objs 0 [] i o hnd hi hd
      obtain ⟨hcdb, hcm⟩ := (mem_modelFilter db key c).mp hc
      exact ⟨c, hcdb, hcm, hl⟩

/-- Concrete inputs for the C2 witness: an existing user profile with
unique field `user_id` equal to the imported profile's `user_id`, so the
imported profile is deduplicated. -/
def c2env : Env := ⟨[("user.userprofile", [("user_id", true)])]⟩

def c2db : DB := [⟨"user.userprofile", 7, [("user_id", Val.int 3)], []⟩]

def c2obj : DesObj := ⟨⟨"user.userprofile", 12, [("user_id", Val.int 3)], []⟩, []⟩

def c2dod : DoDict := [("user.userprofile", [c2obj])]

theorem C2_amended_dedup_condition_witness :
    (isDedupedB c2env c2db "user.userprofile" c2obj = true ↔
      ("user.userprofile" ∉ duplicate_model_keys ∧ ∃ cur ∈ c2db,
        cur.model = "user.userprofile" ∧
        ∃ fb ∈ metaOf c2env "user.userprofile", fb.2 = true ∧ fb.1 ≠ "id" ∧
          alook cur.fields fb.1 = alook c2obj.object.fields fb.1)) ∧
    (isDedupedB c2env c2db "user.userprofile" c2obj = true →
      ∃ objs2 tbl2,
        alook (step2 c2env c2db c2dod).1 "user.userprofile" = some objs2 ∧
        alook (step2 c2env c2db c2dod).2 "user.userprofile" = some tbl2 ∧
        objs2[0]? = some c2obj ∧
        ∃ cur ∈ c2db, cur.model = "user.userprofile" ∧
          alook tbl2 c2obj.object.pk = some cur.pk) :=
  C2_amended_dedup_condition c2env c2db c2dod "user.userprofile" [c2obj]
    (by decide) (by decide) 0 c2obj (by decide)

theorem C1_step2_pk_reassignment_witness :
    ∃ objs2 tbl2 o2,
      alook (step2 c1env c1db c1dod).1 "project.project" = some objs2 ∧
      alook (step2 c1env c1db c1dod).2 "project.project" = some tbl2 ∧
      objs2[0]? = some o2 ∧
      o2 = { c1obj with object := { c1obj.object with pk := o2.object.pk } } ∧
      alook tbl2 c1obj.object.pk = some o2.object.pk ∧
      (∀ cur ∈ c1db, cur.model = "project.project" → cur.pk < o2.object.pk) ∧
      (∀ (j : Nat) (oj oj2 : DesObj), j ≠ 0 → [c1obj][j]? = some oj →
        isDedupedB c1env c1db "project.project" oj = false → objs2[j]? = some oj2 →
        oj2.object.pk ≠ o2.object.pk) :=
  C1_step2_pk_reassignment c1env c1db c1dod "project.project" [c1obj]
    (by decide) (by decide) 0 c1obj (by decide) (by decide)

/-! ## Step 3 (field matching), Step 4 (save) and the full import post -/

/-- Registration table for scalar fields (`_register_field`):
`regist_tbl[from_name][field_name][pk] = value`. -/
abbrev FieldRegist := List (String × List (String × List (Int × Val)))

/-- Registration table for m2m fields (`_register_m2m`):
`regist_tbl[from_name][m2m_name][pk] = id list`. -/
abbrev M2mRegist := List (String × List (String × List (Int × List Int)))

/-- `trans_tbl[from_name][v]`; `none` is Python's uncaught `KeyError`. -/
def tblLookup (tbl : TransTbl) (fromName : String) (v : Int) : Option Int :=
  (alook tbl fromName).bind (fun t => alook t v)

/-- The `_update_field` loop body for one deserialized object:
`setattr(des_obj.object, field_name, trans_tbl[from_name][getattr(...)])`.
A failed table lookup (or a field value that is not an integer key) is
Python's uncaught `KeyError`, modelled as `none`. -/
def ufApply (tbl : TransTbl) (fromName fieldName : String) (o : DesObj) : Option DesObj :=
  match alook o.object.fields fieldName with
  | some (Val.int v) =>
      (tblLookup tbl fromName v).map (fun nv =>
        { o with object := setField o.object fieldName (Val.int nv) })
  | _ => none

/-- `_update_field`: rewrite one ForeignKey field of every deserialized
object of `toName` through the translation table.  A missing `do_dict`
entry is a silent no-op. -/
def update_field (tbl : TransTbl) (toName fromName fieldName : String)
    (dod : DoDict) : Option DoDict :=
  match alook dod toName with
  | none => some dod
  | some objs =>
      (objs.mapM (ufApply tbl fromName fieldName)).map
        (fun objs2 => aset dod toName objs2)

/-- `_batch_update_field`: `_update_field` over a list of model names. -/
def batch_update_field (tbl : TransTbl) (toNames : List String)
    (fromName fieldName : String) (dod : DoDict) : Option DoDict :=
  toNames.foldlM (fun d t => update_field tbl t fromName fieldName d) dod

/-- The `_update_m2m` loop body for one deserialized object: map its
`m2m_data[m2m_name]` list elementwise through the (already looked-up)
per-model translation table. -/
def umApply (t : List (Int × Int)) (m2mName : String) (o : DesObj) : Option DesObj :=
  (alook o.m2m_data m2mName).bind (fun lns =>
    (lns.mapM (fun ln => alook t ln)).map (fun trans =>
      { o with m2m_data := aset o.m2m_data m2mName trans }))

/-- `_update_m2m`: rewrite one m2m id list elementwise through the
translation table; skipped entirely when the target model is absent from
`do_dict` or the source model is absent from the translation table. -/
def update_m2m (tbl : TransTbl) (toName fromName m2mName : String)
    (dod : DoDict) : Option DoDict :=
  match alook dod toName, alook tbl fromName with
  | some objs, some t =>
      (objs.mapM (umApply t m2mName)).map (fun objs2 => aset dod toName objs2)
  | _, _ => some dod

/-- `_register_m2m`: translate each object's m2m list, store it in the
registration table keyed by the object's (already reassigned) pk, and
clear the object's own `m2m_data` entry so it can be saved.  The loop
builds the pk-to-list map and rewrites the objects independently, so it
is split into the map over pairs and the map over objects; the list
comprehension looks the source model up in the translation table once
per element, so an empty list never raises. -/
def register_m2m (tbl : TransTbl) (toName fromName m2mName : String)
    (rt : M2mRegist) (dod : DoDict) : Option (M2mRegist × DoDict) :=
  match alook dod toName with
  | none => some (rt, dod)
  | some objs =>
      let rt1 := if (alook rt fromName).isNone then aset rt fromName [] else rt
      let inner1 := (alook rt1 fromName).getD []
      let inner2 := if (alook inner1 m2mName).isNone then aset inner1 m2mName [] else inner1
      (objs.mapM (fun (o : DesObj) =>
          ((alook o.m2m_data m2mName).bind (fun lns =>
            lns.mapM (fun ln => tblLookup tbl fromName ln))).map
            (fun trans => (o.object.pk, trans)))).map
        (fun pairs =>
          (aset rt1 fromName (aset inner2 m2mName
            (pairs.foldl (fun m pv => aset m pv.1 pv.2) ((alook inner2 m2mName).getD []))),
           aset dod toName
            (objs.map (fun o => { o with m2m_data := aset o.m2m_data m2mName [] }))))

/-- `_register_field`: store each object's raw field value in the
registration table keyed by its (already reassigned) pk and reset the
field to `None` so the object can be saved (split like `register_m2m`). -/
def register_field (toName fromName fieldName : String)
    (rt : FieldRegist) (dod : DoDict) : Option (FieldRegist × DoDict) :=
  match alook dod toName with
  | none => some (rt, dod)
  | some objs =>
      let rt1 := if (alook rt fromName).isNone then aset rt fromName [] else rt
      let inner1 := (alook rt1 fromName).getD []
      let inner2 := if (alook inner1 fieldName).isNone then aset inner1 fieldName [] else inner1
      (objs.mapM (fun (o : DesObj) =>
          (alook o.object.fields fieldName).map (fun v => (o.object.pk, v)))).map
        (fun pairs =>
          (aset rt1 fromName (aset inner2 fieldName
            (pairs.foldl (fun m pv => aset m pv.1 pv.2) ((alook inner2 fieldName).getD []))),
           aset dod toName
            (objs.map (fun o =>
              { o with object := setField o.object fieldName Val.null }))))

/-- Step 3 of `ProjectImportView.post`: the manually maintained sequence
of `_update_field` / `_register_field` / `_register_m2m` /
`_update_m2m` / `_batch_update_field` calls. -/
def step3 (tbl : TransTbl) (dod : DoDict) : Option (DoDict × FieldRegist × M2mRegist) := do
  let d1 ← update_field tbl "project.project" "auth.user" "pi_id" dod
  let fr ← register_field "resource.resource" "resource.resource" "parent_resource_id" [] d1
  let mr ← register_m2m tbl "resource.resource" "resource.resource" "linked_resources" [] fr.2
  let d4 ← update_m2m tbl "auth.user" "auth.group" "groups" mr.2
  let d5 ← update_field tbl "user.userprofile" "auth.user" "user_id" d4
  let d6 ← update_m2m tbl "resource.resource" "auth.user" "allowed_users" d5
  let d7 ← update_m2m tbl "resource.resource" "auth.group" "allowed_groups" d6
  let d8 ← update_m2m tbl "allocation.allocation" "resource.resource" "resources" d7
  let d9 ← update_field tbl "allocation.allocationuser" "auth.user" "user_id" d8
  let d10 ← update_field tbl "allocation.allocationuser" "allocation.allocation" "allocation_id" d9
  let d11 ← batch_update_field tbl
    ["allocation.allocationchangerequest", "allocation.allocationattribute",
     "allocation.allocationadminnote", "allocation.allocationusernote"]
    "allocation.allocation" "allocation_id" d10
  let d12 ← batch_update_field tbl
    ["allocation.allocationadminnote", "allocation.allocationusernote"]
    "auth.user" "author_id" d11
  let d13 ← batch_update_field tbl
    ["project.projectuser", "allocation.allocation", "publication.publication",
     "grant.grant", "project.projectadmincomment", "project.projectusermessage",
     "project.projectreview", "research_output.researchoutput"]
    "project.project" "project_id" d12
  pure (d13, fr.1, mr.1)

/-- The deserialized objects of one model (`do_dict[m]`, empty when the
model is absent). -/
def objsOf (d : DoDict) (m : String) : List DesObj :=
  (alook d m).getD []

/-- The values one field takes across the deserialized objects of one
model, in document order. -/
def fieldView (d : DoDict) (m f : String) : List (Option Val) :=
  (objsOf d m).map (fun o => alook o.object.fields f)

/-- The id lists one m2m field takes across the deserialized objects of
one model, in document order. -/
def m2mView (d : DoDict) (m g : String) : List (Option (List Int)) :=
  (objsOf d m).map (fun o => alook o.m2m_data g)

/-- The imported (document) primary keys of one model. -/
def importedPks (dod : DoDict) (m : String) : List Int :=
  (objsOf dod m).map (fun o => o.object.pk)

/-- One field value is an integer key present in the translation table. -/
def fieldOkE (tbl : TransTbl) (fromName : String) (x : Option Val) : Bool :=
  match x with
  | some (Val.int v) => (tblLookup tbl fromName v).isSome
  | _ => false

/-- One m2m list is present and all its elements are keys of the
translation table. -/
def m2mOkE (tbl : TransTbl) (fromName : String) (x : Option (List Int)) : Bool :=
  match x with
  | some lns => lns.all (fun ln => (tblLookup tbl fromName ln).isSome)
  | none => false

/-- Per-view precondition of `_update_field`. -/
def fieldCallOkV (tbl : TransTbl) (fromName : String) (view : List (Option Val)) : Bool :=
  view.all (fieldOkE tbl fromName)

/-- Per-view precondition of `_update_m2m` / `_register_m2m`. -/
def m2mCallOkV (tbl : TransTbl) (fromName : String)
    (view : List (Option (List Int))) : Bool :=
  view.all (m2mOkE tbl fromName)

/-- Document-level precondition: every value of the given foreign-key
field refers to a pk appearing among the document's objects of the
referenced model. -/
def fieldRefsOk (dod : DoDict) (toName fieldName fromName : String) : Bool :=
  (fieldView dod toName fieldName).all (fun x =>
    match x with
    | some (Val.int v) => (importedPks dod fromName).contains v
    | _ => false)

/-- Document-level precondition: every element of the given m2m list
refers to a pk appearing among the document's objects of the referenced
model (and the list itself is present, as the deserializer guarantees). -/
def m2mRefsOk (dod : DoDict) (toName m2mName fromName : String) : Bool :=
  (m2mView dod toName m2mName).all (fun x =>
    match x with
    | some lns => lns.all (fun ln => (importedPks dod fromName).contains ln)
    | none => false)

/-- Document-level well-formedness: the given field is present on every
object of the model (the deserializer serializes every model field). -/
def fieldPresentOk (dod : DoDict) (toName fieldName : String) : Bool :=
  (fieldView dod toName fieldName).all (fun x => x.isSome)

/-- The manually maintained ForeignKey rewrite list of Step 3, as
(model, field, referenced model) triples. -/
def manualFieldCalls : List (String × String × String) :=
  [("project.project", "pi_id", "auth.user"),
   ("user.userprofile", "user_id", "auth.user"),
   ("allocation.allocationuser", "user_id", "auth.user"),
   ("allocation.allocationuser", "allocation_id", "allocation.allocation"),
   ("allocation.allocationchangerequest", "allocation_id", "allocation.allocation"),
   ("allocation.allocationattribute", "allocation_id", "allocation.allocation"),
   ("allocation.allocationadminnote", "allocation_id", "allocation.allocation"),
   ("allocation.allocationusernote", "allocation_id", "allocation.allocation"),
   ("allocation.allocationadminnote", "author_id", "auth.user"),
   ("allocation.allocationusernote", "author_id", "auth.user"),
   ("project.projectuser", "project_id", "project.project"),
   ("allocation.allocation", "project_id", "project.project"),
   ("publication.publication", "project_id", "project.project"),
   ("grant.grant", "project_id", "project.project"),
   ("project.projectadmincomment", "project_id", "project.project"),
   ("project.projectusermessage", "project_id", "project.project"),
   ("project.projectreview", "project_id", "project.project"),
   ("research_output.researchoutput", "project_id", "project.project")]

/-- The `_update_m2m` rewrite list of Step 3, as (model, m2m field,
referenced model) triples. -/
def manualM2mCalls : List (String × String × String) :=
  [("auth.user", "groups", "auth.group"),
   ("resource.resource", "allowed_users", "auth.user"),
   ("resource.resource", "allowed_groups", "auth.group"),
   ("allocation.allocation", "resources", "resource.resource")]

/-- A save violates a unique constraint when another row of the same
model with a different pk agrees with it on some unique field — the same
`_meta`-driven test `_same_obj_exists` performs, since Django model
fields declared unique become database unique constraints. -/
def uniqueConflict (env : Env) (db : DB) (r : Record) : Bool :=
  db.any (fun q => (q.model = r.model) && (q.pk ≠ r.pk) &&
    same_obj_exists (metaOf env r.model) q r)

/-- Saving a row: a unique-constraint violation raises IntegrityError
(`none`); otherwise the row replaces the existing row with its pk, or is
inserted as a new row. -/
def dbSaveRecord (env : Env) (db : DB) (r : Record) : Option DB :=
  if uniqueConflict env db r then none
  else if db.any (fun q => (q.model = r.model) && (q.pk = r.pk)) then
    some (db.map (fun q => if (q.model = r.model) && (q.pk = r.pk) then r else q))
  else some (db ++ [r])

/-- `isinstance(obj, Project)` in the Step 4 `except IntegrityError`
handler.  The elements of `do_dict` are `DeserializedObject` wrappers
(their model instances live in `obj.object`, as line
`do_dict['project.project'][0].object.save()` itself relies on), and
`DeserializedObject` is not a subclass of `Project`, so the test is
false for every element. -/
def isinstanceProject (_ : DesObj) : Bool := false

/-- One save attempt of the Step 4 loop: on IntegrityError the object is
skipped and `resave_proj` is or-ed with the `isinstance` test. -/
def step4Save (env : Env) (st : DB × Bool) (o : DesObj) : DB × Bool :=
  match dbSaveRecord env st.1 { o.object with m2ms := o.m2m_data } with
  | some db2 => (db2, st.2)
  | none => (st.1, st.2 || isinstanceProject o)

/-- Step 4 of `ProjectImportView.post`: save every deserialized object
of every model, threading the database and the `resave_proj` flag. -/
def step4 (env : Env) (db : DB) (dod : DoDict) : DB × Bool :=
  dod.foldl (fun st kv => kv.2.foldl (step4Save env) st) (db, false)

/-- `getattr(obj, m2m_name).add(target)`: adds an id to a row's m2m set. -/
def m2mAdd (r : Record) (m2mName : String) (id : Int) : Record :=
  let cur := (alook r.m2ms m2mName).getD []
  if id ∈ cur then r else { r with m2ms := aset r.m2ms m2mName (cur ++ [id]) }

/-- `_reassign_m2m` as called: the guard checks `do_dict` (the swapped
`regist_tbl` argument) while the data comes from `do_regist_tbl` (the
swapped `trans_tbl` argument); `query.filter(pk=id)[0]` on a missing row
is an uncaught IndexError (`none`). -/
def reassign_m2m (name m2mName : String) (dod : DoDict) (mrt : M2mRegist)
    (db : DB) : Option DB :=
  if (alook dod name).isNone then some db
  else
    match (alook mrt name).bind (fun x => alook x m2mName) with
    | none => none
    | some m =>
        ((modelFilter db name).map (fun r => r.pk)).foldlM (fun db2 pk =>
          match alook m pk with
          | none => some db2
          | some ids =>
              ids.foldlM (fun db3 id =>
                if (modelFilter db3 name).any (fun q => q.pk = id) then
                  some (db3.map (fun q =>
                    if (q.model = name) && (q.pk = pk) then m2mAdd q m2mName id else q))
                else none) db2) db

/-- `_reassign_field` as called (same swapped-argument guard): write the
registered raw value back into the row and save that single column. -/
def reassign_field (name fieldName : String) (dod : DoDict) (frt : FieldRegist)
    (db : DB) : Option DB :=
  if (alook dod name).isNone then some db
  else
    match (alook frt name).bind (fun x => alook x fieldName) with
    | none => none
    | some m =>
        ((modelFilter db name).map (fun r => r.pk)).foldlM (fun db2 pk =>
          match alook m pk with
          | none => some db2
          | some v =>
              some (db2.map (fun q =>
                if (q.model = name) && (q.pk = pk) then setField q fieldName v else q))) db

/-- The conditional resave of the imported project
(`if resave_proj: do_dict['project.project'][0].object.save()`). -/
def resaveStep (env : Env) (db : DB) (dod : DoDict) (flag : Bool) : Option DB :=
  if flag then
    match alook dod "project.project" with
    | none => none
    | some [] => none
    | some (o :: _) => dbSaveRecord env db o.object
  else some db

/-- The two decode failures the upload handler catches. -/
inductive DecodeErr where
  | json
  | unicode
deriving DecidableEq, Repr

/-- The error message posted for each decode failure. -/
def decodeErrMsg : DecodeErr → String
  | .json => "JSON Decode Error: The project file you have selected is corrupted or is in a format ColdFront does not recognise."
  | .unicode => "Unicode Decode Error: Please upload a JSON document."

/-- Outcome of `ProjectImportView.post`: resulting database, posted
messages, and the redirect target. -/
structure ImportResult where
  db : DB
  messages : List String
  redirect : String
deriving DecidableEq, Repr

/-- `ProjectImportView.post`: form validation, decode-error handling,
then Steps 2-4, the two reassign calls and the conditional resave;
`none` is an uncaught exception escaping the handler. -/
def importPost (env : Env) (db : DB) (formValid : Bool)
    (parsed : Except DecodeErr DoDict) : Option ImportResult :=
  if formValid then
    match parsed with
    | .error e => some ⟨db, [decodeErrMsg e], "project-list"⟩
    | .ok dod => do
        let s2 := step2 env db dod
        let s3 ← step3 s2.2 s2.1
        let s4 := step4 env db s3.1
        let db5 ← reassign_m2m "resource.resource" "linked_resources" s3.1 s3.2.2 s4.1
        let db6 ← reassign_field "resource.resource" "parent_resource_id" s3.1 s3.2.1 db5
        let db7 ← resaveStep env db6 s3.1 s4.2
        pure ⟨db7, [], "project-list"⟩
  else some ⟨db, [], "project-list"⟩

/-- C9: if the uploaded file cannot be parsed as JSON text (a JSON or
Unicode decode error), the import leaves the database entirely
unchanged, posts the corresponding error message, and redirects to the
project list. -/
theorem C9_decode_error_leaves_db_unchanged (env : Env) (db : DB) (e : DecodeErr) :
    importPost env db true (.error e) = some ⟨db, [decodeErrMsg e], "project-list"⟩ := rfl

theorem step4Save_flag (env : Env) (st : DB × Bool) (o : DesObj) :
    (step4Save env st o).2 = st.2 := by
  unfold step4Save
  cases dbSaveRecord env st.1 { o.object with m2ms := o.m2m_data } <;>
    simp [isinstanceProject]

theorem step4_inner_flag (env : Env) (objs : List DesObj) :
    ∀ st : DB × Bool, (objs.foldl (step4Save env) st).2 = st.2 := by
  induction objs with
  | nil => intro st; rfl
  | cons o rest ih =>
      intro st
      rw [List.foldl_cons, ih (step4Save env st o), step4Save_flag]

theorem step4_flag (env : Env) (db : DB) (dod : DoDict) :
    (step4 env db dod).2 = false := by
  unfold step4
  suffices h : ∀ st : DB × Bool,
      (dod.foldl (fun st kv => kv.2.foldl (step4Save env) st) st).2 = st.2 by
    rw [h (db, false)]
  induction dod with
  | nil => intro st; rfl
  | cons kv rest ih =>
      intro st
      rw [List.foldl_cons, ih, step4_inner_flag]

section OptionListHelpers

variable {α β γ δ : Type}

theorem mapM_some_of_all (f : α → Option β) :
    ∀ l : List α, (∀ a ∈ l, (f a).isSome) → ∃ l2, l.mapM f = some l2 := by
  intro l
  induction l with
  | nil => intro _; exact ⟨[], rfl⟩
  | cons a rest ih =>
      intro h
      obtain ⟨b, hb⟩ := Option.isSome_iff_exists.mp (h a (List.mem_cons_self _ _))
      obtain ⟨l2, hl2⟩ := ih (fun x hx => h x (List.mem_cons_of_mem _ hx))
      refine ⟨b :: l2, ?_⟩
      rw [List.mapM_cons, hb, hl2]
      rfl

theorem mapM_forall₂ (f : α → Option β) :
    ∀ (l : List α) (l2 : List β), l.mapM f = some l2 →
      List.Forall₂ (fun a b => f a = some b) l l2 := by
  intro l
  induction l with
  | nil =>
      intro l2 h
      simp only [List.mapM_nil, pure, Option.some_inj] at h
      subst h
      exact List.Forall₂.nil
  | cons a rest ih =>
      intro l2 h
      rw [List.mapM_cons] at h
      cases hfa : f a with
      | none => rw [hfa] at h; simp at h
      | some b =>
          rw [hfa] at h
          cases hml : rest.mapM f with
          | none => rw [hml] at h; simp at h
          | some bs =>
              rw [hml] at h
              simp only [Option.bind_eq_bind, Option.some_bind, pure, Option.some_inj] at h
              subst h
              exact List.Forall₂.cons hfa (ih bs hml)

theorem forall₂_map_map {R : α → β → Prop} {S : γ → δ → Prop} (F : α → γ) (G : β → δ)
    (h : ∀ a b, R a b → S (F a) (G b)) :
    ∀ {l : List α} {l2 : List β}, List.Forall₂ R l l2 →
      List.Forall₂ S (l.map F) (l2.map G) := by
  intro l l2 hf
  induction hf with
  | nil => exact List.Forall₂.nil
  | cons hab _ ih => exact List.Forall₂.cons (h _ _ hab) ih

theorem map_eq_of_forall₂ {R : α → β → Prop} (F : α → γ) (G : β → γ)
    (h : ∀ a b, R a b → G b = F a) :
    ∀ {l : List α} {l2 : List β}, List.Forall₂ R l l2 → l2.map G = l.map F := by
  intro l l2 hf
  induction hf with
  | nil => rfl
  | cons hab _ ih => simp only [List.map_cons, ih, h _ _ hab]

end OptionListHelpers

theorem objsOf_aset_self (d : DoDict) (m : String) (objs : List DesObj) :
    objsOf (aset d m objs) m = objs := by
  simp [objsOf, alook_aset_self]

theorem objsOf_aset_ne (d : DoDict) (m m2 : String) (objs : List DesObj)
    (h : m2 ≠ m) : objsOf (aset d m objs) m2 = objsOf d m2 := by
  simp [objsOf, alook_aset_ne _ _ _ _ h]

section UpdateFieldLemmas

variable (tbl : TransTbl) (toName fromName fieldName : String) (d d2 : DoDict)

theorem update_field_none (h : alook d toName = none) :
    update_field tbl toName fromName fieldName d = some d := by
  simp [update_field, h]

theorem update_field_some_elim
    (h : update_field tbl toName fromName fieldName d = some d2) :
    (alook d toName = none ∧ d2 = d) ∨
    (∃ objs objs2, alook d toName = some objs ∧
      objs.mapM (ufApply tbl fromName fieldName) = some objs2 ∧
      d2 = aset d toName objs2) := by
  unfold update_field at h
  cases hto : alook d toName with
  | none =>
      rw [hto] at h
      exact Or.inl ⟨rfl, (Option.some_inj.mp h).symm⟩
  | some objs =>
      rw [hto] at h
      obtain ⟨objs2, hm, hd2⟩ := Option.map_eq_some'.mp h
      exact Or.inr ⟨objs, objs2, rfl, hm, hd2.symm⟩

theorem ufApply_elim (o o2 : DesObj) (h : ufApply tbl fromName fieldName o = some o2) :
    ∃ v nv, alook o.object.fields fieldName = some (Val.int v) ∧
      tblLookup tbl fromName v = some nv ∧
      o2 = { o with object := setField o.object fieldName (Val.int nv) } := by
  unfold ufApply at h
  cases hf : alook o.object.fields fieldName with
  | none => rw [hf] at h; cases h
  | some v0 =>
      rw [hf] at h
      cases v0 with
      | int v =>
          obtain ⟨nv, hnv, ho2⟩ := Option.map_eq_some'.mp h
          exact ⟨v, nv, rfl, hnv, ho2.symm⟩
      | str s => cases h
      | null => cases h

theorem ufApply_isSome (o : DesObj)
    (hok : fieldOkE tbl fromName (alook o.object.fields fieldName) = true) :
    (ufApply tbl fromName fieldName o).isSome := by
  unfold ufApply
  unfold fieldOkE at hok
  cases hf : alook o.object.fields fieldName with
  | none => rw [hf] at hok; cases hok
  | some v0 =>
      rw [hf] at hok
      cases v0 with
      | int v =>
          obtain ⟨nv, hnv⟩ := Option.isSome_iff_exists.mp hok
          simp [hnv]
      | str s => cases hok
      | null => cases hok

theorem update_field_total
    (hok : fieldCallOkV tbl fromName (fieldView d toName fieldName) = true) :
    ∃ d2, update_field tbl toName fromName fieldName d = some d2 := by
  cases hto : alook d toName with
  | none => exact ⟨d, update_field_none tbl toName fromName fieldName d hto⟩
  | some objs =>
      have hobjs : objsOf d toName = objs := by simp [objsOf, hto]
      have hall : ∀ o ∈ objs, (ufApply tbl fromName fieldName o).isSome := by
        intro o ho
        apply ufApply_isSome
        unfold fieldCallOkV fieldView at hok
        rw [List.all_eq_true] at hok
        exact hok _ (by rw [hobjs]; exact List.mem_map_of_mem _ ho)
      obtain ⟨objs2, hm⟩ := mapM_some_of_all _ objs hall
      refine ⟨aset d toName objs2, ?_⟩
      unfold update_field
      rw [hto]
      simp only [Option.map_eq_some']
      exact ⟨objs2, hm, rfl⟩

theorem fieldView_uf_ne
    (h : update_field tbl toName fromName fieldName d = some d2) (m f : String)
    (hc : m ≠ toName ∨ f ≠ fieldName) : fieldView d2 m f = fieldView d m f := by
  rcases update_field_some_elim tbl toName fromName fieldName d d2 h with
    ⟨_, rfl⟩ | ⟨objs, objs2, hto, hm, rfl⟩
  · rfl
  · by_cases hmt : m = toName
    · subst hmt
      have hf : f ≠ fieldName := by
        rcases hc with hc | hc
        · exact absurd rfl hc
        · exact hc
      unfold fieldView
      rw [objsOf_aset_self]
      have hobjs : objsOf d m = objs := by simp [objsOf, hto]
      rw [hobjs]
      exact map_eq_of_forall₂ _ _
        (fun a b hab => by
          obtain ⟨v, nv, _, _, rfl⟩ := ufApply_elim tbl fromName fieldName a b hab
          simp only [setField]
          exact alook_aset_ne _ _ _ _ hf)
        (mapM_forall₂ _ objs objs2 hm)
    · unfold fieldView
      rw [objsOf_aset_ne _ _ _ _ hmt]

theorem m2mView_uf
    (h : update_field tbl toName fromName fieldName d = some d2) (m g : String) :
    m2mView d2 m g = m2mView d m g := by
  rcases update_field_some_elim tbl toName fromName fieldName d d2 h with
    ⟨_, rfl⟩ | ⟨objs, objs2, hto, hm, rfl⟩
  · rfl
  · by_cases hmt : m = toName
    · subst hmt
      unfold m2mView
      rw [objsOf_aset_self]
      have hobjs : objsOf d m = objs := by simp [objsOf, hto]
      rw [hobjs]
      exact map_eq_of_forall₂ _ _
        (fun a b hab => by
          obtain ⟨v, nv, _, _, rfl⟩ := ufApply_elim tbl fromName fieldName a b hab
          rfl)
        (mapM_forall₂ _ objs objs2 hm)
    · unfold m2mView
      rw [objsOf_aset_ne _ _ _ _ hmt]

theorem fieldView_uf_eq
    (h : update_field tbl toName fromName fieldName d = some d2) :
    List.Forall₂ (fun x y => ∃ v nv, x = some (Val.int v) ∧
        tblLookup tbl fromName v = some nv ∧ y = some (Val.int nv))
      (fieldView d toName fieldName) (fieldView d2 toName fieldName) := by
  rcases update_field_some_elim tbl toName fromName fieldName d d2 h with
    ⟨hto, rfl⟩ | ⟨objs, objs2, hto, hm, rfl⟩
  · unfold fieldView objsOf
    rw [hto]
    exact List.Forall₂.nil
  · unfold fieldView
    rw [objsOf_aset_self]
    have hobjs : objsOf d toName = objs := by simp [objsOf, hto]
    rw [hobjs]
    exact forall₂_map_map _ _
      (fun a b hab => by
        obtain ⟨v, nv, hv, hnv, rfl⟩ := ufApply_elim tbl fromName fieldName a b hab
        exact ⟨v, nv, hv, hnv, by simp [setField, alook_aset_self]⟩)
      (mapM_forall₂ _ objs objs2 hm)

end UpdateFieldLemmas

section UpdateM2mLemmas

variable (tbl : TransTbl) (toName fromName m2mName : String) (d d2 : DoDict)

theorem update_m2m_skip
    (h : alook d toName = none ∨ alook tbl fromName = none) :
    update_m2m tbl toName fromName m2mName d = some d := by
  unfold update_m2m
  rcases h with h | h
  · rw [h]
  · rw [h]
    cases alook d toName <;> rfl

theorem update_m2m_some_elim
    (h : update_m2m tbl toName fromName m2mName d = some d2) :
    (d2 = d ∧ (alook d toName = none ∨ alook tbl fromName = none)) ∨
    (∃ objs t objs2, alook d toName = some objs ∧ alook tbl fromName = some t ∧
      objs.mapM (umApply t m2mName) = some objs2 ∧ d2 = aset d toName objs2) := by
  unfold update_m2m at h
  cases hto : alook d toName with
  | none =>
      rw [hto] at h
      exact Or.inl ⟨(Option.some_inj.mp h).symm, Or.inl rfl⟩
  | some objs =>
      cases hfr : alook tbl fromName with
      | none =>
          rw [hto, hfr] at h
          exact Or.inl ⟨(Option.some_inj.mp h).symm, Or.inr rfl⟩
      | some t =>
          rw [hto, hfr] at h
          obtain ⟨objs2, hm, hd2⟩ := Option.map_eq_some'.mp h
          exact Or.inr ⟨objs, t, objs2, rfl, rfl, hm, hd2.symm⟩

theorem umApply_elim (t : List (Int × Int)) (o o2 : DesObj)
    (h : umApply t m2mName o = some o2) :
    ∃ lns trans, alook o.m2m_data m2mName = some lns ∧
      lns.mapM (fun ln => alook t ln) = some trans ∧
      o2 = { o with m2m_data := aset o.m2m_data m2mName trans } := by
  unfold umApply at h
  cases hg : alook o.m2m_data m2mName with
  | none => rw [hg] at h; cases h
  | some lns =>
      rw [hg] at h
      simp only [Option.bind_eq_bind, Option.some_bind] at h
      obtain ⟨trans, hm, ho2⟩ := Option.map_eq_some'.mp h
      exact ⟨lns, trans, rfl, hm, ho2.symm⟩

theorem umApply_isSome (t : List (Int × Int)) (o : DesObj)
    (ht : alook tbl fromName = some t)
    (hok : m2mOkE tbl fromName (alook o.m2m_data m2mName) = true) :
    (umApply t m2mName o).isSome := by
  unfold umApply
  unfold m2mOkE at hok
  cases hg : alook o.m2m_data m2mName with
  | none => rw [hg] at hok; cases hok
  | some lns =>
      rw [hg] at hok
      have hall : ∀ ln ∈ lns, ((fun ln => alook t ln) ln).isSome := by
        intro ln hln
        rw [List.all_eq_true] at hok
        have := hok ln hln
        simpa [tblLookup, ht] using this
      obtain ⟨trans, hm⟩ := mapM_some_of_all _ lns hall
      simp only [Option.some_bind]
      rw [hm]
      rfl

theorem update_m2m_total
    (hok : m2mCallOkV tbl fromName (m2mView d toName m2mName) = true) :
    ∃ d2, update_m2m tbl toName fromName m2mName d = some d2 := by
  cases hto : alook d toName with
  | none => exact ⟨d, update_m2m_skip tbl toName fromName m2mName d (Or.inl hto)⟩
  | some objs =>
      cases hfr : alook tbl fromName with
      | none => exact ⟨d, update_m2m_skip tbl toName fromName m2mName d (Or.inr hfr)⟩
      | some t =>
          have hobjs : objsOf d toName = objs := by simp [objsOf, hto]
          have hall : ∀ o ∈ objs, (umApply t m2mName o).isSome := by
            intro o ho
            apply umApply_isSome tbl fromName m2mName t o hfr
            unfold m2mCallOkV m2mView at hok
            rw [List.all_eq_true] at hok
            exact hok _ (by rw [hobjs]; exact List.mem_map_of_mem _ ho)
          obtain ⟨objs2, hm⟩ := mapM_some_of_all _ objs hall
          refine ⟨aset d toName objs2, ?_⟩
          unfold update_m2m
          rw [hto, hfr]
          simp only [Option.map_eq_some']
          exact ⟨objs2, hm, rfl⟩

theorem fieldView_um
    (h : update_m2m tbl toName fromName m2mName d = some d2) (m f : String) :
    fieldView d2 m f = fieldView d m f := by
  rcases update_m2m_some_elim tbl toName fromName m2mName d d2 h with
    ⟨rfl, _⟩ | ⟨objs, t, objs2, hto, hfr, hm, rfl⟩
  · rfl
  · by_cases hmt : m = toName
    · subst hmt
      unfold fieldView
      rw [objsOf_aset_self]
      have hobjs : objsOf d m = objs := by simp [objsOf, hto]
      rw [hobjs]
      exact map_eq_of_forall₂ _ _
        (fun a b hab => by
          obtain ⟨lns, trans, _, _, rfl⟩ := umApply_elim m2mName t a b hab
          rfl)
        (mapM_forall₂ _ objs objs2 hm)
    · unfold fieldView
      rw [objsOf_aset_ne _ _ _ _ hmt]

theorem m2mView_um_ne
    (h : update_m2m tbl toName fromName m2mName d = some d2) (m g : String)
    (hc : m ≠ toName ∨ g ≠ m2mName) : m2mView d2 m g = m2mView d m g := by
  rcases update_m2m_some_elim tbl toName fromName m2mName d d2 h with
    ⟨rfl, _⟩ | ⟨objs, t, objs2, hto, hfr, hm, rfl⟩
  · rfl
  · by_cases hmt : m = toName
    · subst hmt
      have hg : g ≠ m2mName := by
        rcases hc with hc | hc
        · exact absurd rfl hc
        · exact hc
      unfold m2mView
      rw [objsOf_aset_self]
      have hobjs : objsOf d m = objs := by simp [objsOf, hto]
      rw [hobjs]
      exact map_eq_of_forall₂ _ _
        (fun a b hab => by
          obtain ⟨lns, trans, _, _, rfl⟩ := umApply_elim m2mName t a b hab
          simp only
          exact alook_aset_ne _ _ _ _ hg)
        (mapM_forall₂ _ objs objs2 hm)
    · unfold m2mView
      rw [objsOf_aset_ne _ _ _ _ hmt]

theorem m2mView_um_eq
    (h : update_m2m tbl toName fromName m2mName d = some d2)
    (t : List (Int × Int)) (ht : alook tbl fromName = some t) :
    List.Forall₂ (fun x y => ∃ lns trans, x = some lns ∧
        lns.mapM (fun ln => alook t ln) = some trans ∧ y = some trans)
      (m2mView d toName m2mName) (m2mView d2 toName m2mName) := by
  rcases update_m2m_some_elim tbl toName fromName m2mName d d2 h with
    ⟨rfl, hskip⟩ | ⟨objs, t2, objs2, hto, hfr, hm, rfl⟩
  · rcases hskip with hto | hfr
    · unfold m2mView objsOf
      rw [hto]
      exact List.Forall₂.nil
    · rw [hfr] at ht; cases ht
  · have heq : t2 = t := by rw [hfr] at ht; exact Option.some_inj.mp ht
    rw [heq] at hm
    unfold m2mView
    rw [objsOf_aset_self]
    have hobjs : objsOf d toName = objs := by simp [objsOf, hto]
    rw [hobjs]
    exact forall₂_map_map _ _
      (fun a b hab => by
        obtain ⟨lns, trans, hl, hmm, rfl⟩ := umApply_elim m2mName t a b hab
        exact ⟨lns, trans, hl, hmm, by simp only; exact alook_aset_self _ _ _⟩)
      (mapM_forall₂ _ objs objs2 hm)

end UpdateM2mLemmas

section RegisterLemmas

variable (tbl : TransTbl) (toName fromName m2mName fieldName : String)
variable (rt : M2mRegist) (frt : FieldRegist) (d : DoDict)

theorem register_m2m_none (h : alook d toName = none) :
    register_m2m tbl toName fromName m2mName rt d = some (rt, d) := by
  unfold register_m2m
  rw [h]

theorem register_m2m_some_elim (rt2 : M2mRegist) (d2 : DoDict)
    (h : register_m2m tbl toName fromName m2mName rt d = some (rt2, d2)) :
    (alook d toName = none ∧ rt2 = rt ∧ d2 = d) ∨
    (∃ objs, alook d toName = some objs ∧
      d2 = aset d toName
        (objs.map (fun o => { o with m2m_data := aset o.m2m_data m2mName [] }))) := by
  unfold register_m2m at h
  cases hto : alook d toName with
  | none =>
      rw [hto] at h
      obtain ⟨h1, h2⟩ := Prod.mk.injEq .. ▸ Option.some_inj.mp h
      exact Or.inl ⟨rfl, h1.symm, h2.symm⟩
  | some objs =>
      rw [hto] at h
      obtain ⟨pairs, _, hpd⟩ := Option.map_eq_some'.mp h
      obtain ⟨_, h2⟩ := Prod.mk.injEq .. ▸ hpd
      exact Or.inr ⟨objs, rfl, h2.symm⟩

theorem register_m2m_total
    (hok : m2mCallOkV tbl fromName (m2mView d toName m2mName) = true) :
    ∃ rt2 d2, register_m2m tbl toName fromName m2mName rt d = some (rt2, d2) := by
  cases hto : alook d toName with
  | none => exact ⟨rt, d, register_m2m_none tbl toName fromName m2mName rt d hto⟩
  | some objs =>
      have hobjs : objsOf d toName = objs := by simp [objsOf, hto]
      have hall : ∀ o ∈ objs,
          (((alook o.m2m_data m2mName).bind (fun lns =>
            lns.mapM (fun ln => tblLookup tbl fromName ln))).map
            (fun trans => (o.object.pk, trans))).isSome := by
        intro o ho
        unfold m2mCallOkV m2mView at hok
        rw [List.all_eq_true] at hok
        have he := hok _ (by rw [hobjs]; exact List.mem_map_of_mem _ ho)
        unfold m2mOkE at he
        cases hg : alook o.m2m_data m2mName with
        | none => rw [hg] at he; cases he
        | some lns =>
            rw [hg] at he
            have hall2 : ∀ ln ∈ lns, (tblLookup tbl fromName ln).isSome := by
              intro ln hln
              rw [List.all_eq_true] at he
              exact he ln hln
            obtain ⟨trans, hm⟩ := mapM_some_of_all _ lns hall2
            simp only [Option.some_bind]
            rw [hm]
            rfl
      obtain ⟨pairs, hm⟩ := mapM_some_of_all _ objs hall
      exact ⟨_, _, by
        unfold register_m2m
        rw [hto]
        simp only [Option.map_eq_some']
        exact ⟨pairs, hm, rfl⟩⟩

theorem fieldView_rm (rt2 : M2mRegist) (d2 : DoDict)
    (h : register_m2m tbl toName fromName m2mName rt d = some (rt2, d2)) (m f : String) :
    fieldView d2 m f = fieldView d m f := by
  rcases register_m2m_some_elim tbl toName fromName m2mName rt d rt2 d2 h with
    ⟨_, _, rfl⟩ | ⟨objs, hto, rfl⟩
  · rfl
  · by_cases hmt : m = toName
    · subst hmt
      unfold fieldView
      rw [objsOf_aset_self]
      have hobjs : objsOf d m = objs := by simp [objsOf, hto]
      rw [hobjs, List.map_map]
      rfl
    · unfold fieldView
      rw [objsOf_aset_ne _ _ _ _ hmt]

theorem m2mView_rm_ne (rt2 : M2mRegist) (d2 : DoDict)
    (h : register_m2m tbl toName fromName m2mName rt d = some (rt2, d2)) (m g : String)
    (hc : m ≠ toName ∨ g ≠ m2mName) : m2mView d2 m g = m2mView d m g := by
  rcases register_m2m_some_elim tbl toName fromName m2mName rt d rt2 d2 h with
    ⟨_, _, rfl⟩ | ⟨objs, hto, rfl⟩
  · rfl
  · by_cases hmt : m = toName
    · subst hmt
      have hg : g ≠ m2mName := by
        rcases hc with hc | hc
        · exact absurd rfl hc
        · exact hc
      unfold m2mView
      rw [objsOf_aset_self]
      have hobjs : objsOf d m = objs := by simp [objsOf, hto]
      rw [hobjs, List.map_map]
      apply List.map_congr_left
      intro o _
      simp only [Function.comp]
      exact alook_aset_ne _ _ _ _ hg
    · unfold m2mView
      rw [objsOf_aset_ne _ _ _ _ hmt]

theorem register_field_none (h : alook d toName = none) :
    register_field toName fromName fieldName frt d = some (frt, d) := by
  unfold register_field
  rw [h]

theorem register_field_some_elim (frt2 : FieldRegist) (d2 : DoDict)
    (h : register_field toName fromName fieldName frt d = some (frt2, d2)) :
    (alook d toName = none ∧ frt2 = frt ∧ d2 = d) ∨
    (∃ objs, alook d toName = some objs ∧
      d2 = aset d toName
        (objs.map (fun o => { o with object := setField o.object fieldName Val.null }))) := by
  unfold register_field at h
  cases hto : alook d toName with
  | none =>
      rw [hto] at h
      obtain ⟨h1, h2⟩ := Prod.mk.injEq .. ▸ Option.some_inj.mp h
      exact Or.inl ⟨rfl, h1.symm, h2.symm⟩
  | some objs =>
      rw [hto] at h
      obtain ⟨pairs, _, hpd⟩ := Option.map_eq_some'.mp h
      obtain ⟨_, h2⟩ := Prod.mk.injEq .. ▸ hpd
      exact Or.inr ⟨objs, rfl, h2.symm⟩

theorem register_field_total
    (hok : (fieldView d toName fieldName).all (fun x => x.isSome) = true) :
    ∃ frt2 d2, register_field toName fromName fieldName frt d = some (frt2, d2) := by
  cases hto : alook d toName with
  | none => exact ⟨frt, d, register_field_none toName fromName fieldName frt d hto⟩
  | some objs =>
      have hobjs : objsOf d toName = objs := by simp [objsOf, hto]
      have hall : ∀ o ∈ objs,
          ((alook o.object.fields fieldName).map (fun v => (o.object.pk, v))).isSome := by
        intro o ho
        unfold fieldView at hok
        rw [List.all_eq_true] at hok
        have he := hok _ (by rw [hobjs]; exact List.mem_map_of_mem _ ho)
        obtain ⟨v, hv⟩ := Option.isSome_iff_exists.mp he
        simp [hv]
      obtain ⟨pairs, hm⟩ := mapM_some_of_all _ objs hall
      exact ⟨_, _, by
        unfold register_field
        rw [hto]
        simp only [Option.map_eq_some']
        exact ⟨pairs, hm, rfl⟩⟩

theorem fieldView_rf_ne (frt2 : FieldRegist) (d2 : DoDict)
    (h : register_field toName fromName fieldName frt d = some (frt2, d2)) (m f : String)
    (hc : m ≠ toName ∨ f ≠ fieldName) : fieldView d2 m f = fieldView d m f := by
  rcases register_field_some_elim toName fromName fieldName frt d frt2 d2 h with
    ⟨_, _, rfl⟩ | ⟨objs, hto, rfl⟩
  · rfl
  · by_cases hmt : m = toName
    · subst hmt
      have hf : f ≠ fieldName := by
        rcases hc with hc | hc
        · exact absurd rfl hc
        · exact hc
      unfold fieldView
      rw [objsOf_aset_self]
      have hobjs : objsOf d m = objs := by simp [objsOf, hto]
      rw [hobjs, List.map_map]
      apply List.map_congr_left
      intro o _
      simp only [Function.comp, setField]
      exact alook_aset_ne _ _ _ _ hf
    · unfold fieldView
      rw [objsOf_aset_ne _ _ _ _ hmt]

theorem m2mView_rf (frt2 : FieldRegist) (d2 : DoDict)
    (h : register_field toName fromName fieldName frt d = some (frt2, d2)) (m g : String) :
    m2mView d2 m g = m2mView d m g := by
  rcases register_field_some_elim toName fromName fieldName frt d frt2 d2 h with
    ⟨_, _, rfl⟩ | ⟨objs, hto, rfl⟩
  · rfl
  · by_cases hmt : m = toName
    · subst hmt
      unfold m2mView
      rw [objsOf_aset_self]
      have hobjs : objsOf d m = objs := by simp [objsOf, hto]
      rw [hobjs, List.map_map]
      rfl
    · unfold m2mView
      rw [objsOf_aset_ne _ _ _ _ hmt]

end RegisterLemmas

/-- Step 2 only reassigns pks: the field values of a model's objects are
untouched. -/
theorem step2Objs_fields_map (meta : List (String × Bool)) (dedupe : Bool)
    (curs : List Record) (f : String) :
    ∀ (objs : List DesObj) (npk : Int) (tbl : List (Int × Int)),
      ((step2Objs meta dedupe curs npk tbl objs).1).map (fun o => alook o.object.fields f)
        = objs.map (fun o => alook o.object.fields f) := by
  intro objs
  induction objs with
  | nil => intro npk tbl; simp [step2Objs]
  | cons obj rest ih =>
      intro npk tbl
      by_cases h : dedB meta dedupe curs obj = true
      · rw [step2Objs_cons_ded meta dedupe curs npk tbl obj rest h]
        simp [ih]
      · rw [step2Objs_cons_new meta dedupe curs npk tbl obj rest (by simpa using h)]
        simp [ih]

/-- Step 2 only reassigns pks: the m2m data of a model's objects is
untouched. -/
theorem step2Objs_m2m_map (meta : List (String × Bool)) (dedupe : Bool)
    (curs : List Record) (g : String) :
    ∀ (objs : List DesObj) (npk : Int) (tbl : List (Int × Int)),
      ((step2Objs meta dedupe curs npk tbl objs).1).map (fun o => alook o.m2m_data g)
        = objs.map (fun o => alook o.m2m_data g) := by
  intro objs
  induction objs with
  | nil => intro npk tbl; simp [step2Objs]
  | cons obj rest ih =>
      intro npk tbl
      by_cases h : dedB meta dedupe curs obj = true
      · rw [step2Objs_cons_ded meta dedupe curs npk tbl obj rest h]
        simp [ih]
      · rw [step2Objs_cons_new meta dedupe curs npk tbl obj rest (by simpa using h)]
        simp [ih]

theorem step2_alook_none (env : Env) (db : DB) (dod : DoDict) (m : String)
    (h : alook dod m = none) :
    alook (step2 env db dod).1 m = none ∧ alook (step2 env db dod).2 m = none := by
  induction dod with
  | nil => exact ⟨rfl, rfl⟩
  | cons kv rest ih =>
      obtain ⟨k, vs⟩ := kv
      by_cases hk : k = m
      · subst hk
        simp [alook] at h
      · simp only [alook, if_neg hk] at h
        obtain ⟨h1, h2⟩ := ih h
        constructor
        · simpa [step2, alook, step2Key, hk] using h1
        · simpa [step2, alook, step2Key, hk] using h2

theorem step2_fieldView (env : Env) (db : DB) (dod : DoDict) (m f : String) :
    fieldView (step2 env db dod).1 m f = fieldView dod m f := by
  cases h : alook dod m with
  | none =>
      unfold fieldView objsOf
      rw [h, (step2_alook_none env db dod m h).1]
  | some objs =>
      unfold fieldView objsOf
      rw [h, (step2_alook env db dod m objs h).1]
      simp only [Option.getD_some]
      exact step2Objs_fields_map _ _ _ f objs 0 []

theorem step2_m2mView (env : Env) (db : DB) (dod : DoDict) (m g : String) :
    m2mView (step2 env db dod).1 m g = m2mView dod m g := by
  cases h : alook dod m with
  | none =>
      unfold m2mView objsOf
      rw [h, (step2_alook_none env db dod m h).1]
  | some objs =>
      unfold m2mView objsOf
      rw [h, (step2_alook env db dod m objs h).1]
      simp only [Option.getD_some]
      exact step2Objs_m2m_map _ _ _ g objs 0 []

/-- Every imported pk of a model appearing in the document has an entry
in the translation table Step 2 builds. -/
theorem step2_tbl_lookup_some (env : Env) (db : DB) (dod : DoDict)
    (fromName : String) (v : Int)
    (h : (importedPks dod fromName).contains v = true) :
    (tblLookup (step2 env db dod).2 fromName v).isSome := by
  have hv : v ∈ importedPks dod fromName := List.mem_of_elem_eq_true h
  obtain ⟨o, ho, hpk⟩ := List.mem_map.mp hv
  cases hl : alook dod fromName with
  | none =>
      unfold importedPks objsOf at hv
      rw [hl] at hv
      simp at hv
  | some objs =>
      have hobjs : objsOf dod fromName = objs := by simp [objsOf, hl]
      rw [hobjs] at ho
      obtain ⟨_, h2⟩ := step2_alook env db dod fromName objs hl
      unfold tblLookup
      rw [h2]
      simp only [Option.some_bind]
      rw [← hpk]
      exact step2Objs_tbl_domain _ _ _ objs 0 [] o ho

/-- Bridge: a document-level FK precondition yields the `_update_field`
call precondition against the Step 2 outputs. -/
theorem fieldCallOk_of_refs (env : Env) (db : DB) (dod : DoDict)
    (toName fieldName fromName : String)
    (h : fieldRefsOk dod toName fieldName fromName = true) :
    fieldCallOkV (step2 env db dod).2 fromName
      (fieldView (step2 env db dod).1 toName fieldName) = true := by
  rw [step2_fieldView]
  unfold fieldRefsOk at h
  unfold fieldCallOkV
  rw [List.all_eq_true] at h ⊢
  intro x hx
  have hh := h x hx
  unfold fieldOkE
  cases x with
  | none => cases hh
  | some v0 =>
      cases v0 with
      | int v => exact step2_tbl_lookup_some env db dod fromName v hh
      | str s => cases hh
      | null => cases hh

/-- Bridge: a document-level m2m precondition yields the `_update_m2m` /
`_register_m2m` call precondition against the Step 2 outputs. -/
theorem m2mCallOk_of_refs (env : Env) (db : DB) (dod : DoDict)
    (toName m2mName fromName : String)
    (h : m2mRefsOk dod toName m2mName fromName = true) :
    m2mCallOkV (step2 env db dod).2 fromName
      (m2mView (step2 env db dod).1 toName m2mName) = true := by
  rw [step2_m2mView]
  unfold m2mRefsOk at h
  unfold m2mCallOkV
  rw [List.all_eq_true] at h ⊢
  intro x hx
  have hh := h x hx
  unfold m2mOkE
  cases x with
  | none => cases hh
  | some lns =>
      rw [List.all_eq_true] at hh ⊢
      intro ln hln
      exact step2_tbl_lookup_some env db dod fromName ln (hh ln hln)

theorem batch_update_field_nil (tbl : TransTbl) (fromName fieldName : String)
    (d : DoDict) : batch_update_field tbl [] fromName fieldName d = some d := rfl

theorem batch_update_field_cons (tbl : TransTbl) (t : String) (ts : List String)
    (fromName fieldName : String) (d : DoDict) :
    batch_update_field tbl (t :: ts) fromName fieldName d
      = (update_field tbl t fromName fieldName d).bind
          (fun d2 => batch_update_field tbl ts fromName fieldName d2) := by
  simp [batch_update_field, List.foldlM_cons]

/-- Failing input for C4: an import document with one user and two
projects carrying the same unique title.  The second project's save
raises IntegrityError. -/
def c4env : Env :=
  ⟨[("project.project", [("title", true)]), ("auth.user", [("username", true)])]⟩

def c4dod : DoDict :=
  [("auth.user", [⟨⟨"auth.user", 5, [("username", Val.str "u")], []⟩, [("groups", [])]⟩]),
   ("project.project",
     [⟨⟨"project.project", 10, [("title", Val.str "P"), ("pi_id", Val.int 5)], []⟩, []⟩,
      ⟨⟨"project.project", 11, [("title", Val.str "P"), ("pi_id", Val.int 5)], []⟩, []⟩])]

/-- C4: the retry documented in the save pass never happens.  The
`resave_proj` flag is false on every input, because
`isinstance(obj, Project)` tests the `DeserializedObject` wrapper and
not the wrapped model instance; at the concrete failing input the second
project's save raises IntegrityError, yet the import finishes with a
single project row and no second save attempt. -/
theorem C4_no_retry_on_integrity_error :
    (∀ (env : Env) (db : DB) (dod : DoDict), (step4 env db dod).2 = false) ∧
    ((importPost c4env [] true (.ok c4dod)).map
        (fun r => ((r.db.filter (fun x => x.model = "project.project")).length, r.redirect))
      = some (1, "project-list")) :=
  ⟨fun env db dod => step4_flag env db dod, by decide⟩

/-- Inputs for the C2 counterexample: the database holds user alice
(pk 3) and her profile (unique `user_id` 3); the document holds a
different user bob under imported pk 3 and bob's profile with imported
`user_id` 3.  The profile is deduplicated against alice's profile, but
after the FK rewrite its `user_id` points at bob's fresh pk, so its save
violates no constraint and inserts a new row. -/
def c2xenv : Env :=
  ⟨[("auth.user", [("username", true)]), ("user.userprofile", [("user_id", true)])]⟩

def c2xdb : DB :=
  [⟨"auth.user", 3, [("username", Val.str "alice")], []⟩,
   ⟨"user.userprofile", 7, [("user_id", Val.int 3)], []⟩]

def c2xprof : DesObj := ⟨⟨"user.userprofile", 12, [("user_id", Val.int 3)], []⟩, []⟩

def c2xdod : DoDict :=
  [("auth.user", [⟨⟨"auth.user", 3, [("username", Val.str "bob")], []⟩, [("groups", [])]⟩]),
   ("user.userprofile", [c2xprof])]

/-- C2 (counterexample): the imported profile satisfies the claim's
dedup condition — its model is not in `duplicate_model_keys` and an
existing profile matches it on the unique field `user_id` — and is
marked as a duplicate (`isDedupedB`), yet the import pipeline inserts
it: the database starts with one `user.userprofile` row and finishes
with two.  So a deduplicated record is not always "not inserted". -/
theorem C2_dedup_record_inserted_counterexample :
    isDedupedB c2xenv c2xdb "user.userprofile" c2xprof = true ∧
    (c2xdb.filter (fun r => r.model = "user.userprofile")).length = 1 ∧
    (importPost c2xenv c2xdb true (.ok c2xdod)).map
        (fun r => (r.db.filter (fun x => x.model = "user.userprofile")).length)
      = some 2 :=
  ⟨by decide, by decide, by decide⟩

/-- C6: under the precondition that every foreign-key and many-to-many
reference occurring in the uploaded import document refers to a pk
appearing among the document's objects of the referenced model (and that
the rewritten fields and m2m lists are present on the objects, as the
deserializer guarantees), every translation-table lookup performed by
the field- and many-to-many-rewriting steps succeeds: Step 3 completes
without reaching a KeyError. -/
theorem C6_translation_lookups_succeed
    (env : Env) (db : DB) (dod : DoDict)
    (h1 : fieldRefsOk dod "project.project" "pi_id" "auth.user" = true)
    (h2 : fieldPresentOk dod "resource.resource" "parent_resource_id" = true)
    (h3 : m2mRefsOk dod "resource.resource" "linked_resources" "resource.resource" = true)
    (h4 : m2mRefsOk dod "auth.user" "groups" "auth.group" = true)
    (h5 : fieldRefsOk dod "user.userprofile" "user_id" "auth.user" = true)
    (h6 : m2mRefsOk dod "resource.resource" "allowed_users" "auth.user" = true)
    (h7 : m2mRefsOk dod "resource.resource" "allowed_groups" "auth.group" = true)
    (h8 : m2mRefsOk dod "allocation.allocation" "resources" "resource.resource" = true)
    (h9 : fieldRefsOk dod "allocation.allocationuser" "user_id" "auth.user" = true)
    (h10 : fieldRefsOk dod "allocation.allocationuser" "allocation_id" "allocation.allocation" = true)
    (h11 : fieldRefsOk dod "allocation.allocationchangerequest" "allocation_id" "allocation.allocation" = true)
    (h12 : fieldRefsOk dod "allocation.allocationattribute" "allocation_id" "allocation.allocation" = true)
    (h13 : fieldRefsOk dod "allocation.allocationadminnote" "allocation_id" "allocation.allocation" = true)
    (h14 : fieldRefsOk dod "allocation.allocationusernote" "allocation_id" "allocation.allocation" = true)
    (h15 : fieldRefsOk dod "allocation.allocationadminnote" "author_id" "auth.user" = true)
    (h16 : fieldRefsOk dod "allocation.allocationusernote" "author_id" "auth.user" = true)
    (h17 : fieldRefsOk dod "project.projectuser" "project_id" "project.project" = true)
    (h18 : fieldRefsOk dod "allocation.allocation" "project_id" "project.project" = true)
    (h19 : fieldRefsOk dod "publication.publication" "project_id" "project.project" = true)
    (h20 : fieldRefsOk dod "grant.grant" "project_id" "project.project" = true)
    (h21 : fieldRefsOk dod "project.projectadmincomment" "project_id" "project.project" = true)
    (h22 : fieldRefsOk dod "project.projectusermessage" "project_id" "project.project" = true)
    (h23 : fieldRefsOk dod "project.projectreview" "project_id" "project.project" = true)
    (h24 : fieldRefsOk dod "research_output.researchoutput" "project_id" "project.project" = true) :
    ∃ out, step3 (step2 env db dod).2 (step2 env db dod).1 = some out := by
  have k1_0 := fieldCallOk_of_refs env db dod "project.project" "pi_id" "auth.user" h1
  have k2_0 : (fieldView (step2 env db dod).1 "resource.resource" "parent_resource_id").all (fun x => x.isSome) = true := by
    rw [step2_fieldView]
    exact h2
  have k3_0 := m2mCallOk_of_refs env db dod "resource.resource" "linked_resources" "resource.resource" h3
  have k4_0 := m2mCallOk_of_refs env db dod "auth.user" "groups" "auth.group" h4
  have k5_0 := fieldCallOk_of_refs env db dod "user.userprofile" "user_id" "auth.user" h5
  have k6_0 := m2mCallOk_of_refs env db dod "resource.resource" "allowed_users" "auth.user" h6
  have k7_0 := m2mCallOk_of_refs env db dod "resource.resource" "allowed_groups" "auth.group" h7
  have k8_0 := m2mCallOk_of_refs env db dod "allocation.allocation" "resources" "resource.resource" h8
  have k9_0 := fieldCallOk_of_refs env db dod "allocation.allocationuser" "user_id" "auth.user" h9
  have k10_0 := fieldCallOk_of_refs env db dod "allocation.allocationuser" "allocation_id" "allocation.allocation" h10
  have k11_0 := fieldCallOk_of_refs env db dod "allocation.allocationchangerequest" "allocation_id" "allocation.allocation" h11
  have k12_0 := fieldCallOk_of_refs env db dod "allocation.allocationattribute" "allocation_id" "allocation.allocation" h12
  have k13_0 := fieldCallOk_of_refs env db dod "allocation.allocationadminnote" "allocation_id" "allocation.allocation" h13
  have k14_0 := fieldCallOk_of_refs env db dod "allocation.allocationusernote" "allocation_id" "allocation.allocation" h14
  have k15_0 := fieldCallOk_of_refs env db dod "allocation.allocationadminnote" "author_id" "auth.user" h15
  have k16_0 := fieldCallOk_of_refs env db dod "allocation.allocationusernote" "author_id" "auth.user" h16
  have k17_0 := fieldCallOk_of_refs env db dod "project.projectuser" "project_id" "project.project" h17
  have k18_0 := fieldCallOk_of_refs env db dod "allocation.allocation" "project_id" "project.project" h18
  have k19_0 := fieldCallOk_of_refs env db dod "publication.publication" "project_id" "project.project" h19
  have k20_0 := fieldCallOk_of_refs env db dod "grant.grant" "project_id" "project.project" h20
  have k21_0 := fieldCallOk_of_refs env db dod "project.projectadmincomment" "project_id" "project.project" h21
  have k22_0 := fieldCallOk_of_refs env db dod "project.projectusermessage" "project_id" "project.project" h22
  have k23_0 := fieldCallOk_of_refs env db dod "project.projectreview" "project_id" "project.project" h23
  have k24_0 := fieldCallOk_of_refs env db dod "research_output.researchoutput" "project_id" "project.project" h24
  obtain ⟨d1, e1⟩ := update_field_total (step2 env db dod).2 "project.project" "auth.user" "pi_id" (step2 env db dod).1 k1_0
  have k2_1 : (fieldView d1 "resource.resource" "parent_resource_id").all (fun x => x.isSome) = true := by
    rw [fieldView_uf_ne (step2 env db dod).2 "project.project" "auth.user" "pi_id" (step2 env db dod).1 d1 e1 "resource.resource" "parent_resource_id" (Or.inl (by decide))]
    exact k2_0
  have k3_1 : m2mCallOkV (step2 env db dod).2 "resource.resource" (m2mView d1 "resource.resource" "linked_resources") = true := by
    rw [m2mView_uf (step2 env db dod).2 "project.project" "auth.user" "pi_id" (step2 env db dod).1 d1 e1 "resource.resource" "linked_resources"]
    exact k3_0
  have k4_1 : m2mCallOkV (step2 env db dod).2 "auth.group" (m2mView d1 "auth.user" "groups") = true := by
    rw [m2mView_uf (step2 env db dod).2 "project.project" "auth.user" "pi_id" (step2 env db dod).1 d1 e1 "auth.user" "groups"]
    exact k4_0
  have k5_1 : fieldCallOkV (step2 env db dod).2 "auth.user" (fieldView d1 "user.userprofile" "user_id") = true := by
    rw [fieldView_uf_ne (step2 env db dod).2 "project.project" "auth.user" "pi_id" (step2 env db dod).1 d1 e1 "user.userprofile" "user_id" (Or.inl (by decide))]
    exact k5_0
  have k6_1 : m2mCallOkV (step2 env db dod).2 "auth.user" (m2mView d1 "resource.resource" "allowed_users") = true := by
    rw [m2mView_uf (step2 env db dod).2 "project.project" "auth.user" "pi_id" (step2 env db dod).1 d1 e1 "resource.resource" "allowed_users"]
    exact k6_0
  have k7_1 : m2mCallOkV (step2 env db dod).2 "auth.group" (m2mView d1 "resource.resource" "allowed_groups") = true := by
    rw [m2mView_uf (step2 env db dod).2 "project.project" "auth.user" "pi_id" (step2 env db dod).1 d1 e1 "resource.resource" "allowed_groups"]
    exact k7_0
  have k8_1 : m2mCallOkV (step2 env db dod).2 "resource.resource" (m2mView d1 "allocation.allocation" "resources") = true := by
    rw [m2mView_uf (step2 env db dod).2 "project.project" "auth.user" "pi_id" (step2 env db dod).1 d1 e1 "allocation.allocation" "resources"]
    exact k8_0
  have k9_1 : fieldCallOkV (step2 env db dod).2 "auth.user" (fieldView d1 "allocation.allocationuser" "user_id") = true := by
    rw [fieldView_uf_ne (step2 env db dod).2 "project.project" "auth.user" "pi_id" (step2 env db dod).1 d1 e1 "allocation.allocationuser" "user_id" (Or.inl (by decide))]
    exact k9_0
  have k10_1 : fieldCallOkV (step2 env db dod).2 "allocation.allocation" (fieldView d1 "allocation.allocationuser" "allocation_id") = true := by
    rw [fieldView_uf_ne (step2 env db dod).2 "project.project" "auth.user" "pi_id" (step2 env db dod).1 d1 e1 "allocation.allocationuser" "allocation_id" (Or.inl (by decide))]
    exact k10_0
  have k11_1 : fieldCallOkV (step2 env db dod).2 "allocation.allocation" (fieldView d1 "allocation.allocationchangerequest" "allocation_id") = true := by
    rw [fieldView_uf_ne (step2 env db dod).2 "project.project" "auth.user" "pi_id" (step2 env db dod).1 d1 e1 "allocation.allocationchangerequest" "allocation_id" (Or.inl (by decide))]
    exact k11_0
  have k12_1 : fieldCallOkV (step2 env db dod).2 "allocation.allocation" (fieldView d1 "allocation.allocationattribute" "allocation_id") = true := by
    rw [fieldView_uf_ne (step2 env db dod).2 "project.project" "auth.user" "pi_id" (step2 env db dod).1 d1 e1 "allocation.allocationattribute" "allocation_id" (Or.inl (by decide))]
    exact k12_0
  have k13_1 : fieldCallOkV (step2 env db dod).2 "allocation.allocation" (fieldView d1 "allocation.allocationadminnote" "allocation_id") = true := by
    rw [fieldView_uf_ne (step2 env db dod).2 "project.project" "auth.user" "pi_id" (step2 env db dod).1 d1 e1 "allocation.allocationadminnote" "allocation_id" (Or.inl (by decide))]
    exact k13_0
  have k14_1 : fieldCallOkV (step2 env db dod).2 "allocation.allocation" (fieldView d1 "allocation.allocationusernote" "allocation_id") = true := by
    rw [fieldView_uf_ne (step2 env db dod).2 "project.project" "auth.user" "pi_id" (step2 env db dod).1 d1 e1 "allocation.allocationusernote" "allocation_id" (Or.inl (by decide))]
    exact k14_0
  have k15_1 : fieldCallOkV (step2 env db dod).2 "auth.user" (fieldView d1 "allocation.allocationadminnote" "author_id") = true := by
    rw [fieldView_uf_ne (step2 env db dod).2 "project.project" "auth.user" "pi_id" (step2 env db dod).1 d1 e1 "allocation.allocationadminnote" "author_id" (Or.inl (by decide))]
    exact k15_0
  have k16_1 : fieldCallOkV (step2 env db dod).2 "auth.user" (fieldView d1 "allocation.allocationusernote" "author_id") = true := by
    rw [fieldView_uf_ne (step2 env db dod).2 "project.project" "auth.user" "pi_id" (step2 env db dod).1 d1 e1 "allocation.allocationusernote" "author_id" (Or.inl (by decide))]
    exact k16_0
  have k17_1 : fieldCallOkV (step2 env db dod).2 "project.project" (fieldView d1 "project.projectuser" "project_id") = true := by
    rw [fieldView_uf_ne (step2 env db dod).2 "project.project" "auth.user" "pi_id" (step2 env db dod).1 d1 e1 "project.projectuser" "project_id" (Or.inl (by decide))]
    exact k17_0
  have k18_1 : fieldCallOkV (step2 env db dod).2 "project.project" (fieldView d1 "allocation.allocation" "project_id") = true := by
    rw [fieldView_uf_ne (step2 env db dod).2 "project.project" "auth.user" "pi_id" (step2 env db dod).1 d1 e1 "allocation.allocation" "project_id" (Or.inl (by decide))]
    exact k18_0
  have k19_1 : fieldCallOkV (step2 env db dod).2 "project.project" (fieldView d1 "publication.publication" "project_id") = true := by
    rw [fieldView_uf_ne (step2 env db dod).2 "project.project" "auth.user" "pi_id" (step2 env db dod).1 d1 e1 "publication.publication" "project_id" (Or.inl (by decide))]
    exact k19_0
  have k20_1 : fieldCallOkV (step2 env db dod).2 "project.project" (fieldView d1 "grant.grant" "project_id") = true := by
    rw [fieldView_uf_ne (step2 env db dod).2 "project.project" "auth.user" "pi_id" (step2 env db dod).1 d1 e1 "grant.grant" "project_id" (Or.inl (by decide))]
    exact k20_0
  have k21_1 : fieldCallOkV (step2 env db dod).2 "project.project" (fieldView d1 "project.projectadmincomment" "project_id") = true := by
    rw [fieldView_uf_ne (step2 env db dod).2 "project.project" "auth.user" "pi_id" (step2 env db dod).1 d1 e1 "project.projectadmincomment" "project_id" (Or.inl (by decide))]
    exact k21_0
  have k22_1 : fieldCallOkV (step2 env db dod).2 "project.project" (fieldView d1 "project.projectusermessage" "project_id") = true := by
    rw [fieldView_uf_ne (step2 env db dod).2 "project.project" "auth.user" "pi_id" (step2 env db dod).1 d1 e1 "project.projectusermessage" "project_id" (Or.inl (by decide))]
    exact k22_0
  have k23_1 : fieldCallOkV (step2 env db dod).2 "project.project" (fieldView d1 "project.projectreview" "project_id") = true := by
    rw [fieldView_uf_ne (step2 env db dod).2 "project.project" "auth.user" "pi_id" (step2 env db dod).1 d1 e1 "project.projectreview" "project_id" (Or.inl (by decide))]
    exact k23_0
  have k24_1 : fieldCallOkV (step2 env db dod).2 "project.project" (fieldView d1 "research_output.researchoutput" "project_id") = true := by
    rw [fieldView_uf_ne (step2 env db dod).2 "project.project" "auth.user" "pi_id" (step2 env db dod).1 d1 e1 "research_output.researchoutput" "project_id" (Or.inl (by decide))]
    exact k24_0
  obtain ⟨frA, d2, e2⟩ := register_field_total "resource.resource" "resource.resource" "parent_resource_id" [] d1 k2_1
  have k3_2 : m2mCallOkV (step2 env db dod).2 "resource.resource" (m2mView d2 "resource.resource" "linked_resources") = true := by
    rw [m2mView_rf "resource.resource" "resource.resource" "parent_resource_id" [] d1 frA d2 e2 "resource.resource" "linked_resources"]
    exact k3_1
  have k4_2 : m2mCallOkV (step2 env db dod).2 "auth.group" (m2mView d2 "auth.user" "groups") = true := by
    rw [m2mView_rf "resource.resource" "resource.resource" "parent_resource_id" [] d1 frA d2 e2 "auth.user" "groups"]
    exact k4_1
  have k5_2 : fieldCallOkV (step2 env db dod).2 "auth.user" (fieldView d2 "user.userprofile" "user_id") = true := by
    rw [fieldView_rf_ne "resource.resource" "resource.resource" "parent_resource_id" [] d1 frA d2 e2 "user.userprofile" "user_id" (Or.inl (by decide))]
    exact k5_1
  have k6_2 : m2mCallOkV (step2 env db dod).2 "auth.user" (m2mView d2 "resource.resource" "allowed_users") = true := by
    rw [m2mView_rf "resource.resource" "resource.resource" "parent_resource_id" [] d1 frA d2 e2 "resource.resource" "allowed_users"]
    exact k6_1
  have k7_2 : m2mCallOkV (step2 env db dod).2 "auth.group" (m2mView d2 "resource.resource" "allowed_groups") = true := by
    rw [m2mView_rf "resource.resource" "resource.resource" "parent_resource_id" [] d1 frA d2 e2 "resource.resource" "allowed_groups"]
    exact k7_1
  have k8_2 : m2mCallOkV (step2 env db dod).2 "resource.resource" (m2mView d2 "allocation.allocation" "resources") = true := by
    rw [m2mView_rf "resource.resource" "resource.resource" "parent_resource_id" [] d1 frA d2 e2 "allocation.allocation" "resources"]
    exact k8_1
  have k9_2 : fieldCallOkV (step2 env db dod).2 "auth.user" (fieldView d2 "allocation.allocationuser" "user_id") = true := by
    rw [fieldView_rf_ne "resource.resource" "resource.resource" "parent_resource_id" [] d1 frA d2 e2 "allocation.allocationuser" "user_id" (Or.inl (by decide))]
    exact k9_1
  have k10_2 : fieldCallOkV (step2 env db dod).2 "allocation.allocation" (fieldView d2 "allocation.allocationuser" "allocation_id") = true := by
    rw [fieldView_rf_ne "resource.resource" "resource.resource" "parent_resource_id" [] d1 frA d2 e2 "allocation.allocationuser" "allocation_id" (Or.inl (by decide))]
    exact k10_1
  have k11_2 : fieldCallOkV (step2 env db dod).2 "allocation.allocation" (fieldView d2 "allocation.allocationchangerequest" "allocation_id") = true := by
    rw [fieldView_rf_ne "resource.resource" "resource.resource" "parent_resource_id" [] d1 frA d2 e2 "allocation.allocationchangerequest" "allocation_id" (Or.inl (by decide))]
    exact k11_1
  have k12_2 : fieldCallOkV (step2 env db dod).2 "allocation.allocation" (fieldView d2 "allocation.allocationattribute" "allocation_id") = true := by
    rw [fieldView_rf_ne "resource.resource" "resource.resource" "parent_resource_id" [] d1 frA d2 e2 "allocation.allocationattribute" "allocation_id" (Or.inl (by decide))]
    exact k12_1
  have k13_2 : fieldCallOkV (step2 env db dod).2 "allocation.allocation" (fieldView d2 "allocation.allocationadminnote" "allocation_id") = true := by
    rw [fieldView_rf_ne "resource.resource" "resource.resource" "parent_resource_id" [] d1 frA d2 e2 "allocation.allocationadminnote" "allocation_id" (Or.inl (by decide))]
    exact k13_1
  have k14_2 : fieldCallOkV (step2 env db dod).2 "allocation.allocation" (fieldView d2 "allocation.allocationusernote" "allocation_id") = true := by
    rw [fieldView_rf_ne "resource.resource" "resource.resource" "parent_resource_id" [] d1 frA d2 e2 "allocation.allocationusernote" "allocation_id" (Or.inl (by decide))]
    exact k14_1
  have k15_2 : fieldCallOkV (step2 env db dod).2 "auth.user" (fieldView d2 "allocation.allocationadminnote" "author_id") = true := by
    rw [fieldView_rf_ne "resource.resource" "resource.resource" "parent_resource_id" [] d1 frA d2 e2 "allocation.allocationadminnote" "author_id" (Or.inl (by decide))]
    exact k15_1
  have k16_2 : fieldCallOkV (step2 env db dod).2 "auth.user" (fieldView d2 "allocation.allocationusernote" "author_id") = true := by
    rw [fieldView_rf_ne "resource.resource" "resource.resource" "parent_resource_id" [] d1 frA d2 e2 "allocation.allocationusernote" "author_id" (Or.inl (by decide))]
    exact k16_1
  have k17_2 : fieldCallOkV (step2 env db dod).2 "project.project" (fieldView d2 "project.projectuser" "project_id") = true := by
    rw [fieldView_rf_ne "resource.resource" "resource.resource" "parent_resource_id" [] d1 frA d2 e2 "project.projectuser" "project_id" (Or.inl (by decide))]
    exact k17_1
  have k18_2 : fieldCallOkV (step2 env db dod).2 "project.project" (fieldView d2 "allocation.allocation" "project_id") = true := by
    rw [fieldView_rf_ne "resource.resource" "resource.resource" "parent_resource_id" [] d1 frA d2 e2 "allocation.allocation" "project_id" (Or.inl (by decide))]
    exact k18_1
  have k19_2 : fieldCallOkV (step2 env db dod).2 "project.project" (fieldView d2 "publication.publication" "project_id") = true := by
    rw [fieldView_rf_ne "resource.resource" "resource.resource" "parent_resource_id" [] d1 frA d2 e2 "publication.publication" "project_id" (Or.inl (by decide))]
    exact k19_1
  have k20_2 : fieldCallOkV (step2 env db dod).2 "project.project" (fieldView d2 "grant.grant" "project_id") = true := by
    rw [fieldView_rf_ne "resource.resource" "resource.resource" "parent_resource_id" [] d1 frA d2 e2 "grant.grant" "project_id" (Or.inl (by decide))]
    exact k20_1
  have k21_2 : fieldCallOkV (step2 env db dod).2 "project.project" (fieldView d2 "project.projectadmincomment" "project_id") = true := by
    rw [fieldView_rf_ne "resource.resource" "resource.resource" "parent_resource_id" [] d1 frA d2 e2 "project.projectadmincomment" "project_id" (Or.inl (by decide))]
    exact k21_1
  have k22_2 : fieldCallOkV (step2 env db dod).2 "project.project" (fieldView d2 "project.projectusermessage" "project_id") = true := by
    rw [fieldView_rf_ne "resource.resource" "resource.resource" "parent_resource_id" [] d1 frA d2 e2 "project.projectusermessage" "project_id" (Or.inl (by decide))]
    exact k22_1
  have k23_2 : fieldCallOkV (step2 env db dod).2 "project.project" (fieldView d2 "project.projectreview" "project_id") = true := by
    rw [fieldView_rf_ne "resource.resource" "resource.resource" "parent_resource_id" [] d1 frA d2 e2 "project.projectreview" "project_id" (Or.inl (by decide))]
    exact k23_1
  have k24_2 : fieldCallOkV (step2 env db dod).2 "project.project" (fieldView d2 "research_output.researchoutput" "project_id") = true := by
    rw [fieldView_rf_ne "resource.resource" "resource.resource" "parent_resource_id" [] d1 frA d2 e2 "research_output.researchoutput" "project_id" (Or.inl (by decide))]
    exact k24_1
  obtain ⟨mrA, d3, e3⟩ := register_m2m_total (step2 env db dod).2 "resource.resource" "resource.resource" "linked_resources" [] d2 k3_2
  have k4_3 : m2mCallOkV (step2 env db dod).2 "auth.group" (m2mView d3 "auth.user" "groups") = true := by
    rw [m2mView_rm_ne (step2 env db dod).2 "resource.resource" "resource.resource" "linked_resources" [] d2 mrA d3 e3 "auth.user" "groups" (Or.inl (by decide))]
    exact k4_2
  have k5_3 : fieldCallOkV (step2 env db dod).2 "auth.user" (fieldView d3 "user.userprofile" "user_id") = true := by
    rw [fieldView_rm (step2 env db dod).2 "resource.resource" "resource.resource" "linked_resources" [] d2 mrA d3 e3 "user.userprofile" "user_id"]
    exact k5_2
  have k6_3 : m2mCallOkV (step2 env db dod).2 "auth.user" (m2mView d3 "resource.resource" "allowed_users") = true := by
    rw [m2mView_rm_ne (step2 env db dod).2 "resource.resource" "resource.resource" "linked_resources" [] d2 mrA d3 e3 "resource.resource" "allowed_users" (Or.inr (by decide))]
    exact k6_2
  have k7_3 : m2mCallOkV (step2 env db dod).2 "auth.group" (m2mView d3 "resource.resource" "allowed_groups") = true := by
    rw [m2mView_rm_ne (step2 env db dod).2 "resource.resource" "resource.resource" "linked_resources" [] d2 mrA d3 e3 "resource.resource" "allowed_groups" (Or.inr (by decide))]
    exact k7_2
  have k8_3 : m2mCallOkV (step2 env db dod).2 "resource.resource" (m2mView d3 "allocation.allocation" "resources") = true := by
    rw [m2mView_rm_ne (step2 env db dod).2 "resource.resource" "resource.resource" "linked_resources" [] d2 mrA d3 e3 "allocation.allocation" "resources" (Or.inl (by decide))]
    exact k8_2
  have k9_3 : fieldCallOkV (step2 env db dod).2 "auth.user" (fieldView d3 "allocation.allocationuser" "user_id") = true := by
    rw [fieldView_rm (step2 env db dod).2 "resource.resource" "resource.resource" "linked_resources" [] d2 mrA d3 e3 "allocation.allocationuser" "user_id"]
    exact k9_2
  have k10_3 : fieldCallOkV (step2 env db dod).2 "allocation.allocation" (fieldView d3 "allocation.allocationuser" "allocation_id") = true := by
    rw [fieldView_rm (step2 env db dod).2 "resource.resource" "resource.resource" "linked_resources" [] d2 mrA d3 e3 "allocation.allocationuser" "allocation_id"]
    exact k10_2
  have k11_3 : fieldCallOkV (step2 env db dod).2 "allocation.allocation" (fieldView d3 "allocation.allocationchangerequest" "allocation_id") = true := by
    rw [fieldView_rm (step2 env db dod).2 "resource.resource" "resource.resource" "linked_resources" [] d2 mrA d3 e3 "allocation.allocationchangerequest" "allocation_id"]
    exact k11_2
  have k12_3 : fieldCallOkV (step2 env db dod).2 "allocation.allocation" (fieldView d3 "allocation.allocationattribute" "allocation_id") = true := by
    rw [fieldView_rm (step2 env db dod).2 "resource.resource" "resource.resource" "linked_resources" [] d2 mrA d3 e3 "allocation.allocationattribute" "allocation_id"]
    exact k12_2
  have k13_3 : fieldCallOkV (step2 env db dod).2 "allocation.allocation" (fieldView d3 "allocation.allocationadminnote" "allocation_id") = true := by
    rw [fieldView_rm (step2 env db dod).2 "resource.resource" "resource.resource" "linked_resources" [] d2 mrA d3 e3 "allocation.allocationadminnote" "allocation_id"]
    exact k13_2
  have k14_3 : fieldCallOkV (step2 env db dod).2 "allocation.allocation" (fieldView d3 "allocation.allocationusernote" "allocation_id") = true := by
    rw [fieldView_rm (step2 env db dod).2 "resource.resource" "resource.resource" "linked_resources" [] d2 mrA d3 e3 "allocation.allocationusernote" "allocation_id"]
    exact k14_2
  have k15_3 : fieldCallOkV (step2 env db dod).2 "auth.user" (fieldView d3 "allocation.allocationadminnote" "author_id") = true := by
    rw [fieldView_rm (step2 env db dod).2 "resource.resource" "resource.resource" "linked_resources" [] d2 mrA d3 e3 "allocation.allocationadminnote" "author_id"]
    exact k15_2
  have k16_3 : fieldCallOkV (step2 env db dod).2 "auth.user" (fieldView d3 "allocation.allocationusernote" "author_id") = true := by
    rw [fieldView_rm (step2 env db dod).2 "resource.resource" "resource.resource" "linked_resources" [] d2 mrA d3 e3 "allocation.allocationusernote" "author_id"]
    exact k16_2
  have k17_3 : fieldCallOkV (step2 env db dod).2 "project.project" (fieldView d3 "project.projectuser" "project_id") = true := by
    rw [fieldView_rm (step2 env db dod).2 "resource.resource" "resource.resource" "linked_resources" [] d2 mrA d3 e3 "project.projectuser" "project_id"]
    exact k17_2
  have k18_3 : fieldCallOkV (step2 env db dod).2 "project.project" (fieldView d3 "allocation.allocation" "project_id") = true := by
    rw [fieldView_rm (step2 env db dod).2 "resource.resource" "resource.resource" "linked_resources" [] d2 mrA d3 e3 "allocation.allocation" "project_id"]
    exact k18_2
  have k19_3 : fieldCallOkV (step2 env db dod).2 "project.project" (fieldView d3 "publication.publication" "project_id") = true := by
    rw [fieldView_rm (step2 env db dod).2 "resource.resource" "resource.resource" "linked_resources" [] d2 mrA d3 e3 "publication.publication" "project_id"]
    exact k19_2
  have k20_3 : fieldCallOkV (step2 env db dod).2 "project.project" (fieldView d3 "grant.grant" "project_id") = true := by
    rw [fieldView_rm (step2 env db dod).2 "resource.resource" "resource.resource" "linked_resources" [] d2 mrA d3 e3 "grant.grant" "project_id"]
    exact k20_2
  have k21_3 : fieldCallOkV (step2 env db dod).2 "project.project" (fieldView d3 "project.projectadmincomment" "project_id") = true := by
    rw [fieldView_rm (step2 env db dod).2 "resource.resource" "resource.resource" "linked_resources" [] d2 mrA d3 e3 "project.projectadmincomment" "project_id"]
    exact k21_2
  have k22_3 : fieldCallOkV (step2 env db dod).2 "project.project" (fieldView d3 "project.projectusermessage" "project_id") = true := by
    rw [fieldView_rm (step2 env db dod).2 "resource.resource" "resource.resource" "linked_resources" [] d2 mrA d3 e3 "project.projectusermessage" "project_id"]
    exact k22_2
  have k23_3 : fieldCallOkV (step2 env db dod).2 "project.project" (fieldView d3 "project.projectreview" "project_id") = true := by
    rw [fieldView_rm (step2 env db dod).2 "resource.resource" "resource.resource" "linked_resources" [] d2 mrA d3 e3 "project.projectreview" "project_id"]
    exact k23_2
  have k24_3 : fieldCallOkV (step2 env db dod).2 "project.project" (fieldView d3 "research_output.researchoutput" "project_id") = true := by
    rw [fieldView_rm (step2 env db dod).2 "resource.resource" "resource.resource" "linked_resources" [] d2 mrA d3 e3 "research_output.researchoutput" "project_id"]
    exact k24_2
  obtain ⟨d4, e4⟩ := update_m2m_total (step2 env db dod).2 "auth.user" "auth.group" "groups" d3 k4_3
  have k5_4 : fieldCallOkV (step2 env db dod).2 "auth.user" (fieldView d4 "user.userprofile" "user_id") = true := by
    rw [fieldView_um (step2 env db dod).2 "auth.user" "auth.group" "groups" d3 d4 e4 "user.userprofile" "user_id"]
    exact k5_3
  have k6_4 : m2mCallOkV (step2 env db dod).2 "auth.user" (m2mView d4 "resource.resource" "allowed_users") = true := by
    rw [m2mView_um_ne (step2 env db dod).2 "auth.user" "auth.group" "groups" d3 d4 e4 "resource.resource" "allowed_users" (Or.inl (by decide))]
    exact k6_3
  have k7_4 : m2mCallOkV (step2 env db dod).2 "auth.group" (m2mView d4 "resource.resource" "allowed_groups") = true := by
    rw [m2mView_um_ne (step2 env db dod).2 "auth.user" "auth.group" "groups" d3 d4 e4 "resource.resource" "allowed_groups" (Or.inl (by decide))]
    exact k7_3
  have k8_4 : m2mCallOkV (step2 env db dod).2 "resource.resource" (m2mView d4 "allocation.allocation" "resources") = true := by
    rw [m2mView_um_ne (step2 env db dod).2 "auth.user" "auth.group" "groups" d3 d4 e4 "allocation.allocation" "resources" (Or.inl (by decide))]
    exact k8_3
  have k9_4 : fieldCallOkV (step2 env db dod).2 "auth.user" (fieldView d4 "allocation.allocationuser" "user_id") = true := by
    rw [fieldView_um (step2 env db dod).2 "auth.user" "auth.group" "groups" d3 d4 e4 "allocation.allocationuser" "user_id"]
    exact k9_3
  have k10_4 : fieldCallOkV (step2 env db dod).2 "allocation.allocation" (fieldView d4 "allocation.allocationuser" "allocation_id") = true := by
    rw [fieldView_um (step2 env db dod).2 "auth.user" "auth.group" "groups" d3 d4 e4 "allocation.allocationuser" "allocation_id"]
    exact k10_3
  have k11_4 : fieldCallOkV (step2 env db dod).2 "allocation.allocation" (fieldView d4 "allocation.allocationchangerequest" "allocation_id") = true := by
    rw [fieldView_um (step2 env db dod).2 "auth.user" "auth.group" "groups" d3 d4 e4 "allocation.allocationchangerequest" "allocation_id"]
    exact k11_3
  have k12_4 : fieldCallOkV (step2 env db dod).2 "allocation.allocation" (fieldView d4 "allocation.allocationattribute" "allocation_id") = true := by
    rw [fieldView_um (step2 env db dod).2 "auth.user" "auth.group" "groups" d3 d4 e4 "allocation.allocationattribute" "allocation_id"]
    exact k12_3
  have k13_4 : fieldCallOkV (step2 env db dod).2 "allocation.allocation" (fieldView d4 "allocation.allocationadminnote" "allocation_id") = true := by
    rw [fieldView_um (step2 env db dod).2 "auth.user" "auth.group" "groups" d3 d4 e4 "allocation.allocationadminnote" "allocation_id"]
    exact k13_3
  have k14_4 : fieldCallOkV (step2 env db dod).2 "allocation.allocation" (fieldView d4 "allocation.allocationusernote" "allocation_id") = true := by
    rw [fieldView_um (step2 env db dod).2 "auth.user" "auth.group" "groups" d3 d4 e4 "allocation.allocationusernote" "allocation_id"]
    exact k14_3
  have k15_4 : fieldCallOkV (step2 env db dod).2 "auth.user" (fieldView d4 "allocation.allocationadminnote" "author_id") = true := by
    rw [fieldView_um (step2 env db dod).2 "auth.user" "auth.group" "groups" d3 d4 e4 "allocation.allocationadminnote" "author_id"]
    exact k15_3
  have k16_4 : fieldCallOkV (step2 env db dod).2 "auth.user" (fieldView d4 "allocation.allocationusernote" "author_id") = true := by
    rw [fieldView_um (step2 env db dod).2 "auth.user" "auth.group" "groups" d3 d4 e4 "allocation.allocationusernote" "author_id"]
    exact k16_3
  have k17_4 : fieldCallOkV (step2 env db dod).2 "project.project" (fieldView d4 "project.projectuser" "project_id") = true := by
    rw [fieldView_um (step2 env db dod).2 "auth.user" "auth.group" "groups" d3 d4 e4 "project.projectuser" "project_id"]
    exact k17_3
  have k18_4 : fieldCallOkV (step2 env db dod).2 "project.project" (fieldView d4 "allocation.allocation" "project_id") = true := by
    rw [fieldView_um (step2 env db dod).2 "auth.user" "auth.group" "groups" d3 d4 e4 "allocation.allocation" "project_id"]
    exact k18_3
  have k19_4 : fieldCallOkV (step2 env db dod).2 "project.project" (fieldView d4 "publication.publication" "project_id") = true := by
    rw [fieldView_um (step2 env db dod).2 "auth.user" "auth.group" "groups" d3 d4 e4 "publication.publication" "project_id"]
    exact k19_3
  have k20_4 : fieldCallOkV (step2 env db dod).2 "project.project" (fieldView d4 "grant.grant" "project_id") = true := by
    rw [fieldView_um (step2 env db dod).2 "auth.user" "auth.group" "groups" d3 d4 e4 "grant.grant" "project_id"]
    exact k20_3
  have k21_4 : fieldCallOkV (step2 env db dod).2 "project.project" (fieldView d4 "project.projectadmincomment" "project_id") = true := by
    rw [fieldView_um (step2 env db dod).2 "auth.user" "auth.group" "groups" d3 d4 e4 "project.projectadmincomment" "project_id"]
    exact k21_3
  have k22_4 : fieldCallOkV (step2 env db dod).2 "project.project" (fieldView d4 "project.projectusermessage" "project_id") = true := by
    rw [fieldView_um (step2 env db dod).2 "auth.user" "auth.group" "groups" d3 d4 e4 "project.projectusermessage" "project_id"]
    exact k22_3
  have k23_4 : fieldCallOkV (step2 env db dod).2 "project.project" (fieldView d4 "project.projectreview" "project_id") = true := by
    rw [fieldView_um (step2 env db dod).2 "auth.user" "auth.group" "groups" d3 d4 e4 "project.projectreview" "project_id"]
    exact k23_3
  have k24_4 : fieldCallOkV (step2 env db dod).2 "project.project" (fieldView d4 "research_output.researchoutput" "project_id") = true := by
    rw [fieldView_um (step2 env db dod).2 "auth.user" "auth.group" "groups" d3 d4 e4 "research_output.researchoutput" "project_id"]
    exact k24_3
  obtain ⟨d5, e5⟩ := update_field_total (step2 env db dod).2 "user.userprofile" "auth.user" "user_id" d4 k5_4
  have k6_5 : m2mCallOkV (step2 env db dod).2 "auth.user" (m2mView d5 "resource.resource" "allowed_users") = true := by
    rw [m2mView_uf (step2 env db dod).2 "user.userprofile" "auth.user" "user_id" d4 d5 e5 "resource.resource" "allowed_users"]
    exact k6_4
  have k7_5 : m2mCallOkV (step2 env db dod).2 "auth.group" (m2mView d5 "resource.resource" "allowed_groups") = true := by
    rw [m2mView_uf (step2 env db dod).2 "user.userprofile" "auth.user" "user_id" d4 d5 e5 "resource.resource" "allowed_groups"]
    exact k7_4
  have k8_5 : m2mCallOkV (step2 env db dod).2 "resource.resource" (m2mView d5 "allocation.allocation" "resources") = true := by
    rw [m2mView_uf (step2 env db dod).2 "user.userprofile" "auth.user" "user_id" d4 d5 e5 "allocation.allocation" "resources"]
    exact k8_4
  have k9_5 : fieldCallOkV (step2 env db dod).2 "auth.user" (fieldView d5 "allocation.allocationuser" "user_id") = true := by
    rw [fieldView_uf_ne (step2 env db dod).2 "user.userprofile" "auth.user" "user_id" d4 d5 e5 "allocation.allocationuser" "user_id" (Or.inl (by decide))]
    exact k9_4
  have k10_5 : fieldCallOkV (step2 env db dod).2 "allocation.allocation" (fieldView d5 "allocation.allocationuser" "allocation_id") = true := by
    rw [fieldView_uf_ne (step2 env db dod).2 "user.userprofile" "auth.user" "user_id" d4 d5 e5 "allocation.allocationuser" "allocation_id" (Or.inl (by decide))]
    exact k10_4
  have k11_5 : fieldCallOkV (step2 env db dod).2 "allocation.allocation" (fieldView d5 "allocation.allocationchangerequest" "allocation_id") = true := by
    rw [fieldView_uf_ne (step2 env db dod).2 "user.userprofile" "auth.user" "user_id" d4 d5 e5 "allocation.allocationchangerequest" "allocation_id" (Or.inl (by decide))]
    exact k11_4
  have k12_5 : fieldCallOkV (step2 env db dod).2 "allocation.allocation" (fieldView d5 "allocation.allocationattribute" "allocation_id") = true := by
    rw [fieldView_uf_ne (step2 env db dod).2 "user.userprofile" "auth.user" "user_id" d4 d5 e5 "allocation.allocationattribute" "allocation_id" (Or.inl (by decide))]
    exact k12_4
  have k13_5 : fieldCallOkV (step2 env db dod).2 "allocation.allocation" (fieldView d5 "allocation.allocationadminnote" "allocation_id") = true := by
    rw [fieldView_uf_ne (step2 env db dod).2 "user.userprofile" "auth.user" "user_id" d4 d5 e5 "allocation.allocationadminnote" "allocation_id" (Or.inl (by decide))]
    exact k13_4
  have k14_5 : fieldCallOkV (step2 env db dod).2 "allocation.allocation" (fieldView d5 "allocation.allocationusernote" "allocation_id") = true := by
    rw [fieldView_uf_ne (step2 env db dod).2 "user.userprofile" "auth.user" "user_id" d4 d5 e5 "allocation.allocationusernote" "allocation_id" (Or.inl (by decide))]
    exact k14_4
  have k15_5 : fieldCallOkV (step2 env db dod).2 "auth.user" (fieldView d5 "allocation.allocationadminnote" "author_id") = true := by
    rw [fieldView_uf_ne (step2 env db dod).2 "user.userprofile" "auth.user" "user_id" d4 d5 e5 "allocation.allocationadminnote" "author_id" (Or.inl (by decide))]
    exact k15_4
  have k16_5 : fieldCallOkV (step2 env db dod).2 "auth.user" (fieldView d5 "allocation.allocationusernote" "author_id") = true := by
    rw [fieldView_uf_ne (step2 env db dod).2 "user.userprofile" "auth.user" "user_id" d4 d5 e5 "allocation.allocationusernote" "author_id" (Or.inl (by decide))]
    exact k16_4
  have k17_5 : fieldCallOkV (step2 env db dod).2 "project.project" (fieldView d5 "project.projectuser" "project_id") = true := by
    rw [fieldView_uf_ne (step2 env db dod).2 "user.userprofile" "auth.user" "user_id" d4 d5 e5 "project.projectuser" "project_id" (Or.inl (by decide))]
    exact k17_4
  have k18_5 : fieldCallOkV (step2 env db dod).2 "project.project" (fieldView d5 "allocation.allocation" "project_id") = true := by
    rw [fieldView_uf_ne (step2 env db dod).2 "user.userprofile" "auth.user" "user_id" d4 d5 e5 "allocation.allocation" "project_id" (Or.inl (by decide))]
    exact k18_4
  have k19_5 : fieldCallOkV (step2 env db dod).2 "project.project" (fieldView d5 "publication.publication" "project_id") = true := by
    rw [fieldView_uf_ne (step2 env db dod).2 "user.userprofile" "auth.user" "user_id" d4 d5 e5 "publication.publication" "project_id" (Or.inl (by decide))]
    exact k19_4
  have k20_5 : fieldCallOkV (step2 env db dod).2 "project.project" (fieldView d5 "grant.grant" "project_id") = true := by
    rw [fieldView_uf_ne (step2 env db dod).2 "user.userprofile" "auth.user" "user_id" d4 d5 e5 "grant.grant" "project_id" (Or.inl (by decide))]
    exact k20_4
  have k21_5 : fieldCallOkV (step2 env db dod).2 "project.project" (fieldView d5 "project.projectadmincomment" "project_id") = true := by
    rw [fieldView_uf_ne (step2 env db dod).2 "user.userprofile" "auth.user" "user_id" d4 d5 e5 "project.projectadmincomment" "project_id" (Or.inl (by decide))]
    exact k21_4
  have k22_5 : fieldCallOkV (step2 env db dod).2 "project.project" (fieldView d5 "project.projectusermessage" "project_id") = true := by
    rw [fieldView_uf_ne (step2 env db dod).2 "user.userprofile" "auth.user" "user_id" d4 d5 e5 "project.projectusermessage" "project_id" (Or.inl (by decide))]
    exact k22_4
  have k23_5 : fieldCallOkV (step2 env db dod).2 "project.project" (fieldView d5 "project.projectreview" "project_id") = true := by
    rw [fieldView_uf_ne (step2 env db dod).2 "user.userprofile" "auth.user" "user_id" d4 d5 e5 "project.projectreview" "project_id" (Or.inl (by decide))]
    exact k23_4
  have k24_5 : fieldCallOkV (step2 env db dod).2 "project.project" (fieldView d5 "research_output.researchoutput" "project_id") = true := by
    rw [fieldView_uf_ne (step2 env db dod).2 "user.userprofile" "auth.user" "user_id" d4 d5 e5 "research_output.researchoutput" "project_id" (Or.inl (by decide))]
    exact k24_4
  obtain ⟨d6, e6⟩ := update_m2m_total (step2 env db dod).2 "resource.resource" "auth.user" "allowed_users" d5 k6_5
  have k7_6 : m2mCallOkV (step2 env db dod).2 "auth.group" (m2mView d6 "resource.resource" "allowed_groups") = true := by
    rw [m2mView_um_ne (step2 env db dod).2 "resource.resource" "auth.user" "allowed_users" d5 d6 e6 "resource.resource" "allowed_groups" (Or.inr (by decide))]
    exact k7_5
  have k8_6 : m2mCallOkV (step2 env db dod).2 "resource.resource" (m2mView d6 "allocation.allocation" "resources") = true := by
    rw [m2mView_um_ne (step2 env db dod).2 "resource.resource" "auth.user" "allowed_users" d5 d6 e6 "allocation.allocation" "resources" (Or.inl (by decide))]
    exact k8_5
  have k9_6 : fieldCallOkV (step2 env db dod).2 "auth.user" (fieldView d6 "allocation.allocationuser" "user_id") = true := by
    rw [fieldView_um (step2 env db dod).2 "resource.resource" "auth.user" "allowed_users" d5 d6 e6 "allocation.allocationuser" "user_id"]
    exact k9_5
  have k10_6 : fieldCallOkV (step2 env db dod).2 "allocation.allocation" (fieldView d6 "allocation.allocationuser" "allocation_id") = true := by
    rw [fieldView_um (step2 env db dod).2 "resource.resource" "auth.user" "allowed_users" d5 d6 e6 "allocation.allocationuser" "allocation_id"]
    exact k10_5
  have k11_6 : fieldCallOkV (step2 env db dod).2 "allocation.allocation" (fieldView d6 "allocation.allocationchangerequest" "allocation_id") = true := by
    rw [fieldView_um (step2 env db dod).2 "resource.resource" "auth.user" "allowed_users" d5 d6 e6 "allocation.allocationchangerequest" "allocation_id"]
    exact k11_5
  have k12_6 : fieldCallOkV (step2 env db dod).2 "allocation.allocation" (fieldView d6 "allocation.allocationattribute" "allocation_id") = true := by
    rw [fieldView_um (step2 env db dod).2 "resource.resource" "auth.user" "allowed_users" d5 d6 e6 "allocation.allocationattribute" "allocation_id"]
    exact k12_5
  have k13_6 : fieldCallOkV (step2 env db dod).2 "allocation.allocation" (fieldView d6 "allocation.allocationadminnote" "allocation_id") = true := by
    rw [fieldView_um (step2 env db dod).2 "resource.resource" "auth.user" "allowed_users" d5 d6 e6 "allocation.allocationadminnote" "allocation_id"]
    exact k13_5
  have k14_6 : fieldCallOkV (step2 env db dod).2 "allocation.allocation" (fieldView d6 "allocation.allocationusernote" "allocation_id") = true := by
    rw [fieldView_um (step2 env db dod).2 "resource.resource" "auth.user" "allowed_users" d5 d6 e6 "allocation.allocationusernote" "allocation_id"]
    exact k14_5
  have k15_6 : fieldCallOkV (step2 env db dod).2 "auth.user" (fieldView d6 "allocation.allocationadminnote" "author_id") = true := by
    rw [fieldView_um (step2 env db dod).2 "resource.resource" "auth.user" "allowed_users" d5 d6 e6 "allocation.allocationadminnote" "author_id"]
    exact k15_5
  have k16_6 : fieldCallOkV (step2 env db dod).2 "auth.user" (fieldView d6 "allocation.allocationusernote" "author_id") = true := by
    rw [fieldView_um (step2 env db dod).2 "resource.resource" "auth.user" "allowed_users" d5 d6 e6 "allocation.allocationusernote" "author_id"]
    exact k16_5
  have k17_6 : fieldCallOkV (step2 env db dod).2 "project.project" (fieldView d6 "project.projectuser" "project_id") = true := by
    rw [fieldView_um (step2 env db dod).2 "resource.resource" "auth.user" "allowed_users" d5 d6 e6 "project.projectuser" "project_id"]
    exact k17_5
  have k18_6 : fieldCallOkV (step2 env db dod).2 "project.project" (fieldView d6 "allocation.allocation" "project_id") = true := by
    rw [fieldView_um (step2 env db dod).2 "resource.resource" "auth.user" "allowed_users" d5 d6 e6 "allocation.allocation" "project_id"]
    exact k18_5
  have k19_6 : fieldCallOkV (step2 env db dod).2 "project.project" (fieldView d6 "publication.publication" "project_id") = true := by
    rw [fieldView_um (step2 env db dod).2 "resource.resource" "auth.user" "allowed_users" d5 d6 e6 "publication.publication" "project_id"]
    exact k19_5
  have k20_6 : fieldCallOkV (step2 env db dod).2 "project.project" (fieldView d6 "grant.grant" "project_id") = true := by
    rw [fieldView_um (step2 env db dod).2 "resource.resource" "auth.user" "allowed_users" d5 d6 e6 "grant.grant" "project_id"]
    exact k20_5
  have k21_6 : fieldCallOkV (step2 env db dod).2 "project.project" (fieldView d6 "project.projectadmincomment" "project_id") = true := by
    rw [fieldView_um (step2 env db dod).2 "resource.resource" "auth.user" "allowed_users" d5 d6 e6 "project.projectadmincomment" "project_id"]
    exact k21_5
  have k22_6 : fieldCallOkV (step2 env db dod).2 "project.project" (fieldView d6 "project.projectusermessage" "project_id") = true := by
    rw [fieldView_um (step2 env db dod).2 "resource.resource" "auth.user" "allowed_users" d5 d6 e6 "project.projectusermessage" "project_id"]
    exact k22_5
  have k23_6 : fieldCallOkV (step2 env db dod).2 "project.project" (fieldView d6 "project.projectreview" "project_id") = true := by
    rw [fieldView_um (step2 env db dod).2 "resource.resource" "auth.user" "allowed_users" d5 d6 e6 "project.projectreview" "project_id"]
    exact k23_5
  have k24_6 : fieldCallOkV (step2 env db dod).2 "project.project" (fieldView d6 "research_output.researchoutput" "project_id") = true := by
    rw [fieldView_um (step2 env db dod).2 "resource.resource" "auth.user" "allowed_users" d5 d6 e6 "research_output.researchoutput" "project_id"]
    exact k24_5
  obtain ⟨d7, e7⟩ := update_m2m_total (step2 env db dod).2 "resource.resource" "auth.group" "allowed_groups" d6 k7_6
  have k8_7 : m2mCallOkV (step2 env db dod).2 "resource.resource" (m2mView d7 "allocation.allocation" "resources") = true := by
    rw [m2mView_um_ne (step2 env db dod).2 "resource.resource" "auth.group" "allowed_groups" d6 d7 e7 "allocation.allocation" "resources" (Or.inl (by decide))]
    exact k8_6
  have k9_7 : fieldCallOkV (step2 env db dod).2 "auth.user" (fieldView d7 "allocation.allocationuser" "user_id") = true := by
    rw [fieldView_um (step2 env db dod).2 "resource.resource" "auth.group" "allowed_groups" d6 d7 e7 "allocation.allocationuser" "user_id"]
    exact k9_6
  have k10_7 : fieldCallOkV (step2 env db dod).2 "allocation.allocation" (fieldView d7 "allocation.allocationuser" "allocation_id") = true := by
    rw [fieldView_um (step2 env db dod).2 "resource.resource" "auth.group" "allowed_groups" d6 d7 e7 "allocation.allocationuser" "allocation_id"]
    exact k10_6
  have k11_7 : fieldCallOkV (step2 env db dod).2 "allocation.allocation" (fieldView d7 "allocation.allocationchangerequest" "allocation_id") = true := by
    rw [fieldView_um (step2 env db dod).2 "resource.resource" "auth.group" "allowed_groups" d6 d7 e7 "allocation.allocationchangerequest" "allocation_id"]
    exact k11_6
  have k12_7 : fieldCallOkV (step2 env db dod).2 "allocation.allocation" (fieldView d7 "allocation.allocationattribute" "allocation_id") = true := by
    rw [fieldView_um (step2 env db dod).2 "resource.resource" "auth.group" "allowed_groups" d6 d7 e7 "allocation.allocationattribute" "allocation_id"]
    exact k12_6
  have k13_7 : fieldCallOkV (step2 env db dod).2 "allocation.allocation" (fieldView d7 "allocation.allocationadminnote" "allocation_id") = true := by
    rw [fieldView_um (step2 env db dod).2 "resource.resource" "auth.group" "allowed_groups" d6 d7 e7 "allocation.allocationadminnote" "allocation_id"]
    exact k13_6
  have k14_7 : fieldCallOkV (step2 env db dod).2 "allocation.allocation" (fieldView d7 "allocation.allocationusernote" "allocation_id") = true := by
    rw [fieldView_um (step2 env db dod).2 "resource.resource" "auth.group" "allowed_groups" d6 d7 e7 "allocation.allocationusernote" "allocation_id"]
    exact k14_6
  have k15_7 : fieldCallOkV (step2 env db dod).2 "auth.user" (fieldView d7 "allocation.allocationadminnote" "author_id") = true := by
    rw [fieldView_um (step2 env db dod).2 "resource.resource" "auth.group" "allowed_groups" d6 d7 e7 "allocation.allocationadminnote" "author_id"]
    exact k15_6
  have k16_7 : fieldCallOkV (step2 env db dod).2 "auth.user" (fieldView d7 "allocation.allocationusernote" "author_id") = true := by
    rw [fieldView_um (step2 env db dod).2 "resource.resource" "auth.group" "allowed_groups" d6 d7 e7 "allocation.allocationusernote" "author_id"]
    exact k16_6
  have k17_7 : fieldCallOkV (step2 env db dod).2 "project.project" (fieldView d7 "project.projectuser" "project_id") = true := by
    rw [fieldView_um (step2 env db dod).2 "resource.resource" "auth.group" "allowed_groups" d6 d7 e7 "project.projectuser" "project_id"]
    exact k17_6
  have k18_7 : fieldCallOkV (step2 env db dod).2 "project.project" (fieldView d7 "allocation.allocation" "project_id") = true := by
    rw [fieldView_um (step2 env db dod).2 "resource.resource" "auth.group" "allowed_groups" d6 d7 e7 "allocation.allocation" "project_id"]
    exact k18_6
  have k19_7 : fieldCallOkV (step2 env db dod).2 "project.project" (fieldView d7 "publication.publication" "project_id") = true := by
    rw [fieldView_um (step2 env db dod).2 "resource.resource" "auth.group" "allowed_groups" d6 d7 e7 "publication.publication" "project_id"]
    exact k19_6
  have k20_7 : fieldCallOkV (step2 env db dod).2 "project.project" (fieldView d7 "grant.grant" "project_id") = true := by
    rw [fieldView_um (step2 env db dod).2 "resource.resource" "auth.group" "allowed_groups" d6 d7 e7 "grant.grant" "project_id"]
    exact k20_6
  have k21_7 : fieldCallOkV (step2 env db dod).2 "project.project" (fieldView d7 "project.projectadmincomment" "project_id") = true := by
    rw [fieldView_um (step2 env db dod).2 "resource.resource" "auth.group" "allowed_groups" d6 d7 e7 "project.projectadmincomment" "project_id"]
    exact k21_6
  have k22_7 : fieldCallOkV (step2 env db dod).2 "project.project" (fieldView d7 "project.projectusermessage" "project_id") = true := by
    rw [fieldView_um (step2 env db dod).2 "resource.resource" "auth.group" "allowed_groups" d6 d7 e7 "project.projectusermessage" "project_id"]
    exact k22_6
  have k23_7 : fieldCallOkV (step2 env db dod).2 "project.project" (fieldView d7 "project.projectreview" "project_id") = true := by
    rw [fieldView_um (step2 env db dod).2 "resource.resource" "auth.group" "allowed_groups" d6 d7 e7 "project.projectreview" "project_id"]
    exact k23_6
  have k24_7 : fieldCallOkV (step2 env db dod).2 "project.project" (fieldView d7 "research_output.researchoutput" "project_id") = true := by
    rw [fieldView_um (step2 env db dod).2 "resource.resource" "auth.group" "allowed_groups" d6 d7 e7 "research_output.researchoutput" "project_id"]
    exact k24_6
  obtain ⟨d8, e8⟩ := update_m2m_total (step2 env db dod).2 "allocation.allocation" "resource.resource" "resources" d7 k8_7
  have k9_8 : fieldCallOkV (step2 env db dod).2 "auth.user" (fieldView d8 "allocation.allocationuser" "user_id") = true := by
    rw [fieldView_um (step2 env db dod).2 "allocation.allocation" "resource.resource" "resources" d7 d8 e8 "allocation.allocationuser" "user_id"]
    exact k9_7
  have k10_8 : fieldCallOkV (step2 env db dod).2 "allocation.allocation" (fieldView d8 "allocation.allocationuser" "allocation_id") = true := by
    rw [fieldView_um (step2 env db dod).2 "allocation.allocation" "resource.resource" "resources" d7 d8 e8 "allocation.allocationuser" "allocation_id"]
    exact k10_7
  have k11_8 : fieldCallOkV (step2 env db dod).2 "allocation.allocation" (fieldView d8 "allocation.allocationchangerequest" "allocation_id") = true := by
    rw [fieldView_um (step2 env db dod).2 "allocation.allocation" "resource.resource" "resources" d7 d8 e8 "allocation.allocationchangerequest" "allocation_id"]
    exact k11_7
  have k12_8 : fieldCallOkV (step2 env db dod).2 "allocation.allocation" (fieldView d8 "allocation.allocationattribute" "allocation_id") = true := by
    rw [fieldView_um (step2 env db dod).2 "allocation.allocation" "resource.resource" "resources" d7 d8 e8 "allocation.allocationattribute" "allocation_id"]
    exact k12_7
  have k13_8 : fieldCallOkV (step2 env db dod).2 "allocation.allocation" (fieldView d8 "allocation.allocationadminnote" "allocation_id") = true := by
    rw [fieldView_um (step2 env db dod).2 "allocation.allocation" "resource.resource" "resources" d7 d8 e8 "allocation.allocationadminnote" "allocation_id"]
    exact k13_7
  have k14_8 : fieldCallOkV (step2 env db dod).2 "allocation.allocation" (fieldView d8 "allocation.allocationusernote" "allocation_id") = true := by
    rw [fieldView_um (step2 env db dod).2 "allocation.allocation" "resource.resource" "resources" d7 d8 e8 "allocation.allocationusernote" "allocation_id"]
    exact k14_7
  have k15_8 : fieldCallOkV (step2 env db dod).2 "auth.user" (fieldView d8 "allocation.allocationadminnote" "author_id") = true := by
    rw [fieldView_um (step2 env db dod).2 "allocation.allocation" "resource.resource" "resources" d7 d8 e8 "allocation.allocationadminnote" "author_id"]
    exact k15_7
  have k16_8 : fieldCallOkV (step2 env db dod).2 "auth.user" (fieldView d8 "allocation.allocationusernote" "author_id") = true := by
    rw [fieldView_um (step2 env db dod).2 "allocation.allocation" "resource.resource" "resources" d7 d8 e8 "allocation.allocationusernote" "author_id"]
    exact k16_7
  have k17_8 : fieldCallOkV (step2 env db dod).2 "project.project" (fieldView d8 "project.projectuser" "project_id") = true := by
    rw [fieldView_um (step2 env db dod).2 "allocation.allocation" "resource.resource" "resources" d7 d8 e8 "project.projectuser" "project_id"]
    exact k17_7
  have k18_8 : fieldCallOkV (step2 env db dod).2 "project.project" (fieldView d8 "allocation.allocation" "project_id") = true := by
    rw [fieldView_um (step2 env db dod).2 "allocation.allocation" "resource.resource" "resources" d7 d8 e8 "allocation.allocation" "project_id"]
    exact k18_7
  have k19_8 : fieldCallOkV (step2 env db dod).2 "project.project" (fieldView d8 "publication.publication" "project_id") = true := by
    rw [fieldView_um (step2 env db dod).2 "allocation.allocation" "resource.resource" "resources" d7 d8 e8 "publication.publication" "project_id"]
    exact k19_7
  have k20_8 : fieldCallOkV (step2 env db dod).2 "project.project" (fieldView d8 "grant.grant" "project_id") = true := by
    rw [fieldView_um (step2 env db dod).2 "allocation.allocation" "resource.resource" "resources" d7 d8 e8 "grant.grant" "project_id"]
    exact k20_7
  have k21_8 : fieldCallOkV (step2 env db dod).2 "project.project" (fieldView d8 "project.projectadmincomment" "project_id") = true := by
    rw [fieldView_um (step2 env db dod).2 "allocation.allocation" "resource.resource" "resources" d7 d8 e8 "project.projectadmincomment" "project_id"]
    exact k21_7
  have k22_8 : fieldCallOkV (step2 env db dod).2 "project.project" (fieldView d8 "project.projectusermessage" "project_id") = true := by
    rw [fieldView_um (step2 env db dod).2 "allocation.allocation" "resource.resource" "resources" d7 d8 e8 "project.projectusermessage" "project_id"]
    exact k22_7
  have k23_8 : fieldCallOkV (step2 env db dod).2 "project.project" (fieldView d8 "project.projectreview" "project_id") = true := by
    rw [fieldView_um (step2 env db dod).2 "allocation.allocation" "resource.resource" "resources" d7 d8 e8 "project.projectreview" "project_id"]
    exact k23_7
  have k24_8 : fieldCallOkV (step2 env db dod).2 "project.project" (fieldView d8 "research_output.researchoutput" "project_id") = true := by
    rw [fieldView_um (step2 env db dod).2 "allocation.allocation" "resource.resource" "resources" d7 d8 e8 "research_output.researchoutput" "project_id"]
    exact k24_7
  obtain ⟨d9, e9⟩ := update_field_total (step2 env db dod).2 "allocation.allocationuser" "auth.user" "user_id" d8 k9_8
  have k10_9 : fieldCallOkV (step2 env db dod).2 "allocation.allocation" (fieldView d9 "allocation.allocationuser" "allocation_id") = true := by
    rw [fieldView_uf_ne (step2 env db dod).2 "allocation.allocationuser" "auth.user" "user_id" d8 d9 e9 "allocation.allocationuser" "allocation_id" (Or.inr (by decide))]
    exact k10_8
  have k11_9 : fieldCallOkV (step2 env db dod).2 "allocation.allocation" (fieldView d9 "allocation.allocationchangerequest" "allocation_id") = true := by
    rw [fieldView_uf_ne (step2 env db dod).2 "allocation.allocationuser" "auth.user" "user_id" d8 d9 e9 "allocation.allocationchangerequest" "allocation_id" (Or.inl (by decide))]
    exact k11_8
  have k12_9 : fieldCallOkV (step2 env db dod).2 "allocation.allocation" (fieldView d9 "allocation.allocationattribute" "allocation_id") = true := by
    rw [fieldView_uf_ne (step2 env db dod).2 "allocation.allocationuser" "auth.user" "user_id" d8 d9 e9 "allocation.allocationattribute" "allocation_id" (Or.inl (by decide))]
    exact k12_8
  have k13_9 : fieldCallOkV (step2 env db dod).2 "allocation.allocation" (fieldView d9 "allocation.allocationadminnote" "allocation_id") = true := by
    rw [fieldView_uf_ne (step2 env db dod).2 "allocation.allocationuser" "auth.user" "user_id" d8 d9 e9 "allocation.allocationadminnote" "allocation_id" (Or.inl (by decide))]
    exact k13_8
  have k14_9 : fieldCallOkV (step2 env db dod).2 "allocation.allocation" (fieldView d9 "allocation.allocationusernote" "allocation_id") = true := by
    rw [fieldView_uf_ne (step2 env db dod).2 "allocation.allocationuser" "auth.user" "user_id" d8 d9 e9 "allocation.allocationusernote" "allocation_id" (Or.inl (by decide))]
    exact k14_8
  have k15_9 : fieldCallOkV (step2 env db dod).2 "auth.user" (fieldView d9 "allocation.allocationadminnote" "author_id") = true := by
    rw [fieldView_uf_ne (step2 env db dod).2 "allocation.allocationuser" "auth.user" "user_id" d8 d9 e9 "allocation.allocationadminnote" "author_id" (Or.inl (by decide))]
    exact k15_8
  have k16_9 : fieldCallOkV (step2 env db dod).2 "auth.user" (fieldView d9 "allocation.allocationusernote" "author_id") = true := by
    rw [fieldView_uf_ne (step2 env db dod).2 "allocation.allocationuser" "auth.user" "user_id" d8 d9 e9 "allocation.allocationusernote" "author_id" (Or.inl (by decide))]
    exact k16_8
  have k17_9 : fieldCallOkV (step2 env db dod).2 "project.project" (fieldView d9 "project.projectuser" "project_id") = true := by
    rw [fieldView_uf_ne (step2 env db dod).2 "allocation.allocationuser" "auth.user" "user_id" d8 d9 e9 "project.projectuser" "project_id" (Or.inl (by decide))]
    exact k17_8
  have k18_9 : fieldCallOkV (step2 env db dod).2 "project.project" (fieldView d9 "allocation.allocation" "project_id") = true := by
    rw [fieldView_uf_ne (step2 env db dod).2 "allocation.allocationuser" "auth.user" "user_id" d8 d9 e9 "allocation.allocation" "project_id" (Or.inl (by decide))]
    exact k18_8
  have k19_9 : fieldCallOkV (step2 env db dod).2 "project.project" (fieldView d9 "publication.publication" "project_id") = true := by
    rw [fieldView_uf_ne (step2 env db dod).2 "allocation.allocationuser" "auth.user" "user_id" d8 d9 e9 "publication.publication" "project_id" (Or.inl (by decide))]
    exact k19_8
  have k20_9 : fieldCallOkV (step2 env db dod).2 "project.project" (fieldView d9 "grant.grant" "project_id") = true := by
    rw [fieldView_uf_ne (step2 env db dod).2 "allocation.allocationuser" "auth.user" "user_id" d8 d9 e9 "grant.grant" "project_id" (Or.inl (by decide))]
    exact k20_8
  have k21_9 : fieldCallOkV (step2 env db dod).2 "project.project" (fieldView d9 "project.projectadmincomment" "project_id") = true := by
    rw [fieldView_uf_ne (step2 env db dod).2 "allocation.allocationuser" "auth.user" "user_id" d8 d9 e9 "project.projectadmincomment" "project_id" (Or.inl (by decide))]
    exact k21_8
  have k22_9 : fieldCallOkV (step2 env db dod).2 "project.project" (fieldView d9 "project.projectusermessage" "project_id") = true := by
    rw [fieldView_uf_ne (step2 env db dod).2 "allocation.allocationuser" "auth.user" "user_id" d8 d9 e9 "project.projectusermessage" "project_id" (Or.inl (by decide))]
    exact k22_8
  have k23_9 : fieldCallOkV (step2 env db dod).2 "project.project" (fieldView d9 "project.projectreview" "project_id") = true := by
    rw [fieldView_uf_ne (step2 env db dod).2 "allocation.allocationuser" "auth.user" "user_id" d8 d9 e9 "project.projectreview" "project_id" (Or.inl (by decide))]
    exact k23_8
  have k24_9 : fieldCallOkV (step2 env db dod).2 "project.project" (fieldView d9 "research_output.researchoutput" "project_id") = true := by
    rw [fieldView_uf_ne (step2 env db dod).2 "allocation.allocationuser" "auth.user" "user_id" d8 d9 e9 "research_output.researchoutput" "project_id" (Or.inl (by decide))]
    exact k24_8
  obtain ⟨d10, e10⟩ := update_field_total (step2 env db dod).2 "allocation.allocationuser" "allocation.allocation" "allocation_id" d9 k10_9
  have k11_10 : fieldCallOkV (step2 env db dod).2 "allocation.allocation" (fieldView d10 "allocation.allocationchangerequest" "allocation_id") = true := by
    rw [fieldView_uf_ne (step2 env db dod).2 "allocation.allocationuser" "allocation.allocation" "allocation_id" d9 d10 e10 "allocation.allocationchangerequest" "allocation_id" (Or.inl (by decide))]
    exact k11_9
  have k12_10 : fieldCallOkV (step2 env db dod).2 "allocation.allocation" (fieldView d10 "allocation.allocationattribute" "allocation_id") = true := by
    rw [fieldView_uf_ne (step2 env db dod).2 "allocation.allocationuser" "allocation.allocation" "allocation_id" d9 d10 e10 "allocation.allocationattribute" "allocation_id" (Or.inl (by decide))]
    exact k12_9
  have k13_10 : fieldCallOkV (step2 env db dod).2 "allocation.allocation" (fieldView d10 "allocation.allocationadminnote" "allocation_id") = true := by
    rw [fieldView_uf_ne (step2 env db dod).2 "allocation.allocationuser" "allocation.allocation" "allocation_id" d9 d10 e10 "allocation.allocationadminnote" "allocation_id" (Or.inl (by decide))]
    exact k13_9
  have k14_10 : fieldCallOkV (step2 env db dod).2 "allocation.allocation" (fieldView d10 "allocation.allocationusernote" "allocation_id") = true := by
    rw [fieldView_uf_ne (step2 env db dod).2 "allocation.allocationuser" "allocation.allocation" "allocation_id" d9 d10 e10 "allocation.allocationusernote" "allocation_id" (Or.inl (by decide))]
    exact k14_9
  have k15_10 : fieldCallOkV (step2 env db dod).2 "auth.user" (fieldView d10 "allocation.allocationadminnote" "author_id") = true := by
    rw [fieldView_uf_ne (step2 env db dod).2 "allocation.allocationuser" "allocation.allocation" "allocation_id" d9 d10 e10 "allocation.allocationadminnote" "author_id" (Or.inl (by decide))]
    exact k15_9
  have k16_10 : fieldCallOkV (step2 env db dod).2 "auth.user" (fieldView d10 "allocation.allocationusernote" "author_id") = true := by
    rw [fieldView_uf_ne (step2 env db dod).2 "allocation.allocationuser" "allocation.allocation" "allocation_id" d9 d10 e10 "allocation.allocationusernote" "author_id" (Or.inl (by decide))]
    exact k16_9
  have k17_10 : fieldCallOkV (step2 env db dod).2 "project.project" (fieldView d10 "project.projectuser" "project_id") = true := by
    rw [fieldView_uf_ne (step2 env db dod).2 "allocation.allocationuser" "allocation.allocation" "allocation_id" d9 d10 e10 "project.projectuser" "project_id" (Or.inl (by decide))]
    exact k17_9
  have k18_10 : fieldCallOkV (step2 env db dod).2 "project.project" (fieldView d10 "allocation.allocation" "project_id") = true := by
    rw [fieldView_uf_ne (step2 env db dod).2 "allocation.allocationuser" "allocation.allocation" "allocation_id" d9 d10 e10 "allocation.allocation" "project_id" (Or.inl (by decide))]
    exact k18_9
  have k19_10 : fieldCallOkV (step2 env db dod).2 "project.project" (fieldView d10 "publication.publication" "project_id") = true := by
    rw [fieldView_uf_ne (step2 env db dod).2 "allocation.allocationuser" "allocation.allocation" "allocation_id" d9 d10 e10 "publication.publication" "project_id" (Or.inl (by decide))]
    exact k19_9
  have k20_10 : fieldCallOkV (step2 env db dod).2 "project.project" (fieldView d10 "grant.grant" "project_id") = true := by
    rw [fieldView_uf_ne (step2 env db dod).2 "allocation.allocationuser" "allocation.allocation" "allocation_id" d9 d10 e10 "grant.grant" "project_id" (Or.inl (by decide))]
    exact k20_9
  have k21_10 : fieldCallOkV (step2 env db dod).2 "project.project" (fieldView d10 "project.projectadmincomment" "project_id") = true := by
    rw [fieldView_uf_ne (step2 env db dod).2 "allocation.allocationuser" "allocation.allocation" "allocation_id" d9 d10 e10 "project.projectadmincomment" "project_id" (Or.inl (by decide))]
    exact k21_9
  have k22_10 : fieldCallOkV (step2 env db dod).2 "project.project" (fieldView d10 "project.projectusermessage" "project_id") = true := by
    rw [fieldView_uf_ne (step2 env db dod).2 "allocation.allocationuser" "allocation.allocation" "allocation_id" d9 d10 e10 "project.projectusermessage" "project_id" (Or.inl (by decide))]
    exact k22_9
  have k23_10 : fieldCallOkV (step2 env db dod).2 "project.project" (fieldView d10 "project.projectreview" "project_id") = true := by
    rw [fieldView_uf_ne (step2 env db dod).2 "allocation.allocationuser" "allocation.allocation" "allocation_id" d9 d10 e10 "project.projectreview" "project_id" (Or.inl (by decide))]
    exact k23_9
  have k24_10 : fieldCallOkV (step2 env db dod).2 "project.project" (fieldView d10 "research_output.researchoutput" "project_id") = true := by
    rw [fieldView_uf_ne (step2 env db dod).2 "allocation.allocationuser" "allocation.allocation" "allocation_id" d9 d10 e10 "research_output.researchoutput" "project_id" (Or.inl (by decide))]
    exact k24_9
  obtain ⟨d11, e11⟩ := update_field_total (step2 env db dod).2 "allocation.allocationchangerequest" "allocation.allocation" "allocation_id" d10 k11_10
  have k12_11 : fieldCallOkV (step2 env db dod).2 "allocation.allocation" (fieldView d11 "allocation.allocationattribute" "allocation_id") = true := by
    rw [fieldView_uf_ne (step2 env db dod).2 "allocation.allocationchangerequest" "allocation.allocation" "allocation_id" d10 d11 e11 "allocation.allocationattribute" "allocation_id" (Or.inl (by decide))]
    exact k12_10
  have k13_11 : fieldCallOkV (step2 env db dod).2 "allocation.allocation" (fieldView d11 "allocation.allocationadminnote" "allocation_id") = true := by
    rw [fieldView_uf_ne (step2 env db dod).2 "allocation.allocationchangerequest" "allocation.allocation" "allocation_id" d10 d11 e11 "allocation.allocationadminnote" "allocation_id" (Or.inl (by decide))]
    exact k13_10
  have k14_11 : fieldCallOkV (step2 env db dod).2 "allocation.allocation" (fieldView d11 "allocation.allocationusernote" "allocation_id") = true := by
    rw [fieldView_uf_ne (step2 env db dod).2 "allocation.allocationchangerequest" "allocation.allocation" "allocation_id" d10 d11 e11 "allocation.allocationusernote" "allocation_id" (Or.inl (by decide))]
    exact k14_10
  have k15_11 : fieldCallOkV (step2 env db dod).2 "auth.user" (fieldView d11 "allocation.allocationadminnote" "author_id") = true := by
    rw [fieldView_uf_ne (step2 env db dod).2 "allocation.allocationchangerequest" "allocation.allocation" "allocation_id" d10 d11 e11 "allocation.allocationadminnote" "author_id" (Or.inl (by decide))]
    exact k15_10
  have k16_11 : fieldCallOkV (step2 env db dod).2 "auth.user" (fieldView d11 "allocation.allocationusernote" "author_id") = true := by
    rw [fieldView_uf_ne (step2 env db dod).2 "allocation.allocationchangerequest" "allocation.allocation" "allocation_id" d10 d11 e11 "allocation.allocationusernote" "author_id" (Or.inl (by decide))]
    exact k16_10
  have k17_11 : fieldCallOkV (step2 env db dod).2 "project.project" (fieldView d11 "project.projectuser" "project_id") = true := by
    rw [fieldView_uf_ne (step2 env db dod).2 "allocation.allocationchangerequest" "allocation.allocation" "allocation_id" d10 d11 e11 "project.projectuser" "project_id" (Or.inl (by decide))]
    exact k17_10
  have k18_11 : fieldCallOkV (step2 env db dod).2 "project.project" (fieldView d11 "allocation.allocation" "project_id") = true := by
    rw [fieldView_uf_ne (step2 env db dod).2 "allocation.allocationchangerequest" "allocation.allocation" "allocation_id" d10 d11 e11 "allocation.allocation" "project_id" (Or.inl (by decide))]
    exact k18_10
  have k19_11 : fieldCallOkV (step2 env db dod).2 "project.project" (fieldView d11 "publication.publication" "project_id") = true := by
    rw [fieldView_uf_ne (step2 env db dod).2 "allocation.allocationchangerequest" "allocation.allocation" "allocation_id" d10 d11 e11 "publication.publication" "project_id" (Or.inl (by decide))]
    exact k19_10
  have k20_11 : fieldCallOkV (step2 env db dod).2 "project.project" (fieldView d11 "grant.grant" "project_id") = true := by
    rw [fieldView_uf_ne (step2 env db dod).2 "allocation.allocationchangerequest" "allocation.allocation" "allocation_id" d10 d11 e11 "grant.grant" "project_id" (Or.inl (by decide))]
    exact k20_10
  have k21_11 : fieldCallOkV (step2 env db dod).2 "project.project" (fieldView d11 "project.projectadmincomment" "project_id") = true := by
    rw [fieldView_uf_ne (step2 env db dod).2 "allocation.allocationchangerequest" "allocation.allocation" "allocation_id" d10 d11 e11 "project.projectadmincomment" "project_id" (Or.inl (by decide))]
    exact k21_10
  have k22_11 : fieldCallOkV (step2 env db dod).2 "project.project" (fieldView d11 "project.projectusermessage" "project_id") = true := by
    rw [fieldView_uf_ne (step2 env db dod).2 "allocation.allocationchangerequest" "allocation.allocation" "allocation_id" d10 d11 e11 "project.projectusermessage" "project_id" (Or.inl (by decide))]
    exact k22_10
  have k23_11 : fieldCallOkV (step2 env db dod).2 "project.project" (fieldView d11 "project.projectreview" "project_id") = true := by
    rw [fieldView_uf_ne (step2 env db dod).2 "allocation.allocationchangerequest" "allocation.allocation" "allocation_id" d10 d11 e11 "project.projectreview" "project_id" (Or.inl (by decide))]
    exact k23_10
  have k24_11 : fieldCallOkV (step2 env db dod).2 "project.project" (fieldView d11 "research_output.researchoutput" "project_id") = true := by
    rw [fieldView_uf_ne (step2 env db dod).2 "allocation.allocationchangerequest" "allocation.allocation" "allocation_id" d10 d11 e11 "research_output.researchoutput" "project_id" (Or.inl (by decide))]
    exact k24_10
  obtain ⟨d12, e12⟩ := update_field_total (step2 env db dod).2 "allocation.allocationattribute" "allocation.allocation" "allocation_id" d11 k12_11
  have k13_12 : fieldCallOkV (step2 env db dod).2 "allocation.allocation" (fieldView d12 "allocation.allocationadminnote" "allocation_id") = true := by
    rw [fieldView_uf_ne (step2 env db dod).2 "allocation.allocationattribute" "allocation.allocation" "allocation_id" d11 d12 e12 "allocation.allocationadminnote" "allocation_id" (Or.inl (by decide))]
    exact k13_11
  have k14_12 : fieldCallOkV (step2 env db dod).2 "allocation.allocation" (fieldView d12 "allocation.allocationusernote" "allocation_id") = true := by
    rw [fieldView_uf_ne (step2 env db dod).2 "allocation.allocationattribute" "allocation.allocation" "allocation_id" d11 d12 e12 "allocation.allocationusernote" "allocation_id" (Or.inl (by decide))]
    exact k14_11
  have k15_12 : fieldCallOkV (step2 env db dod).2 "auth.user" (fieldView d12 "allocation.allocationadminnote" "author_id") = true := by
    rw [fieldView_uf_ne (step2 env db dod).2 "allocation.allocationattribute" "allocation.allocation" "allocation_id" d11 d12 e12 "allocation.allocationadminnote" "author_id" (Or.inl (by decide))]
    exact k15_11
  have k16_12 : fieldCallOkV (step2 env db dod).2 "auth.user" (fieldView d12 "allocation.allocationusernote" "author_id") = true := by
    rw [fieldView_uf_ne (step2 env db dod).2 "allocation.allocationattribute" "allocation.allocation" "allocation_id" d11 d12 e12 "allocation.allocationusernote" "author_id" (Or.inl (by decide))]
    exact k16_11
  have k17_12 : fieldCallOkV (step2 env db dod).2 "project.project" (fieldView d12 "project.projectuser" "project_id") = true := by
    rw [fieldView_uf_ne (step2 env db dod).2 "allocation.allocationattribute" "allocation.allocation" "allocation_id" d11 d12 e12 "project.projectuser" "project_id" (Or.inl (by decide))]
    exact k17_11
  have k18_12 : fieldCallOkV (step2 env db dod).2 "project.project" (fieldView d12 "allocation.allocation" "project_id") = true := by
    rw [fieldView_uf_ne (step2 env db dod).2 "allocation.allocationattribute" "allocation.allocation" "allocation_id" d11 d12 e12 "allocation.allocation" "project_id" (Or.inl (by decide))]
    exact k18_11
  have k19_12 : fieldCallOkV (step2 env db dod).2 "project.project" (fieldView d12 "publication.publication" "project_id") = true := by
    rw [fieldView_uf_ne (step2 env db dod).2 "allocation.allocationattribute" "allocation.allocation" "allocation_id" d11 d12 e12 "publication.publication" "project_id" (Or.inl (by decide))]
    exact k19_11
  have k20_12 : fieldCallOkV (step2 env db dod).2 "project.project" (fieldView d12 "grant.grant" "project_id") = true := by
    rw [fieldView_uf_ne (step2 env db dod).2 "allocation.allocationattribute" "allocation.allocation" "allocation_id" d11 d12 e12 "grant.grant" "project_id" (Or.inl (by decide))]
    exact k20_11
  have k21_12 : fieldCallOkV (step2 env db dod).2 "project.project" (fieldView d12 "project.projectadmincomment" "project_id") = true := by
    rw [fieldView_uf_ne (step2 env db dod).2 "allocation.allocationattribute" "allocation.allocation" "allocation_id" d11 d12 e12 "project.projectadmincomment" "project_id" (Or.inl (by decide))]
    exact k21_11
  have k22_12 : fieldCallOkV (step2 env db dod).2 "project.project" (fieldView d12 "project.projectusermessage" "project_id") = true := by
    rw [fieldView_uf_ne (step2 env db dod).2 "allocation.allocationattribute" "allocation.allocation" "allocation_id" d11 d12 e12 "project.projectusermessage" "project_id" (Or.inl (by decide))]
    exact k22_11
  have k23_12 : fieldCallOkV (step2 env db dod).2 "project.project" (fieldView d12 "project.projectreview" "project_id") = true := by
    rw [fieldView_uf_ne (step2 env db dod).2 "allocation.allocationattribute" "allocation.allocation" "allocation_id" d11 d12 e12 "project.projectreview" "project_id" (Or.inl (by decide))]
    exact k23_11
  have k24_12 : fieldCallOkV (step2 env db dod).2 "project.project" (fieldView d12 "research_output.researchoutput" "project_id") = true := by
    rw [fieldView_uf_ne (step2 env db dod).2 "allocation.allocationattribute" "allocation.allocation" "allocation_id" d11 d12 e12 "research_output.researchoutput" "project_id" (Or.inl (by decide))]
    exact k24_11
  obtain ⟨d13, e13⟩ := update_field_total (step2 env db dod).2 "allocation.allocationadminnote" "allocation.allocation" "allocation_id" d12 k13_12
  have k14_13 : fieldCallOkV (step2 env db dod).2 "allocation.allocation" (fieldView d13 "allocation.allocationusernote" "allocation_id") = true := by
    rw [fieldView_uf_ne (step2 env db dod).2 "allocation.allocationadminnote" "allocation.allocation" "allocation_id" d12 d13 e13 "allocation.allocationusernote" "allocation_id" (Or.inl (by decide))]
    exact k14_12
  have k15_13 : fieldCallOkV (step2 env db dod).2 "auth.user" (fieldView d13 "allocation.allocationadminnote" "author_id") = true := by
    rw [fieldView_uf_ne (step2 env db dod).2 "allocation.allocationadminnote" "allocation.allocation" "allocation_id" d12 d13 e13 "allocation.allocationadminnote" "author_id" (Or.inr (by decide))]
    exact k15_12
  have k16_13 : fieldCallOkV (step2 env db dod).2 "auth.user" (fieldView d13 "allocation.allocationusernote" "author_id") = true := by
    rw [fieldView_uf_ne (step2 env db dod).2 "allocation.allocationadminnote" "allocation.allocation" "allocation_id" d12 d13 e13 "allocation.allocationusernote" "author_id" (Or.inl (by decide))]
    exact k16_12
  have k17_13 : fieldCallOkV (step2 env db dod).2 "project.project" (fieldView d13 "project.projectuser" "project_id") = true := by
    rw [fieldView_uf_ne (step2 env db dod).2 "allocation.allocationadminnote" "allocation.allocation" "allocation_id" d12 d13 e13 "project.projectuser" "project_id" (Or.inl (by decide))]
    exact k17_12
  have k18_13 : fieldCallOkV (step2 env db dod).2 "project.project" (fieldView d13 "allocation.allocation" "project_id") = true := by
    rw [fieldView_uf_ne (step2 env db dod).2 "allocation.allocationadminnote" "allocation.allocation" "allocation_id" d12 d13 e13 "allocation.allocation" "project_id" (Or.inl (by decide))]
    exact k18_12
  have k19_13 : fieldCallOkV (step2 env db dod).2 "project.project" (fieldView d13 "publication.publication" "project_id") = true := by
    rw [fieldView_uf_ne (step2 env db dod).2 "allocation.allocationadminnote" "allocation.allocation" "allocation_id" d12 d13 e13 "publication.publication" "project_id" (Or.inl (by decide))]
    exact k19_12
  have k20_13 : fieldCallOkV (step2 env db dod).2 "project.project" (fieldView d13 "grant.grant" "project_id") = true := by
    rw [fieldView_uf_ne (step2 env db dod).2 "allocation.allocationadminnote" "allocation.allocation" "allocation_id" d12 d13 e13 "grant.grant" "project_id" (Or.inl (by decide))]
    exact k20_12
  have k21_13 : fieldCallOkV (step2 env db dod).2 "project.project" (fieldView d13 "project.projectadmincomment" "project_id") = true := by
    rw [fieldView_uf_ne (step2 env db dod).2 "allocation.allocationadminnote" "allocation.allocation" "allocation_id" d12 d13 e13 "project.projectadmincomment" "project_id" (Or.inl (by decide))]
    exact k21_12
  have k22_13 : fieldCallOkV (step2 env db dod).2 "project.project" (fieldView d13 "project.projectusermessage" "project_id") = true := by
    rw [fieldView_uf_ne (step2 env db dod).2 "allocation.allocationadminnote" "allocation.allocation" "allocation_id" d12 d13 e13 "project.projectusermessage" "project_id" (Or.inl (by decide))]
    exact k22_12
  have k23_13 : fieldCallOkV (step2 env db dod).2 "project.project" (fieldView d13 "project.projectreview" "project_id") = true := by
    rw [fieldView_uf_ne (step2 env db dod).2 "allocation.allocationadminnote" "allocation.allocation" "allocation_id" d12 d13 e13 "project.projectreview" "project_id" (Or.inl (by decide))]
    exact k23_12
  have k24_13 : fieldCallOkV (step2 env db dod).2 "project.project" (fieldView d13 "research_output.researchoutput" "project_id") = true := by
    rw [fieldView_uf_ne (step2 env db dod).2 "allocation.allocationadminnote" "allocation.allocation" "allocation_id" d12 d13 e13 "research_output.researchoutput" "project_id" (Or.inl (by decide))]
    exact k24_12
  obtain ⟨d14, e14⟩ := update_field_total (step2 env db dod).2 "allocation.allocationusernote" "allocation.allocation" "allocation_id" d13 k14_13
  have k15_14 : fieldCallOkV (step2 env db dod).2 "auth.user" (fieldView d14 "allocation.allocationadminnote" "author_id") = true := by
    rw [fieldView_uf_ne (step2 env db dod).2 "allocation.allocationusernote" "allocation.allocation" "allocation_id" d13 d14 e14 "allocation.allocationadminnote" "author_id" (Or.inl (by decide))]
    exact k15_13
  have k16_14 : fieldCallOkV (step2 env db dod).2 "auth.user" (fieldView d14 "allocation.allocationusernote" "author_id") = true := by
    rw [fieldView_uf_ne (step2 env db dod).2 "allocation.allocationusernote" "allocation.allocation" "allocation_id" d13 d14 e14 "allocation.allocationusernote" "author_id" (Or.inr (by decide))]
    exact k16_13
  have k17_14 : fieldCallOkV (step2 env db dod).2 "project.project" (fieldView d14 "project.projectuser" "project_id") = true := by
    rw [fieldView_uf_ne (step2 env db dod).2 "allocation.allocationusernote" "allocation.allocation" "allocation_id" d13 d14 e14 "project.projectuser" "project_id" (Or.inl (by decide))]
    exact k17_13
  have k18_14 : fieldCallOkV (step2 env db dod).2 "project.project" (fieldView d14 "allocation.allocation" "project_id") = true := by
    rw [fieldView_uf_ne (step2 env db dod).2 "allocation.allocationusernote" "allocation.allocation" "allocation_id" d13 d14 e14 "allocation.allocation" "project_id" (Or.inl (by decide))]
    exact k18_13
  have k19_14 : fieldCallOkV (step2 env db dod).2 "project.project" (fieldView d14 "publication.publication" "project_id") = true := by
    rw [fieldView_uf_ne (step2 env db dod).2 "allocation.allocationusernote" "allocation.allocation" "allocation_id" d13 d14 e14 "publication.publication" "project_id" (Or.inl (by decide))]
    exact k19_13
  have k20_14 : fieldCallOkV (step2 env db dod).2 "project.project" (fieldView d14 "grant.grant" "project_id") = true := by
    rw [fieldView_uf_ne (step2 env db dod).2 "allocation.allocationusernote" "allocation.allocation" "allocation_id" d13 d14 e14 "grant.grant" "project_id" (Or.inl (by decide))]
    exact k20_13
  have k21_14 : fieldCallOkV (step2 env db dod).2 "project.project" (fieldView d14 "project.projectadmincomment" "project_id") = true := by
    rw [fieldView_uf_ne (step2 env db dod).2 "allocation.allocationusernote" "allocation.allocation" "allocation_id" d13 d14 e14 "project.projectadmincomment" "project_id" (Or.inl (by decide))]
    exact k21_13
  have k22_14 : fieldCallOkV (step2 env db dod).2 "project.project" (fieldView d14 "project.projectusermessage" "project_id") = true := by
    rw [fieldView_uf_ne (step2 env db dod).2 "allocation.allocationusernote" "allocation.allocation" "allocation_id" d13 d14 e14 "project.projectusermessage" "project_id" (Or.inl (by decide))]
    exact k22_13
  have k23_14 : fieldCallOkV (step2 env db dod).2 "project.project" (fieldView d14 "project.projectreview" "project_id") = true := by
    rw [fieldView_uf_ne (step2 env db dod).2 "allocation.allocationusernote" "allocation.allocation" "allocation_id" d13 d14 e14 "project.projectreview" "project_id" (Or.inl (by decide))]
    exact k23_13
  have k24_14 : fieldCallOkV (step2 env db dod).2 "project.project" (fieldView d14 "research_output.researchoutput" "project_id") = true := by
    rw [fieldView_uf_ne (step2 env db dod).2 "allocation.allocationusernote" "allocation.allocation" "allocation_id" d13 d14 e14 "research_output.researchoutput" "project_id" (Or.inl (by decide))]
    exact k24_13
  obtain ⟨d15, e15⟩ := update_field_total (step2 env db dod).2 "allocation.allocationadminnote" "auth.user" "author_id" d14 k15_14
  have k16_15 : fieldCallOkV (step2 env db dod).2 "auth.user" (fieldView d15 "allocation.allocationusernote" "author_id") = true := by
    rw [fieldView_uf_ne (step2 env db dod).2 "allocation.allocationadminnote" "auth.user" "author_id" d14 d15 e15 "allocation.allocationusernote" "author_id" (Or.inl (by decide))]
    exact k16_14
  have k17_15 : fieldCallOkV (step2 env db dod).2 "project.project" (fieldView d15 "project.projectuser" "project_id") = true := by
    rw [fieldView_uf_ne (step2 env db dod).2 "allocation.allocationadminnote" "auth.user" "author_id" d14 d15 e15 "project.projectuser" "project_id" (Or.inl (by decide))]
    exact k17_14
  have k18_15 : fieldCallOkV (step2 env db dod).2 "project.project" (fieldView d15 "allocation.allocation" "project_id") = true := by
    rw [fieldView_uf_ne (step2 env db dod).2 "allocation.allocationadminnote" "auth.user" "author_id" d14 d15 e15 "allocation.allocation" "project_id" (Or.inl (by decide))]
    exact k18_14
  have k19_15 : fieldCallOkV (step2 env db dod).2 "project.project" (fieldView d15 "publication.publication" "project_id") = true := by
    rw [fieldView_uf_ne (step2 env db dod).2 "allocation.allocationadminnote" "auth.user" "author_id" d14 d15 e15 "publication.publication" "project_id" (Or.inl (by decide))]
    exact k19_14
  have k20_15 : fieldCallOkV (step2 env db dod).2 "project.project" (fieldView d15 "grant.grant" "project_id") = true := by
    rw [fieldView_uf_ne (step2 env db dod).2 "allocation.allocationadminnote" "auth.user" "author_id" d14 d15 e15 "grant.grant" "project_id" (Or.inl (by decide))]
    exact k20_14
  have k21_15 : fieldCallOkV (step2 env db dod).2 "project.project" (fieldView d15 "project.projectadmincomment" "project_id") = true := by
    rw [fieldView_uf_ne (step2 env db dod).2 "allocation.allocationadminnote" "auth.user" "author_id" d14 d15 e15 "project.projectadmincomment" "project_id" (Or.inl (by decide))]
    exact k21_14
  have k22_15 : fieldCallOkV (step2 env db dod).2 "project.project" (fieldView d15 "project.projectusermessage" "project_id") = true := by
    rw [fieldView_uf_ne (step2 env db dod).2 "allocation.allocationadminnote" "auth.user" "author_id" d14 d15 e15 "project.projectusermessage" "project_id" (Or.inl (by decide))]
    exact k22_14
  have k23_15 : fieldCallOkV (step2 env db dod).2 "project.project" (fieldView d15 "project.projectreview" "project_id") = true := by
    rw [fieldView_uf_ne (step2 env db dod).2 "allocation.allocationadminnote" "auth.user" "author_id" d14 d15 e15 "project.projectreview" "project_id" (Or.inl (by decide))]
    exact k23_14
  have k24_15 : fieldCallOkV (step2 env db dod).2 "project.project" (fieldView d15 "research_output.researchoutput" "project_id") = true := by
    rw [fieldView_uf_ne (step2 env db dod).2 "allocation.allocationadminnote" "auth.user" "author_id" d14 d15 e15 "research_output.researchoutput" "project_id" (Or.inl (by decide))]
    exact k24_14
  obtain ⟨d16, e16⟩ := update_field_total (step2 env db dod).2 "allocation.allocationusernote" "auth.user" "author_id" d15 k16_15
  have k17_16 : fieldCallOkV (step2 env db dod).2 "project.project" (fieldView d16 "project.projectuser" "project_id") = true := by
    rw [fieldView_uf_ne (step2 env db dod).2 "allocation.allocationusernote" "auth.user" "author_id" d15 d16 e16 "project.projectuser" "project_id" (Or.inl (by decide))]
    exact k17_15
  have k18_16 : fieldCallOkV (step2 env db dod).2 "project.project" (fieldView d16 "allocation.allocation" "project_id") = true := by
    rw [fieldView_uf_ne (step2 env db dod).2 "allocation.allocationusernote" "auth.user" "author_id" d15 d16 e16 "allocation.allocation" "project_id" (Or.inl (by decide))]
    exact k18_15
  have k19_16 : fieldCallOkV (step2 env db dod).2 "project.project" (fieldView d16 "publication.publication" "project_id") = true := by
    rw [fieldView_uf_ne (step2 env db dod).2 "allocation.allocationusernote" "auth.user" "author_id" d15 d16 e16 "publication.publication" "project_id" (Or.inl (by decide))]
    exact k19_15
  have k20_16 : fieldCallOkV (step2 env db dod).2 "project.project" (fieldView d16 "grant.grant" "project_id") = true := by
    rw [fieldView_uf_ne (step2 env db dod).2 "allocation.allocationusernote" "auth.user" "author_id" d15 d16 e16 "grant.grant" "project_id" (Or.inl (by decide))]
    exact k20_15
  have k21_16 : fieldCallOkV (step2 env db dod).2 "project.project" (fieldView d16 "project.projectadmincomment" "project_id") = true := by
    rw [fieldView_uf_ne (step2 env db dod).2 "allocation.allocationusernote" "auth.user" "author_id" d15 d16 e16 "project.projectadmincomment" "project_id" (Or.inl (by decide))]
    exact k21_15
  have k22_16 : fieldCallOkV (step2 env db dod).2 "project.project" (fieldView d16 "project.projectusermessage" "project_id") = true := by
    rw [fieldView_uf_ne (step2 env db dod).2 "allocation.allocationusernote" "auth.user" "author_id" d15 d16 e16 "project.projectusermessage" "project_id" (Or.inl (by decide))]
    exact k22_15
  have k23_16 : fieldCallOkV (step2 env db dod).2 "project.project" (fieldView d16 "project.projectreview" "project_id") = true := by
    rw [fieldView_uf_ne (step2 env db dod).2 "allocation.allocationusernote" "auth.user" "author_id" d15 d16 e16 "project.projectreview" "project_id" (Or.inl (by decide))]
    exact k23_15
  have k24_16 : fieldCallOkV (step2 env db dod).2 "project.project" (fieldView d16 "research_output.researchoutput" "project_id") = true := by
    rw [fieldView_uf_ne (step2 env db dod).2 "allocation.allocationusernote" "auth.user" "author_id" d15 d16 e16 "research_output.researchoutput" "project_id" (Or.inl (by decide))]
    exact k24_15
  obtain ⟨d17, e17⟩ := update_field_total (step2 env db dod).2 "project.projectuser" "project.project" "project_id" d16 k17_16
  have k18_17 : fieldCallOkV (step2 env db dod).2 "project.project" (fieldView d17 "allocation.allocation" "project_id") = true := by
    rw [fieldView_uf_ne (step2 env db dod).2 "project.projectuser" "project.project" "project_id" d16 d17 e17 "allocation.allocation" "project_id" (Or.inl (by decide))]
    exact k18_16
  have k19_17 : fieldCallOkV (step2 env db dod).2 "project.project" (fieldView d17 "publication.publication" "project_id") = true := by
    rw [fieldView_uf_ne (step2 env db dod).2 "project.projectuser" "project.project" "project_id" d16 d17 e17 "publication.publication" "project_id" (Or.inl (by decide))]
    exact k19_16
  have k20_17 : fieldCallOkV (step2 env db dod).2 "project.project" (fieldView d17 "grant.grant" "project_id") = true := by
    rw [fieldView_uf_ne (step2 env db dod).2 "project.projectuser" "project.project" "project_id" d16 d17 e17 "grant.grant" "project_id" (Or.inl (by decide))]
    exact k20_16
  have k21_17 : fieldCallOkV (step2 env db dod).2 "project.project" (fieldView d17 "project.projectadmincomment" "project_id") = true := by
    rw [fieldView_uf_ne (step2 env db dod).2 "project.projectuser" "project.project" "project_id" d16 d17 e17 "project.projectadmincomment" "project_id" (Or.inl (by decide))]
    exact k21_16
  have k22_17 : fieldCallOkV (step2 env db dod).2 "project.project" (fieldView d17 "project.projectusermessage" "project_id") = true := by
    rw [fieldView_uf_ne (step2 env db dod).2 "project.projectuser" "project.project" "project_id" d16 d17 e17 "project.projectusermessage" "project_id" (Or.inl (by decide))]
    exact k22_16
  have k23_17 : fieldCallOkV (step2 env db dod).2 "project.project" (fieldView d17 "project.projectreview" "project_id") = true := by
    rw [fieldView_uf_ne (step2 env db dod).2 "project.projectuser" "project.project" "project_id" d16 d17 e17 "project.projectreview" "project_id" (Or.inl (by decide))]
    exact k23_16
  have k24_17 : fieldCallOkV (step2 env db dod).2 "project.project" (fieldView d17 "research_output.researchoutput" "project_id") = true := by
    rw [fieldView_uf_ne (step2 env db dod).2 "project.projectuser" "project.project" "project_id" d16 d17 e17 "research_output.researchoutput" "project_id" (Or.inl (by decide))]
    exact k24_16
  obtain ⟨d18, e18⟩ := update_field_total (step2 env db dod).2 "allocation.allocation" "project.project" "project_id" d17 k18_17
  have k19_18 : fieldCallOkV (step2 env db dod).2 "project.project" (fieldView d18 "publication.publication" "project_id") = true := by
    rw [fieldView_uf_ne (step2 env db dod).2 "allocation.allocation" "project.project" "project_id" d17 d18 e18 "publication.publication" "project_id" (Or.inl (by decide))]
    exact k19_17
  have k20_18 : fieldCallOkV (step2 env db dod).2 "project.project" (fieldView d18 "grant.grant" "project_id") = true := by
    rw [fieldView_uf_ne (step2 env db dod).2 "allocation.allocation" "project.project" "project_id" d17 d18 e18 "grant.grant" "project_id" (Or.inl (by decide))]
    exact k20_17
  have k21_18 : fieldCallOkV (step2 env db dod).2 "project.project" (fieldView d18 "project.projectadmincomment" "project_id") = true := by
    rw [fieldView_uf_ne (step2 env db dod).2 "allocation.allocation" "project.project" "project_id" d17 d18 e18 "project.projectadmincomment" "project_id" (Or.inl (by decide))]
    exact k21_17
  have k22_18 : fieldCallOkV (step2 env db dod).2 "project.project" (fieldView d18 "project.projectusermessage" "project_id") = true := by
    rw [fieldView_uf_ne (step2 env db dod).2 "allocation.allocation" "project.project" "project_id" d17 d18 e18 "project.projectusermessage" "project_id" (Or.inl (by decide))]
    exact k22_17
  have k23_18 : fieldCallOkV (step2 env db dod).2 "project.project" (fieldView d18 "project.projectreview" "project_id") = true := by
    rw [fieldView_uf_ne (step2 env db dod).2 "allocation.allocation" "project.project" "project_id" d17 d18 e18 "project.projectreview" "project_id" (Or.inl (by decide))]
    exact k23_17
  have k24_18 : fieldCallOkV (step2 env db dod).2 "project.project" (fieldView d18 "research_output.researchoutput" "project_id") = true := by
    rw [fieldView_uf_ne (step2 env db dod).2 "allocation.allocation" "project.project" "project_id" d17 d18 e18 "research_output.researchoutput" "project_id" (Or.inl (by decide))]
    exact k24_17
  obtain ⟨d19, e19⟩ := update_field_total (step2 env db dod).2 "publication.publication" "project.project" "project_id" d18 k19_18
  have k20_19 : fieldCallOkV (step2 env db dod).2 "project.project" (fieldView d19 "grant.grant" "project_id") = true := by
    rw [fieldView_uf_ne (step2 env db dod).2 "publication.publication" "project.project" "project_id" d18 d19 e19 "grant.grant" "project_id" (Or.inl (by decide))]
    exact k20_18
  have k21_19 : fieldCallOkV (step2 env db dod).2 "project.project" (fieldView d19 "project.projectadmincomment" "project_id") = true := by
    rw [fieldView_uf_ne (step2 env db dod).2 "publication.publication" "project.project" "project_id" d18 d19 e19 "project.projectadmincomment" "project_id" (Or.inl (by decide))]
    exact k21_18
  have k22_19 : fieldCallOkV (step2 env db dod).2 "project.project" (fieldView d19 "project.projectusermessage" "project_id") = true := by
    rw [fieldView_uf_ne (step2 env db dod).2 "publication.publication" "project.project" "project_id" d18 d19 e19 "project.projectusermessage" "project_id" (Or.inl (by decide))]
    exact k22_18
  have k23_19 : fieldCallOkV (step2 env db dod).2 "project.project" (fieldView d19 "project.projectreview" "project_id") = true := by
    rw [fieldView_uf_ne (step2 env db dod).2 "publication.publication" "project.project" "project_id" d18 d19 e19 "project.projectreview" "project_id" (Or.inl (by decide))]
    exact k23_18
  have k24_19 : fieldCallOkV (step2 env db dod).2 "project.project" (fieldView d19 "research_output.researchoutput" "project_id") = true := by
    rw [fieldView_uf_ne (step2 env db dod).2 "publication.publication" "project.project" "project_id" d18 d19 e19 "research_output.researchoutput" "project_id" (Or.inl (by decide))]
    exact k24_18
  obtain ⟨d20, e20⟩ := update_field_total (step2 env db dod).2 "grant.grant" "project.project" "project_id" d19 k20_19
  have k21_20 : fieldCallOkV (step2 env db dod).2 "project.project" (fieldView d20 "project.projectadmincomment" "project_id") = true := by
    rw [fieldView_uf_ne (step2 env db dod).2 "grant.grant" "project.project" "project_id" d19 d20 e20 "project.projectadmincomment" "project_id" (Or.inl (by decide))]
    exact k21_19
  have k22_20 : fieldCallOkV (step2 env db dod).2 "project.project" (fieldView d20 "project.projectusermessage" "project_id") = true := by
    rw [fieldView_uf_ne (step2 env db dod).2 "grant.grant" "project.project" "project_id" d19 d20 e20 "project.projectusermessage" "project_id" (Or.inl (by decide))]
    exact k22_19
  have k23_20 : fieldCallOkV (step2 env db dod).2 "project.project" (fieldView d20 "project.projectreview" "project_id") = true := by
    rw [fieldView_uf_ne (step2 env db dod).2 "grant.grant" "project.project" "project_id" d19 d20 e20 "project.projectreview" "project_id" (Or.inl (by decide))]
    exact k23_19
  have k24_20 : fieldCallOkV (step2 env db dod).2 "project.project" (fieldView d20 "research_output.researchoutput" "project_id") = true := by
    rw [fieldView_uf_ne (step2 env db dod).2 "grant.grant" "project.project" "project_id" d19 d20 e20 "research_output.researchoutput" "project_id" (Or.inl (by decide))]
    exact k24_19
  obtain ⟨d21, e21⟩ := update_field_total (step2 env db dod).2 "project.projectadmincomment" "project.project" "project_id" d20 k21_20
  have k22_21 : fieldCallOkV (step2 env db dod).2 "project.project" (fieldView d21 "project.projectusermessage" "project_id") = true := by
    rw [fieldView_uf_ne (step2 env db dod).2 "project.projectadmincomment" "project.project" "project_id" d20 d21 e21 "project.projectusermessage" "project_id" (Or.inl (by decide))]
    exact k22_20
  have k23_21 : fieldCallOkV (step2 env db dod).2 "project.project" (fieldView d21 "project.projectreview" "project_id") = true := by
    rw [fieldView_uf_ne (step2 env db dod).2 "project.projectadmincomment" "project.project" "project_id" d20 d21 e21 "project.projectreview" "project_id" (Or.inl (by decide))]
    exact k23_20
  have k24_21 : fieldCallOkV (step2 env db dod).2 "project.project" (fieldView d21 "research_output.researchoutput" "project_id") = true := by
    rw [fieldView_uf_ne (step2 env db dod).2 "project.projectadmincomment" "project.project" "project_id" d20 d21 e21 "research_output.researchoutput" "project_id" (Or.inl (by decide))]
    exact k24_20
  obtain ⟨d22, e22⟩ := update_field_total (step2 env db dod).2 "project.projectusermessage" "project.project" "project_id" d21 k22_21
  have k23_22 : fieldCallOkV (step2 env db dod).2 "project.project" (fieldView d22 "project.projectreview" "project_id") = true := by
    rw [fieldView_uf_ne (step2 env db dod).2 "project.projectusermessage" "project.project" "project_id" d21 d22 e22 "project.projectreview" "project_id" (Or.inl (by decide))]
    exact k23_21
  have k24_22 : fieldCallOkV (step2 env db dod).2 "project.project" (fieldView d22 "research_output.researchoutput" "project_id") = true := by
    rw [fieldView_uf_ne (step2 env db dod).2 "project.projectusermessage" "project.project" "project_id" d21 d22 e22 "research_output.researchoutput" "project_id" (Or.inl (by decide))]
    exact k24_21
  obtain ⟨d23, e23⟩ := update_field_total (step2 env db dod).2 "project.projectreview" "project.project" "project_id" d22 k23_22
  have k24_23 : fieldCallOkV (step2 env db dod).2 "project.project" (fieldView d23 "research_output.researchoutput" "project_id") = true := by
    rw [fieldView_uf_ne (step2 env db dod).2 "project.projectreview" "project.project" "project_id" d22 d23 e23 "research_output.researchoutput" "project_id" (Or.inl (by decide))]
    exact k24_22
  obtain ⟨d24, e24⟩ := update_field_total (step2 env db dod).2 "research_output.researchoutput" "project.project" "project_id" d23 k24_23
  have b1 : batch_update_field (step2 env db dod).2 ["allocation.allocationchangerequest", "allocation.allocationattribute", "allocation.allocationadminnote", "allocation.allocationusernote"] "allocation.allocation" "allocation_id" d10 = some d14 := by
    rw [batch_update_field_cons, e11]
    simp only [Option.some_bind]
    rw [batch_update_field_cons, e12]
    simp only [Option.some_bind]
    rw [batch_update_field_cons, e13]
    simp only [Option.some_bind]
    rw [batch_update_field_cons, e14]
    simp only [Option.some_bind]
    exact batch_update_field_nil (step2 env db dod).2 "allocation.allocation" "allocation_id" d14
  have b2 : batch_update_field (step2 env db dod).2 ["allocation.allocationadminnote", "allocation.allocationusernote"] "auth.user" "author_id" d14 = some d16 := by
    rw [batch_update_field_cons, e15]
    simp only [Option.some_bind]
    rw [batch_update_field_cons, e16]
    simp only [Option.some_bind]
    exact batch_update_field_nil (step2 env db dod).2 "auth.user" "author_id" d16
  have b3 : batch_update_field (step2 env db dod).2 ["project.projectuser", "allocation.allocation", "publication.publication", "grant.grant", "project.projectadmincomment", "project.projectusermessage", "project.projectreview", "research_output.researchoutput"] "project.project" "project_id" d16 = some d24 := by
    rw [batch_update_field_cons, e17]
    simp only [Option.some_bind]
    rw [batch_update_field_cons, e18]
    simp only [Option.some_bind]
    rw [batch_update_field_cons, e19]
    simp only [Option.some_bind]
    rw [batch_update_field_cons, e20]
    simp only [Option.some_bind]
    rw [batch_update_field_cons, e21]
    simp only [Option.some_bind]
    rw [batch_update_field_cons, e22]
    simp only [Option.some_bind]
    rw [batch_update_field_cons, e23]
    simp only [Option.some_bind]
    rw [batch_update_field_cons, e24]
    simp only [Option.some_bind]
    exact batch_update_field_nil (step2 env db dod).2 "project.project" "project_id" d24
  refine ⟨(d24, frA, mrA), ?_⟩
  simp only [step3, e1, e2, e3, e4, e5, e6, e7, e8, e9, e10, b1, b2, b3,
    Option.bind_eq_bind, Option.some_bind]
  rfl

/-- Concrete inputs for the C6 witness: a document with one user and one
project whose pi_id refers to the user's imported pk. -/
def c6env : Env := ⟨[]⟩

def c6db : DB := []

def c6dod : DoDict :=
  [("auth.user", [⟨⟨"auth.user", 3, [("username", Val.str "u")], []⟩, [("groups", [])]⟩]),
   ("project.project",
     [⟨⟨"project.project", 10, [("title", Val.str "P"), ("pi_id", Val.int 3)], []⟩, []⟩])]

theorem C6_translation_lookups_succeed_witness :
    (fieldRefsOk c6dod "project.project" "pi_id" "auth.user" = true ∧
     fieldPresentOk c6dod "resource.resource" "parent_resource_id" = true ∧
     m2mRefsOk c6dod "resource.resource" "linked_resources" "resource.resource" = true ∧
     m2mRefsOk c6dod "auth.user" "groups" "auth.group" = true ∧
     fieldRefsOk c6dod "user.userprofile" "user_id" "auth.user" = true ∧
     m2mRefsOk c6dod "resource.resource" "allowed_users" "auth.user" = true ∧
     m2mRefsOk c6dod "resource.resource" "allowed_groups" "auth.group" = true ∧
     m2mRefsOk c6dod "allocation.allocation" "resources" "resource.resource" = true ∧
     fieldRefsOk c6dod "allocation.allocationuser" "user_id" "auth.user" = true ∧
     fieldRefsOk c6dod "allocation.allocationuser" "allocation_id" "allocation.allocation" = true ∧
     fieldRefsOk c6dod "allocation.allocationchangerequest" "allocation_id" "allocation.allocation" = true ∧
     fieldRefsOk c6dod "allocation.allocationattribute" "allocation_id" "allocation.allocation" = true ∧
     fieldRefsOk c6dod "allocation.allocationadminnote" "allocation_id" "allocation.allocation" = true ∧
     fieldRefsOk c6dod "allocation.allocationusernote" "allocation_id" "allocation.allocation" = true ∧
     fieldRefsOk c6dod "allocation.allocationadminnote" "author_id" "auth.user" = true ∧
     fieldRefsOk c6dod "allocation.allocationusernote" "author_id" "auth.user" = true ∧
     fieldRefsOk c6dod "project.projectuser" "project_id" "project.project" = true ∧
     fieldRefsOk c6dod "allocation.allocation" "project_id" "project.project" = true ∧
     fieldRefsOk c6dod "publication.publication" "project_id" "project.project" = true ∧
     fieldRefsOk c6dod "grant.grant" "project_id" "project.project" = true ∧
     fieldRefsOk c6dod "project.projectadmincomment" "project_id" "project.project" = true ∧
     fieldRefsOk c6dod "project.projectusermessage" "project_id" "project.project" = true ∧
     fieldRefsOk c6dod "project.projectreview" "project_id" "project.project" = true ∧
     fieldRefsOk c6dod "research_output.researchoutput" "project_id" "project.project" = true) ∧
    (∃ out, step3 (step2 c6env c6db c6dod).2 (step2 c6env c6db c6dod).1 = some out) :=
  ⟨by decide,
   C6_translation_lookups_succeed c6env c6db c6dod
    (by decide)
    (by decide)
    (by decide)
    (by decide)
    (by decide)
    (by decide)
    (by decide)
    (by decide)
    (by decide)
    (by decide)
    (by decide)
    (by decide)
    (by decide)
    (by decide)
    (by decide)
    (by decide)
    (by decide)
    (by decide)
    (by decide)
    (by decide)
    (by decide)
    (by decide)
    (by decide)
    (by decide)⟩

/-- C3 (amended): after the field-matching step of project import, every
manually listed foreign-key field of every deserialized object equals the
translation table's entry for its imported value, and every
`_update_m2m` many-to-many list is mapped elementwise through the
translation table provided the referenced model occurs in the document -
when it does not, the list is left unchanged.  (`parent_resource_id` and
`linked_resources` of resources are registered for post-save
reassignment rather than rewritten in place, so they are outside this
in-place rewrite.) -/
theorem C3_amended_field_matching
    (env : Env) (db : DB) (dod : DoDict) (out : DoDict × FieldRegist × M2mRegist)
    (h : step3 (step2 env db dod).2 (step2 env db dod).1 = some out) :
    (List.Forall₂ (fun x y => ∃ v nv, x = some (Val.int v) ∧
        tblLookup (step2 env db dod).2 "auth.user" v = some nv ∧ y = some (Val.int nv))
      (fieldView dod "project.project" "pi_id") (fieldView out.1 "project.project" "pi_id")) ∧
    (List.Forall₂ (fun x y => ∃ v nv, x = some (Val.int v) ∧
        tblLookup (step2 env db dod).2 "auth.user" v = some nv ∧ y = some (Val.int nv))
      (fieldView dod "user.userprofile" "user_id") (fieldView out.1 "user.userprofile" "user_id")) ∧
    (List.Forall₂ (fun x y => ∃ v nv, x = some (Val.int v) ∧
        tblLookup (step2 env db dod).2 "auth.user" v = some nv ∧ y = some (Val.int nv))
      (fieldView dod "allocation.allocationuser" "user_id") (fieldView out.1 "allocation.allocationuser" "user_id")) ∧
    (List.Forall₂ (fun x y => ∃ v nv, x = some (Val.int v) ∧
        tblLookup (step2 env db dod).2 "allocation.allocation" v = some nv ∧ y = some (Val.int nv))
      (fieldView dod "allocation.allocationuser" "allocation_id") (fieldView out.1 "allocation.allocationuser" "allocation_id")) ∧
    (List.Forall₂ (fun x y => ∃ v nv, x = some (Val.int v) ∧
        tblLookup (step2 env db dod).2 "allocation.allocation" v = some nv ∧ y = some (Val.int nv))
      (fieldView dod "allocation.allocationchangerequest" "allocation_id") (fieldView out.1 "allocation.allocationchangerequest" "allocation_id")) ∧
    (List.Forall₂ (fun x y => ∃ v nv, x = some (Val.int v) ∧
        tblLookup (step2 env db dod).2 "allocation.allocation" v = some nv ∧ y = some (Val.int nv))
      (fieldView dod "allocation.allocationattribute" "allocation_id") (fieldView out.1 "allocation.allocationattribute" "allocation_id")) ∧
    (List.Forall₂ (fun x y => ∃ v nv, x = some (Val.int v) ∧
        tblLookup (step2 env db dod).2 "allocation.allocation" v = some nv ∧ y = some (Val.int nv))
      (fieldView dod "allocation.allocationadminnote" "allocation_id") (fieldView out.1 "allocation.allocationadminnote" "allocation_id")) ∧
    (List.Forall₂ (fun x y => ∃ v nv, x = some (Val.int v) ∧
        tblLookup (step2 env db dod).2 "allocation.allocation" v = some nv ∧ y = some (Val.int nv))
      (fieldView dod "allocation.allocationusernote" "allocation_id") (fieldView out.1 "allocation.allocationusernote" "allocation_id")) ∧
    (List.Forall₂ (fun x y => ∃ v nv, x = some (Val.int v) ∧
        tblLookup (step2 env db dod).2 "auth.user" v = some nv ∧ y = some (Val.int nv))
      (fieldView dod "allocation.allocationadminnote" "author_id") (fieldView out.1 "allocation.allocationadminnote" "author_id")) ∧
    (List.Forall₂ (fun x y => ∃ v nv, x = some (Val.int v) ∧
        tblLookup (step2 env db dod).2 "auth.user" v = some nv ∧ y = some (Val.int nv))
      (fieldView dod "allocation.allocationusernote" "author_id") (fieldView out.1 "allocation.allocationusernote" "author_id")) ∧
    (List.Forall₂ (fun x y => ∃ v nv, x = some (Val.int v) ∧
        tblLookup (step2 env db dod).2 "project.project" v = some nv ∧ y = some (Val.int nv))
      (fieldView dod "project.projectuser" "project_id") (fieldView out.1 "project.projectuser" "project_id")) ∧
    (List.Forall₂ (fun x y => ∃ v nv, x = some (Val.int v) ∧
        tblLookup (step2 env db dod).2 "project.project" v = some nv ∧ y = some (Val.int nv))
      (fieldView dod "allocation.allocation" "project_id") (fieldView out.1 "allocation.allocation" "project_id")) ∧
    (List.Forall₂ (fun x y => ∃ v nv, x = some (Val.int v) ∧
        tblLookup (step2 env db dod).2 "project.project" v = some nv ∧ y = some (Val.int nv))
      (fieldView dod "publication.publication" "project_id") (fieldView out.1 "publication.publication" "project_id")) ∧
    (List.Forall₂ (fun x y => ∃ v nv, x = some (Val.int v) ∧
        tblLookup (step2 env db dod).2 "project.project" v = some nv ∧ y = some (Val.int nv))
      (fieldView dod "grant.grant" "project_id") (fieldView out.1 "grant.grant" "project_id")) ∧
    (List.Forall₂ (fun x y => ∃ v nv, x = some (Val.int v) ∧
        tblLookup (step2 env db dod).2 "project.project" v = some nv ∧ y = some (Val.int nv))
      (fieldView dod "project.projectadmincomment" "project_id") (fieldView out.1 "project.projectadmincomment" "project_id")) ∧
    (List.Forall₂ (fun x y => ∃ v nv, x = some (Val.int v) ∧
        tblLookup (step2 env db dod).2 "project.project" v = some nv ∧ y = some (Val.int nv))
      (fieldView dod "project.projectusermessage" "project_id") (fieldView out.1 "project.projectusermessage" "project_id")) ∧
    (List.Forall₂ (fun x y => ∃ v nv, x = some (Val.int v) ∧
        tblLookup (step2 env db dod).2 "project.project" v = some nv ∧ y = some (Val.int nv))
      (fieldView dod "project.projectreview" "project_id") (fieldView out.1 "project.projectreview" "project_id")) ∧
    (List.Forall₂ (fun x y => ∃ v nv, x = some (Val.int v) ∧
        tblLookup (step2 env db dod).2 "project.project" v = some nv ∧ y = some (Val.int nv))
      (fieldView dod "research_output.researchoutput" "project_id") (fieldView out.1 "research_output.researchoutput" "project_id")) ∧
    (((∀ t, alook (step2 env db dod).2 "auth.group" = some t →
      List.Forall₂ (fun x y => ∃ lns trans, x = some lns ∧
          lns.mapM (fun ln => alook t ln) = some trans ∧ y = some trans)
        (m2mView dod "auth.user" "groups") (m2mView out.1 "auth.user" "groups")) ∧
    (alook (step2 env db dod).2 "auth.group" = none →
      m2mView out.1 "auth.user" "groups" = m2mView dod "auth.user" "groups"))) ∧
    (((∀ t, alook (step2 env db dod).2 "auth.user" = some t →
      List.Forall₂ (fun x y => ∃ lns trans, x = some lns ∧
          lns.mapM (fun ln => alook t ln) = some trans ∧ y = some trans)
        (m2mView dod "resource.resource" "allowed_users") (m2mView out.1 "resource.resource" "allowed_users")) ∧
    (alook (step2 env db dod).2 "auth.user" = none →
      m2mView out.1 "resource.resource" "allowed_users" = m2mView dod "resource.resource" "allowed_users"))) ∧
    (((∀ t, alook (step2 env db dod).2 "auth.group" = some t →
      List.Forall₂ (fun x y => ∃ lns trans, x = some lns ∧
          lns.mapM (fun ln => alook t ln) = some trans ∧ y = some trans)
        (m2mView dod "resource.resource" "allowed_groups") (m2mView out.1 "resource.resource" "allowed_groups")) ∧
    (alook (step2 env db dod).2 "auth.group" = none →
      m2mView out.1 "resource.resource" "allowed_groups" = m2mView dod "resource.resource" "allowed_groups"))) ∧
    (((∀ t, alook (step2 env db dod).2 "resource.resource" = some t →
      List.Forall₂ (fun x y => ∃ lns trans, x = some lns ∧
          lns.mapM (fun ln => alook t ln) = some trans ∧ y = some trans)
        (m2mView dod "allocation.allocation" "resources") (m2mView out.1 "allocation.allocation" "resources")) ∧
    (alook (step2 env db dod).2 "resource.resource" = none →
      m2mView out.1 "allocation.allocation" "resources" = m2mView dod "allocation.allocation" "resources"))) := by
  unfold step3 at h
  rcases e1 : update_field (step2 env db dod).2 "project.project" "auth.user" "pi_id" (step2 env db dod).1 with _ | d1
  · rw [e1] at h
    simp at h
  rw [e1] at h
  simp only [Option.bind_eq_bind, Option.some_bind] at h
  rcases e2 : register_field "resource.resource" "resource.resource" "parent_resource_id" [] d1 with _ | ⟨frA, d2⟩
  · rw [e2] at h
    simp at h
  rw [e2] at h
  simp only [Option.bind_eq_bind, Option.some_bind] at h
  rcases e3 : register_m2m (step2 env db dod).2 "resource.resource" "resource.resource" "linked_resources" [] d2 with _ | ⟨mrA, d3⟩
  · rw [e3] at h
    simp at h
  rw [e3] at h
  simp only [Option.bind_eq_bind, Option.some_bind] at h
  rcases e4 : update_m2m (step2 env db dod).2 "auth.user" "auth.group" "groups" d3 with _ | d4
  · rw [e4] at h
    simp at h
  rw [e4] at h
  simp only [Option.bind_eq_bind, Option.some_bind] at h
  rcases e5 : update_field (step2 env db dod).2 "user.userprofile" "auth.user" "user_id" d4 with _ | d5
  · rw [e5] at h
    simp at h
  rw [e5] at h
  simp only [Option.bind_eq_bind, Option.some_bind] at h
  rcases e6 : update_m2m (step2 env db dod).2 "resource.resource" "auth.user" "allowed_users" d5 with _ | d6
  · rw [e6] at h
    simp at h
  rw [e6] at h
  simp only [Option.bind_eq_bind, Option.some_bind] at h
  rcases e7 : update_m2m (step2 env db dod).2 "resource.resource" "auth.group" "allowed_groups" d6 with _ | d7
  · rw [e7] at h
    simp at h
  rw [e7] at h
  simp only [Option.bind_eq_bind, Option.some_bind] at h
  rcases e8 : update_m2m (step2 env db dod).2 "allocation.allocation" "resource.resource" "resources" d7 with _ | d8
  · rw [e8] at h
    simp at h
  rw [e8] at h
  simp only [Option.bind_eq_bind, Option.some_bind] at h
  rcases e9 : update_field (step2 env db dod).2 "allocation.allocationuser" "auth.user" "user_id" d8 with _ | d9
  · rw [e9] at h
    simp at h
  rw [e9] at h
  simp only [Option.bind_eq_bind, Option.some_bind] at h
  rcases e10 : update_field (step2 env db dod).2 "allocation.allocationuser" "allocation.allocation" "allocation_id" d9 with _ | d10
  · rw [e10] at h
    simp at h
  rw [e10] at h
  simp only [Option.bind_eq_bind, Option.some_bind] at h
  rw [batch_update_field_cons] at h
  rcases e11 : update_field (step2 env db dod).2 "allocation.allocationchangerequest" "allocation.allocation" "allocation_id" d10 with _ | d11
  · rw [e11] at h
    simp at h
  rw [e11] at h
  simp only [Option.bind_eq_bind, Option.some_bind] at h
  rw [batch_update_field_cons] at h
  rcases e12 : update_field (step2 env db dod).2 "allocation.allocationattribute" "allocation.allocation" "allocation_id" d11 with _ | d12
  · rw [e12] at h
    simp at h
  rw [e12] at h
  simp only [Option.bind_eq_bind, Option.some_bind] at h
  rw [batch_update_field_cons] at h
  rcases e13 : update_field (step2 env db dod).2 "allocation.allocationadminnote" "allocation.allocation" "allocation_id" d12 with _ | d13
  · rw [e13] at h
    simp at h
  rw [e13] at h
  simp only [Option.bind_eq_bind, Option.some_bind] at h
  rw [batch_update_field_cons] at h
  rcases e14 : update_field (step2 env db dod).2 "allocation.allocationusernote" "allocation.allocation" "allocation_id" d13 with _ | d14
  · rw [e14] at h
    simp at h
  rw [e14] at h
  simp only [Option.bind_eq_bind, Option.some_bind] at h
  rw [batch_update_field_nil] at h
  simp only [Option.some_bind] at h
  rw [batch_update_field_cons] at h
  rcases e15 : update_field (step2 env db dod).2 "allocation.allocationadminnote" "auth.user" "author_id" d14 with _ | d15
  · rw [e15] at h
    simp at h
  rw [e15] at h
  simp only [Option.bind_eq_bind, Option.some_bind] at h
  rw [batch_update_field_cons] at h
  rcases e16 : update_field (step2 env db dod).2 "allocation.allocationusernote" "auth.user" "author_id" d15 with _ | d16
  · rw [e16] at h
    simp at h
  rw [e16] at h
  simp only [Option.bind_eq_bind, Option.some_bind] at h
  rw [batch_update_field_nil] at h
  simp only [Option.some_bind] at h
  rw [batch_update_field_cons] at h
  rcases e17 : update_field (step2 env db dod).2 "project.projectuser" "project.project" "project_id" d16 with _ | d17
  · rw [e17] at h
    simp at h
  rw [e17] at h
  simp only [Option.bind_eq_bind, Option.some_bind] at h
  rw [batch_update_field_cons] at h
  rcases e18 : update_field (step2 env db dod).2 "allocation.allocation" "project.project" "project_id" d17 with _ | d18
  · rw [e18] at h
    simp at h
  rw [e18] at h
  simp only [Option.bind_eq_bind, Option.some_bind] at h
  rw [batch_update_field_cons] at h
  rcases e19 : update_field (step2 env db dod).2 "publication.publication" "project.project" "project_id" d18 with _ | d19
  · rw [e19] at h
    simp at h
  rw [e19] at h
  simp only [Option.bind_eq_bind, Option.some_bind] at h
  rw [batch_update_field_cons] at h
  rcases e20 : update_field (step2 env db dod).2 "grant.grant" "project.project" "project_id" d19 with _ | d20
  · rw [e20] at h
    simp at h
  rw [e20] at h
  simp only [Option.bind_eq_bind, Option.some_bind] at h
  rw [batch_update_field_cons] at h
  rcases e21 : update_field (step2 env db dod).2 "project.projectadmincomment" "project.project" "project_id" d20 with _ | d21
  · rw [e21] at h
    simp at h
  rw [e21] at h
  simp only [Option.bind_eq_bind, Option.some_bind] at h
  rw [batch_update_field_cons] at h
  rcases e22 : update_field (step2 env db dod).2 "project.projectusermessage" "project.project" "project_id" d21 with _ | d22
  · rw [e22] at h
    simp at h
  rw [e22] at h
  simp only [Option.bind_eq_bind, Option.some_bind] at h
  rw [batch_update_field_cons] at h
  rcases e23 : update_field (step2 env db dod).2 "project.projectreview" "project.project" "project_id" d22 with _ | d23
  · rw [e23] at h
    simp at h
  rw [e23] at h
  simp only [Option.bind_eq_bind, Option.some_bind] at h
  rw [batch_update_field_cons] at h
  rcases e24 : update_field (step2 env db dod).2 "research_output.researchoutput" "project.project" "project_id" d23 with _ | d24
  · rw [e24] at h
    simp at h
  rw [e24] at h
  simp only [Option.bind_eq_bind, Option.some_bind] at h
  rw [batch_update_field_nil] at h
  simp only [Option.some_bind] at h
  have hout1 : out.1 = d24 := by
    rw [← Option.some_inj.mp h]
  refine ⟨?_, ?_, ?_, ?_, ?_, ?_, ?_, ?_, ?_, ?_, ?_, ?_, ?_, ?_, ?_, ?_, ?_, ?_, ?_, ?_, ?_, ?_⟩
  · rw [hout1,
      ← step2_fieldView env db dod "project.project" "pi_id",
      fieldView_uf_ne (step2 env db dod).2 "research_output.researchoutput" "project.project" "project_id" d23 d24 e24 "project.project" "pi_id" (Or.inl (by decide)),
      fieldView_uf_ne (step2 env db dod).2 "project.projectreview" "project.project" "project_id" d22 d23 e23 "project.project" "pi_id" (Or.inl (by decide)),
      fieldView_uf_ne (step2 env db dod).2 "project.projectusermessage" "project.project" "project_id" d21 d22 e22 "project.project" "pi_id" (Or.inl (by decide)),
      fieldView_uf_ne (step2 env db dod).2 "project.projectadmincomment" "project.project" "project_id" d20 d21 e21 "project.project" "pi_id" (Or.inl (by decide)),
      fieldView_uf_ne (step2 env db dod).2 "grant.grant" "project.project" "project_id" d19 d20 e20 "project.project" "pi_id" (Or.inl (by decide)),
      fieldView_uf_ne (step2 env db dod).2 "publication.publication" "project.project" "project_id" d18 d19 e19 "project.project" "pi_id" (Or.inl (by decide)),
      fieldView_uf_ne (step2 env db dod).2 "allocation.allocation" "project.project" "project_id" d17 d18 e18 "project.project" "pi_id" (Or.inl (by decide)),
      fieldView_uf_ne (step2 env db dod).2 "project.projectuser" "project.project" "project_id" d16 d17 e17 "project.project" "pi_id" (Or.inl (by decide)),
      fieldView_uf_ne (step2 env db dod).2 "allocation.allocationusernote" "auth.user" "author_id" d15 d16 e16 "project.project" "pi_id" (Or.inl (by decide)),
      fieldView_uf_ne (step2 env db dod).2 "allocation.allocationadminnote" "auth.user" "author_id" d14 d15 e15 "project.project" "pi_id" (Or.inl (by decide)),
      fieldView_uf_ne (step2 env db dod).2 "allocation.allocationusernote" "allocation.allocation" "allocation_id" d13 d14 e14 "project.project" "pi_id" (Or.inl (by decide)),
      fieldView_uf_ne (step2 env db dod).2 "allocation.allocationadminnote" "allocation.allocation" "allocation_id" d12 d13 e13 "project.project" "pi_id" (Or.inl (by decide)),
      fieldView_uf_ne (step2 env db dod).2 "allocation.allocationattribute" "allocation.allocation" "allocation_id" d11 d12 e12 "project.project" "pi_id" (Or.inl (by decide)),
      fieldView_uf_ne (step2 env db dod).2 "allocation.allocationchangerequest" "allocation.allocation" "allocation_id" d10 d11 e11 "project.project" "pi_id" (Or.inl (by decide)),
      fieldView_uf_ne (step2 env db dod).2 "allocation.allocationuser" "allocation.allocation" "allocation_id" d9 d10 e10 "project.project" "pi_id" (Or.inl (by decide)),
      fieldView_uf_ne (step2 env db dod).2 "allocation.allocationuser" "auth.user" "user_id" d8 d9 e9 "project.project" "pi_id" (Or.inl (by decide)),
      fieldView_um (step2 env db dod).2 "allocation.allocation" "resource.resource" "resources" d7 d8 e8 "project.project" "pi_id",
      fieldView_um (step2 env db dod).2 "resource.resource" "auth.group" "allowed_groups" d6 d7 e7 "project.project" "pi_id",
      fieldView_um (step2 env db dod).2 "resource.resource" "auth.user" "allowed_users" d5 d6 e6 "project.project" "pi_id",
      fieldView_uf_ne (step2 env db dod).2 "user.userprofile" "auth.user" "user_id" d4 d5 e5 "project.project" "pi_id" (Or.inl (by decide)),
      fieldView_um (step2 env db dod).2 "auth.user" "auth.group" "groups" d3 d4 e4 "project.project" "pi_id",
      fieldView_rm (step2 env db dod).2 "resource.resource" "resource.resource" "linked_resources" [] d2 mrA d3 e3 "project.project" "pi_id",
      fieldView_rf_ne "resource.resource" "resource.resource" "parent_resource_id" [] d1 frA d2 e2 "project.project" "pi_id" (Or.inl (by decide))]
    exact fieldView_uf_eq (step2 env db dod).2 "project.project" "auth.user" "pi_id" (step2 env db dod).1 d1 e1
  · rw [hout1,
      ← step2_fieldView env db dod "user.userprofile" "user_id",
      ← fieldView_uf_ne (step2 env db dod).2 "project.project" "auth.user" "pi_id" (step2 env db dod).1 d1 e1 "user.userprofile" "user_id" (Or.inl (by decide)),
      ← fieldView_rf_ne "resource.resource" "resource.resource" "parent_resource_id" [] d1 frA d2 e2 "user.userprofile" "user_id" (Or.inl (by decide)),
      ← fieldView_rm (step2 env db dod).2 "resource.resource" "resource.resource" "linked_resources" [] d2 mrA d3 e3 "user.userprofile" "user_id",
      ← fieldView_um (step2 env db dod).2 "auth.user" "auth.group" "groups" d3 d4 e4 "user.userprofile" "user_id",
      fieldView_uf_ne (step2 env db dod).2 "research_output.researchoutput" "project.project" "project_id" d23 d24 e24 "user.userprofile" "user_id" (Or.inl (by decide)),
      fieldView_uf_ne (step2 env db dod).2 "project.projectreview" "project.project" "project_id" d22 d23 e23 "user.userprofile" "user_id" (Or.inl (by decide)),
      fieldView_uf_ne (step2 env db dod).2 "project.projectusermessage" "project.project" "project_id" d21 d22 e22 "user.userprofile" "user_id" (Or.inl (by decide)),
      fieldView_uf_ne (step2 env db dod).2 "project.projectadmincomment" "project.project" "project_id" d20 d21 e21 "user.userprofile" "user_id" (Or.inl (by decide)),
      fieldView_uf_ne (step2 env db dod).2 "grant.grant" "project.project" "project_id" d19 d20 e20 "user.userprofile" "user_id" (Or.inl (by decide)),
      fieldView_uf_ne (step2 env db dod).2 "publication.publication" "project.project" "project_id" d18 d19 e19 "user.userprofile" "user_id" (Or.inl (by decide)),
      fieldView_uf_ne (step2 env db dod).2 "allocation.allocation" "project.project" "project_id" d17 d18 e18 "user.userprofile" "user_id" (Or.inl (by decide)),
      fieldView_uf_ne (step2 env db dod).2 "project.projectuser" "project.project" "project_id" d16 d17 e17 "user.userprofile" "user_id" (Or.inl (by decide)),
      fieldView_uf_ne (step2 env db dod).2 "allocation.allocationusernote" "auth.user" "author_id" d15 d16 e16 "user.userprofile" "user_id" (Or.inl (by decide)),
      fieldView_uf_ne (step2 env db dod).2 "allocation.allocationadminnote" "auth.user" "author_id" d14 d15 e15 "user.userprofile" "user_id" (Or.inl (by decide)),
      fieldView_uf_ne (step2 env db dod).2 "allocation.allocationusernote" "allocation.allocation" "allocation_id" d13 d14 e14 "user.userprofile" "user_id" (Or.inl (by decide)),
      fieldView_uf_ne (step2 env db dod).2 "allocation.allocationadminnote" "allocation.allocation" "allocation_id" d12 d13 e13 "user.userprofile" "user_id" (Or.inl (by decide)),
      fieldView_uf_ne (step2 env db dod).2 "allocation.allocationattribute" "allocation.allocation" "allocation_id" d11 d12 e12 "user.userprofile" "user_id" (Or.inl (by decide)),
      fieldView_uf_ne (step2 env db dod).2 "allocation.allocationchangerequest" "allocation.allocation" "allocation_id" d10 d11 e11 "user.userprofile" "user_id" (Or.inl (by decide)),
      fieldView_uf_ne (step2 env db dod).2 "allocation.allocationuser" "allocation.allocation" "allocation_id" d9 d10 e10 "user.userprofile" "user_id" (Or.inl (by decide)),
      fieldView_uf_ne (step2 env db dod).2 "allocation.allocationuser" "auth.user" "user_id" d8 d9 e9 "user.userprofile" "user_id" (Or.inl (by decide)),
      fieldView_um (step2 env db dod).2 "allocation.allocation" "resource.resource" "resources" d7 d8 e8 "user.userprofile" "user_id",
      fieldView_um (step2 env db dod).2 "resource.resource" "auth.group" "allowed_groups" d6 d7 e7 "user.userprofile" "user_id",
      fieldView_um (step2 env db dod).2 "resource.resource" "auth.user" "allowed_users" d5 d6 e6 "user.userprofile" "user_id"]
    exact fieldView_uf_eq (step2 env db dod).2 "user.userprofile" "auth.user" "user_id" d4 d5 e5
  · rw [hout1,
      ← step2_fieldView env db dod "allocation.allocationuser" "user_id",
      ← fieldView_uf_ne (step2 env db dod).2 "project.project" "auth.user" "pi_id" (step2 env db dod).1 d1 e1 "allocation.allocationuser" "user_id" (Or.inl (by decide)),
      ← fieldView_rf_ne "resource.resource" "resource.resource" "parent_resource_id" [] d1 frA d2 e2 "allocation.allocationuser" "user_id" (Or.inl (by decide)),
      ← fieldView_rm (step2 env db dod).2 "resource.resource" "resource.resource" "linked_resources" [] d2 mrA d3 e3 "allocation.allocationuser" "user_id",
      ← fieldView_um (step2 env db dod).2 "auth.user" "auth.group" "groups" d3 d4 e4 "allocation.allocationuser" "user_id",
      ← fieldView_uf_ne (step2 env db dod).2 "user.userprofile" "auth.user" "user_id" d4 d5 e5 "allocation.allocationuser" "user_id" (Or.inl (by decide)),
      ← fieldView_um (step2 env db dod).2 "resource.resource" "auth.user" "allowed_users" d5 d6 e6 "allocation.allocationuser" "user_id",
      ← fieldView_um (step2 env db dod).2 "resource.resource" "auth.group" "allowed_groups" d6 d7 e7 "allocation.allocationuser" "user_id",
      ← fieldView_um (step2 env db dod).2 "allocation.allocation" "resource.resource" "resources" d7 d8 e8 "allocation.allocationuser" "user_id",
      fieldView_uf_ne (step2 env db dod).2 "research_output.researchoutput" "project.project" "project_id" d23 d24 e24 "allocation.allocationuser" "user_id" (Or.inl (by decide)),
      fieldView_uf_ne (step2 env db dod).2 "project.projectreview" "project.project" "project_id" d22 d23 e23 "allocation.allocationuser" "user_id" (Or.inl (by decide)),
      fieldView_uf_ne (step2 env db dod).2 "project.projectusermessage" "project.project" "project_id" d21 d22 e22 "allocation.allocationuser" "user_id" (Or.inl (by decide)),
      fieldView_uf_ne (step2 env db dod).2 "project.projectadmincomment" "project.project" "project_id" d20 d21 e21 "allocation.allocationuser" "user_id" (Or.inl (by decide)),
      fieldView_uf_ne (step2 env db dod).2 "grant.grant" "project.project" "project_id" d19 d20 e20 "allocation.allocationuser" "user_id" (Or.inl (by decide)),
      fieldView_uf_ne (step2 env db dod).2 "publication.publication" "project.project" "project_id" d18 d19 e19 "allocation.allocationuser" "user_id" (Or.inl (by decide)),
      fieldView_uf_ne (step2 env db dod).2 "allocation.allocation" "project.project" "project_id" d17 d18 e18 "allocation.allocationuser" "user_id" (Or.inl (by decide)),
      fieldView_uf_ne (step2 env db dod).2 "project.projectuser" "project.project" "project_id" d16 d17 e17 "allocation.allocationuser" "user_id" (Or.inl (by decide)),
      fieldView_uf_ne (step2 env db dod).2 "allocation.allocationusernote" "auth.user" "author_id" d15 d16 e16 "allocation.allocationuser" "user_id" (Or.inl (by decide)),
      fieldView_uf_ne (step2 env db dod).2 "allocation.allocationadminnote" "auth.user" "author_id" d14 d15 e15 "allocation.allocationuser" "user_id" (Or.inl (by decide)),
      fieldView_uf_ne (step2 env db dod).2 "allocation.allocationusernote" "allocation.allocation" "allocation_id" d13 d14 e14 "allocation.allocationuser" "user_id" (Or.inl (by decide)),
      fieldView_uf_ne (step2 env db dod).2 "allocation.allocationadminnote" "allocation.allocation" "allocation_id" d12 d13 e13 "allocation.allocationuser" "user_id" (Or.inl (by decide)),
      fieldView_uf_ne (step2 env db dod).2 "allocation.allocationattribute" "allocation.allocation" "allocation_id" d11 d12 e12 "allocation.allocationuser" "user_id" (Or.inl (by decide)),
      fieldView_uf_ne (step2 env db dod).2 "allocation.allocationchangerequest" "allocation.allocation" "allocation_id" d10 d11 e11 "allocation.allocationuser" "user_id" (Or.inl (by decide)),
      fieldView_uf_ne (step2 env db dod).2 "allocation.allocationuser" "allocation.allocation" "allocation_id" d9 d10 e10 "allocation.allocationuser" "user_id" (Or.inr (by decide))]
    exact fieldView_uf_eq (step2 env db dod).2 "allocation.allocationuser" "auth.user" "user_id" d8 d9 e9
  · rw [hout1,
      ← step2_fieldView env db dod "allocation.allocationuser" "allocation_id",
      ← fieldView_uf_ne (step2 env db dod).2 "project.project" "auth.user" "pi_id" (step2 env db dod).1 d1 e1 "allocation.allocationuser" "allocation_id" (Or.inl (by decide)),
      ← fieldView_rf_ne "resource.resource" "resource.resource" "parent_resource_id" [] d1 frA d2 e2 "allocation.allocationuser" "allocation_id" (Or.inl (by decide)),
      ← fieldView_rm (step2 env db dod).2 "resource.resource" "resource.resource" "linked_resources" [] d2 mrA d3 e3 "allocation.allocationuser" "allocation_id",
      ← fieldView_um (step2 env db dod).2 "auth.user" "auth.group" "groups" d3 d4 e4 "allocation.allocationuser" "allocation_id",
      ← fieldView_uf_ne (step2 env db dod).2 "user.userprofile" "auth.user" "user_id" d4 d5 e5 "allocation.allocationuser" "allocation_id" (Or.inl (by decide)),
      ← fieldView_um (step2 env db dod).2 "resource.resource" "auth.user" "allowed_users" d5 d6 e6 "allocation.allocationuser" "allocation_id",
      ← fieldView_um (step2 env db dod).2 "resource.resource" "auth.group" "allowed_groups" d6 d7 e7 "allocation.allocationuser" "allocation_id",
      ← fieldView_um (step2 env db dod).2 "allocation.allocation" "resource.resource" "resources" d7 d8 e8 "allocation.allocationuser" "allocation_id",
      ← fieldView_uf_ne (step2 env db dod).2 "allocation.allocationuser" "auth.user" "user_id" d8 d9 e9 "allocation.allocationuser" "allocation_id" (Or.inr (by decide)),
      fieldView_uf_ne (step2 env db dod).2 "research_output.researchoutput" "project.project" "project_id" d23 d24 e24 "allocation.allocationuser" "allocation_id" (Or.inl (by decide)),
      fieldView_uf_ne (step2 env db dod).2 "project.projectreview" "project.project" "project_id" d22 d23 e23 "allocation.allocationuser" "allocation_id" (Or.inl (by decide)),
      fieldView_uf_ne (step2 env db dod).2 "project.projectusermessage" "project.project" "project_id" d21 d22 e22 "allocation.allocationuser" "allocation_id" (Or.inl (by decide)),
      fieldView_uf_ne (step2 env db dod).2 "project.projectadmincomment" "project.project" "project_id" d20 d21 e21 "allocation.allocationuser" "allocation_id" (Or.inl (by decide)),
      fieldView_uf_ne (step2 env db dod).2 "grant.grant" "project.project" "project_id" d19 d20 e20 "allocation.allocationuser" "allocation_id" (Or.inl (by decide)),
      fieldView_uf_ne (step2 env db dod).2 "publication.publication" "project.project" "project_id" d18 d19 e19 "allocation.allocationuser" "allocation_id" (Or.inl (by decide)),
      fieldView_uf_ne (step2 env db dod).2 "allocation.allocation" "project.project" "project_id" d17 d18 e18 "allocation.allocationuser" "allocation_id" (Or.inl (by decide)),
      fieldView_uf_ne (step2 env db dod).2 "project.projectuser" "project.project" "project_id" d16 d17 e17 "allocation.allocationuser" "allocation_id" (Or.inl (by decide)),
      fieldView_uf_ne (step2 env db dod).2 "allocation.allocationusernote" "auth.user" "author_id" d15 d16 e16 "allocation.allocationuser" "allocation_id" (Or.inl (by decide)),
      fieldView_uf_ne (step2 env db dod).2 "allocation.allocationadminnote" "auth.user" "author_id" d14 d15 e15 "allocation.allocationuser" "allocation_id" (Or.inl (by decide)),
      fieldView_uf_ne (step2 env db dod).2 "allocation.allocationusernote" "allocation.allocation" "allocation_id" d13 d14 e14 "allocation.allocationuser" "allocation_id" (Or.inl (by decide)),
      fieldView_uf_ne (step2 env db dod).2 "allocation.allocationadminnote" "allocation.allocation" "allocation_id" d12 d13 e13 "allocation.allocationuser" "allocation_id" (Or.inl (by decide)),
      fieldView_uf_ne (step2 env db dod).2 "allocation.allocationattribute" "allocation.allocation" "allocation_id" d11 d12 e12 "allocation.allocationuser" "allocation_id" (Or.inl (by decide)),
      fieldView_uf_ne (step2 env db dod).2 "allocation.allocationchangerequest" "allocation.allocation" "allocation_id" d10 d11 e11 "allocation.allocationuser" "allocation_id" (Or.inl (by decide))]
    exact fieldView_uf_eq (step2 env db dod).2 "allocation.allocationuser" "allocation.allocation" "allocation_id" d9 d10 e10
  · rw [hout1,
      ← step2_fieldView env db dod "allocation.allocationchangerequest" "allocation_id",
      ← fieldView_uf_ne (step2 env db dod).2 "project.project" "auth.user" "pi_id" (step2 env db dod).1 d1 e1 "allocation.allocationchangerequest" "allocation_id" (Or.inl (by decide)),
      ← fieldView_rf_ne "resource.resource" "resource.resource" "parent_resource_id" [] d1 frA d2 e2 "allocation.allocationchangerequest" "allocation_id" (Or.inl (by decide)),
      ← fieldView_rm (step2 env db dod).2 "resource.resource" "resource.resource" "linked_resources" [] d2 mrA d3 e3 "allocation.allocationchangerequest" "allocation_id",
      ← fieldView_um (step2 env db dod).2 "auth.user" "auth.group" "groups" d3 d4 e4 "allocation.allocationchangerequest" "allocation_id",
      ← fieldView_uf_ne (step2 env db dod).2 "user.userprofile" "auth.user" "user_id" d4 d5 e5 "allocation.allocationchangerequest" "allocation_id" (Or.inl (by decide)),
      ← fieldView_um (step2 env db dod).2 "resource.resource" "auth.user" "allowed_users" d5 d6 e6 "allocation.allocationchangerequest" "allocation_id",
      ← fieldView_um (step2 env db dod).2 "resource.resource" "auth.group" "allowed_groups" d6 d7 e7 "allocation.allocationchangerequest" "allocation_id",
      ← fieldView_um (step2 env db dod).2 "allocation.allocation" "resource.resource" "resources" d7 d8 e8 "allocation.allocationchangerequest" "allocation_id",
      ← fieldView_uf_ne (step2 env db dod).2 "allocation.allocationuser" "auth.user" "user_id" d8 d9 e9 "allocation.allocationchangerequest" "allocation_id" (Or.inl (by decide)),
      ← fieldView_uf_ne (step2 env db dod).2 "allocation.allocationuser" "allocation.allocation" "allocation_id" d9 d10 e10 "allocation.allocationchangerequest" "allocation_id" (Or.inl (by decide)),
      fieldView_uf_ne (step2 env db dod).2 "research_output.researchoutput" "project.project" "project_id" d23 d24 e24 "allocation.allocationchangerequest" "allocation_id" (Or.inl (by decide)),
      fieldView_uf_ne (step2 env db dod).2 "project.projectreview" "project.project" "project_id" d22 d23 e23 "allocation.allocationchangerequest" "allocation_id" (Or.inl (by decide)),
      fieldView_uf_ne (step2 env db dod).2 "project.projectusermessage" "project.project" "project_id" d21 d22 e22 "allocation.allocationchangerequest" "allocation_id" (Or.inl (by decide)),
      fieldView_uf_ne (step2 env db dod).2 "project.projectadmincomment" "project.project" "project_id" d20 d21 e21 "allocation.allocationchangerequest" "allocation_id" (Or.inl (by decide)),
      fieldView_uf_ne (step2 env db dod).2 "grant.grant" "project.project" "project_id" d19 d20 e20 "allocation.allocationchangerequest" "allocation_id" (Or.inl (by decide)),
      fieldView_uf_ne (step2 env db dod).2 "publication.publication" "project.project" "project_id" d18 d19 e19 "allocation.allocationchangerequest" "allocation_id" (Or.inl (by decide)),
      fieldView_uf_ne (step2 env db dod).2 "allocation.allocation" "project.project" "project_id" d17 d18 e18 "allocation.allocationchangerequest" "allocation_id" (Or.inl (by decide)),
      fieldView_uf_ne (step2 env db dod).2 "project.projectuser" "project.project" "project_id" d16 d17 e17 "allocation.allocationchangerequest" "allocation_id" (Or.inl (by decide)),
      fieldView_uf_ne (step2 env db dod).2 "allocation.allocationusernote" "auth.user" "author_id" d15 d16 e16 "allocation.allocationchangerequest" "allocation_id" (Or.inl (by decide)),
      fieldView_uf_ne (step2 env db dod).2 "allocation.allocationadminnote" "auth.user" "author_id" d14 d15 e15 "allocation.allocationchangerequest" "allocation_id" (Or.inl (by decide)),
      fieldView_uf_ne (step2 env db dod).2 "allocation.allocationusernote" "allocation.allocation" "allocation_id" d13 d14 e14 "allocation.allocationchangerequest" "allocation_id" (Or.inl (by decide)),
      fieldView_uf_ne (step2 env db dod).2 "allocation.allocationadminnote" "allocation.allocation" "allocation_id" d12 d13 e13 "allocation.allocationchangerequest" "allocation_id" (Or.inl (by decide)),
      fieldView_uf_ne (step2 env db dod).2 "allocation.allocationattribute" "allocation.allocation" "allocation_id" d11 d12 e12 "allocation.allocationchangerequest" "allocation_id" (Or.inl (by decide))]
    exact fieldView_uf_eq (step2 env db dod).2 "allocation.allocationchangerequest" "allocation.allocation" "allocation_id" d10 d11 e11
  · rw [hout1,
      ← step2_fieldView env db dod "allocation.allocationattribute" "allocation_id",
      ← fieldView_uf_ne (step2 env db dod).2 "project.project" "auth.user" "pi_id" (step2 env db dod).1 d1 e1 "allocation.allocationattribute" "allocation_id" (Or.inl (by decide)),
      ← fieldView_rf_ne "resource.resource" "resource.resource" "parent_resource_id" [] d1 frA d2 e2 "allocation.allocationattribute" "allocation_id" (Or.inl (by decide)),
      ← fieldView_rm (step2 env db dod).2 "resource.resource" "resource.resource" "linked_resources" [] d2 mrA d3 e3 "allocation.allocationattribute" "allocation_id",
      ← fieldView_um (step2 env db dod).2 "auth.user" "auth.group" "groups" d3 d4 e4 "allocation.allocationattribute" "allocation_id",
      ← fieldView_uf_ne (step2 env db dod).2 "user.userprofile" "auth.user" "user_id" d4 d5 e5 "allocation.allocationattribute" "allocation_id" (Or.inl (by decide)),
      ← fieldView_um (step2 env db dod).2 "resource.resource" "auth.user" "allowed_users" d5 d6 e6 "allocation.allocationattribute" "allocation_id",
      ← fieldView_um (step2 env db dod).2 "resource.resource" "auth.group" "allowed_groups" d6 d7 e7 "allocation.allocationattribute" "allocation_id",
      ← fieldView_um (step2 env db dod).2 "allocation.allocation" "resource.resource" "resources" d7 d8 e8 "allocation.allocationattribute" "allocation_id",
      ← fieldView_uf_ne (step2 env db dod).2 "allocation.allocationuser" "auth.user" "user_id" d8 d9 e9 "allocation.allocationattribute" "allocation_id" (Or.inl (by decide)),
      ← fieldView_uf_ne (step2 env db dod).2 "allocation.allocationuser" "allocation.allocation" "allocation_id" d9 d10 e10 "allocation.allocationattribute" "allocation_id" (Or.inl (by decide)),
      ← fieldView_uf_ne (step2 env db dod).2 "allocation.allocationchangerequest" "allocation.allocation" "allocation_id" d10 d11 e11 "allocation.allocationattribute" "allocation_id" (Or.inl (by decide)),
      fieldView_uf_ne (step2 env db dod).2 "research_output.researchoutput" "project.project" "project_id" d23 d24 e24 "allocation.allocationattribute" "allocation_id" (Or.inl (by decide)),
      fieldView_uf_ne (step2 env db dod).2 "project.projectreview" "project.project" "project_id" d22 d23 e23 "allocation.allocationattribute" "allocation_id" (Or.inl (by decide)),
      fieldView_uf_ne (step2 env db dod).2 "project.projectusermessage" "project.project" "project_id" d21 d22 e22 "allocation.allocationattribute" "allocation_id" (Or.inl (by decide)),
      fieldView_uf_ne (step2 env db dod).2 "project.projectadmincomment" "project.project" "project_id" d20 d21 e21 "allocation.allocationattribute" "allocation_id" (Or.inl (by decide)),
      fieldView_uf_ne (step2 env db dod).2 "grant.grant" "project.project" "project_id" d19 d20 e20 "allocation.allocationattribute" "allocation_id" (Or.inl (by decide)),
      fieldView_uf_ne (step2 env db dod).2 "publication.publication" "project.project" "project_id" d18 d19 e19 "allocation.allocationattribute" "allocation_id" (Or.inl (by decide)),
      fieldView_uf_ne (step2 env db dod).2 "allocation.allocation" "project.project" "project_id" d17 d18 e18 "allocation.allocationattribute" "allocation_id" (Or.inl (by decide)),
      fieldView_uf_ne (step2 env db dod).2 "project.projectuser" "project.project" "project_id" d16 d17 e17 "allocation.allocationattribute" "allocation_id" (Or.inl (by decide)),
      fieldView_uf_ne (step2 env db dod).2 "allocation.allocationusernote" "auth.user" "author_id" d15 d16 e16 "allocation.allocationattribute" "allocation_id" (Or.inl (by decide)),
      fieldView_uf_ne (step2 env db dod).2 "allocation.allocationadminnote" "auth.user" "author_id" d14 d15 e15 "allocation.allocationattribute" "allocation_id" (Or.inl (by decide)),
      fieldView_uf_ne (step2 env db dod).2 "allocation.allocationusernote" "allocation.allocation" "allocation_id" d13 d14 e14 "allocation.allocationattribute" "allocation_id" (Or.inl (by decide)),
      fieldView_uf_ne (step2 env db dod).2 "allocation.allocationadminnote" "allocation.allocation" "allocation_id" d12 d13 e13 "allocation.allocationattribute" "allocation_id" (Or.inl (by decide))]
    exact fieldView_uf_eq (step2 env db dod).2 "allocation.allocationattribute" "allocation.allocation" "allocation_id" d11 d12 e12
  · rw [hout1,
      ← step2_fieldView env db dod "allocation.allocationadminnote" "allocation_id",
      ← fieldView_uf_ne (step2 env db dod).2 "project.project" "auth.user" "pi_id" (step2 env db dod).1 d1 e1 "allocation.allocationadminnote" "allocation_id" (Or.inl (by decide)),
      ← fieldView_rf_ne "resource.resource" "resource.resource" "parent_resource_id" [] d1 frA d2 e2 "allocation.allocationadminnote" "allocation_id" (Or.inl (by decide)),
      ← fieldView_rm (step2 env db dod).2 "resource.resource" "resource.resource" "linked_resources" [] d2 mrA d3 e3 "allocation.allocationadminnote" "allocation_id",
      ← fieldView_um (step2 env db dod).2 "auth.user" "auth.group" "groups" d3 d4 e4 "allocation.allocationadminnote" "allocation_id",
      ← fieldView_uf_ne (step2 env db dod).2 "user.userprofile" "auth.user" "user_id" d4 d5 e5 "allocation.allocationadminnote" "allocation_id" (Or.inl (by decide)),
      ← fieldView_um (step2 env db dod).2 "resource.resource" "auth.user" "allowed_users" d5 d6 e6 "allocation.allocationadminnote" "allocation_id",
      ← fieldView_um (step2 env db dod).2 "resource.resource" "auth.group" "allowed_groups" d6 d7 e7 "allocation.allocationadminnote" "allocation_id",
      ← fieldView_um (step2 env db dod).2 "allocation.allocation" "resource.resource" "resources" d7 d8 e8 "allocation.allocationadminnote" "allocation_id",
      ← fieldView_uf_ne (step2 env db dod).2 "allocation.allocationuser" "auth.user" "user_id" d8 d9 e9 "allocation.allocationadminnote" "allocation_id" (Or.inl (by decide)),
      ← fieldView_uf_ne (step2 env db dod).2 "allocation.allocationuser" "allocation.allocation" "allocation_id" d9 d10 e10 "allocation.allocationadminnote" "allocation_id" (Or.inl (by decide)),
      ← fieldView_uf_ne (step2 env db dod).2 "allocation.allocationchangerequest" "allocation.allocation" "allocation_id" d10 d11 e11 "allocation.allocationadminnote" "allocation_id" (Or.inl (by decide)),
      ← fieldView_uf_ne (step2 env db dod).2 "allocation.allocationattribute" "allocation.allocation" "allocation_id" d11 d12 e12 "allocation.allocationadminnote" "allocation_id" (Or.inl (by decide)),
      fieldView_uf_ne (step2 env db dod).2 "research_output.researchoutput" "project.project" "project_id" d23 d24 e24 "allocation.allocationadminnote" "allocation_id" (Or.inl (by decide)),
      fieldView_uf_ne (step2 env db dod).2 "project.projectreview" "project.project" "project_id" d22 d23 e23 "allocation.allocationadminnote" "allocation_id" (Or.inl (by decide)),
      fieldView_uf_ne (step2 env db dod).2 "project.projectusermessage" "project.project" "project_id" d21 d22 e22 "allocation.allocationadminnote" "allocation_id" (Or.inl (by decide)),
      fieldView_uf_ne (step2 env db dod).2 "project.projectadmincomment" "project.project" "project_id" d20 d21 e21 "allocation.allocationadminnote" "allocation_id" (Or.inl (by decide)),
      fieldView_uf_ne (step2 env db dod).2 "grant.grant" "project.project" "project_id" d19 d20 e20 "allocation.allocationadminnote" "allocation_id" (Or.inl (by decide)),
      fieldView_uf_ne (step2 env db dod).2 "publication.publication" "project.project" "project_id" d18 d19 e19 "allocation.allocationadminnote" "allocation_id" (Or.inl (by decide)),
      fieldView_uf_ne (step2 env db dod).2 "allocation.allocation" "project.project" "project_id" d17 d18 e18 "allocation.allocationadminnote" "allocation_id" (Or.inl (by decide)),
      fieldView_uf_ne (step2 env db dod).2 "project.projectuser" "project.project" "project_id" d16 d17 e17 "allocation.allocationadminnote" "allocation_id" (Or.inl (by decide)),
      fieldView_uf_ne (step2 env db dod).2 "allocation.allocationusernote" "auth.user" "author_id" d15 d16 e16 "allocation.allocationadminnote" "allocation_id" (Or.inl (by decide)),
      fieldView_uf_ne (step2 env db dod).2 "allocation.allocationadminnote" "auth.user" "author_id" d14 d15 e15 "allocation.allocationadminnote" "allocation_id" (Or.inr (by decide)),
      fieldView_uf_ne (step2 env db dod).2 "allocation.allocationusernote" "allocation.allocation" "allocation_id" d13 d14 e14 "allocation.allocationadminnote" "allocation_id" (Or.inl (by decide))]
    exact fieldView_uf_eq (step2 env db dod).2 "allocation.allocationadminnote" "allocation.allocation" "allocation_id" d12 d13 e13
  · rw [hout1,
      ← step2_fieldView env db dod "allocation.allocationusernote" "allocation_id",
      ← fieldView_uf_ne (step2 env db dod).2 "project.project" "auth.user" "pi_id" (step2 env db dod).1 d1 e1 "allocation.allocationusernote" "allocation_id" (Or.inl (by decide)),
      ← fieldView_rf_ne "resource.resource" "resource.resource" "parent_resource_id" [] d1 frA d2 e2 "allocation.allocationusernote" "allocation_id" (Or.inl (by decide)),
      ← fieldView_rm (step2 env db dod).2 "resource.resource" "resource.resource" "linked_resources" [] d2 mrA d3 e3 "allocation.allocationusernote" "allocation_id",
      ← fieldView_um (step2 env db dod).2 "auth.user" "auth.group" "groups" d3 d4 e4 "allocation.allocationusernote" "allocation_id",
      ← fieldView_uf_ne (step2 env db dod).2 "user.userprofile" "auth.user" "user_id" d4 d5 e5 "allocation.allocationusernote" "allocation_id" (Or.inl (by decide)),
      ← fieldView_um (step2 env db dod).2 "resource.resource" "auth.user" "allowed_users" d5 d6 e6 "allocation.allocationusernote" "allocation_id",
      ← fieldView_um (step2 env db dod).2 "resource.resource" "auth.group" "allowed_groups" d6 d7 e7 "allocation.allocationusernote" "allocation_id",
      ← fieldView_um (step2 env db dod).2 "allocation.allocation" "resource.resource" "resources" d7 d8 e8 "allocation.allocationusernote" "allocation_id",
      ← fieldView_uf_ne (step2 env db dod).2 "allocation.allocationuser" "auth.user" "user_id" d8 d9 e9 "allocation.allocationusernote" "allocation_id" (Or.inl (by decide)),
      ← fieldView_uf_ne (step2 env db dod).2 "allocation.allocationuser" "allocation.allocation" "allocation_id" d9 d10 e10 "allocation.allocationusernote" "allocation_id" (Or.inl (by decide)),
      ← fieldView_uf_ne (step2 env db dod).2 "allocation.allocationchangerequest" "allocation.allocation" "allocation_id" d10 d11 e11 "allocation.allocationusernote" "allocation_id" (Or.inl (by decide)),
      ← fieldView_uf_ne (step2 env db dod).2 "allocation.allocationattribute" "allocation.allocation" "allocation_id" d11 d12 e12 "allocation.allocationusernote" "allocation_id" (Or.inl (by decide)),
      ← fieldView_uf_ne (step2 env db dod).2 "allocation.allocationadminnote" "allocation.allocation" "allocation_id" d12 d13 e13 "allocation.allocationusernote" "allocation_id" (Or.inl (by decide)),
      fieldView_uf_ne (step2 env db dod).2 "research_output.researchoutput" "project.project" "project_id" d23 d24 e24 "allocation.allocationusernote" "allocation_id" (Or.inl (by decide)),
      fieldView_uf_ne (step2 env db dod).2 "project.projectreview" "project.project" "project_id" d22 d23 e23 "allocation.allocationusernote" "allocation_id" (Or.inl (by decide)),
      fieldView_uf_ne (step2 env db dod).2 "project.projectusermessage" "project.project" "project_id" d21 d22 e22 "allocation.allocationusernote" "allocation_id" (Or.inl (by decide)),
      fieldView_uf_ne (step2 env db dod).2 "project.projectadmincomment" "project.project" "project_id" d20 d21 e21 "allocation.allocationusernote" "allocation_id" (Or.inl (by decide)),
      fieldView_uf_ne (step2 env db dod).2 "grant.grant" "project.project" "project_id" d19 d20 e20 "allocation.allocationusernote" "allocation_id" (Or.inl (by decide)),
      fieldView_uf_ne (step2 env db dod).2 "publication.publication" "project.project" "project_id" d18 d19 e19 "allocation.allocationusernote" "allocation_id" (Or.inl (by decide)),
      fieldView_uf_ne (step2 env db dod).2 "allocation.allocation" "project.project" "project_id" d17 d18 e18 "allocation.allocationusernote" "allocation_id" (Or.inl (by decide)),
      fieldView_uf_ne (step2 env db dod).2 "project.projectuser" "project.project" "project_id" d16 d17 e17 "allocation.allocationusernote" "allocation_id" (Or.inl (by decide)),
      fieldView_uf_ne (step2 env db dod).2 "allocation.allocationusernote" "auth.user" "author_id" d15 d16 e16 "allocation.allocationusernote" "allocation_id" (Or.inr (by decide)),
      fieldView_uf_ne (step2 env db dod).2 "allocation.allocationadminnote" "auth.user" "author_id" d14 d15 e15 "allocation.allocationusernote" "allocation_id" (Or.inl (by decide))]
    exact fieldView_uf_eq (step2 env db dod).2 "allocation.allocationusernote" "allocation.allocation" "allocation_id" d13 d14 e14
  · rw [hout1,
      ← step2_fieldView env db dod "allocation.allocationadminnote" "author_id",
      ← fieldView_uf_ne (step2 env db dod).2 "project.project" "auth.user" "pi_id" (step2 env db dod).1 d1 e1 "allocation.allocationadminnote" "author_id" (Or.inl (by decide)),
      ← fieldView_rf_ne "resource.resource" "resource.resource" "parent_resource_id" [] d1 frA d2 e2 "allocation.allocationadminnote" "author_id" (Or.inl (by decide)),
      ← fieldView_rm (step2 env db dod).2 "resource.resource" "resource.resource" "linked_resources" [] d2 mrA d3 e3 "allocation.allocationadminnote" "author_id",
      ← fieldView_um (step2 env db dod).2 "auth.user" "auth.group" "groups" d3 d4 e4 "allocation.allocationadminnote" "author_id",
      ← fieldView_uf_ne (step2 env db dod).2 "user.userprofile" "auth.user" "user_id" d4 d5 e5 "allocation.allocationadminnote" "author_id" (Or.inl (by decide)),
      ← fieldView_um (step2 env db dod).2 "resource.resource" "auth.user" "allowed_users" d5 d6 e6 "allocation.allocationadminnote" "author_id",
      ← fieldView_um (step2 env db dod).2 "resource.resource" "auth.group" "allowed_groups" d6 d7 e7 "allocation.allocationadminnote" "author_id",
      ← fieldView_um (step2 env db dod).2 "allocation.allocation" "resource.resource" "resources" d7 d8 e8 "allocation.allocationadminnote" "author_id",
      ← fieldView_uf_ne (step2 env db dod).2 "allocation.allocationuser" "auth.user" "user_id" d8 d9 e9 "allocation.allocationadminnote" "author_id" (Or.inl (by decide)),
      ← fieldView_uf_ne (step2 env db dod).2 "allocation.allocationuser" "allocation.allocation" "allocation_id" d9 d10 e10 "allocation.allocationadminnote" "author_id" (Or.inl (by decide)),
      ← fieldView_uf_ne (step2 env db dod).2 "allocation.allocationchangerequest" "allocation.allocation" "allocation_id" d10 d11 e11 "allocation.allocationadminnote" "author_id" (Or.inl (by decide)),
      ← fieldView_uf_ne (step2 env db dod).2 "allocation.allocationattribute" "allocation.allocation" "allocation_id" d11 d12 e12 "allocation.allocationadminnote" "author_id" (Or.inl (by decide)),
      ← fieldView_uf_ne (step2 env db dod).2 "allocation.allocationadminnote" "allocation.allocation" "allocation_id" d12 d13 e13 "allocation.allocationadminnote" "author_id" (Or.inr (by decide)),
      ← fieldView_uf_ne (step2 env db dod).2 "allocation.allocationusernote" "allocation.allocation" "allocation_id" d13 d14 e14 "allocation.allocationadminnote" "author_id" (Or.inl (by decide)),
      fieldView_uf_ne (step2 env db dod).2 "research_output.researchoutput" "project.project" "project_id" d23 d24 e24 "allocation.allocationadminnote" "author_id" (Or.inl (by decide)),
      fieldView_uf_ne (step2 env db dod).2 "project.projectreview" "project.project" "project_id" d22 d23 e23 "allocation.allocationadminnote" "author_id" (Or.inl (by decide)),
      fieldView_uf_ne (step2 env db dod).2 "project.projectusermessage" "project.project" "project_id" d21 d22 e22 "allocation.allocationadminnote" "author_id" (Or.inl (by decide)),
      fieldView_uf_ne (step2 env db dod).2 "project.projectadmincomment" "project.project" "project_id" d20 d21 e21 "allocation.allocationadminnote" "author_id" (Or.inl (by decide)),
      fieldView_uf_ne (step2 env db dod).2 "grant.grant" "project.project" "project_id" d19 d20 e20 "allocation.allocationadminnote" "author_id" (Or.inl (by decide)),
      fieldView_uf_ne (step2 env db dod).2 "publication.publication" "project.project" "project_id" d18 d19 e19 "allocation.allocationadminnote" "author_id" (Or.inl (by decide)),
      fieldView_uf_ne (step2 env db dod).2 "allocation.allocation" "project.project" "project_id" d17 d18 e18 "allocation.allocationadminnote" "author_id" (Or.inl (by decide)),
      fieldView_uf_ne (step2 env db dod).2 "project.projectuser" "project.project" "project_id" d16 d17 e17 "allocation.allocationadminnote" "author_id" (Or.inl (by decide)),
      fieldView_uf_ne (step2 env db dod).2 "allocation.allocationusernote" "auth.user" "author_id" d15 d16 e16 "allocation.allocationadminnote" "author_id" (Or.inl (by decide))]
    exact fieldView_uf_eq (step2 env db dod).2 "allocation.allocationadminnote" "auth.user" "author_id" d14 d15 e15
  · rw [hout1,
      ← step2_fieldView env db dod "allocation.allocationusernote" "author_id",
      ← fieldView_uf_ne (step2 env db dod).2 "project.project" "auth.user" "pi_id" (step2 env db dod).1 d1 e1 "allocation.allocationusernote" "author_id" (Or.inl (by decide)),
      ← fieldView_rf_ne "resource.resource" "resource.resource" "parent_resource_id" [] d1 frA d2 e2 "allocation.allocationusernote" "author_id" (Or.inl (by decide)),
      ← fieldView_rm (step2 env db dod).2 "resource.resource" "resource.resource" "linked_resources" [] d2 mrA d3 e3 "allocation.allocationusernote" "author_id",
      ← fieldView_um (step2 env db dod).2 "auth.user" "auth.group" "groups" d3 d4 e4 "allocation.allocationusernote" "author_id",
      ← fieldView_uf_ne (step2 env db dod).2 "user.userprofile" "auth.user" "user_id" d4 d5 e5 "allocation.allocationusernote" "author_id" (Or.inl (by decide)),
      ← fieldView_um (step2 env db dod).2 "resource.resource" "auth.user" "allowed_users" d5 d6 e6 "allocation.allocationusernote" "author_id",
      ← fieldView_um (step2 env db dod).2 "resource.resource" "auth.group" "allowed_groups" d6 d7 e7 "allocation.allocationusernote" "author_id",
      ← fieldView_um (step2 env db dod).2 "allocation.allocation" "resource.resource" "resources" d7 d8 e8 "allocation.allocationusernote" "author_id",
      ← fieldView_uf_ne (step2 env db dod).2 "allocation.allocationuser" "auth.user" "user_id" d8 d9 e9 "allocation.allocationusernote" "author_id" (Or.inl (by decide)),
      ← fieldView_uf_ne (step2 env db dod).2 "allocation.allocationuser" "allocation.allocation" "allocation_id" d9 d10 e10 "allocation.allocationusernote" "author_id" (Or.inl (by decide)),
      ← fieldView_uf_ne (step2 env db dod).2 "allocation.allocationchangerequest" "allocation.allocation" "allocation_id" d10 d11 e11 "allocation.allocationusernote" "author_id" (Or.inl (by decide)),
      ← fieldView_uf_ne (step2 env db dod).2 "allocation.allocationattribute" "allocation.allocation" "allocation_id" d11 d12 e12 "allocation.allocationusernote" "author_id" (Or.inl (by decide)),
      ← fieldView_uf_ne (step2 env db dod).2 "allocation.allocationadminnote" "allocation.allocation" "allocation_id" d12 d13 e13 "allocation.allocationusernote" "author_id" (Or.inl (by decide)),
      ← fieldView_uf_ne (step2 env db dod).2 "allocation.allocationusernote" "allocation.allocation" "allocation_id" d13 d14 e14 "allocation.allocationusernote" "author_id" (Or.inr (by decide)),
      ← fieldView_uf_ne (step2 env db dod).2 "allocation.allocationadminnote" "auth.user" "author_id" d14 d15 e15 "allocation.allocationusernote" "author_id" (Or.inl (by decide)),
      fieldView_uf_ne (step2 env db dod).2 "research_output.researchoutput" "project.project" "project_id" d23 d24 e24 "allocation.allocationusernote" "author_id" (Or.inl (by decide)),
      fieldView_uf_ne (step2 env db dod).2 "project.projectreview" "project.project" "project_id" d22 d23 e23 "allocation.allocationusernote" "author_id" (Or.inl (by decide)),
      fieldView_uf_ne (step2 env db dod).2 "project.projectusermessage" "project.project" "project_id" d21 d22 e22 "allocation.allocationusernote" "author_id" (Or.inl (by decide)),
      fieldView_uf_ne (step2 env db dod).2 "project.projectadmincomment" "project.project" "project_id" d20 d21 e21 "allocation.allocationusernote" "author_id" (Or.inl (by decide)),
      fieldView_uf_ne (step2 env db dod).2 "grant.grant" "project.project" "project_id" d19 d20 e20 "allocation.allocationusernote" "author_id" (Or.inl (by decide)),
      fieldView_uf_ne (step2 env db dod).2 "publication.publication" "project.project" "project_id" d18 d19 e19 "allocation.allocationusernote" "author_id" (Or.inl (by decide)),
      fieldView_uf_ne (step2 env db dod).2 "allocation.allocation" "project.project" "project_id" d17 d18 e18 "allocation.allocationusernote" "author_id" (Or.inl (by decide)),
      fieldView_uf_ne (step2 env db dod).2 "project.projectuser" "project.project" "project_id" d16 d17 e17 "allocation.allocationusernote" "author_id" (Or.inl (by decide))]
    exact fieldView_uf_eq (step2 env db dod).2 "allocation.allocationusernote" "auth.user" "author_id" d15 d16 e16
  · rw [hout1,
      ← step2_fieldView env db dod "project.projectuser" "project_id",
      ← fieldView_uf_ne (step2 env db dod).2 "project.project" "auth.user" "pi_id" (step2 env db dod).1 d1 e1 "project.projectuser" "project_id" (Or.inl (by decide)),
      ← fieldView_rf_ne "resource.resource" "resource.resource" "parent_resource_id" [] d1 frA d2 e2 "project.projectuser" "project_id" (Or.inl (by decide)),
      ← fieldView_rm (step2 env db dod).2 "resource.resource" "resource.resource" "linked_resources" [] d2 mrA d3 e3 "project.projectuser" "project_id",
      ← fieldView_um (step2 env db dod).2 "auth.user" "auth.group" "groups" d3 d4 e4 "project.projectuser" "project_id",
      ← fieldView_uf_ne (step2 env db dod).2 "user.userprofile" "auth.user" "user_id" d4 d5 e5 "project.projectuser" "project_id" (Or.inl (by decide)),
      ← fieldView_um (step2 env db dod).2 "resource.resource" "auth.user" "allowed_users" d5 d6 e6 "project.projectuser" "project_id",
      ← fieldView_um (step2 env db dod).2 "resource.resource" "auth.group" "allowed_groups" d6 d7 e7 "project.projectuser" "project_id",
      ← fieldView_um (step2 env db dod).2 "allocation.allocation" "resource.resource" "resources" d7 d8 e8 "project.projectuser" "project_id",
      ← fieldView_uf_ne (step2 env db dod).2 "allocation.allocationuser" "auth.user" "user_id" d8 d9 e9 "project.projectuser" "project_id" (Or.inl (by decide)),
      ← fieldView_uf_ne (step2 env db dod).2 "allocation.allocationuser" "allocation.allocation" "allocation_id" d9 d10 e10 "project.projectuser" "project_id" (Or.inl (by decide)),
      ← fieldView_uf_ne (step2 env db dod).2 "allocation.allocationchangerequest" "allocation.allocation" "allocation_id" d10 d11 e11 "project.projectuser" "project_id" (Or.inl (by decide)),
      ← fieldView_uf_ne (step2 env db dod).2 "allocation.allocationattribute" "allocation.allocation" "allocation_id" d11 d12 e12 "project.projectuser" "project_id" (Or.inl (by decide)),
      ← fieldView_uf_ne (step2 env db dod).2 "allocation.allocationadminnote" "allocation.allocation" "allocation_id" d12 d13 e13 "project.projectuser" "project_id" (Or.inl (by decide)),
      ← fieldView_uf_ne (step2 env db dod).2 "allocation.allocationusernote" "allocation.allocation" "allocation_id" d13 d14 e14 "project.projectuser" "project_id" (Or.inl (by decide)),
      ← fieldView_uf_ne (step2 env db dod).2 "allocation.allocationadminnote" "auth.user" "author_id" d14 d15 e15 "project.projectuser" "project_id" (Or.inl (by decide)),
      ← fieldView_uf_ne (step2 env db dod).2 "allocation.allocationusernote" "auth.user" "author_id" d15 d16 e16 "project.projectuser" "project_id" (Or.inl (by decide)),
      fieldView_uf_ne (step2 env db dod).2 "research_output.researchoutput" "project.project" "project_id" d23 d24 e24 "project.projectuser" "project_id" (Or.inl (by decide)),
      fieldView_uf_ne (step2 env db dod).2 "project.projectreview" "project.project" "project_id" d22 d23 e23 "project.projectuser" "project_id" (Or.inl (by decide)),
      fieldView_uf_ne (step2 env db dod).2 "project.projectusermessage" "project.project" "project_id" d21 d22 e22 "project.projectuser" "project_id" (Or.inl (by decide)),
      fieldView_uf_ne (step2 env db dod).2 "project.projectadmincomment" "project.project" "project_id" d20 d21 e21 "project.projectuser" "project_id" (Or.inl (by decide)),
      fieldView_uf_ne (step2 env db dod).2 "grant.grant" "project.project" "project_id" d19 d20 e20 "project.projectuser" "project_id" (Or.inl (by decide)),
      fieldView_uf_ne (step2 env db dod).2 "publication.publication" "project.project" "project_id" d18 d19 e19 "project.projectuser" "project_id" (Or.inl (by decide)),
      fieldView_uf_ne (step2 env db dod).2 "allocation.allocation" "project.project" "project_id" d17 d18 e18 "project.projectuser" "project_id" (Or.inl (by decide))]
    exact fieldView_uf_eq (step2 env db dod).2 "project.projectuser" "project.project" "project_id" d16 d17 e17
  · rw [hout1,
      ← step2_fieldView env db dod "allocation.allocation" "project_id",
      ← fieldView_uf_ne (step2 env db dod).2 "project.project" "auth.user" "pi_id" (step2 env db dod).1 d1 e1 "allocation.allocation" "project_id" (Or.inl (by decide)),
      ← fieldView_rf_ne "resource.resource" "resource.resource" "parent_resource_id" [] d1 frA d2 e2 "allocation.allocation" "project_id" (Or.inl (by decide)),
      ← fieldView_rm (step2 env db dod).2 "resource.resource" "resource.resource" "linked_resources" [] d2 mrA d3 e3 "allocation.allocation" "project_id",
      ← fieldView_um (step2 env db dod).2 "auth.user" "auth.group" "groups" d3 d4 e4 "allocation.allocation" "project_id",
      ← fieldView_uf_ne (step2 env db dod).2 "user.userprofile" "auth.user" "user_id" d4 d5 e5 "allocation.allocation" "project_id" (Or.inl (by decide)),
      ← fieldView_um (step2 env db dod).2 "resource.resource" "auth.user" "allowed_users" d5 d6 e6 "allocation.allocation" "project_id",
      ← fieldView_um (step2 env db dod).2 "resource.resource" "auth.group" "allowed_groups" d6 d7 e7 "allocation.allocation" "project_id",
      ← fieldView_um (step2 env db dod).2 "allocation.allocation" "resource.resource" "resources" d7 d8 e8 "allocation.allocation" "project_id",
      ← fieldView_uf_ne (step2 env db dod).2 "allocation.allocationuser" "auth.user" "user_id" d8 d9 e9 "allocation.allocation" "project_id" (Or.inl (by decide)),
      ← fieldView_uf_ne (step2 env db dod).2 "allocation.allocationuser" "allocation.allocation" "allocation_id" d9 d10 e10 "allocation.allocation" "project_id" (Or.inl (by decide)),
      ← fieldView_uf_ne (step2 env db dod).2 "allocation.allocationchangerequest" "allocation.allocation" "allocation_id" d10 d11 e11 "allocation.allocation" "project_id" (Or.inl (by decide)),
      ← fieldView_uf_ne (step2 env db dod).2 "allocation.allocationattribute" "allocation.allocation" "allocation_id" d11 d12 e12 "allocation.allocation" "project_id" (Or.inl (by decide)),
      ← fieldView_uf_ne (step2 env db dod).2 "allocation.allocationadminnote" "allocation.allocation" "allocation_id" d12 d13 e13 "allocation.allocation" "project_id" (Or.inl (by decide)),
      ← fieldView_uf_ne (step2 env db dod).2 "allocation.allocationusernote" "allocation.allocation" "allocation_id" d13 d14 e14 "allocation.allocation" "project_id" (Or.inl (by decide)),
      ← fieldView_uf_ne (step2 env db dod).2 "allocation.allocationadminnote" "auth.user" "author_id" d14 d15 e15 "allocation.allocation" "project_id" (Or.inl (by decide)),
      ← fieldView_uf_ne (step2 env db dod).2 "allocation.allocationusernote" "auth.user" "author_id" d15 d16 e16 "allocation.allocation" "project_id" (Or.inl (by decide)),
      ← fieldView_uf_ne (step2 env db dod).2 "project.projectuser" "project.project" "project_id" d16 d17 e17 "allocation.allocation" "project_id" (Or.inl (by decide)),
      fieldView_uf_ne (step2 env db dod).2 "research_output.researchoutput" "project.project" "project_id" d23 d24 e24 "allocation.allocation" "project_id" (Or.inl (by decide)),
      fieldView_uf_ne (step2 env db dod).2 "project.projectreview" "project.project" "project_id" d22 d23 e23 "allocation.allocation" "project_id" (Or.inl (by decide)),
      fieldView_uf_ne (step2 env db dod).2 "project.projectusermessage" "project.project" "project_id" d21 d22 e22 "allocation.allocation" "project_id" (Or.inl (by decide)),
      fieldView_uf_ne (step2 env db dod).2 "project.projectadmincomment" "project.project" "project_id" d20 d21 e21 "allocation.allocation" "project_id" (Or.inl (by decide)),
      fieldView_uf_ne (step2 env db dod).2 "grant.grant" "project.project" "project_id" d19 d20 e20 "allocation.allocation" "project_id" (Or.inl (by decide)),
      fieldView_uf_ne (step2 env db dod).2 "publication.publication" "project.project" "project_id" d18 d19 e19 "allocation.allocation" "project_id" (Or.inl (by decide))]
    exact fieldView_uf_eq (step2 env db dod).2 "allocation.allocation" "project.project" "project_id" d17 d18 e18
  · rw [hout1,
      ← step2_fieldView env db dod "publication.publication" "project_id",
      ← fieldView_uf_ne (step2 env db dod).2 "project.project" "auth.user" "pi_id" (step2 env db dod).1 d1 e1 "publication.publication" "project_id" (Or.inl (by decide)),
      ← fieldView_rf_ne "resource.resource" "resource.resource" "parent_resource_id" [] d1 frA d2 e2 "publication.publication" "project_id" (Or.inl (by decide)),
      ← fieldView_rm (step2 env db dod).2 "resource.resource" "resource.resource" "linked_resources" [] d2 mrA d3 e3 "publication.publication" "project_id",
      ← fieldView_um (step2 env db dod).2 "auth.user" "auth.group" "groups" d3 d4 e4 "publication.publication" "project_id",
      ← fieldView_uf_ne (step2 env db dod).2 "user.userprofile" "auth.user" "user_id" d4 d5 e5 "publication.publication" "project_id" (Or.inl (by decide)),
      ← fieldView_um (step2 env db dod).2 "resource.resource" "auth.user" "allowed_users" d5 d6 e6 "publication.publication" "project_id",
      ← fieldView_um (step2 env db dod).2 "resource.resource" "auth.group" "allowed_groups" d6 d7 e7 "publication.publication" "project_id",
      ← fieldView_um (step2 env db dod).2 "allocation.allocation" "resource.resource" "resources" d7 d8 e8 "publication.publication" "project_id",
      ← fieldView_uf_ne (step2 env db dod).2 "allocation.allocationuser" "auth.user" "user_id" d8 d9 e9 "publication.publication" "project_id" (Or.inl (by decide)),
      ← fieldView_uf_ne (step2 env db dod).2 "allocation.allocationuser" "allocation.allocation" "allocation_id" d9 d10 e10 "publication.publication" "project_id" (Or.inl (by decide)),
      ← fieldView_uf_ne (step2 env db dod).2 "allocation.allocationchangerequest" "allocation.allocation" "allocation_id" d10 d11 e11 "publication.publication" "project_id" (Or.inl (by decide)),
      ← fieldView_uf_ne (step2 env db dod).2 "allocation.allocationattribute" "allocation.allocation" "allocation_id" d11 d12 e12 "publication.publication" "project_id" (Or.inl (by decide)),
      ← fieldView_uf_ne (step2 env db dod).2 "allocation.allocationadminnote" "allocation.allocation" "allocation_id" d12 d13 e13 "publication.publication" "project_id" (Or.inl (by decide)),
      ← fieldView_uf_ne (step2 env db dod).2 "allocation.allocationusernote" "allocation.allocation" "allocation_id" d13 d14 e14 "publication.publication" "project_id" (Or.inl (by decide)),
      ← fieldView_uf_ne (step2 env db dod).2 "allocation.allocationadminnote" "auth.user" "author_id" d14 d15 e15 "publication.publication" "project_id" (Or.inl (by decide)),
      ← fieldView_uf_ne (step2 env db dod).2 "allocation.allocationusernote" "auth.user" "author_id" d15 d16 e16 "publication.publication" "project_id" (Or.inl (by decide)),
      ← fieldView_uf_ne (step2 env db dod).2 "project.projectuser" "project.project" "project_id" d16 d17 e17 "publication.publication" "project_id" (Or.inl (by decide)),
      ← fieldView_uf_ne (step2 env db dod).2 "allocation.allocation" "project.project" "project_id" d17 d18 e18 "publication.publication" "project_id" (Or.inl (by decide)),
      fieldView_uf_ne (step2 env db dod).2 "research_output.researchoutput" "project.project" "project_id" d23 d24 e24 "publication.publication" "project_id" (Or.inl (by decide)),
      fieldView_uf_ne (step2 env db dod).2 "project.projectreview" "project.project" "project_id" d22 d23 e23 "publication.publication" "project_id" (Or.inl (by decide)),
      fieldView_uf_ne (step2 env db dod).2 "project.projectusermessage" "project.project" "project_id" d21 d22 e22 "publication.publication" "project_id" (Or.inl (by decide)),
      fieldView_uf_ne (step2 env db dod).2 "project.projectadmincomment" "project.project" "project_id" d20 d21 e21 "publication.publication" "project_id" (Or.inl (by decide)),
      fieldView_uf_ne (step2 env db dod).2 "grant.grant" "project.project" "project_id" d19 d20 e20 "publication.publication" "project_id" (Or.inl (by decide))]
    exact fieldView_uf_eq (step2 env db dod).2 "publication.publication" "project.project" "project_id" d18 d19 e19
  · rw [hout1,
      ← step2_fieldView env db dod "grant.grant" "project_id",
      ← fieldView_uf_ne (step2 env db dod).2 "project.project" "auth.user" "pi_id" (step2 env db dod).1 d1 e1 "grant.grant" "project_id" (Or.inl (by decide)),
      ← fieldView_rf_ne "resource.resource" "resource.resource" "parent_resource_id" [] d1 frA d2 e2 "grant.grant" "project_id" (Or.inl (by decide)),
      ← fieldView_rm (step2 env db dod).2 "resource.resource" "resource.resource" "linked_resources" [] d2 mrA d3 e3 "grant.grant" "project_id",
      ← fieldView_um (step2 env db dod).2 "auth.user" "auth.group" "groups" d3 d4 e4 "grant.grant" "project_id",
      ← fieldView_uf_ne (step2 env db dod).2 "user.userprofile" "auth.user" "user_id" d4 d5 e5 "grant.grant" "project_id" (Or.inl (by decide)),
      ← fieldView_um (step2 env db dod).2 "resource.resource" "auth.user" "allowed_users" d5 d6 e6 "grant.grant" "project_id",
      ← fieldView_um (step2 env db dod).2 "resource.resource" "auth.group" "allowed_groups" d6 d7 e7 "grant.grant" "project_id",
      ← fieldView_um (step2 env db dod).2 "allocation.allocation" "resource.resource" "resources" d7 d8 e8 "grant.grant" "project_id",
      ← fieldView_uf_ne (step2 env db dod).2 "allocation.allocationuser" "auth.user" "user_id" d8 d9 e9 "grant.grant" "project_id" (Or.inl (by decide)),
      ← fieldView_uf_ne (step2 env db dod).2 "allocation.allocationuser" "allocation.allocation" "allocation_id" d9 d10 e10 "grant.grant" "project_id" (Or.inl (by decide)),
      ← fieldView_uf_ne (step2 env db dod).2 "allocation.allocationchangerequest" "allocation.allocation" "allocation_id" d10 d11 e11 "grant.grant" "project_id" (Or.inl (by decide)),
      ← fieldView_uf_ne (step2 env db dod).2 "allocation.allocationattribute" "allocation.allocation" "allocation_id" d11 d12 e12 "grant.grant" "project_id" (Or.inl (by decide)),
      ← fieldView_uf_ne (step2 env db dod).2 "allocation.allocationadminnote" "allocation.allocation" "allocation_id" d12 d13 e13 "grant.grant" "project_id" (Or.inl (by decide)),
      ← fieldView_uf_ne (step2 env db dod).2 "allocation.allocationusernote" "allocation.allocation" "allocation_id" d13 d14 e14 "grant.grant" "project_id" (Or.inl (by decide)),
      ← fieldView_uf_ne (step2 env db dod).2 "allocation.allocationadminnote" "auth.user" "author_id" d14 d15 e15 "grant.grant" "project_id" (Or.inl (by decide)),
      ← fieldView_uf_ne (step2 env db dod).2 "allocation.allocationusernote" "auth.user" "author_id" d15 d16 e16 "grant.grant" "project_id" (Or.inl (by decide)),
      ← fieldView_uf_ne (step2 env db dod).2 "project.projectuser" "project.project" "project_id" d16 d17 e17 "grant.grant" "project_id" (Or.inl (by decide)),
      ← fieldView_uf_ne (step2 env db dod).2 "allocation.allocation" "project.project" "project_id" d17 d18 e18 "grant.grant" "project_id" (Or.inl (by decide)),
      ← fieldView_uf_ne (step2 env db dod).2 "publication.publication" "project.project" "project_id" d18 d19 e19 "grant.grant" "project_id" (Or.inl (by decide)),
      fieldView_uf_ne (step2 env db dod).2 "research_output.researchoutput" "project.project" "project_id" d23 d24 e24 "grant.grant" "project_id" (Or.inl (by decide)),
      fieldView_uf_ne (step2 env db dod).2 "project.projectreview" "project.project" "project_id" d22 d23 e23 "grant.grant" "project_id" (Or.inl (by decide)),
      fieldView_uf_ne (step2 env db dod).2 "project.projectusermessage" "project.project" "project_id" d21 d22 e22 "grant.grant" "project_id" (Or.inl (by decide)),
      fieldView_uf_ne (step2 env db dod).2 "project.projectadmincomment" "project.project" "project_id" d20 d21 e21 "grant.grant" "project_id" (Or.inl (by decide))]
    exact fieldView_uf_eq (step2 env db dod).2 "grant.grant" "project.project" "project_id" d19 d20 e20
  · rw [hout1,
      ← step2_fieldView env db dod "project.projectadmincomment" "project_id",
      ← fieldView_uf_ne (step2 env db dod).2 "project.project" "auth.user" "pi_id" (step2 env db dod).1 d1 e1 "project.projectadmincomment" "project_id" (Or.inl (by decide)),
      ← fieldView_rf_ne "resource.resource" "resource.resource" "parent_resource_id" [] d1 frA d2 e2 "project.projectadmincomment" "project_id" (Or.inl (by decide)),
      ← fieldView_rm (step2 env db dod).2 "resource.resource" "resource.resource" "linked_resources" [] d2 mrA d3 e3 "project.projectadmincomment" "project_id",
      ← fieldView_um (step2 env db dod).2 "auth.user" "auth.group" "groups" d3 d4 e4 "project.projectadmincomment" "project_id",
      ← fieldView_uf_ne (step2 env db dod).2 "user.userprofile" "auth.user" "user_id" d4 d5 e5 "project.projectadmincomment" "project_id" (Or.inl (by decide)),
      ← fieldView_um (step2 env db dod).2 "resource.resource" "auth.user" "allowed_users" d5 d6 e6 "project.projectadmincomment" "project_id",
      ← fieldView_um (step2 env db dod).2 "resource.resource" "auth.group" "allowed_groups" d6 d7 e7 "project.projectadmincomment" "project_id",
      ← fieldView_um (step2 env db dod).2 "allocation.allocation" "resource.resource" "resources" d7 d8 e8 "project.projectadmincomment" "project_id",
      ← fieldView_uf_ne (step2 env db dod).2 "allocation.allocationuser" "auth.user" "user_id" d8 d9 e9 "project.projectadmincomment" "project_id" (Or.inl (by decide)),
      ← fieldView_uf_ne (step2 env db dod).2 "allocation.allocationuser" "allocation.allocation" "allocation_id" d9 d10 e10 "project.projectadmincomment" "project_id" (Or.inl (by decide)),
      ← fieldView_uf_ne (step2 env db dod).2 "allocation.allocationchangerequest" "allocation.allocation" "allocation_id" d10 d11 e11 "project.projectadmincomment" "project_id" (Or.inl (by decide)),
      ← fieldView_uf_ne (step2 env db dod).2 "allocation.allocationattribute" "allocation.allocation" "allocation_id" d11 d12 e12 "project.projectadmincomment" "project_id" (Or.inl (by decide)),
      ← fieldView_uf_ne (step2 env db dod).2 "allocation.allocationadminnote" "allocation.allocation" "allocation_id" d12 d13 e13 "project.projectadmincomment" "project_id" (Or.inl (by decide)),
      ← fieldView_uf_ne (step2 env db dod).2 "allocation.allocationusernote" "allocation.allocation" "allocation_id" d13 d14 e14 "project.projectadmincomment" "project_id" (Or.inl (by decide)),
      ← fieldView_uf_ne (step2 env db dod).2 "allocation.allocationadminnote" "auth.user" "author_id" d14 d15 e15 "project.projectadmincomment" "project_id" (Or.inl (by decide)),
      ← fieldView_uf_ne (step2 env db dod).2 "allocation.allocationusernote" "auth.user" "author_id" d15 d16 e16 "project.projectadmincomment" "project_id" (Or.inl (by decide)),
      ← fieldView_uf_ne (step2 env db dod).2 "project.projectuser" "project.project" "project_id" d16 d17 e17 "project.projectadmincomment" "project_id" (Or.inl (by decide)),
      ← fieldView_uf_ne (step2 env db dod).2 "allocation.allocation" "project.project" "project_id" d17 d18 e18 "project.projectadmincomment" "project_id" (Or.inl (by decide)),
      ← fieldView_uf_ne (step2 env db dod).2 "publication.publication" "project.project" "project_id" d18 d19 e19 "project.projectadmincomment" "project_id" (Or.inl (by decide)),
      ← fieldView_uf_ne (step2 env db dod).2 "grant.grant" "project.project" "project_id" d19 d20 e20 "project.projectadmincomment" "project_id" (Or.inl (by decide)),
      fieldView_uf_ne (step2 env db dod).2 "research_output.researchoutput" "project.project" "project_id" d23 d24 e24 "project.projectadmincomment" "project_id" (Or.inl (by decide)),
      fieldView_uf_ne (step2 env db dod).2 "project.projectreview" "project.project" "project_id" d22 d23 e23 "project.projectadmincomment" "project_id" (Or.inl (by decide)),
      fieldView_uf_ne (step2 env db dod).2 "project.projectusermessage" "project.project" "project_id" d21 d22 e22 "project.projectadmincomment" "project_id" (Or.inl (by decide))]
    exact fieldView_uf_eq (step2 env db dod).2 "project.projectadmincomment" "project.project" "project_id" d20 d21 e21
  · rw [hout1,
      ← step2_fieldView env db dod "project.projectusermessage" "project_id",
      ← fieldView_uf_ne (step2 env db dod).2 "project.project" "auth.user" "pi_id" (step2 env db dod).1 d1 e1 "project.projectusermessage" "project_id" (Or.inl (by decide)),
      ← fieldView_rf_ne "resource.resource" "resource.resource" "parent_resource_id" [] d1 frA d2 e2 "project.projectusermessage" "project_id" (Or.inl (by decide)),
      ← fieldView_rm (step2 env db dod).2 "resource.resource" "resource.resource" "linked_resources" [] d2 mrA d3 e3 "project.projectusermessage" "project_id",
      ← fieldView_um (step2 env db dod).2 "auth.user" "auth.group" "groups" d3 d4 e4 "project.projectusermessage" "project_id",
      ← fieldView_uf_ne (step2 env db dod).2 "user.userprofile" "auth.user" "user_id" d4 d5 e5 "project.projectusermessage" "project_id" (Or.inl (by decide)),
      ← fieldView_um (step2 env db dod).2 "resource.resource" "auth.user" "allowed_users" d5 d6 e6 "project.projectusermessage" "project_id",
      ← fieldView_um (step2 env db dod).2 "resource.resource" "auth.group" "allowed_groups" d6 d7 e7 "project.projectusermessage" "project_id",
      ← fieldView_um (step2 env db dod).2 "allocation.allocation" "resource.resource" "resources" d7 d8 e8 "project.projectusermessage" "project_id",
      ← fieldView_uf_ne (step2 env db dod).2 "allocation.allocationuser" "auth.user" "user_id" d8 d9 e9 "project.projectusermessage" "project_id" (Or.inl (by decide)),
      ← fieldView_uf_ne (step2 env db dod).2 "allocation.allocationuser" "allocation.allocation" "allocation_id" d9 d10 e10 "project.projectusermessage" "project_id" (Or.inl (by decide)),
      ← fieldView_uf_ne (step2 env db dod).2 "allocation.allocationchangerequest" "allocation.allocation" "allocation_id" d10 d11 e11 "project.projectusermessage" "project_id" (Or.inl (by decide)),
      ← fieldView_uf_ne (step2 env db dod).2 "allocation.allocationattribute" "allocation.allocation" "allocation_id" d11 d12 e12 "project.projectusermessage" "project_id" (Or.inl (by decide)),
      ← fieldView_uf_ne (step2 env db dod).2 "allocation.allocationadminnote" "allocation.allocation" "allocation_id" d12 d13 e13 "project.projectusermessage" "project_id" (Or.inl (by decide)),
      ← fieldView_uf_ne (step2 env db dod).2 "allocation.allocationusernote" "allocation.allocation" "allocation_id" d13 d14 e14 "project.projectusermessage" "project_id" (Or.inl (by decide)),
      ← fieldView_uf_ne (step2 env db dod).2 "allocation.allocationadminnote" "auth.user" "author_id" d14 d15 e15 "project.projectusermessage" "project_id" (Or.inl (by decide)),
      ← fieldView_uf_ne (step2 env db dod).2 "allocation.allocationusernote" "auth.user" "author_id" d15 d16 e16 "project.projectusermessage" "project_id" (Or.inl (by decide)),
      ← fieldView_uf_ne (step2 env db dod).2 "project.projectuser" "project.project" "project_id" d16 d17 e17 "project.projectusermessage" "project_id" (Or.inl (by decide)),
      ← fieldView_uf_ne (step2 env db dod).2 "allocation.allocation" "project.project" "project_id" d17 d18 e18 "project.projectusermessage" "project_id" (Or.inl (by decide)),
      ← fieldView_uf_ne (step2 env db dod).2 "publication.publication" "project.project" "project_id" d18 d19 e19 "project.projectusermessage" "project_id" (Or.inl (by decide)),
      ← fieldView_uf_ne (step2 env db dod).2 "grant.grant" "project.project" "project_id" d19 d20 e20 "project.projectusermessage" "project_id" (Or.inl (by decide)),
      ← fieldView_uf_ne (step2 env db dod).2 "project.projectadmincomment" "project.project" "project_id" d20 d21 e21 "project.projectusermessage" "project_id" (Or.inl (by decide)),
      fieldView_uf_ne (step2 env db dod).2 "research_output.researchoutput" "project.project" "project_id" d23 d24 e24 "project.projectusermessage" "project_id" (Or.inl (by decide)),
      fieldView_uf_ne (step2 env db dod).2 "project.projectreview" "project.project" "project_id" d22 d23 e23 "project.projectusermessage" "project_id" (Or.inl (by decide))]
    exact fieldView_uf_eq (step2 env db dod).2 "project.projectusermessage" "project.project" "project_id" d21 d22 e22
  · rw [hout1,
      ← step2_fieldView env db dod "project.projectreview" "project_id",
      ← fieldView_uf_ne (step2 env db dod).2 "project.project" "auth.user" "pi_id" (step2 env db dod).1 d1 e1 "project.projectreview" "project_id" (Or.inl (by decide)),
      ← fieldView_rf_ne "resource.resource" "resource.resource" "parent_resource_id" [] d1 frA d2 e2 "project.projectreview" "project_id" (Or.inl (by decide)),
      ← fieldView_rm (step2 env db dod).2 "resource.resource" "resource.resource" "linked_resources" [] d2 mrA d3 e3 "project.projectreview" "project_id",
      ← fieldView_um (step2 env db dod).2 "auth.user" "auth.group" "groups" d3 d4 e4 "project.projectreview" "project_id",
      ← fieldView_uf_ne (step2 env db dod).2 "user.userprofile" "auth.user" "user_id" d4 d5 e5 "project.projectreview" "project_id" (Or.inl (by decide)),
      ← fieldView_um (step2 env db dod).2 "resource.resource" "auth.user" "allowed_users" d5 d6 e6 "project.projectreview" "project_id",
      ← fieldView_um (step2 env db dod).2 "resource.resource" "auth.group" "allowed_groups" d6 d7 e7 "project.projectreview" "project_id",
      ← fieldView_um (step2 env db dod).2 "allocation.allocation" "resource.resource" "resources" d7 d8 e8 "project.projectreview" "project_id",
      ← fieldView_uf_ne (step2 env db dod).2 "allocation.allocationuser" "auth.user" "user_id" d8 d9 e9 "project.projectreview" "project_id" (Or.inl (by decide)),
      ← fieldView_uf_ne (step2 env db dod).2 "allocation.allocationuser" "allocation.allocation" "allocation_id" d9 d10 e10 "project.projectreview" "project_id" (Or.inl (by decide)),
      ← fieldView_uf_ne (step2 env db dod).2 "allocation.allocationchangerequest" "allocation.allocation" "allocation_id" d10 d11 e11 "project.projectreview" "project_id" (Or.inl (by decide)),
      ← fieldView_uf_ne (step2 env db dod).2 "allocation.allocationattribute" "allocation.allocation" "allocation_id" d11 d12 e12 "project.projectreview" "project_id" (Or.inl (by decide)),
      ← fieldView_uf_ne (step2 env db dod).2 "allocation.allocationadminnote" "allocation.allocation" "allocation_id" d12 d13 e13 "project.projectreview" "project_id" (Or.inl (by decide)),
      ← fieldView_uf_ne (step2 env db dod).2 "allocation.allocationusernote" "allocation.allocation" "allocation_id" d13 d14 e14 "project.projectreview" "project_id" (Or.inl (by decide)),
      ← fieldView_uf_ne (step2 env db dod).2 "allocation.allocationadminnote" "auth.user" "author_id" d14 d15 e15 "project.projectreview" "project_id" (Or.inl (by decide)),
      ← fieldView_uf_ne (step2 env db dod).2 "allocation.allocationusernote" "auth.user" "author_id" d15 d16 e16 "project.projectreview" "project_id" (Or.inl (by decide)),
      ← fieldView_uf_ne (step2 env db dod).2 "project.projectuser" "project.project" "project_id" d16 d17 e17 "project.projectreview" "project_id" (Or.inl (by decide)),
      ← fieldView_uf_ne (step2 env db dod).2 "allocation.allocation" "project.project" "project_id" d17 d18 e18 "project.projectreview" "project_id" (Or.inl (by decide)),
      ← fieldView_uf_ne (step2 env db dod).2 "publication.publication" "project.project" "project_id" d18 d19 e19 "project.projectreview" "project_id" (Or.inl (by decide)),
      ← fieldView_uf_ne (step2 env db dod).2 "grant.grant" "project.project" "project_id" d19 d20 e20 "project.projectreview" "project_id" (Or.inl (by decide)),
      ← fieldView_uf_ne (step2 env db dod).2 "project.projectadmincomment" "project.project" "project_id" d20 d21 e21 "project.projectreview" "project_id" (Or.inl (by decide)),
      ← fieldView_uf_ne (step2 env db dod).2 "project.projectusermessage" "project.project" "project_id" d21 d22 e22 "project.projectreview" "project_id" (Or.inl (by decide)),
      fieldView_uf_ne (step2 env db dod).2 "research_output.researchoutput" "project.project" "project_id" d23 d24 e24 "project.projectreview" "project_id" (Or.inl (by decide))]
    exact fieldView_uf_eq (step2 env db dod).2 "project.projectreview" "project.project" "project_id" d22 d23 e23
  · rw [hout1,
      ← step2_fieldView env db dod "research_output.researchoutput" "project_id",
      ← fieldView_uf_ne (step2 env db dod).2 "project.project" "auth.user" "pi_id" (step2 env db dod).1 d1 e1 "research_output.researchoutput" "project_id" (Or.inl (by decide)),
      ← fieldView_rf_ne "resource.resource" "resource.resource" "parent_resource_id" [] d1 frA d2 e2 "research_output.researchoutput" "project_id" (Or.inl (by decide)),
      ← fieldView_rm (step2 env db dod).2 "resource.resource" "resource.resource" "linked_resources" [] d2 mrA d3 e3 "research_output.researchoutput" "project_id",
      ← fieldView_um (step2 env db dod).2 "auth.user" "auth.group" "groups" d3 d4 e4 "research_output.researchoutput" "project_id",
      ← fieldView_uf_ne (step2 env db dod).2 "user.userprofile" "auth.user" "user_id" d4 d5 e5 "research_output.researchoutput" "project_id" (Or.inl (by decide)),
      ← fieldView_um (step2 env db dod).2 "resource.resource" "auth.user" "allowed_users" d5 d6 e6 "research_output.researchoutput" "project_id",
      ← fieldView_um (step2 env db dod).2 "resource.resource" "auth.group" "allowed_groups" d6 d7 e7 "research_output.researchoutput" "project_id",
      ← fieldView_um (step2 env db dod).2 "allocation.allocation" "resource.resource" "resources" d7 d8 e8 "research_output.researchoutput" "project_id",
      ← fieldView_uf_ne (step2 env db dod).2 "allocation.allocationuser" "auth.user" "user_id" d8 d9 e9 "research_output.researchoutput" "project_id" (Or.inl (by decide)),
      ← fieldView_uf_ne (step2 env db dod).2 "allocation.allocationuser" "allocation.allocation" "allocation_id" d9 d10 e10 "research_output.researchoutput" "project_id" (Or.inl (by decide)),
      ← fieldView_uf_ne (step2 env db dod).2 "allocation.allocationchangerequest" "allocation.allocation" "allocation_id" d10 d11 e11 "research_output.researchoutput" "project_id" (Or.inl (by decide)),
      ← fieldView_uf_ne (step2 env db dod).2 "allocation.allocationattribute" "allocation.allocation" "allocation_id" d11 d12 e12 "research_output.researchoutput" "project_id" (Or.inl (by decide)),
      ← fieldView_uf_ne (step2 env db dod).2 "allocation.allocationadminnote" "allocation.allocation" "allocation_id" d12 d13 e13 "research_output.researchoutput" "project_id" (Or.inl (by decide)),
      ← fieldView_uf_ne (step2 env db dod).2 "allocation.allocationusernote" "allocation.allocation" "allocation_id" d13 d14 e14 "research_output.researchoutput" "project_id" (Or.inl (by decide)),
      ← fieldView_uf_ne (step2 env db dod).2 "allocation.allocationadminnote" "auth.user" "author_id" d14 d15 e15 "research_output.researchoutput" "project_id" (Or.inl (by decide)),
      ← fieldView_uf_ne (step2 env db dod).2 "allocation.allocationusernote" "auth.user" "author_id" d15 d16 e16 "research_output.researchoutput" "project_id" (Or.inl (by decide)),
      ← fieldView_uf_ne (step2 env db dod).2 "project.projectuser" "project.project" "project_id" d16 d17 e17 "research_output.researchoutput" "project_id" (Or.inl (by decide)),
      ← fieldView_uf_ne (step2 env db dod).2 "allocation.allocation" "project.project" "project_id" d17 d18 e18 "research_output.researchoutput" "project_id" (Or.inl (by decide)),
      ← fieldView_uf_ne (step2 env db dod).2 "publication.publication" "project.project" "project_id" d18 d19 e19 "research_output.researchoutput" "project_id" (Or.inl (by decide)),
      ← fieldView_uf_ne (step2 env db dod).2 "grant.grant" "project.project" "project_id" d19 d20 e20 "research_output.researchoutput" "project_id" (Or.inl (by decide)),
      ← fieldView_uf_ne (step2 env db dod).2 "project.projectadmincomment" "project.project" "project_id" d20 d21 e21 "research_output.researchoutput" "project_id" (Or.inl (by decide)),
      ← fieldView_uf_ne (step2 env db dod).2 "project.projectusermessage" "project.project" "project_id" d21 d22 e22 "research_output.researchoutput" "project_id" (Or.inl (by decide)),
      ← fieldView_uf_ne (step2 env db dod).2 "project.projectreview" "project.project" "project_id" d22 d23 e23 "research_output.researchoutput" "project_id" (Or.inl (by decide))]
    exact fieldView_uf_eq (step2 env db dod).2 "research_output.researchoutput" "project.project" "project_id" d23 d24 e24
  · constructor
    · intro t ht
      rw [hout1,
        ← step2_m2mView env db dod "auth.user" "groups",
        ← m2mView_uf (step2 env db dod).2 "project.project" "auth.user" "pi_id" (step2 env db dod).1 d1 e1 "auth.user" "groups",
        ← m2mView_rf "resource.resource" "resource.resource" "parent_resource_id" [] d1 frA d2 e2 "auth.user" "groups",
        ← m2mView_rm_ne (step2 env db dod).2 "resource.resource" "resource.resource" "linked_resources" [] d2 mrA d3 e3 "auth.user" "groups" (Or.inl (by decide)),
        m2mView_uf (step2 env db dod).2 "research_output.researchoutput" "project.project" "project_id" d23 d24 e24 "auth.user" "groups",
        m2mView_uf (step2 env db dod).2 "project.projectreview" "project.project" "project_id" d22 d23 e23 "auth.user" "groups",
        m2mView_uf (step2 env db dod).2 "project.projectusermessage" "project.project" "project_id" d21 d22 e22 "auth.user" "groups",
        m2mView_uf (step2 env db dod).2 "project.projectadmincomment" "project.project" "project_id" d20 d21 e21 "auth.user" "groups",
        m2mView_uf (step2 env db dod).2 "grant.grant" "project.project" "project_id" d19 d20 e20 "auth.user" "groups",
        m2mView_uf (step2 env db dod).2 "publication.publication" "project.project" "project_id" d18 d19 e19 "auth.user" "groups",
        m2mView_uf (step2 env db dod).2 "allocation.allocation" "project.project" "project_id" d17 d18 e18 "auth.user" "groups",
        m2mView_uf (step2 env db dod).2 "project.projectuser" "project.project" "project_id" d16 d17 e17 "auth.user" "groups",
        m2mView_uf (step2 env db dod).2 "allocation.allocationusernote" "auth.user" "author_id" d15 d16 e16 "auth.user" "groups",
        m2mView_uf (step2 env db dod).2 "allocation.allocationadminnote" "auth.user" "author_id" d14 d15 e15 "auth.user" "groups",
        m2mView_uf (step2 env db dod).2 "allocation.allocationusernote" "allocation.allocation" "allocation_id" d13 d14 e14 "auth.user" "groups",
        m2mView_uf (step2 env db dod).2 "allocation.allocationadminnote" "allocation.allocation" "allocation_id" d12 d13 e13 "auth.user" "groups",
        m2mView_uf (step2 env db dod).2 "allocation.allocationattribute" "allocation.allocation" "allocation_id" d11 d12 e12 "auth.user" "groups",
        m2mView_uf (step2 env db dod).2 "allocation.allocationchangerequest" "allocation.allocation" "allocation_id" d10 d11 e11 "auth.user" "groups",
        m2mView_uf (step2 env db dod).2 "allocation.allocationuser" "allocation.allocation" "allocation_id" d9 d10 e10 "auth.user" "groups",
        m2mView_uf (step2 env db dod).2 "allocation.allocationuser" "auth.user" "user_id" d8 d9 e9 "auth.user" "groups",
        m2mView_um_ne (step2 env db dod).2 "allocation.allocation" "resource.resource" "resources" d7 d8 e8 "auth.user" "groups" (Or.inl (by decide)),
        m2mView_um_ne (step2 env db dod).2 "resource.resource" "auth.group" "allowed_groups" d6 d7 e7 "auth.user" "groups" (Or.inl (by decide)),
        m2mView_um_ne (step2 env db dod).2 "resource.resource" "auth.user" "allowed_users" d5 d6 e6 "auth.user" "groups" (Or.inl (by decide)),
        m2mView_uf (step2 env db dod).2 "user.userprofile" "auth.user" "user_id" d4 d5 e5 "auth.user" "groups"]
      exact m2mView_um_eq (step2 env db dod).2 "auth.user" "auth.group" "groups" d3 d4 e4 t ht
    · intro ht
      have hskip : d4 = d3 := by
        rcases update_m2m_some_elim (step2 env db dod).2 "auth.user" "auth.group" "groups" d3 d4 e4 with
          ⟨hh, _⟩ | ⟨_, t2, _, _, hfr, _, _⟩
        · exact hh
        · rw [ht] at hfr; cases hfr
      rw [hout1,
        m2mView_uf (step2 env db dod).2 "research_output.researchoutput" "project.project" "project_id" d23 d24 e24 "auth.user" "groups",
        m2mView_uf (step2 env db dod).2 "project.projectreview" "project.project" "project_id" d22 d23 e23 "auth.user" "groups",
        m2mView_uf (step2 env db dod).2 "project.projectusermessage" "project.project" "project_id" d21 d22 e22 "auth.user" "groups",
        m2mView_uf (step2 env db dod).2 "project.projectadmincomment" "project.project" "project_id" d20 d21 e21 "auth.user" "groups",
        m2mView_uf (step2 env db dod).2 "grant.grant" "project.project" "project_id" d19 d20 e20 "auth.user" "groups",
        m2mView_uf (step2 env db dod).2 "publication.publication" "project.project" "project_id" d18 d19 e19 "auth.user" "groups",
        m2mView_uf (step2 env db dod).2 "allocation.allocation" "project.project" "project_id" d17 d18 e18 "auth.user" "groups",
        m2mView_uf (step2 env db dod).2 "project.projectuser" "project.project" "project_id" d16 d17 e17 "auth.user" "groups",
        m2mView_uf (step2 env db dod).2 "allocation.allocationusernote" "auth.user" "author_id" d15 d16 e16 "auth.user" "groups",
        m2mView_uf (step2 env db dod).2 "allocation.allocationadminnote" "auth.user" "author_id" d14 d15 e15 "auth.user" "groups",
        m2mView_uf (step2 env db dod).2 "allocation.allocationusernote" "allocation.allocation" "allocation_id" d13 d14 e14 "auth.user" "groups",
        m2mView_uf (step2 env db dod).2 "allocation.allocationadminnote" "allocation.allocation" "allocation_id" d12 d13 e13 "auth.user" "groups",
        m2mView_uf (step2 env db dod).2 "allocation.allocationattribute" "allocation.allocation" "allocation_id" d11 d12 e12 "auth.user" "groups",
        m2mView_uf (step2 env db dod).2 "allocation.allocationchangerequest" "allocation.allocation" "allocation_id" d10 d11 e11 "auth.user" "groups",
        m2mView_uf (step2 env db dod).2 "allocation.allocationuser" "allocation.allocation" "allocation_id" d9 d10 e10 "auth.user" "groups",
        m2mView_uf (step2 env db dod).2 "allocation.allocationuser" "auth.user" "user_id" d8 d9 e9 "auth.user" "groups",
        m2mView_um_ne (step2 env db dod).2 "allocation.allocation" "resource.resource" "resources" d7 d8 e8 "auth.user" "groups" (Or.inl (by decide)),
        m2mView_um_ne (step2 env db dod).2 "resource.resource" "auth.group" "allowed_groups" d6 d7 e7 "auth.user" "groups" (Or.inl (by decide)),
        m2mView_um_ne (step2 env db dod).2 "resource.resource" "auth.user" "allowed_users" d5 d6 e6 "auth.user" "groups" (Or.inl (by decide)),
        m2mView_uf (step2 env db dod).2 "user.userprofile" "auth.user" "user_id" d4 d5 e5 "auth.user" "groups",
        hskip,
        m2mView_rm_ne (step2 env db dod).2 "resource.resource" "resource.resource" "linked_resources" [] d2 mrA d3 e3 "auth.user" "groups" (Or.inl (by decide)),
        m2mView_rf "resource.resource" "resource.resource" "parent_resource_id" [] d1 frA d2 e2 "auth.user" "groups",
        m2mView_uf (step2 env db dod).2 "project.project" "auth.user" "pi_id" (step2 env db dod).1 d1 e1 "auth.user" "groups",
        step2_m2mView env db dod "auth.user" "groups"]
  · constructor
    · intro t ht
      rw [hout1,
        ← step2_m2mView env db dod "resource.resource" "allowed_users",
        ← m2mView_uf (step2 env db dod).2 "project.project" "auth.user" "pi_id" (step2 env db dod).1 d1 e1 "resource.resource" "allowed_users",
        ← m2mView_rf "resource.resource" "resource.resource" "parent_resource_id" [] d1 frA d2 e2 "resource.resource" "allowed_users",
        ← m2mView_rm_ne (step2 env db dod).2 "resource.resource" "resource.resource" "linked_resources" [] d2 mrA d3 e3 "resource.resource" "allowed_users" (Or.inr (by decide)),
        ← m2mView_um_ne (step2 env db dod).2 "auth.user" "auth.group" "groups" d3 d4 e4 "resource.resource" "allowed_users" (Or.inl (by decide)),
        ← m2mView_uf (step2 env db dod).2 "user.userprofile" "auth.user" "user_id" d4 d5 e5 "resource.resource" "allowed_users",
        m2mView_uf (step2 env db dod).2 "research_output.researchoutput" "project.project" "project_id" d23 d24 e24 "resource.resource" "allowed_users",
        m2mView_uf (step2 env db dod).2 "project.projectreview" "project.project" "project_id" d22 d23 e23 "resource.resource" "allowed_users",
        m2mView_uf (step2 env db dod).2 "project.projectusermessage" "project.project" "project_id" d21 d22 e22 "resource.resource" "allowed_users",
        m2mView_uf (step2 env db dod).2 "project.projectadmincomment" "project.project" "project_id" d20 d21 e21 "resource.resource" "allowed_users",
        m2mView_uf (step2 env db dod).2 "grant.grant" "project.project" "project_id" d19 d20 e20 "resource.resource" "allowed_users",
        m2mView_uf (step2 env db dod).2 "publication.publication" "project.project" "project_id" d18 d19 e19 "resource.resource" "allowed_users",
        m2mView_uf (step2 env db dod).2 "allocation.allocation" "project.project" "project_id" d17 d18 e18 "resource.resource" "allowed_users",
        m2mView_uf (step2 env db dod).2 "project.projectuser" "project.project" "project_id" d16 d17 e17 "resource.resource" "allowed_users",
        m2mView_uf (step2 env db dod).2 "allocation.allocationusernote" "auth.user" "author_id" d15 d16 e16 "resource.resource" "allowed_users",
        m2mView_uf (step2 env db dod).2 "allocation.allocationadminnote" "auth.user" "author_id" d14 d15 e15 "resource.resource" "allowed_users",
        m2mView_uf (step2 env db dod).2 "allocation.allocationusernote" "allocation.allocation" "allocation_id" d13 d14 e14 "resource.resource" "allowed_users",
        m2mView_uf (step2 env db dod).2 "allocation.allocationadminnote" "allocation.allocation" "allocation_id" d12 d13 e13 "resource.resource" "allowed_users",
        m2mView_uf (step2 env db dod).2 "allocation.allocationattribute" "allocation.allocation" "allocation_id" d11 d12 e12 "resource.resource" "allowed_users",
        m2mView_uf (step2 env db dod).2 "allocation.allocationchangerequest" "allocation.allocation" "allocation_id" d10 d11 e11 "resource.resource" "allowed_users",
        m2mView_uf (step2 env db dod).2 "allocation.allocationuser" "allocation.allocation" "allocation_id" d9 d10 e10 "resource.resource" "allowed_users",
        m2mView_uf (step2 env db dod).2 "allocation.allocationuser" "auth.user" "user_id" d8 d9 e9 "resource.resource" "allowed_users",
        m2mView_um_ne (step2 env db dod).2 "allocation.allocation" "resource.resource" "resources" d7 d8 e8 "resource.resource" "allowed_users" (Or.inl (by decide)),
        m2mView_um_ne (step2 env db dod).2 "resource.resource" "auth.group" "allowed_groups" d6 d7 e7 "resource.resource" "allowed_users" (Or.inr (by decide))]
      exact m2mView_um_eq (step2 env db dod).2 "resource.resource" "auth.user" "allowed_users" d5 d6 e6 t ht
    · intro ht
      have hskip : d6 = d5 := by
        rcases update_m2m_some_elim (step2 env db dod).2 "resource.resource" "auth.user" "allowed_users" d5 d6 e6 with
          ⟨hh, _⟩ | ⟨_, t2, _, _, hfr, _, _⟩
        · exact hh
        · rw [ht] at hfr; cases hfr
      rw [hout1,
        m2mView_uf (step2 env db dod).2 "research_output.researchoutput" "project.project" "project_id" d23 d24 e24 "resource.resource" "allowed_users",
        m2mView_uf (step2 env db dod).2 "project.projectreview" "project.project" "project_id" d22 d23 e23 "resource.resource" "allowed_users",
        m2mView_uf (step2 env db dod).2 "project.projectusermessage" "project.project" "project_id" d21 d22 e22 "resource.resource" "allowed_users",
        m2mView_uf (step2 env db dod).2 "project.projectadmincomment" "project.project" "project_id" d20 d21 e21 "resource.resource" "allowed_users",
        m2mView_uf (step2 env db dod).2 "grant.grant" "project.project" "project_id" d19 d20 e20 "resource.resource" "allowed_users",
        m2mView_uf (step2 env db dod).2 "publication.publication" "project.project" "project_id" d18 d19 e19 "resource.resource" "allowed_users",
        m2mView_uf (step2 env db dod).2 "allocation.allocation" "project.project" "project_id" d17 d18 e18 "resource.resource" "allowed_users",
        m2mView_uf (step2 env db dod).2 "project.projectuser" "project.project" "project_id" d16 d17 e17 "resource.resource" "allowed_users",
        m2mView_uf (step2 env db dod).2 "allocation.allocationusernote" "auth.user" "author_id" d15 d16 e16 "resource.resource" "allowed_users",
        m2mView_uf (step2 env db dod).2 "allocation.allocationadminnote" "auth.user" "author_id" d14 d15 e15 "resource.resource" "allowed_users",
        m2mView_uf (step2 env db dod).2 "allocation.allocationusernote" "allocation.allocation" "allocation_id" d13 d14 e14 "resource.resource" "allowed_users",
        m2mView_uf (step2 env db dod).2 "allocation.allocationadminnote" "allocation.allocation" "allocation_id" d12 d13 e13 "resource.resource" "allowed_users",
        m2mView_uf (step2 env db dod).2 "allocation.allocationattribute" "allocation.allocation" "allocation_id" d11 d12 e12 "resource.resource" "allowed_users",
        m2mView_uf (step2 env db dod).2 "allocation.allocationchangerequest" "allocation.allocation" "allocation_id" d10 d11 e11 "resource.resource" "allowed_users",
        m2mView_uf (step2 env db dod).2 "allocation.allocationuser" "allocation.allocation" "allocation_id" d9 d10 e10 "resource.resource" "allowed_users",
        m2mView_uf (step2 env db dod).2 "allocation.allocationuser" "auth.user" "user_id" d8 d9 e9 "resource.resource" "allowed_users",
        m2mView_um_ne (step2 env db dod).2 "allocation.allocation" "resource.resource" "resources" d7 d8 e8 "resource.resource" "allowed_users" (Or.inl (by decide)),
        m2mView_um_ne (step2 env db dod).2 "resource.resource" "auth.group" "allowed_groups" d6 d7 e7 "resource.resource" "allowed_users" (Or.inr (by decide)),
        hskip,
        m2mView_uf (step2 env db dod).2 "user.userprofile" "auth.user" "user_id" d4 d5 e5 "resource.resource" "allowed_users",
        m2mView_um_ne (step2 env db dod).2 "auth.user" "auth.group" "groups" d3 d4 e4 "resource.resource" "allowed_users" (Or.inl (by decide)),
        m2mView_rm_ne (step2 env db dod).2 "resource.resource" "resource.resource" "linked_resources" [] d2 mrA d3 e3 "resource.resource" "allowed_users" (Or.inr (by decide)),
        m2mView_rf "resource.resource" "resource.resource" "parent_resource_id" [] d1 frA d2 e2 "resource.resource" "allowed_users",
        m2mView_uf (step2 env db dod).2 "project.project" "auth.user" "pi_id" (step2 env db dod).1 d1 e1 "resource.resource" "allowed_users",
        step2_m2mView env db dod "resource.resource" "allowed_users"]
  · constructor
    · intro t ht
      rw [hout1,
        ← step2_m2mView env db dod "resource.resource" "allowed_groups",
        ← m2mView_uf (step2 env db dod).2 "project.project" "auth.user" "pi_id" (step2 env db dod).1 d1 e1 "resource.resource" "allowed_groups",
        ← m2mView_rf "resource.resource" "resource.resource" "parent_resource_id" [] d1 frA d2 e2 "resource.resource" "allowed_groups",
        ← m2mView_rm_ne (step2 env db dod).2 "resource.resource" "resource.resource" "linked_resources" [] d2 mrA d3 e3 "resource.resource" "allowed_groups" (Or.inr (by decide)),
        ← m2mView_um_ne (step2 env db dod).2 "auth.user" "auth.group" "groups" d3 d4 e4 "resource.resource" "allowed_groups" (Or.inl (by decide)),
        ← m2mView_uf (step2 env db dod).2 "user.userprofile" "auth.user" "user_id" d4 d5 e5 "resource.resource" "allowed_groups",
        ← m2mView_um_ne (step2 env db dod).2 "resource.resource" "auth.user" "allowed_users" d5 d6 e6 "resource.resource" "allowed_groups" (Or.inr (by decide)),
        m2mView_uf (step2 env db dod).2 "research_output.researchoutput" "project.project" "project_id" d23 d24 e24 "resource.resource" "allowed_groups",
        m2mView_uf (step2 env db dod).2 "project.projectreview" "project.project" "project_id" d22 d23 e23 "resource.resource" "allowed_groups",
        m2mView_uf (step2 env db dod).2 "project.projectusermessage" "project.project" "project_id" d21 d22 e22 "resource.resource" "allowed_groups",
        m2mView_uf (step2 env db dod).2 "project.projectadmincomment" "project.project" "project_id" d20 d21 e21 "resource.resource" "allowed_groups",
        m2mView_uf (step2 env db dod).2 "grant.grant" "project.project" "project_id" d19 d20 e20 "resource.resource" "allowed_groups",
        m2mView_uf (step2 env db dod).2 "publication.publication" "project.project" "project_id" d18 d19 e19 "resource.resource" "allowed_groups",
        m2mView_uf (step2 env db dod).2 "allocation.allocation" "project.project" "project_id" d17 d18 e18 "resource.resource" "allowed_groups",
        m2mView_uf (step2 env db dod).2 "project.projectuser" "project.project" "project_id" d16 d17 e17 "resource.resource" "allowed_groups",
        m2mView_uf (step2 env db dod).2 "allocation.allocationusernote" "auth.user" "author_id" d15 d16 e16 "resource.resource" "allowed_groups",
        m2mView_uf (step2 env db dod).2 "allocation.allocationadminnote" "auth.user" "author_id" d14 d15 e15 "resource.resource" "allowed_groups",
        m2mView_uf (step2 env db dod).2 "allocation.allocationusernote" "allocation.allocation" "allocation_id" d13 d14 e14 "resource.resource" "allowed_groups",
        m2mView_uf (step2 env db dod).2 "allocation.allocationadminnote" "allocation.allocation" "allocation_id" d12 d13 e13 "resource.resource" "allowed_groups",
        m2mView_uf (step2 env db dod).2 "allocation.allocationattribute" "allocation.allocation" "allocation_id" d11 d12 e12 "resource.resource" "allowed_groups",
        m2mView_uf (step2 env db dod).2 "allocation.allocationchangerequest" "allocation.allocation" "allocation_id" d10 d11 e11 "resource.resource" "allowed_groups",
        m2mView_uf (step2 env db dod).2 "allocation.allocationuser" "allocation.allocation" "allocation_id" d9 d10 e10 "resource.resource" "allowed_groups",
        m2mView_uf (step2 env db dod).2 "allocation.allocationuser" "auth.user" "user_id" d8 d9 e9 "resource.resource" "allowed_groups",
        m2mView_um_ne (step2 env db dod).2 "allocation.allocation" "resource.resource" "resources" d7 d8 e8 "resource.resource" "allowed_groups" (Or.inl (by decide))]
      exact m2mView_um_eq (step2 env db dod).2 "resource.resource" "auth.group" "allowed_groups" d6 d7 e7 t ht
    · intro ht
      have hskip : d7 = d6 := by
        rcases update_m2m_some_elim (step2 env db dod).2 "resource.resource" "auth.group" "allowed_groups" d6 d7 e7 with
          ⟨hh, _⟩ | ⟨_, t2, _, _, hfr, _, _⟩
        · exact hh
        · rw [ht] at hfr; cases hfr
      rw [hout1,
        m2mView_uf (step2 env db dod).2 "research_output.researchoutput" "project.project" "project_id" d23 d24 e24 "resource.resource" "allowed_groups",
        m2mView_uf (step2 env db dod).2 "project.projectreview" "project.project" "project_id" d22 d23 e23 "resource.resource" "allowed_groups",
        m2mView_uf (step2 env db dod).2 "project.projectusermessage" "project.project" "project_id" d21 d22 e22 "resource.resource" "allowed_groups",
        m2mView_uf (step2 env db dod).2 "project.projectadmincomment" "project.project" "project_id" d20 d21 e21 "resource.resource" "allowed_groups",
        m2mView_uf (step2 env db dod).2 "grant.grant" "project.project" "project_id" d19 d20 e20 "resource.resource" "allowed_groups",
        m2mView_uf (step2 env db dod).2 "publication.publication" "project.project" "project_id" d18 d19 e19 "resource.resource" "allowed_groups",
        m2mView_uf (step2 env db dod).2 "allocation.allocation" "project.project" "project_id" d17 d18 e18 "resource.resource" "allowed_groups",
        m2mView_uf (step2 env db dod).2 "project.projectuser" "project.project" "project_id" d16 d17 e17 "resource.resource" "allowed_groups",
        m2mView_uf (step2 env db dod).2 "allocation.allocationusernote" "auth.user" "author_id" d15 d16 e16 "resource.resource" "allowed_groups",
        m2mView_uf (step2 env db dod).2 "allocation.allocationadminnote" "auth.user" "author_id" d14 d15 e15 "resource.resource" "allowed_groups",
        m2mView_uf (step2 env db dod).2 "allocation.allocationusernote" "allocation.allocation" "allocation_id" d13 d14 e14 "resource.resource" "allowed_groups",
        m2mView_uf (step2 env db dod).2 "allocation.allocationadminnote" "allocation.allocation" "allocation_id" d12 d13 e13 "resource.resource" "allowed_groups",
        m2mView_uf (step2 env db dod).2 "allocation.allocationattribute" "allocation.allocation" "allocation_id" d11 d12 e12 "resource.resource" "allowed_groups",
        m2mView_uf (step2 env db dod).2 "allocation.allocationchangerequest" "allocation.allocation" "allocation_id" d10 d11 e11 "resource.resource" "allowed_groups",
        m2mView_uf (step2 env db dod).2 "allocation.allocationuser" "allocation.allocation" "allocation_id" d9 d10 e10 "resource.resource" "allowed_groups",
        m2mView_uf (step2 env db dod).2 "allocation.allocationuser" "auth.user" "user_id" d8 d9 e9 "resource.resource" "allowed_groups",
        m2mView_um_ne (step2 env db dod).2 "allocation.allocation" "resource.resource" "resources" d7 d8 e8 "resource.resource" "allowed_groups" (Or.inl (by decide)),
        hskip,
        m2mView_um_ne (step2 env db dod).2 "resource.resource" "auth.user" "allowed_users" d5 d6 e6 "resource.resource" "allowed_groups" (Or.inr (by decide)),
        m2mView_uf (step2 env db dod).2 "user.userprofile" "auth.user" "user_id" d4 d5 e5 "resource.resource" "allowed_groups",
        m2mView_um_ne (step2 env db dod).2 "auth.user" "auth.group" "groups" d3 d4 e4 "resource.resource" "allowed_groups" (Or.inl (by decide)),
        m2mView_rm_ne (step2 env db dod).2 "resource.resource" "resource.resource" "linked_resources" [] d2 mrA d3 e3 "resource.resource" "allowed_groups" (Or.inr (by decide)),
        m2mView_rf "resource.resource" "resource.resource" "parent_resource_id" [] d1 frA d2 e2 "resource.resource" "allowed_groups",
        m2mView_uf (step2 env db dod).2 "project.project" "auth.user" "pi_id" (step2 env db dod).1 d1 e1 "resource.resource" "allowed_groups",
        step2_m2mView env db dod "resource.resource" "allowed_groups"]
  · constructor
    · intro t ht
      rw [hout1,
        ← step2_m2mView env db dod "allocation.allocation" "resources",
        ← m2mView_uf (step2 env db dod).2 "project.project" "auth.user" "pi_id" (step2 env db dod).1 d1 e1 "allocation.allocation" "resources",
        ← m2mView_rf "resource.resource" "resource.resource" "parent_resource_id" [] d1 frA d2 e2 "allocation.allocation" "resources",
        ← m2mView_rm_ne (step2 env db dod).2 "resource.resource" "resource.resource" "linked_resources" [] d2 mrA d3 e3 "allocation.allocation" "resources" (Or.inl (by decide)),
        ← m2mView_um_ne (step2 env db dod).2 "auth.user" "auth.group" "groups" d3 d4 e4 "allocation.allocation" "resources" (Or.inl (by decide)),
        ← m2mView_uf (step2 env db dod).2 "user.userprofile" "auth.user" "user_id" d4 d5 e5 "allocation.allocation" "resources",
        ← m2mView_um_ne (step2 env db dod).2 "resource.resource" "auth.user" "allowed_users" d5 d6 e6 "allocation.allocation" "resources" (Or.inl (by decide)),
        ← m2mView_um_ne (step2 env db dod).2 "resource.resource" "auth.group" "allowed_groups" d6 d7 e7 "allocation.allocation" "resources" (Or.inl (by decide)),
        m2mView_uf (step2 env db dod).2 "research_output.researchoutput" "project.project" "project_id" d23 d24 e24 "allocation.allocation" "resources",
        m2mView_uf (step2 env db dod).2 "project.projectreview" "project.project" "project_id" d22 d23 e23 "allocation.allocation" "resources",
        m2mView_uf (step2 env db dod).2 "project.projectusermessage" "project.project" "project_id" d21 d22 e22 "allocation.allocation" "resources",
        m2mView_uf (step2 env db dod).2 "project.projectadmincomment" "project.project" "project_id" d20 d21 e21 "allocation.allocation" "resources",
        m2mView_uf (step2 env db dod).2 "grant.grant" "project.project" "project_id" d19 d20 e20 "allocation.allocation" "resources",
        m2mView_uf (step2 env db dod).2 "publication.publication" "project.project" "project_id" d18 d19 e19 "allocation.allocation" "resources",
        m2mView_uf (step2 env db dod).2 "allocation.allocation" "project.project" "project_id" d17 d18 e18 "allocation.allocation" "resources",
        m2mView_uf (step2 env db dod).2 "project.projectuser" "project.project" "project_id" d16 d17 e17 "allocation.allocation" "resources",
        m2mView_uf (step2 env db dod).2 "allocation.allocationusernote" "auth.user" "author_id" d15 d16 e16 "allocation.allocation" "resources",
        m2mView_uf (step2 env db dod).2 "allocation.allocationadminnote" "auth.user" "author_id" d14 d15 e15 "allocation.allocation" "resources",
        m2mView_uf (step2 env db dod).2 "allocation.allocationusernote" "allocation.allocation" "allocation_id" d13 d14 e14 "allocation.allocation" "resources",
        m2mView_uf (step2 env db dod).2 "allocation.allocationadminnote" "allocation.allocation" "allocation_id" d12 d13 e13 "allocation.allocation" "resources",
        m2mView_uf (step2 env db dod).2 "allocation.allocationattribute" "allocation.allocation" "allocation_id" d11 d12 e12 "allocation.allocation" "resources",
        m2mView_uf (step2 env db dod).2 "allocation.allocationchangerequest" "allocation.allocation" "allocation_id" d10 d11 e11 "allocation.allocation" "resources",
        m2mView_uf (step2 env db dod).2 "allocation.allocationuser" "allocation.allocation" "allocation_id" d9 d10 e10 "allocation.allocation" "resources",
        m2mView_uf (step2 env db dod).2 "allocation.allocationuser" "auth.user" "user_id" d8 d9 e9 "allocation.allocation" "resources"]
      exact m2mView_um_eq (step2 env db dod).2 "allocation.allocation" "resource.resource" "resources" d7 d8 e8 t ht
    · intro ht
      have hskip : d8 = d7 := by
        rcases update_m2m_some_elim (step2 env db dod).2 "allocation.allocation" "resource.resource" "resources" d7 d8 e8 with
          ⟨hh, _⟩ | ⟨_, t2, _, _, hfr, _, _⟩
        · exact hh
        · rw [ht] at hfr; cases hfr
      rw [hout1,
        m2mView_uf (step2 env db dod).2 "research_output.researchoutput" "project.project" "project_id" d23 d24 e24 "allocation.allocation" "resources",
        m2mView_uf (step2 env db dod).2 "project.projectreview" "project.project" "project_id" d22 d23 e23 "allocation.allocation" "resources",
        m2mView_uf (step2 env db dod).2 "project.projectusermessage" "project.project" "project_id" d21 d22 e22 "allocation.allocation" "resources",
        m2mView_uf (step2 env db dod).2 "project.projectadmincomment" "project.project" "project_id" d20 d21 e21 "allocation.allocation" "resources",
        m2mView_uf (step2 env db dod).2 "grant.grant" "project.project" "project_id" d19 d20 e20 "allocation.allocation" "resources",
        m2mView_uf (step2 env db dod).2 "publication.publication" "project.project" "project_id" d18 d19 e19 "allocation.allocation" "resources",
        m2mView_uf (step2 env db dod).2 "allocation.allocation" "project.project" "project_id" d17 d18 e18 "allocation.allocation" "resources",
        m2mView_uf (step2 env db dod).2 "project.projectuser" "project.project" "project_id" d16 d17 e17 "allocation.allocation" "resources",
        m2mView_uf (step2 env db dod).2 "allocation.allocationusernote" "auth.user" "author_id" d15 d16 e16 "allocation.allocation" "resources",
        m2mView_uf (step2 env db dod).2 "allocation.allocationadminnote" "auth.user" "author_id" d14 d15 e15 "allocation.allocation" "resources",
        m2mView_uf (step2 env db dod).2 "allocation.allocationusernote" "allocation.allocation" "allocation_id" d13 d14 e14 "allocation.allocation" "resources",
        m2mView_uf (step2 env db dod).2 "allocation.allocationadminnote" "allocation.allocation" "allocation_id" d12 d13 e13 "allocation.allocation" "resources",
        m2mView_uf (step2 env db dod).2 "allocation.allocationattribute" "allocation.allocation" "allocation_id" d11 d12 e12 "allocation.allocation" "resources",
        m2mView_uf (step2 env db dod).2 "allocation.allocationchangerequest" "allocation.allocation" "allocation_id" d10 d11 e11 "allocation.allocation" "resources",
        m2mView_uf (step2 env db dod).2 "allocation.allocationuser" "allocation.allocation" "allocation_id" d9 d10 e10 "allocation.allocation" "resources",
        m2mView_uf (step2 env db dod).2 "allocation.allocationuser" "auth.user" "user_id" d8 d9 e9 "allocation.allocation" "resources",
        hskip,
        m2mView_um_ne (step2 env db dod).2 "resource.resource" "auth.group" "allowed_groups" d6 d7 e7 "allocation.allocation" "resources" (Or.inl (by decide)),
        m2mView_um_ne (step2 env db dod).2 "resource.resource" "auth.user" "allowed_users" d5 d6 e6 "allocation.allocation" "resources" (Or.inl (by decide)),
        m2mView_uf (step2 env db dod).2 "user.userprofile" "auth.user" "user_id" d4 d5 e5 "allocation.allocation" "resources",
        m2mView_um_ne (step2 env db dod).2 "auth.user" "auth.group" "groups" d3 d4 e4 "allocation.allocation" "resources" (Or.inl (by decide)),
        m2mView_rm_ne (step2 env db dod).2 "resource.resource" "resource.resource" "linked_resources" [] d2 mrA d3 e3 "allocation.allocation" "resources" (Or.inl (by decide)),
        m2mView_rf "resource.resource" "resource.resource" "parent_resource_id" [] d1 frA d2 e2 "allocation.allocation" "resources",
        m2mView_uf (step2 env db dod).2 "project.project" "auth.user" "pi_id" (step2 env db dod).1 d1 e1 "allocation.allocation" "resources",
        step2_m2mView env db dod "allocation.allocation" "resources"]

/-- Input for the C3 counterexample: one imported user whose `groups`
m2m list references group 5, with no `auth.group` objects in the
document. -/
def c3mdod : DoDict :=
  [("auth.user", [⟨⟨"auth.user", 3, [("username", Val.str "u")], []⟩, [("groups", [5])]⟩])]

/-- C3 (counterexample): at this input Step 3 succeeds, but the user's
`groups` many-to-many list is NOT mapped elementwise through the
translation table: the table has no `auth.group` entry (so no
elementwise image through it exists), and the list keeps its raw
imported id 5. -/
theorem C3_m2m_left_unmapped_counterexample :
    (step3 (step2 c6env [] c3mdod).2 (step2 c6env [] c3mdod).1).map
        (fun out => m2mView out.1 "auth.user" "groups") = some [some [5]] ∧
    List.mapM (tblLookup (step2 c6env [] c3mdod).2 "auth.group") [5] = none ∧
    alook (step2 c6env [] c3mdod).2 "auth.group" = none :=
  ⟨by decide, by decide, by decide⟩

/-- The concrete Step 3 output on the C6 witness inputs, used by the C3
witness. -/
def c3wout : DoDict × FieldRegist × M2mRegist :=
  ([("auth.user",
      [⟨⟨"auth.user", 1, [("username", Val.str "u")], []⟩, [("groups", [])]⟩]),
    ("project.project",
      [⟨⟨"project.project", 1, [("title", Val.str "P"), ("pi_id", Val.int 1)], []⟩, []⟩])],
   [], [])

theorem C3_amended_field_matching_witness :
    (step3 (step2 c6env c6db c6dod).2 (step2 c6env c6db c6dod).1 = some c3wout) ∧
    ((List.Forall₂ (fun x y => ∃ v nv, x = some (Val.int v) ∧
        tblLookup (step2 c6env c6db c6dod).2 "auth.user" v = some nv ∧ y = some (Val.int nv))
      (fieldView c6dod "project.project" "pi_id") (fieldView c3wout.1 "project.project" "pi_id")) ∧
    (List.Forall₂ (fun x y => ∃ v nv, x = some (Val.int v) ∧
        tblLookup (step2 c6env c6db c6dod).2 "auth.user" v = some nv ∧ y = some (Val.int nv))
      (fieldView c6dod "user.userprofile" "user_id") (fieldView c3wout.1 "user.userprofile" "user_id")) ∧
    (List.Forall₂ (fun x y => ∃ v nv, x = some (Val.int v) ∧
        tblLookup (step2 c6env c6db c6dod).2 "auth.user" v = some nv ∧ y = some (Val.int nv))
      (fieldView c6dod "allocation.allocationuser" "user_id") (fieldView c3wout.1 "allocation.allocationuser" "user_id")) ∧
    (List.Forall₂ (fun x y => ∃ v nv, x = some (Val.int v) ∧
        tblLookup (step2 c6env c6db c6dod).2 "allocation.allocation" v = some nv ∧ y = some (Val.int nv))
      (fieldView c6dod "allocation.allocationuser" "allocation_id") (fieldView c3wout.1 "allocation.allocationuser" "allocation_id")) ∧
    (List.Forall₂ (fun x y => ∃ v nv, x = some (Val.int v) ∧
        tblLookup (step2 c6env c6db c6dod).2 "allocation.allocation" v = some nv ∧ y = some (Val.int nv))
      (fieldView c6dod "allocation.allocationchangerequest" "allocation_id") (fieldView c3wout.1 "allocation.allocationchangerequest" "allocation_id")) ∧
    (List.Forall₂ (fun x y => ∃ v nv, x = some (Val.int v) ∧
        tblLookup (step2 c6env c6db c6dod).2 "allocation.allocation" v = some nv ∧ y = some (Val.int nv))
      (fieldView c6dod "allocation.allocationattribute" "allocation_id") (fieldView c3wout.1 "allocation.allocationattribute" "allocation_id")) ∧
    (List.Forall₂ (fun x y => ∃ v nv, x = some (Val.int v) ∧
        tblLookup (step2 c6env c6db c6dod).2 "allocation.allocation" v = some nv ∧ y = some (Val.int nv))
      (fieldView c6dod "allocation.allocationadminnote" "allocation_id") (fieldView c3wout.1 "allocation.allocationadminnote" "allocation_id")) ∧
    (List.Forall₂ (fun x y => ∃ v nv, x = some (Val.int v) ∧
        tblLookup (step2 c6env c6db c6dod).2 "allocation.allocation" v = some nv ∧ y = some (Val.int nv))
      (fieldView c6dod "allocation.allocationusernote" "allocation_id") (fieldView c3wout.1 "allocation.allocationusernote" "allocation_id")) ∧
    (List.Forall₂ (fun x y => ∃ v nv, x = some (Val.int v) ∧
        tblLookup (step2 c6env c6db c6dod).2 "auth.user" v = some nv ∧ y = some (Val.int nv))
      (fieldView c6dod "allocation.allocationadminnote" "author_id") (fieldView c3wout.1 "allocation.allocationadminnote" "author_id")) ∧
    (List.Forall₂ (fun x y => ∃ v nv, x = some (Val.int v) ∧
        tblLookup (step2 c6env c6db c6dod).2 "auth.user" v = some nv ∧ y = some (Val.int nv))
      (fieldView c6dod "allocation.allocationusernote" "author_id") (fieldView c3wout.1 "allocation.allocationusernote" "author_id")) ∧
    (List.Forall₂ (fun x y => ∃ v nv, x = some (Val.int v) ∧
        tblLookup (step2 c6env c6db c6dod).2 "project.project" v = some nv ∧ y = some (Val.int nv))
      (fieldView c6dod "project.projectuser" "project_id") (fieldView c3wout.1 "project.projectuser" "project_id")) ∧
    (List.Forall₂ (fun x y => ∃ v nv, x = some (Val.int v) ∧
        tblLookup (step2 c6env c6db c6dod).2 "project.project" v = some nv ∧ y = some (Val.int nv))
      (fieldView c6dod "allocation.allocation" "project_id") (fieldView c3wout.1 "allocation.allocation" "project_id")) ∧
    (List.Forall₂ (fun x y => ∃ v nv, x = some (Val.int v) ∧
        tblLookup (step2 c6env c6db c6dod).2 "project.project" v = some nv ∧ y = some (Val.int nv))
      (fieldView c6dod "publication.publication" "project_id") (fieldView c3wout.1 "publication.publication" "project_id")) ∧
    (List.Forall₂ (fun x y => ∃ v nv, x = some (Val.int v) ∧
        tblLookup (step2 c6env c6db c6dod).2 "project.project" v = some nv ∧ y = some (Val.int nv))
      (fieldView c6dod "grant.grant" "project_id") (fieldView c3wout.1 "grant.grant" "project_id")) ∧
    (List.Forall₂ (fun x y => ∃ v nv, x = some (Val.int v) ∧
        tblLookup (step2 c6env c6db c6dod).2 "project.project" v = some nv ∧ y = some (Val.int nv))
      (fieldView c6dod "project.projectadmincomment" "project_id") (fieldView c3wout.1 "project.projectadmincomment" "project_id")) ∧
    (List.Forall₂ (fun x y => ∃ v nv, x = some (Val.int v) ∧
        tblLookup (step2 c6env c6db c6dod).2 "project.project" v = some nv ∧ y = some (Val.int nv))
      (fieldView c6dod "project.projectusermessage" "project_id") (fieldView c3wout.1 "project.projectusermessage" "project_id")) ∧
    (List.Forall₂ (fun x y => ∃ v nv, x = some (Val.int v) ∧
        tblLookup (step2 c6env c6db c6dod).2 "project.project" v = some nv ∧ y = some (Val.int nv))
      (fieldView c6dod "project.projectreview" "project_id") (fieldView c3wout.1 "project.projectreview" "project_id")) ∧
    (List.Forall₂ (fun x y => ∃ v nv, x = some (Val.int v) ∧
        tblLookup (step2 c6env c6db c6dod).2 "project.project" v = some nv ∧ y = some (Val.int nv))
      (fieldView c6dod "research_output.researchoutput" "project_id") (fieldView c3wout.1 "research_output.researchoutput" "project_id")) ∧
    (((∀ t, alook (step2 c6env c6db c6dod).2 "auth.group" = some t →
      List.Forall₂ (fun x y => ∃ lns trans, x = some lns ∧
          lns.mapM (fun ln => alook t ln) = some trans ∧ y = some trans)
        (m2mView c6dod "auth.user" "groups") (m2mView c3wout.1 "auth.user" "groups")) ∧
    (alook (step2 c6env c6db c6dod).2 "auth.group" = none →
      m2mView c3wout.1 "auth.user" "groups" = m2mView c6dod "auth.user" "groups"))) ∧
    (((∀ t, alook (step2 c6env c6db c6dod).2 "auth.user" = some t →
      List.Forall₂ (fun x y => ∃ lns trans, x = some lns ∧
          lns.mapM (fun ln => alook t ln) = some trans ∧ y = some trans)
        (m2mView c6dod "resource.resource" "allowed_users") (m2mView c3wout.1 "resource.resource" "allowed_users")) ∧
    (alook (step2 c6env c6db c6dod).2 "auth.user" = none →
      m2mView c3wout.1 "resource.resource" "allowed_users" = m2mView c6dod "resource.resource" "allowed_users"))) ∧
    (((∀ t, alook (step2 c6env c6db c6dod).2 "auth.group" = some t →
      List.Forall₂ (fun x y => ∃ lns trans, x = some lns ∧
          lns.mapM (fun ln => alook t ln) = some trans ∧ y = some trans)
        (m2mView c6dod "resource.resource" "allowed_groups") (m2mView c3wout.1 "resource.resource" "allowed_groups")) ∧
    (alook (step2 c6env c6db c6dod).2 "auth.group" = none →
      m2mView c3wout.1 "resource.resource" "allowed_groups" = m2mView c6dod "resource.resource" "allowed_groups"))) ∧
    (((∀ t, alook (step2 c6env c6db c6dod).2 "resource.resource" = some t →
      List.Forall₂ (fun x y => ∃ lns trans, x = some lns ∧
          lns.mapM (fun ln => alook t ln) = some trans ∧ y = some trans)
        (m2mView c6dod "allocation.allocation" "resources") (m2mView c3wout.1 "allocation.allocation" "resources")) ∧
    (alook (step2 c6env c6db c6dod).2 "resource.resource" = none →
      m2mView c3wout.1 "allocation.allocation" "resources" = m2mView c6dod "allocation.allocation" "resources")))) :=
  ⟨rfl, C3_amended_field_matching c6env c6db c6dod c3wout rfl⟩

/-! ## Project export (`ProjectExportView`) -/

/-- A scalar field read as an integer (foreign keys). -/
def fieldInt (r : Record) (f : String) : Option Int :=
  match alook r.fields f with
  | some (Val.int v) => some v
  | _ => none

/-- A row's m2m id list. -/
def m2mOf (r : Record) (g : String) : List Int :=
  (alook r.m2ms g).getD []

/-- `Resource.objects.all()`. -/
def resourcesOf (db : DB) : List Record :=
  modelFilter db "resource.resource"

/-- `resource.linked_resources.all()` id list. -/
def linkedOf (r : Record) : List Int :=
  m2mOf r "linked_resources"

/-- The pks of all resource rows. -/
def resourcePks (db : DB) : Finset Int :=
  ((resourcesOf db).map (fun r => r.pk)).toFinset

/-- All ids mentioned in `linked_resources` lists. -/
def allLinked (db : DB) : Finset Int :=
  ((resourcesOf db).map linkedOf).flatten.toFinset

/-- One body step of the `while` loop of `_get_resource_query` for one
resource of the current query: union in its linked resources, then union
in every resource whose parent is in the accumulated set. -/
def closureStep (db : DB) (ids : Finset Int) (r : Record) : Finset Int :=
  let ids1 := ids ∪ (linkedOf r).toFinset
  let children := ((resourcesOf db).filter (fun q =>
    match fieldInt q "parent_resource_id" with
    | some pr => pr ∈ ids1
    | none => false)).map (fun q => q.pk)
  ids1 ∪ children.toFinset

/-- One full pass of the `while` loop: iterate the body over the
resources currently selected (`resource_query`, i.e. pk ∈ all_ids). -/
def closurePass (db : DB) (s : Finset Int) : Finset Int :=
  ((resourcesOf db).filter (fun r => r.pk ∈ s)).foldl (closureStep db) s

/-- The `while old_resource_set != all_ids` loop, with explicit fuel; the
loop stops at the first pass that adds nothing. -/
def closureLoop (db : DB) : Nat → Finset Int → Finset Int
  | 0, s => s
  | n + 1, s => if closurePass db s = s then s else closureLoop db n (closurePass db s)

/-- Every id that can ever enter the loop's set. -/
def closureBound (db : DB) (init : Finset Int) : Finset Int :=
  init ∪ (resourcePks db ∪ allLinked db)

/-- Fuel sufficient to reach the loop's fixpoint. -/
def closFuel (db : DB) (init : Finset Int) : Nat :=
  (closureBound db init).card

/-- `Resource.objects.filter(allocation__in=proj_alloc).distinct()`. -/
def initResourceQuery (db : DB) (projAlloc : List Record) : List Record :=
  (resourcesOf db).filter (fun r => projAlloc.any (fun a => r.pk ∈ m2mOf a "resources"))

/-- The initial `all_ids` set of `_get_resource_query`. -/
def initIds (db : DB) (projAlloc : List Record) : Finset Int :=
  ((initResourceQuery db projAlloc).map (fun r => r.pk)).toFinset

/-- `_get_resource_query`: run the loop to its fixpoint and select the
resources whose pk is in the final set. -/
def get_resource_query (db : DB) (projAlloc : List Record) : List Record :=
  (resourcesOf db).filter (fun r =>
    r.pk ∈ closureLoop db (closFuel db (initIds db projAlloc)) (initIds db projAlloc))

/-- The declarative closure of the initial resources under
`linked_resources` and parent links: an id is reachable when it is
initial, linked from a reachable resource, or belongs to a resource
whose parent is reachable. -/
inductive InResourceClosure (db : DB) (init : Finset Int) : Int → Prop
  | base (x : Int) : x ∈ init → InResourceClosure db init x
  | linked (r : Record) (y : Int) : r ∈ resourcesOf db →
      InResourceClosure db init r.pk → y ∈ linkedOf r → InResourceClosure db init y
  | child (r : Record) (pr : Int) : r ∈ resourcesOf db →
      fieldInt r "parent_resource_id" = some pr → InResourceClosure db init pr →
      InResourceClosure db init r.pk

/-- `ProjectAllocation.objects.filter(project_id=p_id)`. -/
def projAllocOf (db : DB) (p : Int) : List Record :=
  (modelFilter db "allocation.allocation").filter (fun a => fieldInt a "project_id" = some p)

/-- Rows of a model whose given FK field is the pk of some row in `sel`. -/
def filterByFkIn (db : DB) (model fk : String) (pks : List Int) : List Record :=
  (modelFilter db model).filter (fun r =>
    match fieldInt r fk with
    | some v => pks.contains v
    | none => false)

/-- Rows of a model whose given FK field equals `p`. -/
def filterByFk (db : DB) (model fk : String) (p : Int) : List Record :=
  (modelFilter db model).filter (fun r => fieldInt r fk = some p)

/-- The serialized document `ProjectExportView.dispatch` builds, one
component per `fix_serialize_data` call, in order. -/
structure ExportDoc where
  projects : List Record
  users : List Record
  userprofiles : List Record
  groups : List Record
  projUsers : List Record
  publications : List Record
  grants : List Record
  resources : List Record
  allocations : List Record
  allocUsers : List Record
  allocAttrs : List Record
  allocChangeRequests : List Record
  allocAdminNotes : List Record
  allocUserNotes : List Record
  adminComments : List Record
  userMessages : List Record
  reviews : List Record
  researchOutputs : List Record
deriving DecidableEq, Repr

/-- The relevant user ids: project users, allowed users of the exported
resources, and note authors (`user_ids` in `dispatch`). -/
def exportUserIds (db : DB) (p : Int) : List Int :=
  let proj_alloc := projAllocOf db p
  let allocPks := proj_alloc.map (fun a => a.pk)
  let proj_resources := get_resource_query db proj_alloc
  ((filterByFk db "project.projectuser" "project_id" p).filterMap (fun r => fieldInt r "user_id"))
    ++ (proj_resources.map (fun r => m2mOf r "allowed_users")).flatten
    ++ ((filterByFkIn db "allocation.allocationadminnote" "allocation_id" allocPks).filterMap
        (fun n => fieldInt n "author_id"))
    ++ ((filterByFkIn db "allocation.allocationusernote" "allocation_id" allocPks).filterMap
        (fun n => fieldInt n "author_id"))

/-- The body of `ProjectExportView.dispatch` after the status check. -/
def exportDoc (db : DB) (p : Int) : ExportDoc :=
  let proj_alloc := projAllocOf db p
  let allocPks := proj_alloc.map (fun a => a.pk)
  let proj_resources := get_resource_query db proj_alloc
  let resource_group_ids := (proj_resources.map (fun r => m2mOf r "allowed_groups")).flatten
  let user_ids := exportUserIds db p
  { projects := (modelFilter db "project.project").filter (fun r => r.pk = p)
    users := (modelFilter db "auth.user").filter (fun u => user_ids.contains u.pk)
    userprofiles := (modelFilter db "user.userprofile").filter (fun up =>
      match fieldInt up "user_id" with
      | some v => user_ids.contains v
      | none => false)
    groups := (modelFilter db "auth.group").filter (fun g => resource_group_ids.contains g.pk)
    projUsers := filterByFk db "project.projectuser" "project_id" p
    publications := filterByFk db "publication.publication" "project_id" p
    grants := filterByFk db "grant.grant" "project_id" p
    resources := proj_resources
    allocations := proj_alloc
    allocUsers := filterByFkIn db "allocation.allocationuser" "allocation_id" allocPks
    allocAttrs := filterByFkIn db "allocation.allocationattribute" "allocation_id" allocPks
    allocChangeRequests := filterByFkIn db "allocation.allocationchangerequest" "allocation_id" allocPks
    allocAdminNotes := filterByFkIn db "allocation.allocationadminnote" "allocation_id" allocPks
    allocUserNotes := filterByFkIn db "allocation.allocationusernote" "allocation_id" allocPks
    adminComments := filterByFk db "project.projectadmincomment" "project_id" p
    userMessages := filterByFk db "project.projectusermessage" "project_id" p
    reviews := filterByFk db "project.projectreview" "project_id" p
    researchOutputs := filterByFk db "research_output.researchoutput" "project_id" p }

/-- FK-to-name traversal (`obj.fk.name`): read the FK, find the choice
row, read its `name`. -/
def nameLookup (db : DB) (model : String) (oid : Option Int) : Option String :=
  oid.bind (fun i =>
    ((modelFilter db model).find? (fun c => c.pk = i)).bind (fun c =>
      match alook c.fields "name" with
      | some (Val.str s) => some s
      | _ => none))

/-- `ProjectExportView.dispatch`: 404 when the project (or its status
row) is missing; a redirect to the project detail page when the project
is not Active or New; otherwise the serialized document. -/
def exportDispatch (db : DB) (p : Int) : Option (String ⊕ ExportDoc) :=
  match (modelFilter db "project.project").find? (fun r => r.pk = p) with
  | none => none
  | some proj =>
      match nameLookup db "project.projectstatuschoice" (fieldInt proj "status_id") with
      | none => none
      | some n =>
          if n = "Active" ∨ n = "New" then some (Sum.inr (exportDoc db p))
          else some (Sum.inl "project-detail")

/-- `ProjectExportView.test_func`: superuser first (before the project
is even fetched), then PI, then active-manager membership; a fall
through returns Python `None` (`some none` here), which the mixin treats
as denial; a missing project is a 404 (`none`). -/
def export_test_func (db : DB) (uid : Int) (isSuper : Bool) (pk : Int) :
    Option (Option Bool) :=
  if isSuper then some (some true)
  else
    match (modelFilter db "project.project").find? (fun r => r.pk = pk) with
    | none => none
    | some proj =>
        if fieldInt proj "pi_id" = some uid then some (some true)
        else if (modelFilter db "project.projectuser").any (fun pu =>
            (fieldInt pu "project_id" = some pk) && (fieldInt pu "user_id" = some uid) &&
            (nameLookup db "project.projectuserrolechoice" (fieldInt pu "role_id")
              = some "Manager") &&
            (nameLookup db "project.projectuserstatuschoice" (fieldInt pu "status_id")
              = some "Active")) then
          some (some true)
        else some none

/-- C10: the export view's permission test grants access exactly when
the requesting user is a superuser, or the PI of the project, or an
Active Manager project user of it; every other request is not granted
(the test falls through to `None`, or 404s on a missing project). -/
theorem C10_export_test_func_grants
    (db : DB) (uid : Int) (su : Bool) (pk : Int) :
    export_test_func db uid su pk = some (some true) ↔
      (su = true ∨
        ∃ proj, (modelFilter db "project.project").find? (fun r => r.pk = pk) = some proj ∧
          (fieldInt proj "pi_id" = some uid ∨
            ∃ pu ∈ modelFilter db "project.projectuser",
              fieldInt pu "project_id" = some pk ∧ fieldInt pu "user_id" = some uid ∧
              nameLookup db "project.projectuserrolechoice" (fieldInt pu "role_id")
                = some "Manager" ∧
              nameLookup db "project.projectuserstatuschoice" (fieldInt pu "status_id")
                = some "Active")) := by
  unfold export_test_func
  by_cases hsu : su = true
  · simp [hsu]
  · rw [if_neg hsu]
    split
    next hfind =>
      rw [hfind]
      constructor
      · intro h; simp at h
      · rintro (hs | ⟨proj, hproj, _⟩)
        · exact absurd hs hsu
        · cases hproj
    next proj hfind =>
      rw [hfind]
      by_cases hpi : fieldInt proj "pi_id" = some uid
      · rw [if_pos hpi]
        constructor
        · intro _; exact Or.inr ⟨proj, rfl, Or.inl hpi⟩
        · intro _; rfl
      · rw [if_neg hpi]
        by_cases hany : ((modelFilter db "project.projectuser").any (fun pu =>
            (fieldInt pu "project_id" = some pk) && (fieldInt pu "user_id" = some uid) &&
            (nameLookup db "project.projectuserrolechoice" (fieldInt pu "role_id")
              = some "Manager") &&
            (nameLookup db "project.projectuserstatuschoice" (fieldInt pu "status_id")
              = some "Active"))) = true
        · rw [if_pos hany]
          constructor
          · intro _
            refine Or.inr ⟨proj, rfl, Or.inr ?_⟩
            obtain ⟨pu, hpu, hcond⟩ := List.any_eq_true.mp hany
            simp only [Bool.and_eq_true, decide_eq_true_eq] at hcond
            exact ⟨pu, hpu, hcond.1.1.1, hcond.1.1.2, hcond.1.2, hcond.2⟩
          · intro _; rfl
        · rw [if_neg hany]
          constructor
          · intro h
            injection h with h2
            injection h2
          · rintro (hs | ⟨proj2, hproj2, hcase⟩)
            · exact absurd hs hsu
            · injection hproj2 with hproj2
              subst hproj2
              rcases hcase with hcase | ⟨pu, hpu, h1, h2, h3, h4⟩
              · exact absurd hcase hpi
              · exact absurd (List.any_eq_true.mpr ⟨pu, hpu, by
                  simp only [Bool.and_eq_true, decide_eq_true_eq]
                  exact ⟨⟨⟨h1, h2⟩, h3⟩, h4⟩⟩) hany
section ClosureLemmas

variable (db : DB)

theorem foldl_finset_mono (f : Finset Int → Record → Finset Int)
    (hf : ∀ a r, a ⊆ f a r) :
    ∀ (l : List Record) (acc : Finset Int), acc ⊆ l.foldl f acc := by
  intro l
  induction l with
  | nil => intro acc; exact Finset.Subset.refl acc
  | cons r rest ih => intro acc; exact (hf acc r).trans (ih (f acc r))

theorem foldl_finset_bound (f : Finset Int → Record → Finset Int) (B : Finset Int) :
    ∀ l : List Record, (∀ a r, r ∈ l → f a r ⊆ a ∪ B) →
      ∀ acc, l.foldl f acc ⊆ acc ∪ B := by
  intro l
  induction l with
  | nil => intro _ acc; exact Finset.subset_union_left
  | cons r rest ih =>
      intro hf acc
      have h1 := ih (fun a x hx => hf a x (List.mem_cons_of_mem _ hx)) (f acc r)
      exact h1.trans (Finset.union_subset (hf acc r (List.mem_cons_self _ _))
        Finset.subset_union_right)

theorem foldl_finset_invariant {P : Finset Int → Prop} (f : Finset Int → Record → Finset Int) :
    ∀ (l : List Record) (acc : Finset Int), P acc →
      (∀ a r, r ∈ l → P a → P (f a r)) → P (l.foldl f acc) := by
  intro l
  induction l with
  | nil => intro acc h _; exact h
  | cons r rest ih =>
      intro acc h hstep
      exact ih (f acc r) (hstep acc r (List.mem_cons_self _ _) h)
        (fun a x hx => hstep a x (List.mem_cons_of_mem _ hx))

theorem foldl_finset_elem (f : Finset Int → Record → Finset Int)
    (hmono : ∀ a r, a ⊆ f a r) (g : Record → Finset Int)
    (hc : ∀ a r, g r ⊆ f a r) :
    ∀ (l : List Record) (acc : Finset Int) (r : Record), r ∈ l →
      g r ⊆ l.foldl f acc := by
  intro l
  induction l with
  | nil => intro acc r hr; simp at hr
  | cons r0 rest ih =>
      intro acc r hr
      rcases List.mem_cons.mp hr with rfl | hr
      · exact (hc acc r).trans (foldl_finset_mono f hmono rest (f acc r))
      · exact ih (f acc r0) r hr

theorem closureStep_mono (ids : Finset Int) (r : Record) :
    ids ⊆ closureStep db ids r := by
  unfold closureStep
  exact Finset.subset_union_left.trans Finset.subset_union_left

theorem closureStep_linked (ids : Finset Int) (r : Record) :
    (linkedOf r).toFinset ⊆ closureStep db ids r := by
  unfold closureStep
  exact Finset.subset_union_right.trans Finset.subset_union_left

theorem children_subset_pks (ids1 : Finset Int) :
    (((resourcesOf db).filter (fun q =>
      match fieldInt q "parent_resource_id" with
      | some pr => pr ∈ ids1
      | none => false)).map (fun q => q.pk)).toFinset ⊆ resourcePks db := by
  intro x hx
  rw [List.mem_toFinset, List.mem_map] at hx
  obtain ⟨q, hq, rfl⟩ := hx
  unfold resourcePks
  rw [List.mem_toFinset, List.mem_map]
  exact ⟨q, List.mem_of_mem_filter hq, rfl⟩

theorem linked_subset_allLinked (r : Record) (hr : r ∈ resourcesOf db) :
    (linkedOf r).toFinset ⊆ allLinked db := by
  intro x hx
  rw [List.mem_toFinset] at hx
  unfold allLinked
  rw [List.mem_toFinset, List.mem_flatten]
  exact ⟨linkedOf r, List.mem_map_of_mem _ hr, hx⟩

theorem closureStep_bound (ids : Finset Int) (r : Record) (hr : r ∈ resourcesOf db) :
    closureStep db ids r ⊆ ids ∪ (resourcePks db ∪ allLinked db) := by
  unfold closureStep
  apply Finset.union_subset
  · apply Finset.union_subset
    · exact Finset.subset_union_left
    · exact (linked_subset_allLinked db r hr).trans
        (Finset.subset_union_right.trans Finset.subset_union_right)
  · exact (children_subset_pks db _).trans
      (Finset.subset_union_left.trans Finset.subset_union_right)

theorem closureStep_bound_pks (ids : Finset Int) (r : Record)
    (hFK : (linkedOf r).toFinset ⊆ resourcePks db) :
    closureStep db ids r ⊆ ids ∪ resourcePks db := by
  unfold closureStep
  apply Finset.union_subset
  · apply Finset.union_subset
    · exact Finset.subset_union_left
    · exact hFK.trans Finset.subset_union_right
  · exact (children_subset_pks db _).trans Finset.subset_union_right

theorem closurePass_mono (s : Finset Int) : s ⊆ closurePass db s :=
  foldl_finset_mono _ (closureStep_mono db) _ s

theorem closurePass_bound (s : Finset Int) :
    closurePass db s ⊆ s ∪ (resourcePks db ∪ allLinked db) :=
  foldl_finset_bound _ _ _
    (fun a r hr => closureStep_bound db a r (List.mem_of_mem_filter hr)) s

theorem closureLoop_succ (n : Nat) (s : Finset Int) :
    closureLoop db (n + 1) s
      = if closurePass db s = s then s else closureLoop db n (closurePass db s) := rfl

theorem closureLoop_mono (n : Nat) : ∀ s : Finset Int, s ⊆ closureLoop db n s := by
  induction n with
  | zero => intro s; exact Finset.Subset.refl s
  | succ n ih =>
      intro s
      rw [closureLoop_succ]
      by_cases hfix : closurePass db s = s
      · rw [if_pos hfix]
      · rw [if_neg hfix]
        exact (closurePass_mono db s).trans (ih (closurePass db s))

theorem closureLoop_bound (n : Nat) :
    ∀ s : Finset Int, closureLoop db n s ⊆ s ∪ (resourcePks db ∪ allLinked db) := by
  induction n with
  | zero => intro s; exact Finset.subset_union_left
  | succ n ih =>
      intro s
      rw [closureLoop_succ]
      by_cases hfix : closurePass db s = s
      · rw [if_pos hfix]; exact Finset.subset_union_left
      · rw [if_neg hfix]
        exact (ih (closurePass db s)).trans
          (Finset.union_subset ((closurePass_bound db s).trans (Finset.Subset.refl _))
            Finset.subset_union_right)

theorem closureLoop_of_fix (s : Finset Int) (h : closurePass db s = s) :
    ∀ n, closureLoop db n s = s := by
  intro n
  cases n with
  | zero => rfl
  | succ n => rw [closureLoop_succ, if_pos h]

theorem closureLoop_fix (n : Nat) :
    ∀ s : Finset Int, (s ∪ (resourcePks db ∪ allLinked db)).card ≤ n + s.card →
      closurePass db (closureLoop db n s) = closureLoop db n s := by
  induction n with
  | zero =>
      intro s hcard
      have heq : s = s ∪ (resourcePks db ∪ allLinked db) :=
        Finset.eq_of_subset_of_card_le Finset.subset_union_left (by omega)
      have hsub : closurePass db s ⊆ s :=
        (closurePass_bound db s).trans (le_of_eq heq.symm)
      exact Finset.Subset.antisymm hsub (closurePass_mono db s)
  | succ n ih =>
      intro s hcard
      rw [closureLoop_succ]
      by_cases hfix : closurePass db s = s
      · rw [if_pos hfix]; exact hfix
      · rw [if_neg hfix]
        apply ih
        have h1 : s ⊂ closurePass db s :=
          ssubset_iff_subset_ne.mpr ⟨closurePass_mono db s, fun he => hfix he.symm⟩
        have h2 : s.card < (closurePass db s).card := Finset.card_lt_card h1
        have h3 : closurePass db s ∪ (resourcePks db ∪ allLinked db)
            ⊆ s ∪ (resourcePks db ∪ allLinked db) :=
          Finset.union_subset (closurePass_bound db s) Finset.subset_union_right
        have h4 := Finset.card_le_card h3
        omega

theorem closureLoop_stable :
    ∀ (n : Nat) (s : Finset Int) (m : Nat),
      closurePass db (closureLoop db n s) = closureLoop db n s → n ≤ m →
      closureLoop db m s = closureLoop db n s := by
  intro n
  induction n with
  | zero =>
      intro s m h _
      exact closureLoop_of_fix db s h m
  | succ n ih =>
      intro s m h hle
      by_cases hfix : closurePass db s = s
      · rw [closureLoop_of_fix db s hfix m, closureLoop_of_fix db s hfix (n + 1)]
      · obtain ⟨m2, rfl⟩ : ∃ m2, m = m2 + 1 := ⟨m - 1, by omega⟩
        rw [closureLoop_succ db n s, if_neg hfix] at h ⊢
        rw [closureLoop_succ db m2 s, if_neg hfix]
        exact ih (closurePass db s) m2 h (by omega)

theorem initIds_subset_pks (projAlloc : List Record) :
    initIds db projAlloc ⊆ resourcePks db := by
  intro x hx
  unfold initIds initResourceQuery at hx
  rw [List.mem_toFinset, List.mem_map] at hx
  obtain ⟨r, hr, rfl⟩ := hx
  unfold resourcePks
  rw [List.mem_toFinset, List.mem_map]
  exact ⟨r, List.mem_of_mem_filter hr, rfl⟩

theorem closureLoop_in_pks
    (hFK : ∀ r ∈ resourcesOf db, (linkedOf r).toFinset ⊆ resourcePks db) :
    ∀ (n : Nat) (s : Finset Int), s ⊆ resourcePks db →
      closureLoop db n s ⊆ resourcePks db := by
  have hpass : ∀ s : Finset Int, s ⊆ resourcePks db →
      closurePass db s ⊆ resourcePks db := by
    intro s hs
    have := foldl_finset_bound (closureStep db) (resourcePks db)
      ((resourcesOf db).filter (fun r => r.pk ∈ s))
      (fun a r hr =>
        closureStep_bound_pks db a r (hFK r (List.mem_of_mem_filter hr))) s
    exact this.trans (Finset.union_subset hs (Finset.Subset.refl _))
  intro n
  induction n with
  | zero => intro s hs; exact hs
  | succ n ih =>
      intro s hs
      rw [closureLoop_succ]
      by_cases hfix : closurePass db s = s
      · rw [if_pos hfix]; exact hs
      · rw [if_neg hfix]
        exact ih (closurePass db s) (hpass s hs)

end ClosureLemmas

/-- C7: for every database state, the `while` loop of
`_get_resource_query` terminates.  The set `all_ids` only grows with
each pass; it is bounded (by the finite set of all resource ids whenever
the `linked_resources` lists respect referential integrity, and by that
set plus the finitely many linked ids in general), so
`closFuel`-many passes reach the fixpoint `old_resource_set = all_ids`,
after which further passes change nothing. -/
theorem C7_resource_closure_terminates (db : DB) (projAlloc : List Record) :
    (∀ n, closureLoop db n (initIds db projAlloc)
        ⊆ closurePass db (closureLoop db n (initIds db projAlloc))) ∧
    closurePass db (closureLoop db (closFuel db (initIds db projAlloc)) (initIds db projAlloc))
      = closureLoop db (closFuel db (initIds db projAlloc)) (initIds db projAlloc) ∧
    (∀ m, closFuel db (initIds db projAlloc) ≤ m →
      closureLoop db m (initIds db projAlloc)
        = closureLoop db (closFuel db (initIds db projAlloc)) (initIds db projAlloc)) ∧
    ((∀ r ∈ resourcesOf db, (linkedOf r).toFinset ⊆ resourcePks db) →
      ∀ n, closureLoop db n (initIds db projAlloc) ⊆ resourcePks db) := by
  have hfix : closurePass db
      (closureLoop db (closFuel db (initIds db projAlloc)) (initIds db projAlloc))
      = closureLoop db (closFuel db (initIds db projAlloc)) (initIds db projAlloc) := by
    apply closureLoop_fix
    unfold closFuel closureBound
    exact Nat.le_add_right _ _
  refine ⟨fun n => closurePass_mono db _, hfix, fun m hm => ?_, fun hFK n => ?_⟩
  · exact closureLoop_stable db _ _ m hfix hm
  · exact closureLoop_in_pks db hFK n _ (initIds_subset_pks db projAlloc)

/-- Concrete inputs for the C7 witness: two linked resources and one
allocation using the first. -/
def c7db : DB :=
  [⟨"resource.resource", 1, [("parent_resource_id", Val.null)], [("linked_resources", [2])]⟩,
   ⟨"resource.resource", 2, [("parent_resource_id", Val.int 1)], [("linked_resources", [])]⟩,
   ⟨"allocation.allocation", 1, [("project_id", Val.int 1)], [("resources", [1])]⟩]

def c7alloc : List Record :=
  [⟨"allocation.allocation", 1, [("project_id", Val.int 1)], [("resources", [1])]⟩]

theorem C7_resource_closure_terminates_witness :
    closurePass c7db (closureLoop c7db (closFuel c7db (initIds c7db c7alloc)) (initIds c7db c7alloc))
      = closureLoop c7db (closFuel c7db (initIds c7db c7alloc)) (initIds c7db c7alloc) ∧
    closureLoop c7db (closFuel c7db (initIds c7db c7alloc) + 2) (initIds c7db c7alloc)
      = closureLoop c7db (closFuel c7db (initIds c7db c7alloc)) (initIds c7db c7alloc) ∧
    closureLoop c7db 3 (initIds c7db c7alloc) ⊆ resourcePks c7db :=
  ⟨(C7_resource_closure_terminates c7db c7alloc).2.1,
   (C7_resource_closure_terminates c7db c7alloc).2.2.1 _ (by omega),
   (C7_resource_closure_terminates c7db c7alloc).2.2.2 (by decide) 3⟩

theorem closureStep_child (db : DB) (ids : Finset Int) (r0 q : Record) (pr : Int)
    (hq : q ∈ resourcesOf db) (hpr : fieldInt q "parent_resource_id" = some pr)
    (hin : pr ∈ ids) : q.pk ∈ closureStep db ids r0 := by
  have h : q.pk ∈ ((ids ∪ (linkedOf r0).toFinset) ∪
      (((resourcesOf db).filter (fun z =>
        match fieldInt z "parent_resource_id" with
        | some w => w ∈ ids ∪ (linkedOf r0).toFinset
        | none => false)).map (fun z => z.pk)).toFinset) := by
    apply Finset.mem_union_right
    rw [List.mem_toFinset, List.mem_map]
    refine ⟨q, ?_, rfl⟩
    apply List.mem_filter.mpr
    refine ⟨hq, ?_⟩
    rw [hpr]
    exact decide_eq_true (Finset.mem_union_left _ hin)
  exact h

theorem closureStep_elim (db : DB) (a : Finset Int) (r : Record) (y : Int)
    (hy : y ∈ closureStep db a r) :
    y ∈ a ∨ y ∈ linkedOf r ∨
      ∃ q, q ∈ resourcesOf db ∧ q.pk = y ∧
        ∃ pr, fieldInt q "parent_resource_id" = some pr ∧ (pr ∈ a ∨ pr ∈ linkedOf r) := by
  have hy2 : y ∈ ((a ∪ (linkedOf r).toFinset) ∪
      (((resourcesOf db).filter (fun z =>
        match fieldInt z "parent_resource_id" with
        | some w => w ∈ a ∪ (linkedOf r).toFinset
        | none => false)).map (fun z => z.pk)).toFinset) := hy
  rcases Finset.mem_union.mp hy2 with h1 | h2
  · rcases Finset.mem_union.mp h1 with ha | hl
    · exact Or.inl ha
    · exact Or.inr (Or.inl (List.mem_toFinset.mp hl))
  · rw [List.mem_toFinset, List.mem_map] at h2
    obtain ⟨q, hq, hqy⟩ := h2
    have hqf := List.mem_filter.mp hq
    refine Or.inr (Or.inr ⟨q, hqf.1, hqy, ?_⟩)
    have hp := hqf.2
    cases hprq : fieldInt q "parent_resource_id" with
    | none => rw [hprq] at hp; exact Bool.noConfusion hp
    | some pr =>
        rw [hprq] at hp
        refine ⟨pr, rfl, ?_⟩
        rcases Finset.mem_union.mp (of_decide_eq_true hp) with h | h
        · exact Or.inl h
        · exact Or.inr (List.mem_toFinset.mp h)

theorem closurePass_sound (db : DB) (init s : Finset Int)
    (hs : ∀ x ∈ s, InResourceClosure db init x) :
    ∀ x ∈ closurePass db s, InResourceClosure db init x := by
  refine @foldl_finset_invariant (fun a => ∀ y ∈ a, InResourceClosure db init y)
    (closureStep db) ((resourcesOf db).filter (fun r => r.pk ∈ s)) s hs ?_
  intro a r hrmem ha y hy
  have hrf := List.mem_filter.mp hrmem
  have hrpk : r.pk ∈ s := of_decide_eq_true hrf.2
  have hclr : InResourceClosure db init r.pk := hs r.pk hrpk
  rcases closureStep_elim db a r y hy with h | h | ⟨q, hq, hqy, pr, hpr, hc⟩
  · exact ha y h
  · exact InResourceClosure.linked r y hrf.1 hclr h
  · have hclpr : InResourceClosure db init pr := by
      rcases hc with h | h
      · exact ha pr h
      · exact InResourceClosure.linked r pr hrf.1 hclr h
    exact hqy ▸ InResourceClosure.child q pr hq hpr hclpr

theorem closureLoop_sound (db : DB) (init : Finset Int) :
    ∀ (n : Nat) (s : Finset Int), (∀ x ∈ s, InResourceClosure db init x) →
      ∀ x ∈ closureLoop db n s, InResourceClosure db init x := by
  intro n
  induction n with
  | zero => intro s hs; exact hs
  | succ n ih =>
      intro s hs
      rw [closureLoop_succ]
      by_cases hfix : closurePass db s = s
      · rw [if_pos hfix]; exact hs
      · rw [if_neg hfix]; exact ih _ (closurePass_sound db init s hs)

theorem closurePass_child (db : DB) (s : Finset Int) (q : Record) (pr : Int)
    (hq : q ∈ resourcesOf db) (hpr : fieldInt q "parent_resource_id" = some pr)
    (hin : pr ∈ s) (q2 : Record) (hq2 : q2 ∈ resourcesOf db) (hq2s : q2.pk ∈ s) :
    q.pk ∈ closurePass db s := by
  have hmem : q2 ∈ (resourcesOf db).filter (fun r => r.pk ∈ s) :=
    List.mem_filter.mpr ⟨hq2, decide_eq_true hq2s⟩
  cases hl : (resourcesOf db).filter (fun r => r.pk ∈ s) with
  | nil => rw [hl] at hmem; exact absurd hmem (List.not_mem_nil q2)
  | cons r0 rest =>
      have h : q.pk ∈ List.foldl (closureStep db) s (r0 :: rest) := by
        rw [List.foldl_cons]
        exact foldl_finset_mono (closureStep db) (closureStep_mono db) rest
          (closureStep db s r0) (closureStep_child db s r0 q pr hq hpr hin)
      unfold closurePass
      rw [hl]
      exact h

theorem closure_eq (db : DB) (init : Finset Int)
    (hinit : init ⊆ resourcePks db)
    (hFK : ∀ r ∈ resourcesOf db, (linkedOf r).toFinset ⊆ resourcePks db) :
    ∀ x, x ∈ closureLoop db (closFuel db init) init ↔ InResourceClosure db init x := by
  have hfix : closurePass db (closureLoop db (closFuel db init) init)
      = closureLoop db (closFuel db init) init := by
    apply closureLoop_fix
    unfold closFuel closureBound
    exact Nat.le_add_right _ _
  have hFpks : closureLoop db (closFuel db init) init ⊆ resourcePks db :=
    closureLoop_in_pks db hFK _ init hinit
  intro x
  constructor
  · exact fun hx => closureLoop_sound db init _ init
      (fun y hy => InResourceClosure.base y hy) x hx
  · intro hcl
    induction hcl with
    | base z hz => exact closureLoop_mono db _ init hz
    | linked r y hr hcl2 hy ih =>
        have hrf : r ∈ (resourcesOf db).filter
            (fun z => z.pk ∈ closureLoop db (closFuel db init) init) :=
          List.mem_filter.mpr ⟨hr, decide_eq_true ih⟩
        have hyF : y ∈ closurePass db (closureLoop db (closFuel db init) init) :=
          foldl_finset_elem (closureStep db) (closureStep_mono db)
            (fun z => (linkedOf z).toFinset) (closureStep_linked db)
            _ _ r hrf (List.mem_toFinset.mpr hy)
        exact hfix ▸ hyF
    | child r pr hr hpr hcl2 ih =>
        have hprPks := hFpks ih
        unfold resourcePks at hprPks
        rw [List.mem_toFinset, List.mem_map] at hprPks
        obtain ⟨q2, hq2, hq2pk⟩ := hprPks
        have hq2F : q2.pk ∈ closureLoop db (closFuel db init) init := hq2pk.symm ▸ ih
        have h := closurePass_child db (closureLoop db (closFuel db init) init)
          r pr hr hpr ih q2 hq2 hq2F
        exact hfix ▸ h

theorem exportDispatch_inr (db : DB) (p : Int) (doc : ExportDoc)
    (h : exportDispatch db p = some (Sum.inr doc)) : doc = exportDoc db p := by
  unfold exportDispatch at h
  split at h
  · exact Option.noConfusion h
  · split at h
    · exact Option.noConfusion h
    · split at h
      · injection h with h1
        injection h1 with h2
        exact h2.symm
      · injection h with h1
        exact Sum.noConfusion h1

theorem exDoc_projects (db : DB) (p : Int) :
    (exportDoc db p).projects = (modelFilter db "project.project").filter (fun r => r.pk = p) :=
  rfl

theorem exDoc_users (db : DB) (p : Int) :
    (exportDoc db p).users
      = (modelFilter db "auth.user").filter (fun u => (exportUserIds db p).contains u.pk) :=
  rfl

theorem exDoc_userprofiles (db : DB) (p : Int) :
    (exportDoc db p).userprofiles
      = (modelFilter db "user.userprofile").filter (fun up =>
          match fieldInt up "user_id" with
          | some v => (exportUserIds db p).contains v
          | none => false) :=
  rfl

theorem exDoc_groups (db : DB) (p : Int) :
    (exportDoc db p).groups
      = (modelFilter db "auth.group").filter (fun g =>
          ((get_resource_query db (projAllocOf db p)).map
            (fun r => m2mOf r "allowed_groups")).flatten.contains g.pk) :=
  rfl

theorem exDoc_projUsers (db : DB) (p : Int) :
    (exportDoc db p).projUsers = filterByFk db "project.projectuser" "project_id" p :=
  rfl

theorem exDoc_publications (db : DB) (p : Int) :
    (exportDoc db p).publications = filterByFk db "publication.publication" "project_id" p :=
  rfl

theorem exDoc_grants (db : DB) (p : Int) :
    (exportDoc db p).grants = filterByFk db "grant.grant" "project_id" p :=
  rfl

theorem exDoc_resources (db : DB) (p : Int) :
    (exportDoc db p).resources = get_resource_query db (projAllocOf db p) :=
  rfl

theorem exDoc_allocations (db : DB) (p : Int) :
    (exportDoc db p).allocations = projAllocOf db p :=
  rfl

theorem exDoc_allocUsers (db : DB) (p : Int) :
    (exportDoc db p).allocUsers
      = filterByFkIn db "allocation.allocationuser" "allocation_id"
          ((projAllocOf db p).map (fun a => a.pk)) :=
  rfl

theorem exDoc_allocAttrs (db : DB) (p : Int) :
    (exportDoc db p).allocAttrs
      = filterByFkIn db "allocation.allocationattribute" "allocation_id"
          ((projAllocOf db p).map (fun a => a.pk)) :=
  rfl

theorem exDoc_allocChangeRequests (db : DB) (p : Int) :
    (exportDoc db p).allocChangeRequests
      = filterByFkIn db "allocation.allocationchangerequest" "allocation_id"
          ((projAllocOf db p).map (fun a => a.pk)) :=
  rfl

theorem exDoc_allocAdminNotes (db : DB) (p : Int) :
    (exportDoc db p).allocAdminNotes
      = filterByFkIn db "allocation.allocationadminnote" "allocation_id"
          ((projAllocOf db p).map (fun a => a.pk)) :=
  rfl

theorem exDoc_allocUserNotes (db : DB) (p : Int) :
    (exportDoc db p).allocUserNotes
      = filterByFkIn db "allocation.allocationusernote" "allocation_id"
          ((projAllocOf db p).map (fun a => a.pk)) :=
  rfl

theorem exDoc_adminComments (db : DB) (p : Int) :
    (exportDoc db p).adminComments = filterByFk db "project.projectadmincomment" "project_id" p :=
  rfl

theorem exDoc_userMessages (db : DB) (p : Int) :
    (exportDoc db p).userMessages = filterByFk db "project.projectusermessage" "project_id" p :=
  rfl

theorem exDoc_reviews (db : DB) (p : Int) :
    (exportDoc db p).reviews = filterByFk db "project.projectreview" "project_id" p :=
  rfl

theorem exDoc_researchOutputs (db : DB) (p : Int) :
    (exportDoc db p).researchOutputs
      = filterByFk db "research_output.researchoutput" "project_id" p :=
  rfl

theorem mem_filterByFk (db : DB) (model fk : String) (p : Int) (r : Record) :
    r ∈ filterByFk db model fk p ↔ r ∈ modelFilter db model ∧ fieldInt r fk = some p := by
  unfold filterByFk
  rw [List.mem_filter]
  constructor
  · rintro ⟨hm, hp⟩; exact ⟨hm, of_decide_eq_true hp⟩
  · rintro ⟨hm, hp⟩; exact ⟨hm, decide_eq_true hp⟩

theorem mem_filterByFkIn (db : DB) (model fk : String) (pks : List Int) (r : Record) :
    r ∈ filterByFkIn db model fk pks ↔
      r ∈ modelFilter db model ∧ ∃ v, fieldInt r fk = some v ∧ v ∈ pks := by
  unfold filterByFkIn
  rw [List.mem_filter]
  constructor
  · rintro ⟨hm, hp⟩
    refine ⟨hm, ?_⟩
    cases hv : fieldInt r fk with
    | none => rw [hv] at hp; exact Bool.noConfusion hp
    | some v =>
        rw [hv] at hp
        exact ⟨v, rfl, List.mem_of_elem_eq_true hp⟩
  · rintro ⟨hm, v, hv, hvp⟩
    refine ⟨hm, ?_⟩
    rw [hv]
    exact List.elem_eq_true_of_mem hvp

theorem mem_get_resource_query (db : DB) (pa : List Record) (r : Record) :
    r ∈ get_resource_query db pa ↔
      r ∈ resourcesOf db ∧
        r.pk ∈ closureLoop db (closFuel db (initIds db pa)) (initIds db pa) := by
  unfold get_resource_query
  rw [List.mem_filter]
  constructor
  · rintro ⟨h1, h2⟩; exact ⟨h1, of_decide_eq_true h2⟩
  · rintro ⟨h1, h2⟩; exact ⟨h1, decide_eq_true h2⟩

/-- C5: when `ProjectExportView.dispatch` returns a serialized document
(the project exists and is not archived), the document contains the
project itself, every allocation of the project, every allocation user,
attribute, change request and admin/user note of those allocations,
every publication, grant, admin comment, user message, review and
research output of the project, every project user, every user who is a
project user, an allowed user of an exported resource or the author of
an exported note, the user profiles of those users, every group allowed
on an exported resource, and exactly the resources in the closure of the
allocations' resources under `linked_resources` and parent links (the
closure characterisation assumes the `linked_resources` ids reference
existing resources). -/
theorem C5_export_document_contents (db : DB) (p : Int) (doc : ExportDoc)
    (hdisp : exportDispatch db p = some (Sum.inr doc))
    (hFK : ∀ r ∈ resourcesOf db, (linkedOf r).toFinset ⊆ resourcePks db) :
    (∀ r ∈ modelFilter db "project.project", r.pk = p → r ∈ doc.projects) ∧
    (∀ a ∈ modelFilter db "allocation.allocation",
        fieldInt a "project_id" = some p → a ∈ doc.allocations) ∧
    (∀ r ∈ modelFilter db "allocation.allocationuser",
        (∃ a ∈ doc.allocations, fieldInt r "allocation_id" = some a.pk) →
        r ∈ doc.allocUsers) ∧
    (∀ r ∈ modelFilter db "allocation.allocationattribute",
        (∃ a ∈ doc.allocations, fieldInt r "allocation_id" = some a.pk) →
        r ∈ doc.allocAttrs) ∧
    (∀ r ∈ modelFilter db "allocation.allocationchangerequest",
        (∃ a ∈ doc.allocations, fieldInt r "allocation_id" = some a.pk) →
        r ∈ doc.allocChangeRequests) ∧
    (∀ r ∈ modelFilter db "allocation.allocationadminnote",
        (∃ a ∈ doc.allocations, fieldInt r "allocation_id" = some a.pk) →
        r ∈ doc.allocAdminNotes) ∧
    (∀ r ∈ modelFilter db "allocation.allocationusernote",
        (∃ a ∈ doc.allocations, fieldInt r "allocation_id" = some a.pk) →
        r ∈ doc.allocUserNotes) ∧
    (∀ r ∈ modelFilter db "publication.publication",
        fieldInt r "project_id" = some p → r ∈ doc.publications) ∧
    (∀ r ∈ modelFilter db "grant.grant",
        fieldInt r "project_id" = some p → r ∈ doc.grants) ∧
    (∀ r ∈ modelFilter db "project.projectadmincomment",
        fieldInt r "project_id" = some p → r ∈ doc.adminComments) ∧
    (∀ r ∈ modelFilter db "project.projectusermessage",
        fieldInt r "project_id" = some p → r ∈ doc.userMessages) ∧
    (∀ r ∈ modelFilter db "project.projectreview",
        fieldInt r "project_id" = some p → r ∈ doc.reviews) ∧
    (∀ r ∈ modelFilter db "research_output.researchoutput",
        fieldInt r "project_id" = some p → r ∈ doc.researchOutputs) ∧
    (∀ r ∈ modelFilter db "project.projectuser",
        fieldInt r "project_id" = some p → r ∈ doc.projUsers) ∧
    (∀ u ∈ modelFilter db "auth.user",
        ((∃ pu ∈ doc.projUsers, fieldInt pu "user_id" = some u.pk) ∨
         (∃ r ∈ doc.resources, u.pk ∈ m2mOf r "allowed_users") ∨
         (∃ n ∈ doc.allocAdminNotes, fieldInt n "author_id" = some u.pk) ∨
         (∃ n ∈ doc.allocUserNotes, fieldInt n "author_id" = some u.pk)) →
        u ∈ doc.users) ∧
    (∀ up ∈ modelFilter db "user.userprofile", ∀ u ∈ doc.users,
        fieldInt up "user_id" = some u.pk → up ∈ doc.userprofiles) ∧
    (∀ g ∈ modelFilter db "auth.group",
        (∃ r ∈ doc.resources, g.pk ∈ m2mOf r "allowed_groups") → g ∈ doc.groups) ∧
    (∀ r ∈ resourcesOf db,
        (r ∈ doc.resources ↔ InResourceClosure db (initIds db (projAllocOf db p)) r.pk)) := by
  have hdoc := exportDispatch_inr db p doc hdisp
  subst hdoc
  refine ⟨?_, ?_, ?_, ?_, ?_, ?_, ?_, ?_, ?_, ?_, ?_, ?_, ?_, ?_, ?_, ?_, ?_, ?_⟩
  · intro r hr hpk
    rw [exDoc_projects]
    exact List.mem_filter.mpr ⟨hr, decide_eq_true hpk⟩
  · intro a ha hpid
    rw [exDoc_allocations]
    exact List.mem_filter.mpr ⟨ha, decide_eq_true hpid⟩
  · intro r hr h
    obtain ⟨a, ha, hfk⟩ := h
    rw [exDoc_allocUsers, mem_filterByFkIn]
    rw [exDoc_allocations] at ha
    exact ⟨hr, a.pk, hfk, List.mem_map_of_mem (fun a => a.pk) ha⟩
  · intro r hr h
    obtain ⟨a, ha, hfk⟩ := h
    rw [exDoc_allocAttrs, mem_filterByFkIn]
    rw [exDoc_allocations] at ha
    exact ⟨hr, a.pk, hfk, List.mem_map_of_mem (fun a => a.pk) ha⟩
  · intro r hr h
    obtain ⟨a, ha, hfk⟩ := h
    rw [exDoc_allocChangeRequests, mem_filterByFkIn]
    rw [exDoc_allocations] at ha
    exact ⟨hr, a.pk, hfk, List.mem_map_of_mem (fun a => a.pk) ha⟩
  · intro r hr h
    obtain ⟨a, ha, hfk⟩ := h
    rw [exDoc_allocAdminNotes, mem_filterByFkIn]
    rw [exDoc_allocations] at ha
    exact ⟨hr, a.pk, hfk, List.mem_map_of_mem (fun a => a.pk) ha⟩
  · intro r hr h
    obtain ⟨a, ha, hfk⟩ := h
    rw [exDoc_allocUserNotes, mem_filterByFkIn]
    rw [exDoc_allocations] at ha
    exact ⟨hr, a.pk, hfk, List.mem_map_of_mem (fun a => a.pk) ha⟩
  · intro r hr h
    rw [exDoc_publications, mem_filterByFk]
    exact ⟨hr, h⟩
  · intro r hr h
    rw [exDoc_grants, mem_filterByFk]
    exact ⟨hr, h⟩
  · intro r hr h
    rw [exDoc_adminComments, mem_filterByFk]
    exact ⟨hr, h⟩
  · intro r hr h
    rw [exDoc_userMessages, mem_filterByFk]
    exact ⟨hr, h⟩
  · intro r hr h
    rw [exDoc_reviews, mem_filterByFk]
    exact ⟨hr, h⟩
  · intro r hr h
    rw [exDoc_researchOutputs, mem_filterByFk]
    exact ⟨hr, h⟩
  · intro r hr h
    rw [exDoc_projUsers, mem_filterByFk]
    exact ⟨hr, h⟩
  · intro u hu hcase
    rw [exDoc_users]
    refine List.mem_filter.mpr ⟨hu, List.elem_eq_true_of_mem ?_⟩
    show u.pk ∈ exportUserIds db p
    simp only [exportUserIds, List.mem_append]
    rcases hcase with ⟨pu, hpu, hpuid⟩ | ⟨r, hr, hur⟩ | ⟨n, hn, hnid⟩ | ⟨n, hn, hnid⟩
    · rw [exDoc_projUsers] at hpu
      exact Or.inl (Or.inl (Or.inl (List.mem_filterMap.mpr ⟨pu, hpu, hpuid⟩)))
    · rw [exDoc_resources] at hr
      exact Or.inl (Or.inl (Or.inr (List.mem_flatten.mpr
        ⟨m2mOf r "allowed_users", List.mem_map_of_mem _ hr, hur⟩)))
    · rw [exDoc_allocAdminNotes] at hn
      exact Or.inl (Or.inr (List.mem_filterMap.mpr ⟨n, hn, hnid⟩))
    · rw [exDoc_allocUserNotes] at hn
      exact Or.inr (List.mem_filterMap.mpr ⟨n, hn, hnid⟩)
  · intro up hup u hu hf
    rw [exDoc_userprofiles]
    rw [exDoc_users] at hu
    refine List.mem_filter.mpr ⟨hup, ?_⟩
    rw [hf]
    exact (List.mem_filter.mp hu).2
  · intro g hg h
    obtain ⟨r, hr, hgr⟩ := h
    rw [exDoc_groups]
    refine List.mem_filter.mpr ⟨hg, List.elem_eq_true_of_mem ?_⟩
    rw [exDoc_resources] at hr
    exact List.mem_flatten.mpr ⟨m2mOf r "allowed_groups", List.mem_map_of_mem _ hr, hgr⟩
  · intro r hr
    rw [exDoc_resources, mem_get_resource_query]
    constructor
    · rintro ⟨-, h⟩
      exact (closure_eq db (initIds db (projAllocOf db p))
        (initIds_subset_pks db (projAllocOf db p)) hFK r.pk).mp h
    · intro h
      exact ⟨hr, (closure_eq db (initIds db (projAllocOf db p))
        (initIds_subset_pks db (projAllocOf db p)) hFK r.pk).mpr h⟩

/-- Concrete inputs for the C5 witness: one Active project with one
allocation on one resource. -/
def c5db : DB :=
  [⟨"project.project", 1, [("status_id", Val.int 1), ("pi_id", Val.int 7)], []⟩,
   ⟨"project.projectstatuschoice", 1, [("name", Val.str "Active")], []⟩,
   ⟨"allocation.allocation", 1, [("project_id", Val.int 1)], [("resources", [1])]⟩,
   ⟨"resource.resource", 1, [("parent_resource_id", Val.null)], [("linked_resources", [])]⟩]

def c5proj : Record :=
  ⟨"project.project", 1, [("status_id", Val.int 1), ("pi_id", Val.int 7)], []⟩

def c5alloc : Record :=
  ⟨"allocation.allocation", 1, [("project_id", Val.int 1)], [("resources", [1])]⟩

theorem C5_export_document_contents_witness :
    c5proj ∈ (exportDoc c5db 1).projects ∧ c5alloc ∈ (exportDoc c5db 1).allocations :=
  ⟨(C5_export_document_contents c5db 1 (exportDoc c5db 1) rfl (by decide)).1
      c5proj (by decide) rfl,
   (C5_export_document_contents c5db 1 (exportDoc c5db 1) rfl (by decide)).2.1
      c5alloc (by decide) rfl⟩

/-- `_combine_objects(from_ids, to_id, objects)` from
`ProjectMergeView.post`: snapshot the model's rows whose `project_id` is
one of `from_ids`, then for each one set `project_id` to `to_id` and
save; a save that raises IntegrityError deletes the member instead. -/
def combine_objects (env : Env) (fromIds : List Int) (toId : Int) (model : String)
    (db : DB) : DB :=
  ((modelFilter db model).filter (fun r =>
    match fieldInt r "project_id" with
    | some v => fromIds.contains v
    | none => false)).foldl (fun db2 m =>
      match dbSaveRecord env db2 (setField m "project_id" (Val.int toId)) with
      | some db3 => db3
      | none => db2.filter (fun q => !((q.model = m.model) && (q.pk = m.pk)))) db

/-- `archive_project(project)`: fetch the Archived project status and the
Expired allocation status (DoesNotExist propagates, `none`), save the
project with status Archived, then set every allocation of the project
whose status name is Active to Expired with the given end date. -/
def archive_project (env : Env) (endDate : Val) (db : DB) (proj : Record) : Option DB :=
  match (modelFilter db "project.projectstatuschoice").find?
      (fun c => alook c.fields "name" = some (Val.str "Archived")) with
  | none => none
  | some archRow =>
      match (modelFilter db "allocation.allocationstatuschoice").find?
          (fun c => alook c.fields "name" = some (Val.str "Expired")) with
      | none => none
      | some expRow =>
          (dbSaveRecord env db (setField proj "status_id" (Val.int archRow.pk))).bind
            (fun db2 =>
              ((modelFilter db2 "allocation.allocation").filter (fun a =>
                (fieldInt a "project_id" = some proj.pk) &&
                (nameLookup db2 "allocation.allocationstatuschoice"
                  (fieldInt a "status_id") = some "Active"))).foldlM
                (fun db3 a =>
                  dbSaveRecord env db3
                    (setField (setField a "status_id" (Val.int expRow.pk))
                      "end_date" endDate)) db2)

/-- The models `_combine_objects` is called on, in source order (the
Resource call is commented out in the source). -/
def mergeModels : List String :=
  ["grant.grant", "publication.publication", "project.projectuser",
   "allocation.allocation", "project.projectadmincomment",
   "project.projectusermessage", "project.projectreview",
   "research_output.researchoutput"]

/-- The autoincrement pk `Project.objects.create` assigns. -/
def mergeNewPk (db : DB) : Int :=
  ((modelFilter db "project.project").map (fun r => r.pk)).foldl max 0 + 1

/-- `ProjectMergeView.post` after form handling: fetch the selected
projects (`Project.objects.get`, DoesNotExist propagates), and when the
selection is nonempty create the merged project with the requesting user
as PI and the first selected project's status, run the eight
`_combine_objects` calls, and archive each selected project.  Returns
the final database and the new project's pk (`none` when no project was
selected). -/
def mergePost (env : Env) (db : DB) (uid : Int) (selIds : List Int)
    (title desc : String) (endDate : Val) : Option (DB × Option Int) :=
  match selIds.mapM (fun i =>
      (modelFilter db "project.project").find? (fun r => r.pk = i)) with
  | none => none
  | some projs =>
      match projs with
      | [] => some (db, none)
      | p0 :: _ =>
          match (fieldInt p0 "status_id").bind (fun i =>
              (modelFilter db "project.projectstatuschoice").find? (fun c => c.pk = i)) with
          | none => none
          | some stRow =>
              let npk := mergeNewPk db
              let newProj : Record := ⟨"project.project", npk,
                [("pi_id", Val.int uid), ("status_id", Val.int stRow.pk),
                 ("title", Val.str title), ("description", Val.str desc)], []⟩
              (dbSaveRecord env db newProj).bind (fun db1 =>
                let db2 := mergeModels.foldl
                  (fun d m => combine_objects env selIds npk m d) db1
                (projs.foldlM (archive_project env endDate) db2).map
                  (fun db3 => (db3, some npk)))

/-- A row's database identity: its model together with its pk. -/
def recKey (r : Record) : String × Int := (r.model, r.pk)

/-- Well-formedness of a database: one row per (model, pk) pair. -/
def wfDB (db : DB) : Prop := (db.map recKey).Nodup

theorem setField_model (r : Record) (f : String) (v : Val) :
    (setField r f v).model = r.model := rfl

theorem setField_pk (r : Record) (f : String) (v : Val) :
    (setField r f v).pk = r.pk := rfl

theorem fieldInt_setField_self (r : Record) (f : String) (i : Int) :
    fieldInt (setField r f (Val.int i)) f = some i := by
  simp [fieldInt, setField, alook_aset_self]

theorem fieldInt_setField_ne (r : Record) (f g : String) (v : Val) (h : g ≠ f) :
    fieldInt (setField r f v) g = fieldInt r g := by
  simp [fieldInt, setField, alook_aset_ne _ _ _ _ h]

theorem filter_model_map_replace (r : Record) (N : String) (hN : r.model ≠ N) :
    ∀ l : List Record,
      (l.map (fun q => if (q.model = r.model) && (q.pk = r.pk) then r else q)).filter
          (fun q => q.model = N)
        = l.filter (fun q => q.model = N) := by
  intro l
  induction l with
  | nil => rfl
  | cons q rest ih =>
      rw [List.map_cons]
      by_cases hcond : q.model = r.model ∧ q.pk = r.pk
      · rw [if_pos (by simpa using hcond)]
        have hqn : ¬q.model = N := by rw [hcond.1]; exact hN
        rw [List.filter_cons_of_neg (by simpa using hN),
          List.filter_cons_of_neg (by simpa using hqn)]
        exact ih
      · rw [if_neg (by simpa using hcond)]
        by_cases hqn : q.model = N
        · rw [List.filter_cons_of_pos (by simpa using hqn),
            List.filter_cons_of_pos (by simpa using hqn)]
          exact congrArg (List.cons q) ih
        · rw [List.filter_cons_of_neg (by simpa using hqn),
            List.filter_cons_of_neg (by simpa using hqn)]
          exact ih

theorem dbSave_self (env : Env) (db : DB) (r : Record) (db2 : DB)
    (h : dbSaveRecord env db r = some db2) : r ∈ db2 := by
  unfold dbSaveRecord at h
  by_cases hc : uniqueConflict env db r = true
  · rw [if_pos hc] at h; exact Option.noConfusion h
  · rw [if_neg hc] at h
    by_cases hm : db.any (fun q => (q.model = r.model) && (q.pk = r.pk)) = true
    · rw [if_pos hm] at h
      injection h with h2
      obtain ⟨q, hq, hqc⟩ : ∃ x ∈ db, x.model = r.model ∧ x.pk = r.pk := by
        simpa using hm
      rw [← h2]
      have hfq : (fun q => if (q.model = r.model) && (q.pk = r.pk) then r else q) q = r :=
        if_pos (by simpa using hqc)
      have hmem := List.mem_map_of_mem
        (fun q => if (q.model = r.model) && (q.pk = r.pk) then r else q) hq
      rw [hfq] at hmem
      exact hmem
    · rw [if_neg hm] at h
      injection h with h2
      rw [← h2]
      exact List.mem_append_right _ (List.mem_singleton.mpr rfl)

theorem dbSave_mem_other (env : Env) (db : DB) (r : Record) (db2 : DB) (q : Record)
    (h : dbSaveRecord env db r = some db2) (hq : q ∈ db)
    (hne : ¬(q.model = r.model ∧ q.pk = r.pk)) : q ∈ db2 := by
  unfold dbSaveRecord at h
  by_cases hc : uniqueConflict env db r = true
  · rw [if_pos hc] at h; exact Option.noConfusion h
  · rw [if_neg hc] at h
    by_cases hm : db.any (fun q => (q.model = r.model) && (q.pk = r.pk)) = true
    · rw [if_pos hm] at h
      injection h with h2
      rw [← h2]
      have hfq : (fun q => if (q.model = r.model) && (q.pk = r.pk) then r else q) q = q :=
        if_neg (by simpa using hne)
      have hmem := List.mem_map_of_mem
        (fun q => if (q.model = r.model) && (q.pk = r.pk) then r else q) hq
      rw [hfq] at hmem
      exact hmem
    · rw [if_neg hm] at h
      injection h with h2
      rw [← h2]
      exact List.mem_append_left _ hq

theorem dbSave_rev (env : Env) (db : DB) (r : Record) (db2 : DB) (q : Record)
    (h : dbSaveRecord env db r = some db2) (hq : q ∈ db2) :
    q = r ∨ (q ∈ db ∧ ¬(q.model = r.model ∧ q.pk = r.pk)) := by
  unfold dbSaveRecord at h
  by_cases hc : uniqueConflict env db r = true
  · rw [if_pos hc] at h; exact Option.noConfusion h
  · rw [if_neg hc] at h
    by_cases hm : db.any (fun q => (q.model = r.model) && (q.pk = r.pk)) = true
    · rw [if_pos hm] at h
      injection h with h2
      rw [← h2] at hq
      obtain ⟨x, hx, hfx⟩ := List.mem_map.mp hq
      by_cases hcond : x.model = r.model ∧ x.pk = r.pk
      · rw [if_pos (by simpa using hcond)] at hfx
        exact Or.inl hfx.symm
      · rw [if_neg (by simpa using hcond)] at hfx
        exact Or.inr (hfx ▸ ⟨hx, hcond⟩)
    · rw [if_neg hm] at h
      injection h with h2
      rw [← h2] at hq
      have hall : ∀ x ∈ db, x.model = r.model → ¬x.pk = r.pk := by simpa using hm
      rcases List.mem_append.mp hq with hg | hg
      · exact Or.inr ⟨hg, fun hh => hall q hg hh.1 hh.2⟩
      · exact Or.inl (List.mem_singleton.mp hg)

theorem dbSave_wf (env : Env) (db : DB) (r : Record) (db2 : DB)
    (h : dbSaveRecord env db r = some db2) (hwf : wfDB db) : wfDB db2 := by
  unfold dbSaveRecord at h
  by_cases hc : uniqueConflict env db r = true
  · rw [if_pos hc] at h; exact Option.noConfusion h
  · rw [if_neg hc] at h
    by_cases hm : db.any (fun q => (q.model = r.model) && (q.pk = r.pk)) = true
    · rw [if_pos hm] at h
      injection h with h2
      rw [← h2]
      unfold wfDB at hwf ⊢
      rw [List.map_map]
      have hmap : db.map (recKey ∘ fun q =>
          if (q.model = r.model) && (q.pk = r.pk) then r else q) = db.map recKey := by
        apply List.map_congr_left
        intro q _
        by_cases hcond : q.model = r.model ∧ q.pk = r.pk
        · simp only [Function.comp_apply, if_pos (show ((decide (q.model = r.model) &&
            decide (q.pk = r.pk)) = true) by simpa using hcond)]
          unfold recKey
          rw [hcond.1, hcond.2]
        · simp only [Function.comp_apply, if_neg (show ¬((decide (q.model = r.model) &&
            decide (q.pk = r.pk)) = true) by simpa using hcond)]
      rw [hmap]
      exact hwf
    · rw [if_neg hm] at h
      injection h with h2
      rw [← h2]
      unfold wfDB at hwf ⊢
      rw [List.map_append, List.nodup_append]
      refine ⟨hwf, List.nodup_singleton _, ?_⟩
      intro x hx hx2
      rw [List.map_singleton, List.mem_singleton] at hx2
      obtain ⟨y, hy, hky⟩ := List.mem_map.mp hx
      have hall : ∀ x ∈ db, x.model = r.model → ¬x.pk = r.pk := by simpa using hm
      have hkey : y.model = r.model ∧ y.pk = r.pk := by
        have h5 := hky.trans hx2
        unfold recKey at h5
        exact ⟨congrArg Prod.fst h5, congrArg Prod.snd h5⟩
      exact hall y hy hkey.1 hkey.2

theorem dbSave_modelFilter (env : Env) (db : DB) (r : Record) (db2 : DB) (N : String)
    (h : dbSaveRecord env db r = some db2) (hN : r.model ≠ N) :
    modelFilter db2 N = modelFilter db N := by
  unfold dbSaveRecord at h
  by_cases hc : uniqueConflict env db r = true
  · rw [if_pos hc] at h; exact Option.noConfusion h
  · rw [if_neg hc] at h
    by_cases hm : db.any (fun q => (q.model = r.model) && (q.pk = r.pk)) = true
    · rw [if_pos hm] at h
      injection h with h2
      rw [← h2]
      exact filter_model_map_replace r N hN db
    · rw [if_neg hm] at h
      injection h with h2
      rw [← h2]
      unfold modelFilter
      rw [List.filter_append]
      have hr : List.filter (fun q => decide (q.model = N)) [r] = [] := by
        simp [List.filter, decide_eq_false hN]
      rw [hr, List.append_nil]

theorem modelFilter_filter_del (db : DB) (m : Record) (N : String) (hN : m.model ≠ N) :
    modelFilter (db.filter (fun q => !((q.model = m.model) && (q.pk = m.pk)))) N
      = modelFilter db N := by
  unfold modelFilter
  induction db with
  | nil => rfl
  | cons q rest ih =>
      by_cases hdel : (!((q.model = m.model) && (q.pk = m.pk))) = true
      · rw [show (q :: rest).filter (fun z => !((z.model = m.model) && (z.pk = m.pk)))
              = q :: rest.filter (fun z => !((z.model = m.model) && (z.pk = m.pk)))
            from List.filter_cons_of_pos hdel]
        by_cases hqn : q.model = N
        · rw [List.filter_cons_of_pos (by simpa using hqn),
            List.filter_cons_of_pos (by simpa using hqn)]
          exact congrArg (List.cons q) ih
        · rw [List.filter_cons_of_neg (by simpa using hqn),
            List.filter_cons_of_neg (by simpa using hqn)]
          exact ih
      · rw [show (q :: rest).filter (fun z => !((z.model = m.model) && (z.pk = m.pk)))
              = rest.filter (fun z => !((z.model = m.model) && (z.pk = m.pk)))
            from List.filter_cons_of_neg hdel]
        have hqm : q.model = m.model := by
          have h5 := hdel
          simp at h5
          exact h5.1
        have hqn : ¬q.model = N := by rw [hqm]; exact hN
        rw [List.filter_cons_of_neg (by simpa using hqn)]
        exact ih

theorem combFold_pres (env : Env) (toId : Int) :
    ∀ (ms : List Record) (db2 : DB) (q : Record), q ∈ db2 →
      (∀ m ∈ ms, ¬(q.model = m.model ∧ q.pk = m.pk)) →
      q ∈ ms.foldl (fun db2 m =>
        match dbSaveRecord env db2 (setField m "project_id" (Val.int toId)) with
        | some db3 => db3
        | none => db2.filter (fun q => !((q.model = m.model) && (q.pk = m.pk)))) db2 := by
  intro ms
  induction ms with
  | nil => intro db2 q hq _; exact hq
  | cons m ms ih =>
      intro db2 q hq hne
      rw [List.foldl_cons]
      apply ih
      · cases hs : dbSaveRecord env db2 (setField m "project_id" (Val.int toId)) with
        | some db3 =>
            exact dbSave_mem_other env db2 _ db3 q hs hq (hne m (List.mem_cons_self _ _))
        | none =>
            exact List.mem_filter.mpr
              ⟨hq, by simpa using not_and_or.mp (hne m (List.mem_cons_self _ _))⟩
      · exact fun m2 hm2 => hne m2 (List.mem_cons_of_mem _ hm2)

theorem combFold_rev (env : Env) (toId : Int) :
    ∀ (ms : List Record) (db2 : DB) (q : Record),
      q ∈ ms.foldl (fun db2 m =>
        match dbSaveRecord env db2 (setField m "project_id" (Val.int toId)) with
        | some db3 => db3
        | none => db2.filter (fun q => !((q.model = m.model) && (q.pk = m.pk)))) db2 →
      q ∈ db2 ∨ ∃ m ∈ ms, q = setField m "project_id" (Val.int toId) := by
  intro ms
  induction ms with
  | nil => intro db2 q hq; exact Or.inl hq
  | cons m ms ih =>
      intro db2 q hq
      rw [List.foldl_cons] at hq
      rcases ih _ q hq with hin | ⟨m2, hm2, rfl⟩
      · cases hs : dbSaveRecord env db2 (setField m "project_id" (Val.int toId)) with
        | some db3 =>
            rw [hs] at hin
            rcases dbSave_rev env db2 _ db3 q hs hin with he | ⟨hd, -⟩
            · exact Or.inr ⟨m, List.mem_cons_self _ _, he⟩
            · exact Or.inl hd
        | none =>
            rw [hs] at hin
            exact Or.inl (List.mem_of_mem_filter hin)
      · exact Or.inr ⟨m2, List.mem_cons_of_mem _ hm2, rfl⟩

theorem combFold_wf (env : Env) (toId : Int) :
    ∀ (ms : List Record) (db2 : DB), wfDB db2 →
      wfDB (ms.foldl (fun db2 m =>
        match dbSaveRecord env db2 (setField m "project_id" (Val.int toId)) with
        | some db3 => db3
        | none => db2.filter (fun q => !((q.model = m.model) && (q.pk = m.pk)))) db2) := by
  intro ms
  induction ms with
  | nil => intro db2 h; exact h
  | cons m ms ih =>
      intro db2 hwf
      rw [List.foldl_cons]
      apply ih
      cases hs : dbSaveRecord env db2 (setField m "project_id" (Val.int toId)) with
      | some db3 => exact dbSave_wf env db2 _ db3 hs hwf
      | none =>
          unfold wfDB at hwf ⊢
          exact List.Nodup.sublist (List.Sublist.map recKey (List.filter_sublist db2)) hwf

theorem combFold_member (env : Env) (toId : Int) :
    ∀ (ms : List Record) (db2 : DB) (m : Record), m ∈ ms →
      (ms.map recKey).Nodup →
      (setField m "project_id" (Val.int toId) ∈ ms.foldl (fun db2 m =>
        match dbSaveRecord env db2 (setField m "project_id" (Val.int toId)) with
        | some db3 => db3
        | none => db2.filter (fun q => !((q.model = m.model) && (q.pk = m.pk)))) db2) ∨
      (∀ q ∈ ms.foldl (fun db2 m =>
        match dbSaveRecord env db2 (setField m "project_id" (Val.int toId)) with
        | some db3 => db3
        | none => db2.filter (fun q => !((q.model = m.model) && (q.pk = m.pk)))) db2,
        ¬(q.model = m.model ∧ q.pk = m.pk)) := by
  intro ms
  induction ms with
  | nil => intro db2 m hm; exact absurd hm (List.not_mem_nil m)
  | cons m0 ms ih =>
      intro db2 m hm hnd
      rw [List.map_cons] at hnd
      have hnd0 := List.nodup_cons.mp hnd
      rcases List.mem_cons.mp hm with heq | hmem
      · have hhead : recKey m ∉ ms.map recKey := heq.symm ▸ hnd0.1
        rw [List.foldl_cons, ← heq]
        cases hs : dbSaveRecord env db2 (setField m "project_id" (Val.int toId)) with
        | some db3 =>
            left
            apply combFold_pres env toId ms db3 _ (dbSave_self env db2 _ db3 hs)
            intro m2 hm2 hcon
            apply hhead
            have h1 : m.model = m2.model := hcon.1
            have h2 : m.pk = m2.pk := hcon.2
            have hk : recKey m = recKey m2 := by unfold recKey; rw [h1, h2]
            rw [hk]
            exact List.mem_map_of_mem recKey hm2
        | none =>
            right
            intro q hq
            rcases combFold_rev env toId ms _ q hq with hin | ⟨m2, hm2, rfl⟩
            · have hp := (List.mem_filter.mp hin).2
              exact not_and_or.mpr (by simpa using hp)
            · intro hcon
              apply hhead
              have h1 : m2.model = m.model := hcon.1
              have h2 : m2.pk = m.pk := hcon.2
              have hk : recKey m = recKey m2 := by unfold recKey; rw [h1, h2]
              rw [hk]
              exact List.mem_map_of_mem recKey hm2
      · rw [List.foldl_cons]
        exact ih _ m hmem hnd0.2

theorem combFold_modelFilter (env : Env) (toId : Int) (N : String) :
    ∀ (ms : List Record) (db2 : DB), (∀ m ∈ ms, m.model ≠ N) →
      modelFilter (ms.foldl (fun db2 m =>
        match dbSaveRecord env db2 (setField m "project_id" (Val.int toId)) with
        | some db3 => db3
        | none => db2.filter (fun q => !((q.model = m.model) && (q.pk = m.pk)))) db2) N
      = modelFilter db2 N := by
  intro ms
  induction ms with
  | nil => intro db2 _; rfl
  | cons m ms ih =>
      intro db2 hN
      rw [List.foldl_cons]
      have hmN : m.model ≠ N := hN m (List.mem_cons_self _ _)
      rw [ih _ (fun m2 hm2 => hN m2 (List.mem_cons_of_mem _ hm2))]
      cases hs : dbSaveRecord env db2 (setField m "project_id" (Val.int toId)) with
      | some db3 => exact dbSave_modelFilter env db2 _ db3 N hs hmN
      | none => exact modelFilter_filter_del db2 m N hmN

theorem combine_pres_other (env : Env) (sel : List Int) (toId : Int) (M : String)
    (db : DB) (q : Record) (hq : q ∈ db) (hqM : q.model ≠ M) :
    q ∈ combine_objects env sel toId M db := by
  unfold combine_objects
  apply combFold_pres env toId _ db q hq
  intro m hm hcon
  have hmM : m.model = M :=
    of_decide_eq_true (List.mem_filter.mp (List.mem_of_mem_filter hm)).2
  exact hqM (hcon.1.trans hmM)

theorem combine_rev (env : Env) (sel : List Int) (toId : Int) (M : String) (db : DB) :
    ∀ q ∈ combine_objects env sel toId M db,
      q ∈ db ∨ ∃ m, m ∈ db ∧ m.model = M ∧ q = setField m "project_id" (Val.int toId) := by
  intro q hq
  unfold combine_objects at hq
  rcases combFold_rev env toId _ db q hq with h | ⟨m, hm, rfl⟩
  · exact Or.inl h
  · have hm2 := List.mem_of_mem_filter hm
    have hmM : m.model = M := of_decide_eq_true (List.mem_filter.mp hm2).2
    exact Or.inr ⟨m, List.mem_of_mem_filter hm2, hmM, rfl⟩

theorem combine_wf (env : Env) (sel : List Int) (toId : Int) (M : String) (db : DB)
    (hwf : wfDB db) : wfDB (combine_objects env sel toId M db) := by
  unfold combine_objects
  exact combFold_wf env toId _ db hwf

theorem combine_modelFilter (env : Env) (sel : List Int) (toId : Int) (M : String)
    (db : DB) (N : String) (hMN : M ≠ N) :
    modelFilter (combine_objects env sel toId M db) N = modelFilter db N := by
  unfold combine_objects
  apply combFold_modelFilter
  intro m hm
  have hmM : m.model = M :=
    of_decide_eq_true (List.mem_filter.mp (List.mem_of_mem_filter hm)).2
  rw [hmM]
  exact hMN

theorem combine_member (env : Env) (sel : List Int) (toId : Int) (M : String) (db : DB)
    (hwf : wfDB db) (m : Record) (hm : m ∈ db) (hmM : m.model = M) (v : Int)
    (hv : fieldInt m "project_id" = some v) (hvsel : v ∈ sel) :
    setField m "project_id" (Val.int toId) ∈ combine_objects env sel toId M db ∨
      (∀ q ∈ combine_objects env sel toId M db, ¬(q.model = m.model ∧ q.pk = m.pk)) := by
  unfold combine_objects
  apply combFold_member
  · apply List.mem_filter.mpr
    refine ⟨List.mem_filter.mpr ⟨hm, decide_eq_true hmM⟩, ?_⟩
    rw [hv]
    exact List.elem_eq_true_of_mem hvsel
  · have hsub : ((modelFilter db M).filter (fun r =>
        match fieldInt r "project_id" with
        | some v => sel.contains v
        | none => false)).Sublist db :=
      List.Sublist.trans (List.filter_sublist _) (List.filter_sublist _)
    exact List.Nodup.sublist (List.Sublist.map recKey hsub) hwf

theorem combineAll_pres (env : Env) (sel : List Int) (toId : Int) :
    ∀ (Ms : List String) (db : DB) (q : Record), q ∈ db → q.model ∉ Ms →
      q ∈ Ms.foldl (fun d M => combine_objects env sel toId M d) db := by
  intro Ms
  induction Ms with
  | nil => intro db q hq _; exact hq
  | cons M Ms ih =>
      intro db q hq hqM
      rw [List.foldl_cons]
      apply ih
      · exact combine_pres_other env sel toId M db q hq
          (fun hh => hqM (hh ▸ List.mem_cons_self _ _))
      · exact fun hh => hqM (List.mem_cons_of_mem _ hh)

theorem combineAll_rev (env : Env) (sel : List Int) (toId : Int) :
    ∀ (Ms : List String) (db : DB) (q : Record),
      q ∈ Ms.foldl (fun d M => combine_objects env sel toId M d) db →
      q ∈ db ∨ (q.model ∈ Ms ∧ fieldInt q "project_id" = some toId) := by
  intro Ms
  induction Ms with
  | nil => intro db q hq; exact Or.inl hq
  | cons M Ms ih =>
      intro db q hq
      rw [List.foldl_cons] at hq
      rcases ih _ q hq with hin | ⟨hM, hf⟩
      · rcases combine_rev env sel toId M db q hin with h | ⟨m, _, hmM, rfl⟩
        · exact Or.inl h
        · refine Or.inr ⟨?_, fieldInt_setField_self m "project_id" toId⟩
          rw [setField_model, hmM]
          exact List.mem_cons_self _ _
      · exact Or.inr ⟨List.mem_cons_of_mem _ hM, hf⟩

theorem combineAll_wf (env : Env) (sel : List Int) (toId : Int) :
    ∀ (Ms : List String) (db : DB), wfDB db →
      wfDB (Ms.foldl (fun d M => combine_objects env sel toId M d) db) := by
  intro Ms
  induction Ms with
  | nil => intro db h; exact h
  | cons M Ms ih =>
      intro db hwf
      rw [List.foldl_cons]
      exact ih _ (combine_wf env sel toId M db hwf)

theorem combineAll_modelFilter (env : Env) (sel : List Int) (toId : Int) :
    ∀ (Ms : List String) (db : DB) (N : String), N ∉ Ms →
      modelFilter (Ms.foldl (fun d M => combine_objects env sel toId M d) db) N
        = modelFilter db N := by
  intro Ms
  induction Ms with
  | nil => intro db N _; rfl
  | cons M Ms ih =>
      intro db N hN
      rw [List.foldl_cons]
      rw [ih _ N (fun hh => hN (List.mem_cons_of_mem _ hh))]
      exact combine_modelFilter env sel toId M db N
        (fun hh => hN (hh ▸ List.mem_cons_self _ _))

theorem le_foldl_max : ∀ (l : List Int) (a : Int), a ≤ l.foldl max a := by
  intro l
  induction l with
  | nil => intro a; exact le_refl a
  | cons b l ih =>
      intro a
      rw [List.foldl_cons]
      exact le_trans (le_max_left a b) (ih (max a b))

theorem mem_le_foldl_max : ∀ (l : List Int) (a x : Int), x ∈ l → x ≤ l.foldl max a := by
  intro l
  induction l with
  | nil => intro a x hx; exact absurd hx (List.not_mem_nil x)
  | cons b l ih =>
      intro a x hx
      rw [List.foldl_cons]
      rcases List.mem_cons.mp hx with rfl | hx2
      · exact le_trans (le_max_right a x) (le_foldl_max l (max a x))
      · exact ih (max a b) x hx2

theorem mergeNewPk_gt (db : DB) (r : Record) (hr : r ∈ db)
    (hrM : r.model = "project.project") : r.pk < mergeNewPk db := by
  unfold mergeNewPk
  have hmem : r.pk ∈ (modelFilter db "project.project").map (fun q => q.pk) :=
    List.mem_map_of_mem _ (List.mem_filter.mpr ⟨hr, decide_eq_true hrM⟩)
  have := mem_le_foldl_max _ 0 r.pk hmem
  omega

theorem foldlM_save_pres (env : Env) (g : Record → Record) :
    ∀ (l : List Record) (db db2 : DB),
      l.foldlM (fun d a => dbSaveRecord env d (g a)) db = some db2 →
      ∀ q ∈ db, (∀ a ∈ l, ¬(q.model = (g a).model ∧ q.pk = (g a).pk)) → q ∈ db2 := by
  intro l
  induction l with
  | nil =>
      intro db db2 h q hq _
      injection h with h2
      exact h2 ▸ hq
  | cons a l ih =>
      intro db db2 h q hq hne
      rw [List.foldlM_cons] at h
      cases hs : dbSaveRecord env db (g a) with
      | none => rw [hs] at h; exact Option.noConfusion h
      | some dbm =>
          rw [hs] at h
          replace h : List.foldlM (fun d a => dbSaveRecord env d (g a)) dbm l = some db2 := h
          exact ih dbm db2 h q
            (dbSave_mem_other env db (g a) dbm q hs hq (hne a (List.mem_cons_self _ _)))
            (fun a2 ha2 => hne a2 (List.mem_cons_of_mem _ ha2))

theorem foldlM_save_rev (env : Env) (g : Record → Record) :
    ∀ (l : List Record) (db db2 : DB),
      l.foldlM (fun d a => dbSaveRecord env d (g a)) db = some db2 →
      ∀ q ∈ db2, q ∈ db ∨ ∃ a ∈ l, q = g a := by
  intro l
  induction l with
  | nil =>
      intro db db2 h q hq
      injection h with h2
      exact Or.inl (h2 ▸ hq)
  | cons a l ih =>
      intro db db2 h q hq
      rw [List.foldlM_cons] at h
      cases hs : dbSaveRecord env db (g a) with
      | none => rw [hs] at h; exact Option.noConfusion h
      | some dbm =>
          rw [hs] at h
          replace h : List.foldlM (fun d a => dbSaveRecord env d (g a)) dbm l = some db2 := h
          rcases ih dbm db2 h q hq with hin | ⟨a2, ha2, rfl⟩
          · rcases dbSave_rev env db (g a) dbm q hs hin with he | ⟨hd, -⟩
            · exact Or.inr ⟨a, List.mem_cons_self _ _, he⟩
            · exact Or.inl hd
          · exact Or.inr ⟨a2, List.mem_cons_of_mem _ ha2, rfl⟩

theorem foldlM_save_wf (env : Env) (g : Record → Record) :
    ∀ (l : List Record) (db db2 : DB),
      l.foldlM (fun d a => dbSaveRecord env d (g a)) db = some db2 →
      wfDB db → wfDB db2 := by
  intro l
  induction l with
  | nil =>
      intro db db2 h hwf
      injection h with h2
      exact h2 ▸ hwf
  | cons a l ih =>
      intro db db2 h hwf
      rw [List.foldlM_cons] at h
      cases hs : dbSaveRecord env db (g a) with
      | none => rw [hs] at h; exact Option.noConfusion h
      | some dbm =>
          rw [hs] at h
          replace h : List.foldlM (fun d a => dbSaveRecord env d (g a)) dbm l = some db2 := h
          exact ih dbm db2 h (dbSave_wf env db (g a) dbm hs hwf)

theorem foldlM_save_modelFilter (env : Env) (g : Record → Record) (N : String) :
    ∀ (l : List Record) (db db2 : DB),
      l.foldlM (fun d a => dbSaveRecord env d (g a)) db = some db2 →
      (∀ a ∈ l, (g a).model ≠ N) →
      modelFilter db2 N = modelFilter db N := by
  intro l
  induction l with
  | nil =>
      intro db db2 h _
      injection h with h2
      rw [h2]
  | cons a l ih =>
      intro db db2 h hN
      rw [List.foldlM_cons] at h
      cases hs : dbSaveRecord env db (g a) with
      | none => rw [hs] at h; exact Option.noConfusion h
      | some dbm =>
          rw [hs] at h
          replace h : List.foldlM (fun d a => dbSaveRecord env d (g a)) dbm l = some db2 := h
          rw [ih dbm db2 h (fun a2 ha2 => hN a2 (List.mem_cons_of_mem _ ha2))]
          exact dbSave_modelFilter env db (g a) dbm N hs (hN a (List.mem_cons_self _ _))

theorem archive_project_elim (env : Env) (ed : Val) (db : DB) (pr : Record) (db2 : DB)
    (h : archive_project env ed db pr = some db2) :
    ∃ archRow expRow dbA,
      (modelFilter db "project.projectstatuschoice").find?
        (fun c => alook c.fields "name" = some (Val.str "Archived")) = some archRow ∧
      (modelFilter db "allocation.allocationstatuschoice").find?
        (fun c => alook c.fields "name" = some (Val.str "Expired")) = some expRow ∧
      dbSaveRecord env db (setField pr "status_id" (Val.int archRow.pk)) = some dbA ∧
      ((modelFilter dbA "allocation.allocation").filter (fun a =>
        (fieldInt a "project_id" = some pr.pk) &&
        (nameLookup dbA "allocation.allocationstatuschoice"
          (fieldInt a "status_id") = some "Active"))).foldlM
        (fun db3 a =>
          dbSaveRecord env db3
            (setField (setField a "status_id" (Val.int expRow.pk)) "end_date" ed)) dbA
        = some db2 := by
  unfold archive_project at h
  cases hfA : (modelFilter db "project.projectstatuschoice").find?
      (fun c => alook c.fields "name" = some (Val.str "Archived")) with
  | none => rw [hfA] at h; exact Option.noConfusion h
  | some archRow =>
      rw [hfA] at h
      cases hfE : (modelFilter db "allocation.allocationstatuschoice").find?
          (fun c => alook c.fields "name" = some (Val.str "Expired")) with
      | none => rw [hfE] at h; exact Option.noConfusion h
      | some expRow =>
          rw [hfE] at h
          replace h : (dbSaveRecord env db (setField pr "status_id" (Val.int archRow.pk))).bind
              (fun dbm =>
                ((modelFilter dbm "allocation.allocation").filter (fun a =>
                  (fieldInt a "project_id" = some pr.pk) &&
                  (nameLookup dbm "allocation.allocationstatuschoice"
                    (fieldInt a "status_id") = some "Active"))).foldlM
                  (fun db3 a =>
                    dbSaveRecord env db3
                      (setField (setField a "status_id" (Val.int expRow.pk))
                        "end_date" ed)) dbm) = some db2 := h
          cases hs : dbSaveRecord env db (setField pr "status_id" (Val.int archRow.pk)) with
          | none => rw [hs] at h; exact Option.noConfusion h
          | some dbA =>
              rw [hs] at h
              exact ⟨archRow, expRow, dbA, rfl, rfl, hs, h⟩

theorem archive_pres (env : Env) (ed : Val) (db : DB) (pr : Record) (db2 : DB)
    (h : archive_project env ed db pr = some db2) (q : Record) (hq : q ∈ db)
    (hq1 : ¬(q.model = pr.model ∧ q.pk = pr.pk))
    (hq2 : q.model ≠ "allocation.allocation") : q ∈ db2 := by
  obtain ⟨archRow, expRow, dbA, hfA, hfE, hs, hfold⟩ :=
    archive_project_elim env ed db pr db2 h
  apply foldlM_save_pres env _ _ dbA db2 hfold q
    (dbSave_mem_other env db _ dbA q hs hq hq1)
  intro a ha hcon
  have haM : a.model = "allocation.allocation" :=
    of_decide_eq_true (List.mem_filter.mp (List.mem_of_mem_filter ha)).2
  exact hq2 (hcon.1.trans haM)

theorem archive_self (env : Env) (ed : Val) (db : DB) (pr : Record) (db2 : DB)
    (h : archive_project env ed db pr = some db2) (hpr : pr.model = "project.project") :
    ∃ archRow, (modelFilter db "project.projectstatuschoice").find?
        (fun c => alook c.fields "name" = some (Val.str "Archived")) = some archRow ∧
      setField pr "status_id" (Val.int archRow.pk) ∈ db2 := by
  obtain ⟨archRow, expRow, dbA, hfA, hfE, hs, hfold⟩ :=
    archive_project_elim env ed db pr db2 h
  refine ⟨archRow, hfA, ?_⟩
  apply foldlM_save_pres env _ _ dbA db2 hfold _ (dbSave_self env db _ dbA hs)
  intro a ha hcon
  have haM : a.model = "allocation.allocation" :=
    of_decide_eq_true (List.mem_filter.mp (List.mem_of_mem_filter ha)).2
  have h7 : (setField (setField a "status_id" (Val.int expRow.pk)) "end_date" ed).model
      = "allocation.allocation" := haM
  have hpM : (setField pr "status_id" (Val.int archRow.pk)).model
      = "project.project" := hpr
  rw [hpM] at hcon
  exact absurd (hcon.1.trans h7) (by decide)

theorem archive_rev (env : Env) (ed : Val) (db : DB) (pr : Record) (db2 : DB)
    (h : archive_project env ed db pr = some db2) (hpr : pr.model = "project.project") :
    ∀ q ∈ db2, q ∈ db ∨ (∃ v, q = setField pr "status_id" v) ∨
      (∃ a, a ∈ db ∧ a.model = "allocation.allocation" ∧
        ∃ v, q = setField (setField a "status_id" v) "end_date" ed) := by
  obtain ⟨archRow, expRow, dbA, hfA, hfE, hs, hfold⟩ :=
    archive_project_elim env ed db pr db2 h
  intro q hq
  rcases foldlM_save_rev env _ _ dbA db2 hfold q hq with hin | ⟨a, ha, rfl⟩
  · rcases dbSave_rev env db _ dbA q hs hin with he | ⟨hd, -⟩
    · exact Or.inr (Or.inl ⟨Val.int archRow.pk, he⟩)
    · exact Or.inl hd
  · have haM : a.model = "allocation.allocation" :=
      of_decide_eq_true (List.mem_filter.mp (List.mem_of_mem_filter ha)).2
    have haA : a ∈ dbA := List.mem_of_mem_filter (List.mem_of_mem_filter ha)
    rcases dbSave_rev env db _ dbA a hs haA with he | ⟨hd, -⟩
    · have hcontra : a.model = "project.project" := by
        rw [he]
        exact hpr
      rw [haM] at hcontra
      exact absurd hcontra (by decide)
    · exact Or.inr (Or.inr ⟨a, hd, haM, Val.int expRow.pk, rfl⟩)

theorem archive_wf (env : Env) (ed : Val) (db : DB) (pr : Record) (db2 : DB)
    (h : archive_project env ed db pr = some db2) (hwf : wfDB db) : wfDB db2 := by
  obtain ⟨archRow, expRow, dbA, hfA, hfE, hs, hfold⟩ :=
    archive_project_elim env ed db pr db2 h
  exact foldlM_save_wf env _ _ dbA db2 hfold (dbSave_wf env db _ dbA hs hwf)

theorem archive_modelFilter (env : Env) (ed : Val) (db : DB) (pr : Record) (db2 : DB)
    (h : archive_project env ed db pr = some db2) (N : String)
    (hN1 : pr.model ≠ N) (hN2 : "allocation.allocation" ≠ N) :
    modelFilter db2 N = modelFilter db N := by
  obtain ⟨archRow, expRow, dbA, hfA, hfE, hs, hfold⟩ :=
    archive_project_elim env ed db pr db2 h
  have h1 : modelFilter db2 N = modelFilter dbA N := by
    apply foldlM_save_modelFilter env _ N _ dbA db2 hfold
    intro a ha
    have haM : a.model = "allocation.allocation" :=
      of_decide_eq_true (List.mem_filter.mp (List.mem_of_mem_filter ha)).2
    have h5 : (setField (setField a "status_id" (Val.int expRow.pk))
        "end_date" ed).model = "allocation.allocation" := haM
    rw [h5]
    exact hN2
  rw [h1]
  exact dbSave_modelFilter env db _ dbA N hs hN1

theorem archive_pres_alloc (env : Env) (ed : Val) (db : DB) (pr : Record) (db2 : DB)
    (h : archive_project env ed db pr = some db2) (hwf : wfDB db)
    (hpr : pr.model = "project.project") (q : Record) (hq : q ∈ db)
    (hqM : q.model = "allocation.allocation")
    (hqid : fieldInt q "project_id" ≠ some pr.pk) : q ∈ db2 := by
  obtain ⟨archRow, expRow, dbA, hfA, hfE, hs, hfold⟩ :=
    archive_project_elim env ed db pr db2 h
  have hqA : q ∈ dbA := by
    apply dbSave_mem_other env db _ dbA q hs hq
    intro hcon
    have h5 : q.model = "project.project" := hcon.1.trans hpr
    rw [hqM] at h5
    exact absurd h5 (by decide)
  have hwfA : wfDB dbA := dbSave_wf env db _ dbA hs hwf
  apply foldlM_save_pres env _ _ dbA db2 hfold q hqA
  intro a ha hcon
  have haf := List.mem_filter.mp ha
  have haA : a ∈ dbA := List.mem_of_mem_filter haf.1
  have hai : fieldInt a "project_id" = some pr.pk := by
    have h5 := haf.2
    simp at h5
    exact h5.1
  have hkey : recKey q = recKey a := by
    unfold recKey
    rw [hcon.1, hcon.2]
    rfl
  have heq : q = a := by
    unfold wfDB at hwfA
    exact List.inj_on_of_nodup_map hwfA hqA haA hkey
  exact hqid (heq ▸ hai)

theorem archFold_pres (env : Env) (ed : Val) :
    ∀ (prs : List Record) (db db2 : DB),
      prs.foldlM (archive_project env ed) db = some db2 →
      ∀ q ∈ db, q.model ≠ "allocation.allocation" →
      (∀ pr ∈ prs, ¬(q.model = pr.model ∧ q.pk = pr.pk)) → q ∈ db2 := by
  intro prs
  induction prs with
  | nil =>
      intro db db2 h q hq _ _
      injection h with h2
      exact h2 ▸ hq
  | cons pr prs ih =>
      intro db db2 h q hq hq2 hne
      rw [List.foldlM_cons] at h
      cases hs : archive_project env ed db pr with
      | none => rw [hs] at h; exact Option.noConfusion h
      | some dbm =>
          rw [hs] at h
          replace h : prs.foldlM (archive_project env ed) dbm = some db2 := h
          exact ih dbm db2 h q
            (archive_pres env ed db pr dbm hs q hq (hne pr (List.mem_cons_self _ _)) hq2)
            hq2 (fun pr2 hpr2 => hne pr2 (List.mem_cons_of_mem _ hpr2))

theorem archFold_wf (env : Env) (ed : Val) :
    ∀ (prs : List Record) (db db2 : DB),
      prs.foldlM (archive_project env ed) db = some db2 → wfDB db → wfDB db2 := by
  intro prs
  induction prs with
  | nil =>
      intro db db2 h hwf
      injection h with h2
      exact h2 ▸ hwf
  | cons pr prs ih =>
      intro db db2 h hwf
      rw [List.foldlM_cons] at h
      cases hs : archive_project env ed db pr with
      | none => rw [hs] at h; exact Option.noConfusion h
      | some dbm =>
          rw [hs] at h
          replace h : prs.foldlM (archive_project env ed) dbm = some db2 := h
          exact ih dbm db2 h (archive_wf env ed db pr dbm hs hwf)

theorem archFold_modelFilter (env : Env) (ed : Val) (N : String)
    (hN2 : "allocation.allocation" ≠ N) :
    ∀ (prs : List Record) (db db2 : DB),
      prs.foldlM (archive_project env ed) db = some db2 →
      (∀ pr ∈ prs, pr.model ≠ N) →
      modelFilter db2 N = modelFilter db N := by
  intro prs
  induction prs with
  | nil =>
      intro db db2 h _
      injection h with h2
      rw [h2]
  | cons pr prs ih =>
      intro db db2 h hN
      rw [List.foldlM_cons] at h
      cases hs : archive_project env ed db pr with
      | none => rw [hs] at h; exact Option.noConfusion h
      | some dbm =>
          rw [hs] at h
          replace h : prs.foldlM (archive_project env ed) dbm = some db2 := h
          rw [ih dbm db2 h (fun pr2 hpr2 => hN pr2 (List.mem_cons_of_mem _ hpr2))]
          exact archive_modelFilter env ed db pr dbm hs N
            (hN pr (List.mem_cons_self _ _)) hN2

theorem archFold_rev (env : Env) (ed : Val) :
    ∀ (prs : List Record) (db db2 : DB),
      prs.foldlM (archive_project env ed) db = some db2 →
      (∀ pr ∈ prs, pr.model = "project.project") →
      ∀ q ∈ db2,
        (q.model = "allocation.allocation" →
          ∃ a, a ∈ db ∧ a.model = "allocation.allocation" ∧
            fieldInt q "project_id" = fieldInt a "project_id" ∧ q.pk = a.pk) ∧
        (q.model ≠ "allocation.allocation" →
          q ∈ db ∨ ∃ pr ∈ prs, ∃ v, q = setField pr "status_id" v) := by
  intro prs
  induction prs with
  | nil =>
      intro db db2 h _ q hq
      injection h with h2
      subst h2
      exact ⟨fun hM => ⟨q, hq, hM, rfl, rfl⟩, fun _ => Or.inl hq⟩
  | cons pr prs ih =>
      intro db db2 h hmod q hq
      rw [List.foldlM_cons] at h
      cases hs : archive_project env ed db pr with
      | none => rw [hs] at h; exact Option.noConfusion h
      | some dbm =>
          rw [hs] at h
          replace h : prs.foldlM (archive_project env ed) dbm = some db2 := h
          have hprM : pr.model = "project.project" := hmod pr (List.mem_cons_self _ _)
          have hrest := ih dbm db2 h
            (fun pr2 hpr2 => hmod pr2 (List.mem_cons_of_mem _ hpr2)) q hq
          constructor
          · intro hM
            obtain ⟨a, ham, haM, hfa, hpa⟩ := hrest.1 hM
            rcases archive_rev env ed db pr dbm hs hprM a ham with hin | ⟨⟨v, rfl⟩ | ⟨a2, ha2, ha2M, v, rfl⟩⟩
            · exact ⟨a, hin, haM, hfa, hpa⟩
            · have h5 : (setField pr "status_id" v).model = "project.project" := hprM
              rw [h5] at haM
              exact absurd haM (by decide)
            · refine ⟨a2, ha2, ha2M, ?_, ?_⟩
              · rw [hfa]
                rw [fieldInt_setField_ne _ _ _ _ (by decide),
                  fieldInt_setField_ne _ _ _ _ (by decide)]
              · exact hpa
          · intro hM
            rcases hrest.2 hM with hin | ⟨pr2, hpr2, v, rfl⟩
            · rcases archive_rev env ed db pr dbm hs hprM q hin with hd | ⟨⟨v, rfl⟩ | ⟨a2, _, ha2M, v, rfl⟩⟩
              · exact Or.inl hd
              · exact Or.inr ⟨pr, List.mem_cons_self _ _, v, rfl⟩
              · have h5 : (setField (setField a2 "status_id" v) "end_date" ed).model
                    = "allocation.allocation" := ha2M
                exact absurd h5 hM
            · exact Or.inr ⟨pr2, List.mem_cons_of_mem _ hpr2, v, rfl⟩

theorem archFold_pres_alloc (env : Env) (ed : Val) :
    ∀ (prs : List Record) (db db2 : DB),
      prs.foldlM (archive_project env ed) db = some db2 → wfDB db →
      (∀ pr ∈ prs, pr.model = "project.project") →
      ∀ q ∈ db, q.model = "allocation.allocation" →
      (∀ pr ∈ prs, fieldInt q "project_id" ≠ some pr.pk) → q ∈ db2 := by
  intro prs
  induction prs with
  | nil =>
      intro db db2 h _ _ q hq _ _
      injection h with h2
      exact h2 ▸ hq
  | cons pr prs ih =>
      intro db db2 h hwf hmod q hq hqM hqid
      rw [List.foldlM_cons] at h
      cases hs : archive_project env ed db pr with
      | none => rw [hs] at h; exact Option.noConfusion h
      | some dbm =>
          rw [hs] at h
          replace h : prs.foldlM (archive_project env ed) dbm = some db2 := h
          exact ih dbm db2 h (archive_wf env ed db pr dbm hs hwf)
            (fun pr2 hpr2 => hmod pr2 (List.mem_cons_of_mem _ hpr2)) q
            (archive_pres_alloc env ed db pr dbm hs hwf
              (hmod pr (List.mem_cons_self _ _)) q hq hqM
              (hqid pr (List.mem_cons_self _ _)))
            hqM (fun pr2 hpr2 => hqid pr2 (List.mem_cons_of_mem _ hpr2))

theorem archFold_archived (env : Env) (ed : Val) :
    ∀ (prs : List Record) (db db2 : DB),
      prs.foldlM (archive_project env ed) db = some db2 →
      (∀ pr ∈ prs, pr.model = "project.project") →
      (prs.map (fun pr => pr.pk)).Nodup →
      ∀ pr ∈ prs, ∃ archRow,
        (modelFilter db "project.projectstatuschoice").find?
          (fun c => alook c.fields "name" = some (Val.str "Archived")) = some archRow ∧
        setField pr "status_id" (Val.int archRow.pk) ∈ db2 := by
  intro prs
  induction prs with
  | nil => intro db db2 _ _ _ pr hpr; exact absurd hpr (List.not_mem_nil pr)
  | cons pr0 prs ih =>
      intro db db2 h hmod hnd pr hpr
      rw [List.foldlM_cons] at h
      cases hs : archive_project env ed db pr0 with
      | none => rw [hs] at h; exact Option.noConfusion h
      | some dbm =>
          rw [hs] at h
          replace h : prs.foldlM (archive_project env ed) dbm = some db2 := h
          rw [List.map_cons] at hnd
          have hnd0 := List.nodup_cons.mp hnd
          have hpr0M : pr0.model = "project.project" := hmod pr0 (List.mem_cons_self _ _)
          rcases List.mem_cons.mp hpr with heq | hmem
          · subst heq
            obtain ⟨archRow, hfind, hmem2⟩ := archive_self env ed db pr dbm hs hpr0M
            refine ⟨archRow, hfind, ?_⟩
            apply archFold_pres env ed prs dbm db2 h _ hmem2
            · have h5 : (setField pr "status_id" (Val.int archRow.pk)).model
                  = "project.project" := hpr0M
              rw [h5]
              decide
            · intro pr2 hpr2 hcon
              apply hnd0.1
              have h6 : pr.pk = pr2.pk := hcon.2
              rw [h6]
              exact List.mem_map_of_mem _ hpr2
          · obtain ⟨archRow, hfind, hmem2⟩ := ih dbm db2 h
              (fun pr2 hpr2 => hmod pr2 (List.mem_cons_of_mem _ hpr2)) hnd0.2 pr hmem
            refine ⟨archRow, ?_, hmem2⟩
            rw [← hfind]
            rw [archive_modelFilter env ed db pr0 dbm hs "project.projectstatuschoice"
              (by rw [hpr0M]; decide) (by decide)]

theorem mapM_find_facts (db : DB) :
    ∀ (sel : List Int) (projs : List Record),
      sel.mapM (fun i =>
        (modelFilter db "project.project").find? (fun r => r.pk = i)) = some projs →
      projs.map (fun pr => pr.pk) = sel ∧
        ∀ pr ∈ projs, pr ∈ modelFilter db "project.project" := by
  intro sel
  induction sel with
  | nil =>
      intro projs h
      injection h with h2
      subst h2
      exact ⟨rfl, fun pr hpr => absurd hpr (List.not_mem_nil pr)⟩
  | cons i sel ih =>
      intro projs h
      rw [List.mapM_cons] at h
      cases hf : (modelFilter db "project.project").find? (fun r => r.pk = i) with
      | none => rw [hf] at h; exact Option.noConfusion h
      | some pr0 =>
          rw [hf] at h
          replace h : (sel.mapM (fun i =>
              (modelFilter db "project.project").find? (fun r => r.pk = i))).bind
            (fun bs => some (pr0 :: bs)) = some projs := h
          cases hl : sel.mapM (fun i =>
              (modelFilter db "project.project").find? (fun r => r.pk = i)) with
          | none => rw [hl] at h; exact Option.noConfusion h
          | some rest =>
              rw [hl] at h
              replace h : some (pr0 :: rest) = some projs := h
              injection h with h2
              subst h2
              obtain ⟨hmap, hmem⟩ := ih rest hl
              have hpk : pr0.pk = i := by
                have h5 := List.find?_some hf
                exact of_decide_eq_true h5
              constructor
              · rw [List.map_cons, hmap, hpk]
              · intro pr hpr
                rcases List.mem_cons.mp hpr with rfl | hpr2
                · exact List.mem_of_find?_eq_some hf
                · exact hmem pr hpr2

set_option maxHeartbeats 1000000 in
theorem mergePost_elim (env : Env) (db : DB) (uid : Int) (sel : List Int)
    (title desc : String) (ed : Val) (db2 : DB) (npk : Int)
    (hm : mergePost env db uid sel title desc ed = some (db2, some npk)) :
    ∃ projs p0 prest stRow db1,
      sel.mapM (fun i =>
        (modelFilter db "project.project").find? (fun r => r.pk = i)) = some projs ∧
      projs = p0 :: prest ∧
      (fieldInt p0 "status_id").bind (fun i =>
        (modelFilter db "project.projectstatuschoice").find? (fun c => c.pk = i))
        = some stRow ∧
      npk = mergeNewPk db ∧
      dbSaveRecord env db ⟨"project.project", mergeNewPk db,
        [("pi_id", Val.int uid), ("status_id", Val.int stRow.pk),
         ("title", Val.str title), ("description", Val.str desc)], []⟩ = some db1 ∧
      projs.foldlM (archive_project env ed)
        (mergeModels.foldl
          (fun d m => combine_objects env sel (mergeNewPk db) m d) db1) = some db2 := by
  unfold mergePost at hm
  cases hmapm : sel.mapM (fun i =>
      (modelFilter db "project.project").find? (fun r => r.pk = i)) with
  | none => rw [hmapm] at hm; exact Option.noConfusion hm
  | some projs =>
      rw [hmapm] at hm
      cases projs with
      | nil =>
          replace hm : some (db, (none : Option Int)) = some (db2, some npk) := hm
          injection hm with h2
          have h3 : (none : Option Int) = some npk := congrArg Prod.snd h2
          exact Option.noConfusion h3
      | cons p0 prest =>
          replace hm : (match (fieldInt p0 "status_id").bind (fun i =>
              (modelFilter db "project.projectstatuschoice").find? (fun c => c.pk = i)) with
            | none => none
            | some stRow =>
                (dbSaveRecord env db ⟨"project.project", mergeNewPk db,
                  [("pi_id", Val.int uid), ("status_id", Val.int stRow.pk),
                   ("title", Val.str title), ("description", Val.str desc)], []⟩).bind
                  (fun db1 =>
                    ((p0 :: prest).foldlM (archive_project env ed)
                      (mergeModels.foldl
                        (fun d m => combine_objects env sel (mergeNewPk db) m d) db1)).map
                      (fun db3 => (db3, some (mergeNewPk db)))))
            = some (db2, some npk) := hm
          cases hst : (fieldInt p0 "status_id").bind (fun i =>
              (modelFilter db "project.projectstatuschoice").find? (fun c => c.pk = i)) with
          | none => rw [hst] at hm; exact Option.noConfusion hm
          | some stRow =>
              rw [hst] at hm
              replace hm : (dbSaveRecord env db ⟨"project.project", mergeNewPk db,
                  [("pi_id", Val.int uid), ("status_id", Val.int stRow.pk),
                   ("title", Val.str title), ("description", Val.str desc)], []⟩).bind
                  (fun db1 =>
                    ((p0 :: prest).foldlM (archive_project env ed)
                      (mergeModels.foldl
                        (fun d m => combine_objects env sel (mergeNewPk db) m d) db1)).map
                      (fun db3 => (db3, some (mergeNewPk db)))) = some (db2, some npk) := hm
              cases hsv : dbSaveRecord env db ⟨"project.project", mergeNewPk db,
                  [("pi_id", Val.int uid), ("status_id", Val.int stRow.pk),
                   ("title", Val.str title), ("description", Val.str desc)], []⟩ with
              | none => rw [hsv] at hm; exact Option.noConfusion hm
              | some db1 =>
                  rw [hsv] at hm
                  simp only [Option.some_bind] at hm
                  cases harch : (p0 :: prest).foldlM (archive_project env ed)
                      (mergeModels.foldl
                        (fun d m => combine_objects env sel (mergeNewPk db) m d) db1) with
                  | none => rw [harch] at hm; exact Option.noConfusion hm
                  | some db3 =>
                      rw [harch] at hm
                      simp only [Option.map_some'] at hm
                      injection hm with h2
                      have hdb : db3 = db2 := congrArg Prod.fst h2
                      have hnpk : some (mergeNewPk db) = some npk := congrArg Prod.snd h2
                      injection hnpk with hnpk2
                      exact ⟨p0 :: prest, p0, prest, stRow, db1, rfl, rfl, hst,
                        hnpk2.symm, hsv, hdb ▸ harch⟩

theorem mapM_find_head (db : DB) (s0 : Int) (rest : List Int) (p0 : Record)
    (prest : List Record)
    (h : (s0 :: rest).mapM (fun i =>
      (modelFilter db "project.project").find? (fun r => r.pk = i)) = some (p0 :: prest)) :
    (modelFilter db "project.project").find? (fun r => r.pk = s0) = some p0 := by
  rw [List.mapM_cons] at h
  cases hf : (modelFilter db "project.project").find? (fun r => r.pk = s0) with
  | none => rw [hf] at h; exact Option.noConfusion h
  | some q =>
      rw [hf] at h
      replace h : (rest.mapM (fun i =>
          (modelFilter db "project.project").find? (fun r => r.pk = i))).bind
        (fun bs => some (q :: bs)) = some (p0 :: prest) := h
      cases hl : rest.mapM (fun i =>
          (modelFilter db "project.project").find? (fun r => r.pk = i)) with
      | none => rw [hl] at h; exact Option.noConfusion h
      | some bs =>
          rw [hl] at h
          replace h : some (q :: bs) = some (p0 :: prest) := h
          injection h with h2
          injection h2 with h3 h4
          exact congrArg some h3

/-- C8 (amended): after a merge with a nonempty selection (on a
well-formed database with distinct selected ids), a new project with the
requesting user as PI and the first selected project's status is in the
database; every selected project has been archived (status set to the
Archived choice); every record of the eight combined models that
belonged to a selected project either survives with its `project_id` set
to the new project's pk or its (model, pk) identity is gone from the
database; and no allocation belongs to a selected project any more.  The
selected projects' previously Active allocations are NOT set to Expired:
they were moved to the new project before `archive_project` ran, so its
`status__name='Active'` filter finds nothing. -/
theorem C8_amended_merge (env : Env) (db : DB) (uid s0 : Int) (rest : List Int)
    (title desc : String) (ed : Val) (db2 : DB) (npk : Int)
    (hwf : wfDB db) (hnd : (s0 :: rest).Nodup)
    (hm : mergePost env db uid (s0 :: rest) title desc ed = some (db2, some npk)) :
    (∃ r ∈ db2, r.model = "project.project" ∧ r.pk = npk ∧
      fieldInt r "pi_id" = some uid ∧
      ∃ p0, (modelFilter db "project.project").find? (fun q => q.pk = s0) = some p0 ∧
        fieldInt r "status_id" = fieldInt p0 "status_id") ∧
    (∃ arch, (modelFilter db "project.projectstatuschoice").find?
        (fun c => alook c.fields "name" = some (Val.str "Archived")) = some arch ∧
      ∀ i ∈ s0 :: rest, ∃ r ∈ db2, r.model = "project.project" ∧ r.pk = i ∧
        fieldInt r "status_id" = some arch.pk) ∧
    (∀ a ∈ db2, a.model = "allocation.allocation" →
      ∀ i ∈ s0 :: rest, fieldInt a "project_id" ≠ some i) ∧
    (∀ m ∈ db, m.model ∈ mergeModels →
      ∀ v, fieldInt m "project_id" = some v → v ∈ s0 :: rest →
      (setField m "project_id" (Val.int npk) ∈ db2 ∨
        ∀ q ∈ db2, ¬(q.model = m.model ∧ q.pk = m.pk))) := by
  obtain ⟨projs, p0, prest, stRow, db1, hmapm, hprojs, hst, hnpk, hsv, harch⟩ :=
    mergePost_elim env db uid (s0 :: rest) title desc ed db2 npk hm
  subst hprojs
  subst hnpk
  obtain ⟨dbC, hdbC⟩ : ∃ dbC, mergeModels.foldl
      (fun d m => combine_objects env (s0 :: rest) (mergeNewPk db) m d) db1 = dbC :=
    ⟨_, rfl⟩
  rw [hdbC] at harch
  obtain ⟨hmapPk, hmemAll⟩ := mapM_find_facts db (s0 :: rest) (p0 :: prest) hmapm
  have hmodAll : ∀ pr ∈ p0 :: prest, pr.model = "project.project" :=
    fun pr h => of_decide_eq_true (List.mem_filter.mp (hmemAll pr h)).2
  have hdbAll : ∀ pr ∈ p0 :: prest, pr ∈ db :=
    fun pr h => List.mem_of_mem_filter (hmemAll pr h)
  have hpkLt : ∀ pr ∈ p0 :: prest, pr.pk < mergeNewPk db :=
    fun pr h => mergeNewPk_gt db pr (hdbAll pr h) (hmodAll pr h)
  have hndPk : ((p0 :: prest).map (fun pr => pr.pk)).Nodup := hmapPk.symm ▸ hnd
  have hwf1 : wfDB db1 := dbSave_wf env db _ db1 hsv hwf
  have hwfC : wfDB dbC := by
    rw [← hdbC]
    exact combineAll_wf env (s0 :: rest) (mergeNewPk db) mergeModels db1 hwf1
  have hnpkNotSel : mergeNewPk db ∉ s0 :: rest := by
    intro hmem
    rw [← hmapPk] at hmem
    obtain ⟨pr, hpr, hpk⟩ := List.mem_map.mp hmem
    have := hpkLt pr hpr
    omega
  refine ⟨?_, ?_, ?_, ?_⟩
  · -- (A) the new project row
    have h1 : (⟨"project.project", mergeNewPk db,
        [("pi_id", Val.int uid), ("status_id", Val.int stRow.pk),
         ("title", Val.str title), ("description", Val.str desc)], []⟩ : Record) ∈ db1 :=
      dbSave_self env db _ db1 hsv
    have h2 : (⟨"project.project", mergeNewPk db,
        [("pi_id", Val.int uid), ("status_id", Val.int stRow.pk),
         ("title", Val.str title), ("description", Val.str desc)], []⟩ : Record) ∈ dbC := by
      rw [← hdbC]
      exact combineAll_pres env (s0 :: rest) (mergeNewPk db) mergeModels db1 _ h1
        (show ("project.project" : String) ∉ mergeModels by decide)
    have h3 : (⟨"project.project", mergeNewPk db,
        [("pi_id", Val.int uid), ("status_id", Val.int stRow.pk),
         ("title", Val.str title), ("description", Val.str desc)], []⟩ : Record) ∈ db2 := by
      apply archFold_pres env ed (p0 :: prest) dbC db2 harch _ h2
        (show ("project.project" : String) ≠ "allocation.allocation" by decide)
      intro pr hpr hcon
      have h4 := hcon.2
      have h5 := hpkLt pr hpr
      simp only at h4
      omega
    refine ⟨_, h3, rfl, rfl, rfl, p0, mapM_find_head db s0 rest p0 prest hmapm, ?_⟩
    cases hfp : fieldInt p0 "status_id" with
    | none => rw [hfp] at hst; exact Option.noConfusion hst
    | some i =>
        rw [hfp] at hst
        replace hst : (modelFilter db "project.projectstatuschoice").find?
            (fun c => c.pk = i) = some stRow := hst
        have h6 := List.find?_some hst
        have h7 : stRow.pk = i := of_decide_eq_true h6
        show some stRow.pk = some i
        rw [h7]
  · -- (B) every selected project archived
    have hfindEq : modelFilter dbC "project.projectstatuschoice"
        = modelFilter db "project.projectstatuschoice" := by
      rw [← hdbC]
      rw [combineAll_modelFilter env (s0 :: rest) (mergeNewPk db) mergeModels db1
        "project.projectstatuschoice" (by decide)]
      exact dbSave_modelFilter env db _ db1 "project.projectstatuschoice" hsv
        (show ("project.project" : String) ≠ "project.projectstatuschoice" by decide)
    have harchAll := archFold_archived env ed (p0 :: prest) dbC db2 harch hmodAll hndPk
    obtain ⟨arch0, hfind0, hmem0⟩ := harchAll p0 (List.mem_cons_self _ _)
    rw [hfindEq] at hfind0
    refine ⟨arch0, hfind0, ?_⟩
    intro i hi
    rw [← hmapPk] at hi
    obtain ⟨pr, hpr, hpk⟩ := List.mem_map.mp hi
    obtain ⟨arch1, hfind1, hmem1⟩ := harchAll pr hpr
    rw [hfindEq] at hfind1
    rw [hfind0] at hfind1
    injection hfind1 with h5
    subst h5
    refine ⟨setField pr "status_id" (Val.int arch0.pk), hmem1, ?_, ?_, ?_⟩
    · exact hmodAll pr hpr
    · exact hpk
    · exact fieldInt_setField_self pr "status_id" arch0.pk
  · -- (C) no allocation left on a selected project
    have hPC : ∀ a ∈ dbC, a.model = "allocation.allocation" →
        ∀ i ∈ s0 :: rest, fieldInt a "project_id" ≠ some i := by
      obtain ⟨dbA, hdbA⟩ : ∃ dbA, (["grant.grant", "publication.publication",
          "project.projectuser"] : List String).foldl
          (fun d m => combine_objects env (s0 :: rest) (mergeNewPk db) m d) db1 = dbA :=
        ⟨_, rfl⟩
      have hwfA : wfDB dbA := by
        rw [← hdbA]
        exact combineAll_wf env (s0 :: rest) (mergeNewPk db) _ db1 hwf1
      have hrwC : dbC = (["project.projectadmincomment", "project.projectusermessage",
          "project.projectreview", "research_output.researchoutput"] : List String).foldl
          (fun d m => combine_objects env (s0 :: rest) (mergeNewPk db) m d)
          (combine_objects env (s0 :: rest) (mergeNewPk db) "allocation.allocation" dbA) := by
        have hsplitC : mergeModels = (["grant.grant", "publication.publication",
            "project.projectuser"] : List String) ++ "allocation.allocation" ::
            (["project.projectadmincomment", "project.projectusermessage",
              "project.projectreview", "research_output.researchoutput"] : List String) := rfl
        rw [← hdbC, ← hdbA, hsplitC, List.foldl_append, List.foldl_cons]
      have hwfAl : wfDB (combine_objects env (s0 :: rest) (mergeNewPk db)
          "allocation.allocation" dbA) :=
        combine_wf env (s0 :: rest) (mergeNewPk db) _ dbA hwfA
      have hPAl : ∀ a ∈ combine_objects env (s0 :: rest) (mergeNewPk db)
          "allocation.allocation" dbA, a.model = "allocation.allocation" →
          ∀ i ∈ s0 :: rest, fieldInt a "project_id" ≠ some i := by
        intro a ha haM i hi hfi
        rcases combine_rev env (s0 :: rest) (mergeNewPk db) _ dbA a ha
          with hin | ⟨m2, hm2, hm2M, heq⟩
        · rcases combine_member env (s0 :: rest) (mergeNewPk db) _ dbA hwfA a hin haM
            i hfi (by exact hi) with hmv | hdel
          · have hkey : recKey (setField a "project_id" (Val.int (mergeNewPk db)))
                = recKey a := rfl
            have heq2 : setField a "project_id" (Val.int (mergeNewPk db)) = a :=
              List.inj_on_of_nodup_map hwfAl hmv ha hkey
            have h6 : fieldInt a "project_id" = some (mergeNewPk db) := by
              rw [← heq2]
              exact fieldInt_setField_self a "project_id" (mergeNewPk db)
            rw [hfi] at h6
            injection h6 with h7
            exact hnpkNotSel (h7 ▸ hi)
          · exact hdel a ha ⟨rfl, rfl⟩
        · have h6 : fieldInt a "project_id" = some (mergeNewPk db) := by
            rw [heq]
            exact fieldInt_setField_self m2 "project_id" (mergeNewPk db)
          rw [hfi] at h6
          injection h6 with h7
          exact hnpkNotSel (h7 ▸ hi)
      intro a ha haM i hi hfi
      rw [hrwC] at ha
      rcases combineAll_rev env (s0 :: rest) (mergeNewPk db) _ _ a ha with hin | ⟨hM2, -⟩
      · exact hPAl a hin haM i hi hfi
      · rw [haM] at hM2
        simp at hM2
    intro a ha haM i hi hfi
    have hrev := (archFold_rev env ed (p0 :: prest) dbC db2 harch hmodAll a ha).1 haM
    obtain ⟨a2, ha2, ha2M, hfeq, -⟩ := hrev
    exact hPC a2 ha2 ha2M i hi (by rw [← hfeq]; exact hfi)
  · -- (D) members of the combined models are moved or deleted
    intro m hmdb hM v hfv hv
    have hMne : m.model ≠ "project.project" := by
      intro hh
      rw [hh] at hM
      simp [mergeModels] at hM
    have hm1 : m ∈ db1 := by
      apply dbSave_mem_other env db _ db1 m hsv hmdb
      intro hcon
      exact hMne hcon.1
    obtain ⟨Ms1, Ms2, hsplit⟩ := List.append_of_mem hM
    have hndM : (Ms1 ++ m.model :: Ms2).Nodup := by
      rw [← hsplit]
      decide
    obtain ⟨hnd1, hnd2, hdisj⟩ := List.nodup_append.mp hndM
    have hM1 : m.model ∉ Ms1 := fun hh => hdisj hh (List.mem_cons_self _ _)
    have hM2 : m.model ∉ Ms2 := (List.nodup_cons.mp hnd2).1
    obtain ⟨dbM1, hdbM1⟩ : ∃ dbM1, Ms1.foldl
        (fun d m => combine_objects env (s0 :: rest) (mergeNewPk db) m d) db1 = dbM1 :=
      ⟨_, rfl⟩
    have hwfM1 : wfDB dbM1 := by
      rw [← hdbM1]
      exact combineAll_wf env (s0 :: rest) (mergeNewPk db) _ db1 hwf1
    have hrwC : dbC = Ms2.foldl
        (fun d m2 => combine_objects env (s0 :: rest) (mergeNewPk db) m2 d)
        (combine_objects env (s0 :: rest) (mergeNewPk db) m.model dbM1) := by
      rw [← hdbC, ← hdbM1, hsplit, List.foldl_append, List.foldl_cons]
    have hinM1 : m ∈ dbM1 := by
      rw [← hdbM1]
      exact combineAll_pres env (s0 :: rest) (mergeNewPk db) Ms1 db1 m hm1 hM1
    rcases combine_member env (s0 :: rest) (mergeNewPk db) m.model dbM1 hwfM1 m hinM1
      rfl v hfv hv with hmv | hdel
    · -- moved: the updated row survives to the end
      left
      have hmvC : setField m "project_id" (Val.int (mergeNewPk db)) ∈ dbC := by
        rw [hrwC]
        exact combineAll_pres env (s0 :: rest) (mergeNewPk db) Ms2 _ _ hmv hM2
      by_cases hMa : m.model = "allocation.allocation"
      · apply archFold_pres_alloc env ed (p0 :: prest) dbC db2 harch hwfC hmodAll _
          hmvC hMa
        intro pr hpr hcontra
        have h6 : fieldInt (setField m "project_id" (Val.int (mergeNewPk db)))
            "project_id" = some (mergeNewPk db) :=
          fieldInt_setField_self m "project_id" (mergeNewPk db)
        rw [h6] at hcontra
        injection hcontra with h7
        have := hpkLt pr hpr
        omega
      · apply archFold_pres env ed (p0 :: prest) dbC db2 harch _ hmvC hMa
        intro pr hpr hcon
        exact hMne (hcon.1.trans (hmodAll pr hpr))
    · -- deleted: no row with the member's identity survives
      right
      have hdelC : ∀ q ∈ dbC, ¬(q.model = m.model ∧ q.pk = m.pk) := by
        intro q hq hcon
        rw [hrwC] at hq
        rcases combineAll_rev env (s0 :: rest) (mergeNewPk db) Ms2 _ q hq
          with hin | ⟨hqM2, -⟩
        · exact hdel q hin hcon
        · rw [hcon.1] at hqM2
          exact hM2 hqM2
      intro q hq hcon
      by_cases hqa : q.model = "allocation.allocation"
      · obtain ⟨a, ha, haM, -, hpk⟩ :=
          (archFold_rev env ed (p0 :: prest) dbC db2 harch hmodAll q hq).1 hqa
        apply hdelC a ha
        constructor
        · rw [haM, ← hqa]
          exact hcon.1
        · rw [← hpk]
          exact hcon.2
      · rcases (archFold_rev env ed (p0 :: prest) dbC db2 harch hmodAll q hq).2 hqa
          with hin | ⟨pr, hpr, w, rfl⟩
        · exact hdelC q hin hcon
        · have h6 : (setField pr "status_id" w).model = "project.project" :=
            hmodAll pr hpr
          rw [h6] at hcon
          exact hMne hcon.1.symm

/-- Environment for the merge examples: no unique fields anywhere, so no
save ever raises IntegrityError. -/
def c8env : Env := ⟨[]⟩

/-- One Active project with one Active allocation, plus the status choice
rows `archive_project` looks up. -/
def c8db : DB :=
  [⟨"project.projectstatuschoice", 1, [("name", Val.str "Active")], []⟩,
   ⟨"project.projectstatuschoice", 2, [("name", Val.str "Archived")], []⟩,
   ⟨"allocation.allocationstatuschoice", 1, [("name", Val.str "Active")], []⟩,
   ⟨"allocation.allocationstatuschoice", 2, [("name", Val.str "Expired")], []⟩,
   ⟨"project.project", 1, [("status_id", Val.int 1), ("pi_id", Val.int 9)], []⟩,
   ⟨"allocation.allocation", 1, [("project_id", Val.int 1), ("status_id", Val.int 1)], []⟩]

/-- The database `mergePost c8env c8db 5 [1] "Merged" "desc" Val.null`
produces: project 1 archived, its allocation moved to the new project 2
with its status UNCHANGED (still Active), and the new project appended. -/
def c8out : DB :=
  [⟨"project.projectstatuschoice", 1, [("name", Val.str "Active")], []⟩,
   ⟨"project.projectstatuschoice", 2, [("name", Val.str "Archived")], []⟩,
   ⟨"allocation.allocationstatuschoice", 1, [("name", Val.str "Active")], []⟩,
   ⟨"allocation.allocationstatuschoice", 2, [("name", Val.str "Expired")], []⟩,
   ⟨"project.project", 1, [("status_id", Val.int 2), ("pi_id", Val.int 9)], []⟩,
   ⟨"allocation.allocation", 1, [("project_id", Val.int 2), ("status_id", Val.int 1)], []⟩,
   ⟨"project.project", 2,
     [("pi_id", Val.int 5), ("status_id", Val.int 1),
      ("title", Val.str "Merged"), ("description", Val.str "desc")], []⟩]

/-- The allocation of the selected project before the merge. -/
def c8allocBefore : Record :=
  ⟨"allocation.allocation", 1, [("project_id", Val.int 1), ("status_id", Val.int 1)], []⟩

/-- The same allocation after the merge: moved to the new project, still
Active. -/
def c8allocAfter : Record :=
  ⟨"allocation.allocation", 1, [("project_id", Val.int 2), ("status_id", Val.int 1)], []⟩

/-- C8 (counterexample to the original claim): a merge of the single
selected project 1 archives the project, but its previously Active
allocation is NOT set to Expired — `_combine_objects` moved every
allocation to the new project before `archive_project` ran, so the
archive loop over `project.allocation_set.filter(status__name='Active')`
finds nothing; the allocation survives with status Active. -/
theorem C8_allocations_not_expired_counterexample :
    mergePost c8env c8db 5 [1] "Merged" "desc" Val.null = some (c8out, some 2) ∧
    c8allocBefore ∈ c8db ∧
    fieldInt c8allocBefore "project_id" = some 1 ∧
    nameLookup c8db "allocation.allocationstatuschoice"
      (fieldInt c8allocBefore "status_id") = some "Active" ∧
    (∀ r ∈ c8out, r.model = "project.project" → r.pk = 1 →
      nameLookup c8out "project.projectstatuschoice" (fieldInt r "status_id")
        = some "Archived") ∧
    c8allocAfter ∈ c8out ∧
    c8allocAfter.pk = c8allocBefore.pk ∧
    nameLookup c8out "allocation.allocationstatuschoice"
      (fieldInt c8allocAfter "status_id") = some "Active" ∧
    (∀ r ∈ c8out, r.model = "allocation.allocation" → r = c8allocAfter) := by
  decide

theorem C8_amended_merge_witness :
    wfDB c8db ∧ ((1 : Int) :: []).Nodup ∧
    (∀ a ∈ c8out, a.model = "allocation.allocation" →
      ∀ i ∈ (1 : Int) :: [], fieldInt a "project_id" ≠ some i) :=
  ⟨by unfold wfDB; decide, by decide,
   (C8_amended_merge c8env c8db 5 1 [] "Merged" "desc" Val.null c8out 2
     (by unfold wfDB; decide) (by decide) (by decide)).2.2.1⟩

end Coldfront
